import Mathlib

/-!
The i40e PF-side virtual channel: a shallow embedding of `i40e_virtchnl_pf.c`.

The definitions below follow the C functions of `src/i40e_virtchnl_pf.c` one by
one and keep their names.  Conventions:

* a `struct` is a Lean structure holding the fields the modelled code reads or
  writes; a bit set (`vf_states`, `vf_caps`, `pf->state`) is a record of
  booleans, one per bit the code names;
* a function that mutates its arguments returns the new values;
* a call into the hardware layer (register write, admin-queue command) is
  recorded as an `HwEvent` in the list of events the function returns; the
  value such a call gives back is an input of the model (an oracle argument);
* status codes are symbolic (`Status`): the code only ever tests them against
  zero, which is `Status.I40E_SUCCESS`;
* the body of an opcode handler that lies between its checks and its response
  and programs queues, interrupts, RSS, statistics or cloud filters is an
  oracle (`Oracle.work`) leaving a status, a PF and a VF, recorded as one
  `HwEvent.handler_work`; it sends nothing to the VF.  The MAC and VLAN filter
  handlers, the promiscuous mode handler, the queue count and the ADq handlers
  are modelled statement by statement;
* a host administrative operation takes the VF it addresses, `pf->vf[vf_id]`,
  as an argument of its own next to `vf_id`, and what its calls into the rest
  of the driver return is an oracle value (`NdoOracle`).
-/

namespace I40e

/-! ## Part I: definitions -/

/-! ### Status codes, opcodes, hardware events -/

/-- Return codes used by the modelled functions: the `i40e_status` members and
the negated errno values the file returns.  `aq_error n` stands for any further
non-zero code handed back by a callee outside the file. -/
inductive Status where
  | I40E_SUCCESS
  | I40E_ERR_CONFIG
  | I40E_ERR_PARAM
  | I40E_ERR_INVALID_MAC_ADDR
  | I40E_ERR_NO_AVAILABLE_VSI
  | I40E_ERR_NO_MEMORY
  | I40E_ERR_TIMEOUT
  | I40E_ERR_NOT_IMPLEMENTED
  | EPERM
  | ENOENT
  | EIO_
  | EAGAIN
  | ENOMEM
  | EINVAL
  | aq_error (code : Nat)
  deriving DecidableEq, Repr

/-- The C test `if (ret)`. -/
def Status.isErr (s : Status) : Bool :=
  match s with
  | .I40E_SUCCESS => false
  | _ => true

/-- The opcode catalogue of the mailbox protocol (`enum virtchnl_ops`), as far
as `i40e_vc_process_vf_msg` names it; `unlisted n` is any other number on the
wire. -/
inductive virtchnl_ops where
  | VIRTCHNL_OP_UNKNOWN
  | VIRTCHNL_OP_VERSION
  | VIRTCHNL_OP_RESET_VF
  | VIRTCHNL_OP_GET_VF_RESOURCES
  | VIRTCHNL_OP_CONFIG_VSI_QUEUES
  | VIRTCHNL_OP_CONFIG_IRQ_MAP
  | VIRTCHNL_OP_ENABLE_QUEUES
  | VIRTCHNL_OP_DISABLE_QUEUES
  | VIRTCHNL_OP_ADD_ETH_ADDR
  | VIRTCHNL_OP_DEL_ETH_ADDR
  | VIRTCHNL_OP_ADD_VLAN
  | VIRTCHNL_OP_DEL_VLAN
  | VIRTCHNL_OP_CONFIG_PROMISCUOUS_MODE
  | VIRTCHNL_OP_GET_STATS
  | VIRTCHNL_OP_EVENT
  | VIRTCHNL_OP_CONFIG_RSS_KEY
  | VIRTCHNL_OP_CONFIG_RSS_LUT
  | VIRTCHNL_OP_GET_RSS_HENA_CAPS
  | VIRTCHNL_OP_SET_RSS_HENA
  | VIRTCHNL_OP_ENABLE_VLAN_STRIPPING
  | VIRTCHNL_OP_DISABLE_VLAN_STRIPPING
  | VIRTCHNL_OP_REQUEST_QUEUES
  | VIRTCHNL_OP_ENABLE_CHANNELS
  | VIRTCHNL_OP_DISABLE_CHANNELS
  | VIRTCHNL_OP_ADD_CLOUD_FILTER
  | VIRTCHNL_OP_DEL_CLOUD_FILTER
  | unlisted (n : Nat)
  deriving DecidableEq, Repr

/-- Registers the modelled code writes. -/
inductive Reg where
  | I40E_VPGEN_VFRTRIG (vf_id : Nat)
  | I40E_GLGEN_VFLRSTAT (reg_idx : Nat)
  | I40E_PF_PCI_CIAA
  | I40E_VFGEN_RSTAT1 (vf_id : Nat)
  | I40E_VFQF_HENA1 (i : Nat) (vf_id : Nat)
  | I40E_VFINT_DYN_CTL0 (vf_id : Nat)
  | I40E_VFINT_DYN_CTLN (index : Nat)
  | I40E_VPINT_LNKLST0 (vf_id : Nat)
  | I40E_VPINT_LNKLSTN (index : Nat)
  deriving DecidableEq, Repr

/-- What the modelled code asks of the hardware layer and of the parts of the
driver outside the file, in the order it asks. -/
inductive HwEvent where
  | aq_send_msg_to_vf (abs_vf_id : Nat) (v_opcode : virtchnl_ops) (v_retval : Status)
  | aq_set_vsi_multicast_promiscuous (seid : Nat) (set : Bool)
  | aq_set_vsi_unicast_promiscuous (seid : Nat) (set : Bool)
  | aq_set_vsi_mc_promisc_on_vlan (seid : Nat) (enable : Bool) (vid : Int)
  | aq_set_vsi_uc_promisc_on_vlan (seid : Nat) (enable : Bool) (vid : Int)
  | aq_config_vsi_bw_limit (seid : Nat) (credits : Nat)
  | sync_vsi_filters (vsi_idx : Nat)
  | wr32 (reg : Reg) (val : Nat)
  | vsi_setup (vf_id : Nat)
  | vsi_release (vsi_idx : Nat)
  | vsi_stop_rings (vsi_idx : Nat)
  | vsi_stop_rings_no_wait (vsi_idx : Nat)
  | vsi_wait_queues_disabled (vsi_idx : Nat)
  | enable_vf_mappings (vf_id : Nat)
  | notify_client_of_vf_reset (abs_vf_id : Nat)
  | restore_vfd_config (vf_id : Nat)
  | vf_del_vlan_mirror (vf_id : Nat)
  | flush
  | del_all_cloud_filters (vf_id : Nat)
  | vlan_stripping (vsi_idx : Nat) (enable : Bool)
  | handler_work (v_opcode : virtchnl_ops)
  deriving DecidableEq, Repr

/-! ### Ethernet addresses (`linux/etherdevice.h`) -/

/-- A 6-byte Ethernet address, `u8 addr[ETH_ALEN]`. -/
structure Mac where
  b0 : Nat
  b1 : Nat
  b2 : Nat
  b3 : Nat
  b4 : Nat
  b5 : Nat
  deriving DecidableEq, Repr

def eth_zero_addr : Mac := { b0 := 0, b1 := 0, b2 := 0, b3 := 0, b4 := 0, b5 := 0 }

def eth_broadcast_addr : Mac :=
  { b0 := 0xff, b1 := 0xff, b2 := 0xff, b3 := 0xff, b4 := 0xff, b5 := 0xff }

def is_zero_ether_addr (a : Mac) : Bool := decide (a = eth_zero_addr)

def is_broadcast_ether_addr (a : Mac) : Bool := decide (a = eth_broadcast_addr)

/-- The group bit: `0x01 & addr[0]`. -/
def is_multicast_ether_addr (a : Mac) : Bool := a.b0 % 2 == 1

def is_valid_ether_addr (a : Mac) : Bool :=
  !is_multicast_ether_addr a && !is_zero_ether_addr a

def ether_addr_equal (a b : Mac) : Bool := decide (a = b)

/-! ### Data model -/

/-- The bits of `vf->vf_states` (`enum i40e_vf_states`). -/
structure vf_state_bits where
  I40E_VF_STATE_INIT : Bool
  I40E_VF_STATE_ACTIVE : Bool
  I40E_VF_STATE_DISABLED : Bool
  I40E_VF_STATE_MC_PROMISC : Bool
  I40E_VF_STATE_UC_PROMISC : Bool
  I40E_VF_STATE_PRE_ENABLE : Bool
  I40E_VF_STATE_RESOURCES_LOADED : Bool
  deriving DecidableEq, Repr

/-- The bits of `vf->vf_caps`. -/
structure vf_cap_bits where
  I40E_VIRTCHNL_VF_CAP_PRIVILEGE : Bool
  I40E_VIRTCHNL_VF_CAP_L2 : Bool
  deriving DecidableEq, Repr

/-- The bits of `pf->state` the file tests. -/
structure pf_state_bits where
  I40E_VF_DISABLE : Bool
  I40E_VF_RESETS_DISABLED : Bool
  I40E_VFS_RELEASING : Bool
  I40E_VIRTCHNL_OP_PENDING : Bool
  deriving DecidableEq, Repr

/-- The cached legacy unicast address with its time stamp
(`vf->legacy_last_added_umac`). -/
structure i40e_time_mac where
  addr : Mac
  time_modified : Nat
  deriving DecidableEq, Repr

/-- One entry of `vf->ch[]` (`struct i40evf_channel`). -/
structure i40evf_channel where
  vsi_idx : Nat
  vsi_id : Nat
  num_qps : Nat
  max_tx_rate : Nat
  deriving DecidableEq, Repr

/-- An entry of a VSI's filter collection (`struct i40e_mac_filter`): the
address and the VLAN tag, `I40E_VLAN_ANY` (-1) when it has none. -/
structure i40e_mac_filter where
  macaddr : Mac
  vlan : Int
  deriving DecidableEq, Repr

/-- The fields of `struct i40e_vsi` the file uses.  `mac_filter_hash` is the
VSI's MAC filter collection.  Of `vsi->info` there are the bit
`I40E_AQ_VSI_QUE_MAP_NONCONTIG` of `mapping_flags` and the array
`queue_mapping`, both after `le16_to_cpu`; an entry the list does not have
reads as 0. -/
structure i40e_vsi where
  idx : Nat
  id : Nat
  seid : Nat
  vf_id : Nat
  base_queue : Nat
  alloc_queue_pairs : Nat
  num_queue_pairs : Nat
  mac_filter_hash : List i40e_mac_filter
  info_mapping_flags_NONCONTIG : Bool := false
  info_queue_mapping : List Nat := []
  deriving DecidableEq, Repr

structure virtchnl_version_info where
  major : Nat
  minor : Nat
  deriving DecidableEq, Repr

/-- The fields of `struct i40e_vf` the modelled code uses.  `driver_caps_ADQ`
and `driver_caps_RX_POLLING` are the two bits of `driver_caps` it tests. -/
structure i40e_vf where
  vf_id : Nat
  vf_ver : virtchnl_version_info
  vf_states : vf_state_bits
  vf_caps : vf_cap_bits
  trusted : Bool
  pf_set_mac : Bool
  pf_ctrl_disable : Bool
  mac_anti_spoof : Bool
  driver_caps_ADQ : Bool
  driver_caps_RX_POLLING : Bool
  vlan_stripping : Bool
  default_lan_addr : Mac
  legacy_last_added_umac : i40e_time_mac
  vm_mac_list : List Mac
  num_vlan : Nat
  vm_vlan_list : List Nat
  port_vlan_id : Nat
  lan_vsi_idx : Nat
  lan_vsi_id : Nat
  num_queue_pairs : Nat
  num_req_queues : Nat
  adq_enabled : Bool
  num_tc : Nat
  ch : List i40evf_channel
  tx_rate : Nat
  num_invalid_msgs : Nat
  num_valid_msgs : Nat
  reset_timestamp : Nat
  link_forced : Bool := false
  link_up : Bool := false
  deriving DecidableEq, Repr

/-- The link speeds of `enum i40e_aq_link_speed`. -/
inductive i40e_aq_link_speed where
  | I40E_LINK_SPEED_UNKNOWN
  | I40E_LINK_SPEED_100MB
  | I40E_LINK_SPEED_1GB
  | I40E_LINK_SPEED_2_5GB
  | I40E_LINK_SPEED_5GB
  | I40E_LINK_SPEED_10GB
  | I40E_LINK_SPEED_20GB
  | I40E_LINK_SPEED_25GB
  | I40E_LINK_SPEED_40GB
  deriving DecidableEq, Repr

/-- The fields of `struct i40e_hw` the modelled code uses; `link_speed` is
`hw->phy.link_info.link_speed`. -/
structure i40e_hw where
  vf_base_id : Nat
  num_ports : Nat
  num_msix_vectors_vf : Nat
  link_speed : i40e_aq_link_speed
  deriving DecidableEq, Repr

/-- The queue pile `struct i40e_lump_tracking`: `num_entries` is the length of
`list`. -/
structure i40e_lump_tracking where
  list : List Nat
  deriving DecidableEq, Repr

/-- The fields of `struct i40e_pf` the modelled code uses.  `vsi` is the VSI
table (`num_alloc_vsi` is its length), `vf` the array of VF descriptors. -/
structure i40e_pf where
  state : pf_state_bits
  hw : i40e_hw
  num_alloc_vfs : Nat
  vf : List i40e_vf
  vsi : List (Option i40e_vsi)
  mac_list : List (List Mac)
  next_vsi : Nat
  lan_vsi : Nat
  qp_pile : i40e_lump_tracking
  queues_left : Nat
  num_vf_qps : Nat
  vf_base_mode_only : Bool
  vf_aq_requests : Nat
  flags_MFP_ENABLED : Bool
  fdir_pf_active_filters : Nat
  fdir_filter_list_empty : Bool
  deriving DecidableEq, Repr

/-- One element of an ADD_ETH_ADDR / DEL_ETH_ADDR message. -/
structure virtchnl_ether_addr where
  addr : Mac
  type : Nat
  deriving DecidableEq, Repr

/-- The payload of ADD_ETH_ADDR / DEL_ETH_ADDR; `num_elements` is the length
of `list`. -/
structure virtchnl_ether_addr_list where
  vsi_id : Nat
  list : List virtchnl_ether_addr
  deriving DecidableEq, Repr

/-! ### Filter and permission guard -/

def I40E_MAX_MACVLAN_PER_HW : Int := 3072

def I40E_MAX_MACVLAN_PER_PF (num_ports : Int) : Int :=
  Int.tdiv I40E_MAX_MACVLAN_PER_HW num_ports

def I40E_VC_MAX_MAC_ADDR_PER_VF : Nat := 16 + 1 + 1

def I40E_VC_MAX_VLAN_PER_VF : Nat := 16

/-- The statement-expression macro of the same name, in C `int` arithmetic
(division truncates towards zero). -/
def I40E_VC_MAX_MACVLAN_PER_TRUSTED_VF (vf_num : Int) (num_ports : Int) : Int :=
  Int.tdiv (I40E_MAX_MACVLAN_PER_PF num_ports - vf_num * I40E_VC_MAX_MAC_ADDR_PER_VF) vf_num
    + I40E_VC_MAX_MAC_ADDR_PER_VF

/-- Modelled from the spec: the tag of a filter without VLAN; the constant is
declared outside the sources at hand. -/
def I40E_VLAN_ANY : Int := -1

/-- Modelled from the spec: `i40e_find_mac` is defined outside the sources at
hand (in the main driver file).  The spec describes a VSI's MAC filters as a
collection keyed by address (sections 3 and 9); the lookup is membership. -/
def i40e_find_mac (vsi : i40e_vsi) (macaddr : Mac) : Bool :=
  vsi.mac_filter_hash.any (fun f => ether_addr_equal macaddr f.macaddr)

/-- Modelled from the spec: `i40e_count_filters` is defined outside the sources
at hand; it is the number of filters in the VSI's collection. -/
def i40e_count_filters (vsi : i40e_vsi) : Nat :=
  vsi.mac_filter_hash.length

/-- Modelled from the spec: `i40e_add_mac_filter` is defined outside the
sources at hand.  It puts the address into the VSI's collection (sections 3
and 9: a set keyed by address) and gives back `NULL`, here `none`, when it
cannot; `ok` says which of the two happens. -/
def i40e_add_mac_filter (ok : Bool) (vsi : i40e_vsi) (macaddr : Mac) : Option i40e_vsi :=
  if ok then
    if i40e_find_mac vsi macaddr then some vsi
    else some { vsi with mac_filter_hash :=
                  { macaddr := macaddr, vlan := I40E_VLAN_ANY } :: vsi.mac_filter_hash }
  else none

/-- Modelled from the spec: `i40e_del_mac_filter` is defined outside the
sources at hand.  It removes the address from the VSI's collection and
returns 0, or returns an error when the address has no filter there. -/
def i40e_del_mac_filter (vsi : i40e_vsi) (macaddr : Mac) : Status × i40e_vsi :=
  if i40e_find_mac vsi macaddr then
    (.I40E_SUCCESS,
      { vsi with mac_filter_hash :=
          vsi.mac_filter_hash.filter (fun f => !ether_addr_equal macaddr f.macaddr) })
  else (.ENOENT, vsi)

/-- Modelled from the spec: the address-type encoding of the virtchnl protocol
header, which is not among the sources; section 4.4 tells a primary add from a
legacy one.  Only that the values differ is used. -/
def VIRTCHNL_ETHER_ADDR_LEGACY : Nat := 0

/-- Modelled from the spec: see `VIRTCHNL_ETHER_ADDR_LEGACY`. -/
def VIRTCHNL_ETHER_ADDR_PRIMARY : Nat := 1

/-- Modelled from the spec: see `VIRTCHNL_ETHER_ADDR_LEGACY`; the mask keeps
the two low bits. -/
def VIRTCHNL_ETHER_ADDR_TYPE_MASK : Nat := 3

def i40e_vc_ether_addr_type (vc_ether_addr : virtchnl_ether_addr) : Nat :=
  vc_ether_addr.type &&& VIRTCHNL_ETHER_ADDR_TYPE_MASK

def i40e_is_vc_addr_legacy (vc_ether_addr : virtchnl_ether_addr) : Bool :=
  i40e_vc_ether_addr_type vc_ether_addr == VIRTCHNL_ETHER_ADDR_LEGACY

def i40e_is_vc_addr_primary (vc_ether_addr : virtchnl_ether_addr) : Bool :=
  i40e_vc_ether_addr_type vc_ether_addr == VIRTCHNL_ETHER_ADDR_PRIMARY

/-- The expiry test: `time_is_before_jiffies(time_last_added_umac + expire)`,
with `expire` standing for `msecs_to_jiffies(3000)`. -/
def i40e_is_legacy_umac_expired (jiffies expire : Nat) (time_last_added_umac : Nat) : Bool :=
  decide (time_last_added_umac + expire < jiffies)

/-- The loop of `i40e_check_vf_permission` from element `i` on, with
`mac2add_cnt` counted so far.  An early `return` is `Except.error` carrying
the status and the value left in `*is_quiet`. -/
def i40e_check_vf_permission_loop (vf : i40e_vf) (vsi : i40e_vsi) :
    List virtchnl_ether_addr → Nat → Except (Status × Bool) Nat
  | [], mac2add_cnt => .ok mac2add_cnt
  | e :: rest, mac2add_cnt =>
    if is_broadcast_ether_addr e.addr || is_zero_ether_addr e.addr then
      .error (.I40E_ERR_INVALID_MAC_ADDR, false)
    else if !vf.vf_caps.I40E_VIRTCHNL_VF_CAP_PRIVILEGE &&
        !is_multicast_ether_addr e.addr && vf.pf_set_mac &&
        !ether_addr_equal e.addr vf.default_lan_addr then
      .error (.EPERM, true)
    else
      i40e_check_vf_permission_loop vf vsi rest
        (if i40e_find_mac vsi e.addr then mac2add_cnt else mac2add_cnt + 1)

/-- The permission check on a batch of addresses.  `is_quiet` is the pointer
argument: `none` is a null pointer, and the second component of the result is
what the pointer holds afterwards. -/
def i40e_check_vf_permission (pf : i40e_pf) (vf : i40e_vf) (vsi : i40e_vsi)
    (al : virtchnl_ether_addr_list) (is_quiet : Option Bool) : Status × Option Bool :=
  match is_quiet with
  | none => (.EINVAL, none)
  | some _ =>
    match i40e_check_vf_permission_loop vf vsi al.list 0 with
    | .error (ret, q) => (ret, some q)
    | .ok mac2add_cnt =>
      if !vf.vf_caps.I40E_VIRTCHNL_VF_CAP_PRIVILEGE then
        if i40e_count_filters vsi + mac2add_cnt > I40E_VC_MAX_MAC_ADDR_PER_VF then
          (.EPERM, some false)
        else (.I40E_SUCCESS, some false)
      else
        if ((i40e_count_filters vsi + mac2add_cnt : Nat) : Int) >
            I40E_VC_MAX_MACVLAN_PER_TRUSTED_VF pf.num_alloc_vfs pf.hw.num_ports then
          (.EPERM, some false)
        else (.I40E_SUCCESS, some false)

/-- The VM's own list of added addresses; `ok` is whether `kzalloc`
succeeds. -/
def i40e_add_vmmac_to_list (ok : Bool) (vf : i40e_vf) (macaddr : Mac) : Status × i40e_vf :=
  if ok then (.I40E_SUCCESS, { vf with vm_mac_list := macaddr :: vf.vm_mac_list })
  else (.I40E_ERR_NO_MEMORY, vf)

/-- Removes the first entry equal to `macaddr` (the loop breaks after it). -/
def i40e_del_vmmac_from_list (vf : i40e_vf) (macaddr : Mac) : i40e_vf :=
  { vf with vm_mac_list := vf.vm_mac_list.erase macaddr }

def i40e_update_vf_mac_addr (jiffies : Nat) (vf : i40e_vf)
    (vc_ether_addr : virtchnl_ether_addr) : i40e_vf :=
  let mac_addr := vc_ether_addr.addr
  if !is_valid_ether_addr mac_addr then vf
  else if i40e_is_vc_addr_primary vc_ether_addr then
    { vf with default_lan_addr := mac_addr }
  else if is_zero_ether_addr vf.default_lan_addr then
    { vf with default_lan_addr := mac_addr }
  else
    { vf with legacy_last_added_umac := { addr := mac_addr, time_modified := jiffies } }

/-- What the environment decides during one ADD_ETH_ADDR / DEL_ETH_ADDR batch:
whether the filter allocation and the list allocation for element `i` succeed,
what `i40e_sync_vsi_filters` returns, and the clock. -/
structure MacOracle where
  add_mac_filter_ok : Nat → Bool
  kzalloc_ok : Nat → Bool
  sync_vsi_filters_ret : Status
  jiffies : Nat
  expire : Nat

/-- The second loop of `i40e_add_vf_mac_filters`, from element `i` on. -/
def i40e_add_vf_mac_filters_loop (o : MacOracle) :
    List virtchnl_ether_addr → Nat → i40e_vf → i40e_vsi → Status × i40e_vf × i40e_vsi
  | [], _, vf, vsi => (.I40E_SUCCESS, vf, vsi)
  | e :: rest, i, vf, vsi =>
    if i40e_find_mac vsi e.addr then
      i40e_add_vf_mac_filters_loop o rest (i + 1) (i40e_update_vf_mac_addr o.jiffies vf e) vsi
    else
      match i40e_add_mac_filter (o.add_mac_filter_ok i) vsi e.addr with
      | none => (.I40E_ERR_PARAM, vf, vsi)
      | some vsi1 =>
        let r := i40e_add_vmmac_to_list (o.kzalloc_ok i) vf e.addr
        if r.1.isErr then (r.1, r.2, vsi1)
        else
          i40e_add_vf_mac_filters_loop o rest (i + 1)
            (i40e_update_vf_mac_addr o.jiffies r.2 e) vsi1

/-- Add guest MAC address filters.  `vsi` is `pf->vsi[vf->lan_vsi_idx]`.
Result: status, VF, VSI, the content of `*is_quiet`, hardware events. -/
def i40e_add_vf_mac_filters (o : MacOracle) (pf : i40e_pf) (vf : i40e_vf) (vsi : i40e_vsi)
    (is_quiet : Option Bool) (al : virtchnl_ether_addr_list) :
    Status × i40e_vf × i40e_vsi × Option Bool × List HwEvent :=
  let chk := i40e_check_vf_permission pf vf vsi al is_quiet
  if chk.1.isErr then (chk.1, vf, vsi, chk.2, [])
  else
    let r := i40e_add_vf_mac_filters_loop o al.list 0 vf vsi
    if r.1.isErr then (r.1, r.2.1, r.2.2, chk.2, [])
    else (o.sync_vsi_filters_ret, r.2.1, r.2.2, chk.2, [.sync_vsi_filters vsi.idx])

def i40e_vf_clear_default_mac_addr (jiffies expire : Nat) (vf : i40e_vf)
    (is_legacy_unimac : Bool) : i40e_vf :=
  let vf1 := { vf with default_lan_addr := eth_zero_addr }
  if is_legacy_unimac then
    if !i40e_is_legacy_umac_expired jiffies expire vf1.legacy_last_added_umac.time_modified then
      { vf1 with default_lan_addr := vf1.legacy_last_added_umac.addr }
    else vf1
  else vf1

/-- The loop of `i40e_del_vf_mac_filters`; the two booleans are
`was_unimac_deleted` and `is_legacy_unimac`. -/
def i40e_del_vf_mac_filters_loop :
    List virtchnl_ether_addr → i40e_vf → i40e_vsi → Bool → Bool →
      Status × i40e_vf × i40e_vsi × Bool × Bool
  | [], vf, vsi, was, leg => (.I40E_SUCCESS, vf, vsi, was, leg)
  | e :: rest, vf, vsi, was, leg =>
    let hit := ether_addr_equal e.addr vf.default_lan_addr && (vf.trusted || !vf.pf_set_mac)
    let was1 := if hit then true else was
    let leg1 := if hit then i40e_is_vc_addr_legacy e else leg
    if is_broadcast_ether_addr e.addr || is_zero_ether_addr e.addr then
      (.I40E_ERR_INVALID_MAC_ADDR, vf, vsi, was1, leg1)
    else
      let d := i40e_del_mac_filter vsi e.addr
      if d.1.isErr then (.I40E_ERR_INVALID_MAC_ADDR, vf, d.2, was1, leg1)
      else i40e_del_vf_mac_filters_loop rest (i40e_del_vmmac_from_list vf e.addr) d.2 was1 leg1

/-- Remove guest MAC address filters.  `vsi` is `pf->vsi[vf->lan_vsi_idx]`. -/
def i40e_del_vf_mac_filters (o : MacOracle) (vf : i40e_vf) (vsi : i40e_vsi)
    (al : virtchnl_ether_addr_list) : Status × i40e_vf × i40e_vsi × List HwEvent :=
  let r := i40e_del_vf_mac_filters_loop al.list vf vsi false false
  if r.1.isErr then (r.1, r.2.1, r.2.2.1, [])
  else
    let vf1 := if r.2.2.2.1 then
        i40e_vf_clear_default_mac_addr o.jiffies o.expire r.2.1 r.2.2.2.2
      else r.2.1
    (o.sync_vsi_filters_ret, vf1, r.2.2.1, [.sync_vsi_filters vsi.idx])

/-- One ADD_ETH_ADDR or DEL_ETH_ADDR batch as it reaches the two functions. -/
inductive MacBatch where
  | add (o : MacOracle) (is_quiet : Option Bool) (al : virtchnl_ether_addr_list)
  | del (o : MacOracle) (al : virtchnl_ether_addr_list)

/-- The VF and its LAN VSI after one batch. -/
def MacBatch.apply (pf : i40e_pf) (s : i40e_vf × i40e_vsi) (b : MacBatch) : i40e_vf × i40e_vsi :=
  match b with
  | .add o q al =>
    let r := i40e_add_vf_mac_filters o pf s.1 s.2 q al
    (r.2.1, r.2.2.1)
  | .del o al =>
    let r := i40e_del_vf_mac_filters o s.1 s.2 al
    (r.2.1, r.2.2.1)

/-! ### Responses to the VF and the state check -/

/-- Constants the file takes from headers outside the sources at hand and
whose value the spec leaves open (it speaks of bounded retries and of a
configurable number of invalid messages).  They are parameters of the
model. -/
structure Consts where
  I40E_VF_STATE_WAIT_COUNT : Nat
  I40E_DEFAULT_NUM_INVALID_MSGS_ALLOWED : Nat
  I40E_VFR_WAIT_COUNT : Nat
  I40E_BW_CREDIT_DIVISOR : Nat

/-- The bit numbers of `vf->vf_states`. -/
inductive i40e_vf_states where
  | I40E_VF_STATE_INIT
  | I40E_VF_STATE_ACTIVE
  | I40E_VF_STATE_DISABLED
  | I40E_VF_STATE_MC_PROMISC
  | I40E_VF_STATE_UC_PROMISC
  | I40E_VF_STATE_PRE_ENABLE
  | I40E_VF_STATE_RESOURCES_LOADED
  deriving DecidableEq, Repr

def test_bit (nr : i40e_vf_states) (s : vf_state_bits) : Bool :=
  match nr with
  | .I40E_VF_STATE_INIT => s.I40E_VF_STATE_INIT
  | .I40E_VF_STATE_ACTIVE => s.I40E_VF_STATE_ACTIVE
  | .I40E_VF_STATE_DISABLED => s.I40E_VF_STATE_DISABLED
  | .I40E_VF_STATE_MC_PROMISC => s.I40E_VF_STATE_MC_PROMISC
  | .I40E_VF_STATE_UC_PROMISC => s.I40E_VF_STATE_UC_PROMISC
  | .I40E_VF_STATE_PRE_ENABLE => s.I40E_VF_STATE_PRE_ENABLE
  | .I40E_VF_STATE_RESOURCES_LOADED => s.I40E_VF_STATE_RESOURCES_LOADED

/-- Writes `v` into bit `nr`: `set_bit` for `true`, `clear_bit` for `false`. -/
def assign_bit (nr : i40e_vf_states) (v : Bool) (s : vf_state_bits) : vf_state_bits :=
  match nr with
  | .I40E_VF_STATE_INIT => { s with I40E_VF_STATE_INIT := v }
  | .I40E_VF_STATE_ACTIVE => { s with I40E_VF_STATE_ACTIVE := v }
  | .I40E_VF_STATE_DISABLED => { s with I40E_VF_STATE_DISABLED := v }
  | .I40E_VF_STATE_MC_PROMISC => { s with I40E_VF_STATE_MC_PROMISC := v }
  | .I40E_VF_STATE_UC_PROMISC => { s with I40E_VF_STATE_UC_PROMISC := v }
  | .I40E_VF_STATE_PRE_ENABLE => { s with I40E_VF_STATE_PRE_ENABLE := v }
  | .I40E_VF_STATE_RESOURCES_LOADED => { s with I40E_VF_STATE_RESOURCES_LOADED := v }

def set_bit (nr : i40e_vf_states) (s : vf_state_bits) : vf_state_bits := assign_bit nr true s

def clear_bit (nr : i40e_vf_states) (s : vf_state_bits) : vf_state_bits := assign_bit nr false s

/-- Send a message to the VF.  `send_ret` is what `i40e_aq_send_msg_to_vf`
returns; the payload (`msg`, `msglen`) is not modelled.  The check `!vf` has no
counterpart: a VF value always exists. -/
def i40e_vc_send_msg_to_vf_ex (k : Consts) (send_ret : Status) (pf : i40e_pf) (vf : i40e_vf)
    (v_opcode : virtchnl_ops) (v_retval : Status) (is_quiet : Bool) :
    Status × i40e_vf × List HwEvent :=
  if vf.vf_id ≥ pf.num_alloc_vfs then (.EINVAL, vf, [])
  else
    let abs_vf_id := vf.vf_id + pf.hw.vf_base_id
    let vf1 :=
      if v_retval.isErr && !is_quiet then
        let vf2 := { vf with num_invalid_msgs := vf.num_invalid_msgs + 1 }
        if vf2.num_invalid_msgs > k.I40E_DEFAULT_NUM_INVALID_MSGS_ALLOWED then
          { vf2 with vf_states := set_bit .I40E_VF_STATE_DISABLED vf2.vf_states }
        else vf2
      else
        { vf with num_valid_msgs := vf.num_valid_msgs + 1, num_invalid_msgs := 0 }
    let ev := [HwEvent.aq_send_msg_to_vf abs_vf_id v_opcode v_retval]
    if send_ret.isErr then (.EIO_, vf1, ev) else (.I40E_SUCCESS, vf1, ev)

def i40e_vc_send_msg_to_vf (k : Consts) (send_ret : Status) (pf : i40e_pf) (vf : i40e_vf)
    (v_opcode : virtchnl_ops) (v_retval : Status) : Status × i40e_vf × List HwEvent :=
  i40e_vc_send_msg_to_vf_ex k send_ret pf vf v_opcode v_retval false

def i40e_vc_send_resp_to_vf (k : Consts) (send_ret : Status) (pf : i40e_pf) (vf : i40e_vf)
    (opcode : virtchnl_ops) (retval : Status) : Status × i40e_vf × List HwEvent :=
  i40e_vc_send_msg_to_vf k send_ret pf vf opcode retval

/-- The loop of `i40e_sync_vf_state` with `n` iterations left, at read number
`i`; `polls i` is the content of `vf->vf_states` at that read (a reset running
elsewhere may change it between reads). -/
def i40e_sync_vf_state_loop (polls : Nat → vf_state_bits) (state : i40e_vf_states) :
    Nat → Nat → Bool
  | 0, i => test_bit state (polls i)
  | n + 1, i =>
    if test_bit state (polls i) then true
    else i40e_sync_vf_state_loop polls state n (i + 1)

def i40e_sync_vf_state (k : Consts) (polls : Nat → vf_state_bits) (state : i40e_vf_states) :
    Bool :=
  i40e_sync_vf_state_loop polls state k.I40E_VF_STATE_WAIT_COUNT 0

/-- Modelled from the spec: `i40e_find_vsi_from_id` is an inline function of a
header outside the sources at hand; a VSI has a unique id (section 3) and the
lookup walks the VSI table for it. -/
def i40e_find_vsi_from_id (pf : i40e_pf) (id : Nat) : Option i40e_vsi :=
  pf.vsi.findSome? (fun slot =>
    match slot with
    | some vsi => if vsi.id = id then some vsi else none
    | none => none)

def i40e_vc_isvalid_vsi_id (pf : i40e_pf) (vf : i40e_vf) (vsi_id : Nat) : Bool :=
  match i40e_find_vsi_from_id pf vsi_id with
  | some vsi => vsi.vf_id == vf.vf_id
  | none => false

/-! ### Promiscuous mode -/

/-- Modelled from the spec: the largest VLAN id, declared outside the sources
at hand (a VLAN tag has 12 bits). -/
def I40E_MAX_VLANID : Int := 4095

/-- Modelled from the spec: the flag bits of the CONFIG_PROMISCUOUS_MODE
payload, declared in the virtchnl protocol header outside the sources. -/
def FLAG_VF_UNICAST_PROMISC : Nat := 1

/-- Modelled from the spec: see `FLAG_VF_UNICAST_PROMISC`. -/
def FLAG_VF_MULTICAST_PROMISC : Nat := 2

/-- Modelled from the spec: both flag bits set; declared outside the
sources. -/
def I40E_MAX_VF_PROMISC_FLAGS : Nat := 3

structure virtchnl_promisc_info where
  vsi_id : Nat
  flags : Nat
  deriving DecidableEq, Repr

def i40e_getnum_vf_vsi_vlan_filters (vsi : i40e_vsi) : Nat :=
  vsi.mac_filter_hash.countP (fun f => decide (0 ≤ f.vlan) && decide (f.vlan ≤ I40E_MAX_VLANID))

/-- The VLAN list of the VSI; `none` when `kcalloc` fails (`ok = false`). -/
def i40e_get_vlan_list_sync (ok : Bool) (vsi : i40e_vsi) : Option (List Int) :=
  if ok then
    some ((vsi.mac_filter_hash.filter
      (fun f => !(decide (f.vlan < 0) || decide (f.vlan > I40E_MAX_VLANID)))).map (·.vlan))
  else none

/-- The per-VLAN loop of `i40e_set_vsi_promisc`; `n` is the number of
admin-queue commands issued so far, `aq n` the status of command `n`, and the
last argument the current `aq_ret`. -/
def i40e_set_vsi_promisc_loop (aq : Nat → Status) (seid : Nat)
    (multi_enable unicast_enable : Bool) : List Int → Nat → Status → Status × List HwEvent
  | [], _, aq_ret => (aq_ret, [])
  | v :: rest, n, _ =>
    let r := i40e_set_vsi_promisc_loop aq seid multi_enable unicast_enable rest (n + 2) (aq (n + 1))
    (r.1, HwEvent.aq_set_vsi_mc_promisc_on_vlan seid multi_enable v ::
          HwEvent.aq_set_vsi_uc_promisc_on_vlan seid unicast_enable v :: r.2)

/-- Set promiscuous mode on the VSI or on each VLAN of `vl` (`none` is a null
pointer, `num_vlans` the length of the list). -/
def i40e_set_vsi_promisc (aq : Nat → Status) (seid : Nat) (multi_enable unicast_enable : Bool)
    (vl : Option (List Int)) : Status × List HwEvent :=
  match vl with
  | some (v :: rest) =>
    i40e_set_vsi_promisc_loop aq seid multi_enable unicast_enable (v :: rest) 0 .I40E_SUCCESS
  | _ =>
    if (aq 0).isErr then (aq 0, [.aq_set_vsi_multicast_promiscuous seid multi_enable])
    else (aq 1, [.aq_set_vsi_multicast_promiscuous seid multi_enable,
                 .aq_set_vsi_unicast_promiscuous seid unicast_enable])

def i40e_config_vf_promiscuous_mode (aq : Nat → Status) (kcalloc_ok : Bool) (pf : i40e_pf)
    (vf : i40e_vf) (vsi_id : Nat) (allmulti alluni : Bool) : Status × List HwEvent :=
  match i40e_find_vsi_from_id pf vsi_id with
  | none => (.I40E_ERR_PARAM, [])
  | some vsi =>
    if !i40e_vc_isvalid_vsi_id pf vf vsi_id then (.I40E_ERR_PARAM, [])
    else if vf.port_vlan_id ≠ 0 then
      i40e_set_vsi_promisc aq vsi.seid allmulti alluni (some [(vf.port_vlan_id : Int)])
    else if i40e_getnum_vf_vsi_vlan_filters vsi ≠ 0 then
      match i40e_get_vlan_list_sync kcalloc_ok vsi with
      | none => (.I40E_ERR_NO_MEMORY, [])
      | some vl => i40e_set_vsi_promisc aq vsi.seid allmulti alluni (some vl)
    else i40e_set_vsi_promisc aq vsi.seid allmulti alluni none

/-- What `virtchnl_vc_validate_vf_msg` (the structural validation of the
protocol header, outside the sources at hand) returns: zero,
`VIRTCHNL_STATUS_ERR_PARAM`, or any other error. -/
inductive ValidateResult where
  | ok
  | VIRTCHNL_STATUS_ERR_PARAM
  | other_error
  deriving DecidableEq, Repr

/-- What `work` hands back for the part of a handler that lies between its
checks and its response and is not modelled statement by statement: the
status left in `aq_ret` and the PF and VF as that part leaves them. -/
abbrev Work := i40e_pf → i40e_vf → Status × i40e_pf × i40e_vf

/-- What the VLAN handlers take from outside the modelled code.  `is_vid` is
what `i40e_is_vid(&vsi->info)` returns (a port VLAN is configured on the VSI);
`trunk_set_by_pf` and `trunk_vlans_weight` are the VF's administrative trunk
configuration (`vf->trunk_set_by_pf`, `bitmap_weight(vf->trunk_vlans, ...)`),
which the handlers only read; `vsi_add_vlan i vsi vid` is the return value of
the call of `i40e_vsi_add_vlan` for element `i` and the VSI it leaves,
`vsi_kill_vlan vsi vid` the VSI `i40e_vsi_kill_vlan` leaves; `kzalloc_ok i`
says whether the allocation for element `i` succeeds; `stray` is the value
read at `vlan_id[0]` of a list without elements. -/
structure VlanOracle where
  is_vid : Bool
  trunk_set_by_pf : Bool
  trunk_vlans_weight : Nat
  vsi_add_vlan : Nat → i40e_vsi → Nat → Status × i40e_vsi
  vsi_kill_vlan : i40e_vsi → Nat → i40e_vsi
  kzalloc_ok : Nat → Bool
  stray : Nat

/-- What the environment decides while one mailbox message is handled:
`polls i` is the content of `vf->vf_states` at read `i` of the state check,
`send_ret` what sending the response returns, `aq n` the status of the n-th
other admin-queue command, `kzalloc_ok n` whether the n-th allocation
succeeds, `validate_ret` the result of the structural validation, `mac` and
`vlan` the environment of the MAC and VLAN filter functions. -/
structure Oracle where
  polls : Nat → vf_state_bits
  send_ret : Status
  aq : Nat → Status
  kzalloc_ok : Nat → Bool
  mac : MacOracle
  validate_ret : ValidateResult
  work : virtchnl_ops → Work
  vlan : VlanOracle

/-- Handler of CONFIG_PROMISCUOUS_MODE.  Result: return value, VF, hardware
events. -/
def i40e_vc_config_promiscuous_mode_msg (k : Consts) (o : Oracle) (pf : i40e_pf) (vf : i40e_vf)
    (info : virtchnl_promisc_info) : Status × i40e_vf × List HwEvent :=
  let err_out := fun (vf : i40e_vf) (aq_ret : Status) (ev : List HwEvent) =>
    let r := i40e_vc_send_resp_to_vf k o.send_ret pf vf
      .VIRTCHNL_OP_CONFIG_PROMISCUOUS_MODE aq_ret
    (r.1, r.2.1, ev ++ r.2.2)
  if !i40e_sync_vf_state k o.polls .I40E_VF_STATE_ACTIVE then err_out vf .I40E_ERR_PARAM []
  else if !vf.vf_caps.I40E_VIRTCHNL_VF_CAP_PRIVILEGE then err_out vf .I40E_SUCCESS []
  else if info.flags > I40E_MAX_VF_PROMISC_FLAGS then err_out vf .I40E_ERR_PARAM []
  else if !i40e_vc_isvalid_vsi_id pf vf info.vsi_id then err_out vf .I40E_ERR_PARAM []
  else
    let allmulti := info.flags &&& FLAG_VF_MULTICAST_PROMISC != 0
    let alluni := info.flags &&& FLAG_VF_UNICAST_PROMISC != 0
    let c := i40e_config_vf_promiscuous_mode o.aq (o.kzalloc_ok 0) pf vf info.vsi_id
      allmulti alluni
    if c.1.isErr then err_out vf c.1 c.2
    else
      let vf1 := { vf with
        vf_states := (assign_bit .I40E_VF_STATE_MC_PROMISC allmulti vf.vf_states) }
      let vf2 := { vf1 with
        vf_states := (assign_bit .I40E_VF_STATE_UC_PROMISC alluni vf1.vf_states) }
      err_out vf2 .I40E_SUCCESS c.2

/-! ### Queue pile, VSI table, VF resources -/

/-- Modelled from the spec: the default number of queue pairs of a VF, declared
outside the sources at hand; section 8 has "the default is 4". -/
def I40E_DEFAULT_QUEUES_PER_VF : Nat := 4

/-- Modelled from the spec: the most queue pairs a VF can hold, declared
outside the sources at hand; up to 4 VSIs of up to 4 queues each (section 3,
and the comments of `i40e_get_real_pf_qid` and `i40e_vc_config_queues_msg`). -/
def I40E_MAX_VF_QUEUES : Nat := 16

/-- Modelled from the spec: the size of `vf->ch[]`, declared outside the
sources at hand; section 3 has up to 4 per-traffic-class VSIs per VF. -/
def I40E_MAX_VF_VSI : Nat := 4

/-- Modelled from the spec: the tag bit of an owned pile entry, declared
outside the sources at hand; section 3 has each entry tagged valid or free. -/
def I40E_PILE_VALID_BIT : Nat := 0x8000

/-- The test `pile->list[i] & I40E_PILE_VALID_BIT`. -/
def pile_entry_valid (e : Nat) : Bool := e &&& I40E_PILE_VALID_BIT != 0

/-- Modelled from the spec: the search of `i40e_get_lump`, defined outside the
sources at hand; section 4.3: the first free contiguous run of at least
`needed` entries.  `i` is the index of the head of the list, `run` the length
of the free run ending just before it; the result is the base index. -/
def pile_find_free_run (needed : Nat) : List Nat → Nat → Nat → Option Nat
  | [], _, _ => none
  | e :: rest, i, run =>
    if pile_entry_valid e then pile_find_free_run needed rest (i + 1) 0
    else if needed ≤ run + 1 then some (i + 1 - needed)
    else pile_find_free_run needed rest (i + 1) (run + 1)

/-- Writes `val` into the `count` entries from `base` on. -/
def pile_fill (val : Nat) : List Nat → Nat → Nat → List Nat
  | [], _, _ => []
  | e :: rest, 0, 0 => e :: rest
  | _ :: rest, 0, count + 1 => val :: pile_fill val rest 0 count
  | e :: rest, base + 1, count => e :: pile_fill val rest base count

/-- Modelled from the spec: `i40e_get_lump`, defined outside the sources at
hand; section 4.3: it takes the first free run of `needed` entries for owner
`id` and gives its base index, or fails. -/
def i40e_get_lump (pile : i40e_lump_tracking) (needed id : Nat) :
    Option (Nat × i40e_lump_tracking) :=
  if needed = 0 then none
  else
    match pile_find_free_run needed pile.list 0 0 with
    | none => none
    | some base =>
      some (base, { list := pile_fill (id ||| I40E_PILE_VALID_BIT) pile.list base needed })

/-- Frees the entries from `index` on for as long as they carry `valid_id`. -/
def pile_clear (valid_id : Nat) : List Nat → Nat → List Nat
  | [], _ => []
  | e :: rest, index + 1 => e :: pile_clear valid_id rest index
  | e :: rest, 0 => if e = valid_id then 0 :: pile_clear valid_id rest 0 else e :: rest

/-- Modelled from the spec: `i40e_put_lump`, defined outside the sources at
hand; section 4.3: `free(range)` marks the entries unowned. -/
def i40e_put_lump (pile : i40e_lump_tracking) (index id : Nat) : i40e_lump_tracking :=
  { list := pile_clear (id ||| I40E_PILE_VALID_BIT) pile.list index }

/-- The VSI `pf->vsi[idx]`.  C dereferences the table entry without a check;
for an empty slot the model reads an all-zero VSI. -/
def pf_vsi (pf : i40e_pf) (idx : Nat) : i40e_vsi :=
  match pf.vsi[idx]? with
  | some (some vsi) => vsi
  | _ => { idx := 0, id := 0, seid := 0, vf_id := 0, base_queue := 0, alloc_queue_pairs := 0,
           num_queue_pairs := 0, mac_filter_hash := [] }

/-- An existing, empty slot of the VSI table. -/
def vsi_slot_free (vsi : List (Option i40e_vsi)) (i : Nat) : Bool :=
  match vsi[i]? with
  | some none => true
  | _ => false

/-- Modelled from the spec: the slot search of the VSI allocation, defined
outside the sources at hand; section 4.3: a next-free-slot cursor with a
fallback linear scan from the start. -/
def vsi_table_find_slot (pf : i40e_pf) : Option Nat :=
  match (List.range' pf.next_vsi (pf.vsi.length - pf.next_vsi)).find? (vsi_slot_free pf.vsi) with
  | some i => some i
  | none => (List.range (min pf.next_vsi pf.vsi.length)).find? (vsi_slot_free pf.vsi)

/-- What the environment decides during one `i40e_alloc_vsi_res`: whether the
firmware accepts the new VSI, the id and seid it assigns, the outcome of the
n-th `i40e_add_mac_filter`, the default RSS hash enable set, and the values
returned by `i40e_sync_vsi_filters`, `i40e_aq_config_vsi_bw_limit` and
`i40e_restore_vfd_config`. -/
structure VsiOracle where
  hw_add_ok : Bool
  id : Nat
  seid : Nat
  add_mac_filter_ok : Nat → Bool
  hena : Nat
  sync_vsi_filters_ret : Status
  bw_limit_ret : Status
  restore_vfd_config_ret : Status

/-- Modelled from the spec: `i40e_vsi_setup` for a VF VSI, defined outside the
sources at hand.  Sections 3 and 4.3: the VSI takes a free slot of the VSI
table and a contiguous range of `pf->num_vf_qps` queue pairs of the pile, and
the firmware attaches it to the switch; when any of the three is unavailable
nothing is allocated and the result is `NULL`, here `none`.  Section 4.3 has
the queue mapping derived from the allocated base index: the VSI is mapped
contiguously from its base queue. -/
def i40e_vsi_setup (o : VsiOracle) (pf : i40e_pf) (vf_id : Nat) : Option (i40e_pf × i40e_vsi) :=
  match vsi_table_find_slot pf with
  | none => none
  | some idx =>
    match i40e_get_lump pf.qp_pile pf.num_vf_qps idx with
    | none => none
    | some (base, pile1) =>
      if o.hw_add_ok then
        let vsi : i40e_vsi :=
          { idx := idx, id := o.id, seid := o.seid, vf_id := vf_id, base_queue := base,
            alloc_queue_pairs := pf.num_vf_qps, num_queue_pairs := 0, mac_filter_hash := [],
            info_mapping_flags_NONCONTIG := false, info_queue_mapping := [base] }
        some ({ pf with vsi := pf.vsi.set idx (some vsi), next_vsi := idx + 1, qp_pile := pile1 },
              vsi)
      else none

/-- Modelled from the spec: `i40e_vsi_release`, defined outside the sources at
hand, applied to `pf->vsi[idx]`.  Sections 3 and 4.3: the VSI's queue range
goes back to the pile and its slot is freed.  The PF's own LAN VSI (slot
`pf->lan_vsi`) is not a VF resource and is never released; an empty slot is
left as it is. -/
def i40e_vsi_release (pf : i40e_pf) (idx : Nat) : i40e_pf :=
  if idx = pf.lan_vsi then pf
  else
    match pf.vsi[idx]? with
    | some (some vsi) =>
      { pf with vsi := pf.vsi.set idx none,
                next_vsi := min pf.next_vsi idx,
                qp_pile := i40e_put_lump pf.qp_pile vsi.base_queue vsi.idx }
    | _ => pf

/-- Merge a list of addresses into the VSI; `ok n` is whether the n-th
`i40e_add_mac_filter` succeeds. -/
def i40e_merge_macs (ok : Nat → Bool) (force : Bool) :
    List Mac → Nat → i40e_vsi → Status × i40e_vsi
  | [], _, vsi => (.I40E_SUCCESS, vsi)
  | m :: rest, n, vsi =>
    if i40e_find_mac vsi m then i40e_merge_macs ok force rest n vsi
    else
      match i40e_add_mac_filter (ok n) vsi m with
      | some vsi1 => i40e_merge_macs ok force rest (n + 1) vsi1
      | none =>
        if force then i40e_merge_macs ok force rest (n + 1) vsi
        else (.I40E_ERR_PARAM, vsi)

/-- Copy the addresses of the VSI's filters to a list; `ok n` is whether the
n-th `kzalloc` succeeds. -/
def i40e_copy_mac_list_sync (ok : Nat → Bool) : List i40e_mac_filter → Nat → Status × List Mac
  | [], _ => (.I40E_SUCCESS, [])
  | f :: rest, n =>
    if ok n then
      let r := i40e_copy_mac_list_sync ok rest (n + 1)
      (r.1, f.macaddr :: r.2)
    else (.ENOMEM, [])

def i40e_find_vmmac_on_list (vf : i40e_vf) (macaddr : Mac) : Bool :=
  vf.vm_mac_list.any (fun m => ether_addr_equal macaddr m)

/-- Back up the addresses of the VF's VSI, without the broadcast address, the
default address and the addresses the VF added itself, into
`pf->mac_list[vf_id]`. -/
def i40e_retain_mac_list (ok : Nat → Bool) (pf : i40e_pf) (vf : i40e_vf) (vsi_idx : Nat) :
    Status × i40e_pf :=
  match pf.vsi[vsi_idx]? with
  | some (some vsi) =>
    let c := i40e_copy_mac_list_sync ok vsi.mac_filter_hash 0
    let kept :=
      if c.1.isErr then c.2
      else c.2.filter (fun m =>
        !(ether_addr_equal m eth_broadcast_addr || ether_addr_equal m vf.default_lan_addr ||
          i40e_find_vmmac_on_list vf m))
    (c.1, { pf with mac_list := pf.mac_list.set vf.vf_id kept })
  | _ => (.I40E_SUCCESS, pf)

/-- The entry `vf->ch[idx]`. -/
def vf_ch (vf : i40e_vf) (idx : Nat) : i40evf_channel :=
  vf.ch.getD idx { vsi_idx := 0, vsi_id := 0, num_qps := 0, max_tx_rate := 0 }

/-- Allocate one VSI for the VF: the LAN VSI for `idx = 0`, the VSI of channel
`idx` otherwise.  Built with `HAVE_NDO_SET_VF_LINK_STATE`.  The port VLAN put
back on the VSI and what `i40e_restore_vfd_config` programs are outside the
model state; the latter appears as one event and its return value, which is
the return value of the function whenever the VSI was set up. -/
def i40e_alloc_vsi_res (k : Consts) (o : VsiOracle) (pf : i40e_pf) (vf : i40e_vf) (idx : Nat) :
    Status × i40e_pf × i40e_vf × List HwEvent :=
  match i40e_vsi_setup o pf vf.vf_id with
  | none => (.ENOENT, pf, vf, [.vsi_setup vf.vf_id])
  | some (pf1, vsi) =>
    let vf1 := if idx = 0 then { vf with lan_vsi_idx := vsi.idx, lan_vsi_id := vsi.id } else vf
    let vsiA :=
      if idx = 0 && is_valid_ether_addr vf.default_lan_addr then
        (i40e_add_mac_filter (o.add_mac_filter_ok 0) vsi vf.default_lan_addr).getD vsi
      else vsi
    let vsiB :=
      if idx = 0 then (i40e_add_mac_filter (o.add_mac_filter_ok 1) vsiA eth_broadcast_addr).getD vsiA
      else vsiA
    let vsiC :=
      if idx = 0 then
        (i40e_merge_macs (fun n => o.add_mac_filter_ok (n + 2)) true
          (pf.mac_list.getD vf.vf_id []) 0 vsiB).2
      else vsiB
    let pf2 :=
      if idx = 0 then
        { pf1 with vsi := pf1.vsi.set vsi.idx (some vsiC),
                   mac_list := pf1.mac_list.set vf.vf_id [] }
      else pf1
    let ev1 :=
      if idx = 0 then
        [HwEvent.wr32 (.I40E_VFQF_HENA1 0 vf.vf_id) (o.hena % 2 ^ 32),
         HwEvent.wr32 (.I40E_VFQF_HENA1 1 vf.vf_id) (o.hena / 2 ^ 32 % 2 ^ 32),
         HwEvent.sync_vsi_filters vsi.idx]
      else []
    let vf2 :=
      if vf1.adq_enabled then
        { vf1 with ch := vf1.ch.set idx { vf_ch vf1 idx with vsi_idx := vsi.idx, vsi_id := vsi.id } }
      else vf1
    let max_tx_rate := if vf2.tx_rate ≠ 0 then vf2.tx_rate else (vf_ch vf2 idx).max_tx_rate
    let ev2 :=
      if max_tx_rate ≠ 0 then
        [HwEvent.aq_config_vsi_bw_limit vsi.seid (max_tx_rate / k.I40E_BW_CREDIT_DIVISOR)]
      else []
    (o.restore_vfd_config_ret, pf2, vf2,
      [HwEvent.vsi_setup vf.vf_id] ++ ev1 ++ ev2 ++ [HwEvent.restore_vfd_config vf.vf_id])

/-- Modelled from the spec: interrupt register field masks, declared in the
register header outside the sources at hand; only the registers written
matter to the model. -/
def I40E_VFINT_DYN_CTLN_CLEARPBA_MASK : Nat := 2

/-- Modelled from the spec: see `I40E_VFINT_DYN_CTLN_CLEARPBA_MASK`; the end
of list marker of the interrupt linked list. -/
def I40E_VPINT_LNKLSTN_FIRSTQ_END : Nat := 0x1fff

/-- The two interrupt register loops of `i40e_free_vf_res`. -/
def i40e_free_vf_res_irq (msix_vf vf_id : Nat) : List HwEvent :=
  ((List.range msix_vf).map (fun i =>
      [HwEvent.wr32 (if i = 0 then .I40E_VFINT_DYN_CTL0 vf_id
                     else .I40E_VFINT_DYN_CTLN ((msix_vf - 1) * vf_id + (i - 1)))
         I40E_VFINT_DYN_CTLN_CLEARPBA_MASK, HwEvent.flush])).flatten ++
  ((List.range msix_vf).map (fun i =>
      [HwEvent.wr32 (if i = 0 then .I40E_VPINT_LNKLST0 vf_id
                     else .I40E_VPINT_LNKLSTN ((msix_vf - 1) * vf_id + (i - 1)))
         I40E_VPINT_LNKLSTN_FIRSTQ_END, HwEvent.flush])).flatten

/-- The loop over the ADq channels in `i40e_free_vf_res`, from channel `j`
on, `n` channels left. -/
def i40e_free_vf_res_adq : Nat → Nat → i40e_pf → i40e_vf → i40e_pf × i40e_vf × List HwEvent
  | 0, _, pf, vf => (pf, vf, [])
  | n + 1, j, pf, vf =>
    let pf1 := if j ≠ 0 then i40e_vsi_release pf (vf_ch vf j).vsi_idx else pf
    let ev := if j ≠ 0 then [HwEvent.vsi_release (vf_ch vf j).vsi_idx] else []
    let vf1 := { vf with ch := vf.ch.set j { vf_ch vf j with vsi_idx := 0, vsi_id := 0 } }
    let r := i40e_free_vf_res_adq n (j + 1) pf1 vf1
    (r.1, r.2.1, ev ++ r.2.2)

def i40e_free_vmvlan_list (vf : i40e_vf) : i40e_vf :=
  if vf.vm_vlan_list.isEmpty then vf
  else { vf with vm_vlan_list := [], num_vlan := 0 }

def i40e_free_vmmac_list (vf : i40e_vf) : i40e_vf :=
  { vf with vm_mac_list := [] }

/-- The first part of `i40e_free_vf_res`: INIT is cleared, the address list
is backed up, the queue accounting is done and the LAN VSI released. -/
def i40e_free_vf_res_lan (copy_ok : Nat → Bool) (pf : i40e_pf) (vf : i40e_vf) :
    i40e_pf × i40e_vf × List HwEvent :=
  let vf1 := { vf with vf_states := clear_bit .I40E_VF_STATE_INIT vf.vf_states }
  let pf1 :=
    if vf1.lan_vsi_idx ≠ 0 && !pf.state.I40E_VFS_RELEASING then
      (i40e_retain_mac_list copy_ok pf vf1 vf1.lan_vsi_idx).2
    else pf
  let pf2 :=
    if vf1.num_queue_pairs > I40E_DEFAULT_QUEUES_PER_VF then
      { pf1 with queues_left :=
          pf1.queues_left + (vf1.num_queue_pairs - I40E_DEFAULT_QUEUES_PER_VF) }
    else pf1
  if vf1.lan_vsi_idx ≠ 0 then
    (i40e_vsi_release pf2 vf1.lan_vsi_idx, { vf1 with lan_vsi_idx := 0, lan_vsi_id := 0 },
      [HwEvent.vf_del_vlan_mirror vf1.vf_id, HwEvent.vsi_release vf1.lan_vsi_idx])
  else (pf2, vf1, [])

/-- The last part of `i40e_free_vf_res`: the VM lists are emptied and the
state variables reset. -/
def i40e_free_vf_res_tail (vf : i40e_vf) : i40e_vf :=
  let vf3 := i40e_free_vmmac_list (i40e_free_vmvlan_list vf)
  { vf3 with
    num_queue_pairs := 0,
    vf_states := (clear_bit .I40E_VF_STATE_UC_PROMISC
      (clear_bit .I40E_VF_STATE_MC_PROMISC vf3.vf_states)) }

/-- Free the VF's resources.  Built with `HAVE_NDO_SET_VF_LINK_STATE`;
`copy_ok` is the allocation oracle of `i40e_retain_mac_list`. -/
def i40e_free_vf_res (copy_ok : Nat → Bool) (pf : i40e_pf) (vf : i40e_vf) :
    i40e_pf × i40e_vf × List HwEvent :=
  let l := i40e_free_vf_res_lan copy_ok pf vf
  let a :=
    if l.2.1.adq_enabled && (vf_ch l.2.1 0).vsi_idx ≠ 0 then
      i40e_free_vf_res_adq l.2.1.num_tc 0 l.1 l.2.1
    else (l.1, l.2.1, [])
  (a.1, i40e_free_vf_res_tail a.2.1,
    l.2.2 ++ a.2.2 ++ i40e_free_vf_res_irq pf.hw.num_msix_vectors_vf vf.vf_id)

/-- What the environment decides during a VF activation, teardown or reset. -/
structure ResOracle where
  vsi : Nat → VsiOracle
  copy_ok : Nat → Bool
  radq : Bool
  vfr_polls : Nat → Bool
  pci_polls : Nat → Bool
  vfrstat_polls : Nat → Bool
  vfrtrig : Nat
  vfrtrig_cleanup : Nat
  promisc_aq : Nat → Status
  promisc_kcalloc_ok : Bool
  ktime : Nat

/-- The loop over the channels 1 .. num_tc - 1 in `i40e_alloc_vf_res`, at
channel `idx`, `n` channels left.  An error stops the loop. -/
def i40e_alloc_vf_res_adq (k : Consts) (o : ResOracle) :
    Nat → Nat → i40e_pf → i40e_vf → Status × i40e_pf × i40e_vf × List HwEvent
  | 0, _, pf, vf => (.I40E_SUCCESS, pf, vf, [])
  | n + 1, idx, pf, vf =>
    let r := i40e_alloc_vsi_res k (o.vsi idx) pf vf idx
    if r.1.isErr then r
    else
      let r2 := i40e_alloc_vf_res_adq k o n (idx + 1) r.2.1 r.2.2.1
      (r2.1, r2.2.1, r2.2.2.1, r.2.2.2 ++ r2.2.2.2)

/-- The first statement of `i40e_alloc_vf_res`: the queue count of the VSIs
about to be set up. -/
def i40e_alloc_vf_res_num_vf_qps (pf : i40e_pf) (vf : i40e_vf) : i40e_pf :=
  if vf.num_req_queues ≠ 0 &&
      decide (vf.num_req_queues ≤ pf.queues_left + I40E_DEFAULT_QUEUES_PER_VF) then
    { pf with num_vf_qps := vf.num_req_queues }
  else { pf with num_vf_qps := I40E_DEFAULT_QUEUES_PER_VF }

/-- The label `error_alloc` of `i40e_alloc_vf_res` reached with a non-zero
`ret`. -/
def i40e_alloc_vf_res_error_alloc (o : ResOracle) (ret : Status) (pf : i40e_pf) (vf : i40e_vf)
    (ev : List HwEvent) : Status × i40e_pf × i40e_vf × List HwEvent :=
  let f := i40e_free_vf_res o.copy_ok pf vf
  (ret, f.1, f.2.1, ev ++ f.2.2)

/-- The ADq block of `i40e_alloc_vf_res`, entered with `total_queue_pairs`;
the last component of the result is `total_queue_pairs` afterwards. -/
def i40e_alloc_vf_res_channels (k : Consts) (o : ResOracle) (pf : i40e_pf) (vf : i40e_vf)
    (total_queue_pairs : Nat) : Status × i40e_pf × i40e_vf × List HwEvent × Nat :=
  if vf.adq_enabled then
    if pf.queues_left ≥ I40E_MAX_VF_QUEUES - I40E_DEFAULT_QUEUES_PER_VF then
      let c := i40e_alloc_vf_res_adq k o (vf.num_tc - 1) 1 pf vf
      (c.1, c.2.1, c.2.2.1, c.2.2.2, I40E_MAX_VF_QUEUES)
    else (.I40E_SUCCESS, pf, { vf with adq_enabled := false }, [], total_queue_pairs)
  else (.I40E_SUCCESS, pf, vf, [], total_queue_pairs)

/-- The end of `i40e_alloc_vf_res`: the queue accounting, the privilege bit,
the stored queue count and the INIT bit. -/
def i40e_alloc_vf_res_commit (pf : i40e_pf) (vf : i40e_vf) (total_queue_pairs : Nat) :
    i40e_pf × i40e_vf :=
  let pf1 :=
    if total_queue_pairs > I40E_DEFAULT_QUEUES_PER_VF then
      { pf with queues_left :=
          pf.queues_left - (total_queue_pairs - I40E_DEFAULT_QUEUES_PER_VF) }
    else pf
  let vf1 := { vf with
    vf_caps := { vf.vf_caps with I40E_VIRTCHNL_VF_CAP_PRIVILEGE := vf.trusted },
    num_queue_pairs := total_queue_pairs,
    vf_states := (set_bit .I40E_VF_STATE_INIT vf.vf_states) }
  (pf1, vf1)

/-- Allocate the VF's resources.  Result: return value, PF, VF, events. -/
def i40e_alloc_vf_res (k : Consts) (o : ResOracle) (pf : i40e_pf) (vf : i40e_vf) :
    Status × i40e_pf × i40e_vf × List HwEvent :=
  let r := i40e_alloc_vsi_res k (o.vsi 0) (i40e_alloc_vf_res_num_vf_qps pf vf) vf 0
  if r.1.isErr then i40e_alloc_vf_res_error_alloc o r.1 r.2.1 r.2.2.1 r.2.2.2
  else
    let a := i40e_alloc_vf_res_channels k o r.2.1 r.2.2.1
      (pf_vsi r.2.1 r.2.2.1.lan_vsi_idx).alloc_queue_pairs
    if a.1.isErr then
      i40e_alloc_vf_res_error_alloc o a.1 a.2.1 a.2.2.1 (r.2.2.2 ++ a.2.2.2.1)
    else
      let c := i40e_alloc_vf_res_commit a.2.1 a.2.2.1 a.2.2.2.2
      (.I40E_SUCCESS, c.1, c.2, r.2.2.2 ++ a.2.2.2.1)

/-! ### VF reset -/

/-- Modelled from the spec: the reset-start bit of VPGEN_VFRTRIG, declared in
the register header outside the sources at hand. -/
def I40E_VPGEN_VFRTRIG_VFSWR_MASK : Nat := 1

/-- Modelled from the spec: the "reset done, VF active" value of VFGEN_RSTAT1
(section 4.2, step 6), declared in the virtchnl header outside the sources. -/
def VIRTCHNL_VFR_VFACTIVE : Nat := 2

def VF_DEVICE_STATUS : Nat := 0xAA

/-- Modelled from the spec: a register field offset declared in the register
header outside the sources at hand. -/
def I40E_PF_PCI_CIAA_VF_NUM_SHIFT : Nat := 12

/-- A bounded polling loop: `n` reads left, read number `i`; `polls i` says
whether read `i` shows the awaited condition. -/
def poll_until (polls : Nat → Bool) : Nat → Nat → Bool
  | 0, _ => false
  | n + 1, i => if polls i then true else poll_until polls n (i + 1)

/-- Wait for the VF's PCI transactions to clear; `polls i` is whether read `i`
of PF_PCI_CIAD shows no transaction pending. -/
def i40e_quiesce_vf_pci (polls : Nat → Bool) (pf : i40e_pf) (vf : i40e_vf) :
    Status × List HwEvent :=
  let vf_abs_id := vf.vf_id + pf.hw.vf_base_id
  let ev := [HwEvent.wr32 .I40E_PF_PCI_CIAA
    (VF_DEVICE_STATUS ||| (vf_abs_id <<< I40E_PF_PCI_CIAA_VF_NUM_SHIFT))]
  if poll_until polls 100 0 then (.I40E_SUCCESS, ev) else (.EIO_, ev)

/-- The wait for the admin-queue bit; `polls i` is whether read `i` of
VFINT_ICR0_ENA shows the ADMINQ bit. -/
def i40e_sync_vfr_reset (k : Consts) (polls : Nat → Bool) : Status :=
  if poll_until polls k.I40E_VFR_WAIT_COUNT 0 then .I40E_SUCCESS else .EAGAIN

/-- Trigger the hardware reset of one VF.  The results of the two polls are
only logged. -/
def i40e_trigger_vf_reset (k : Consts) (o : ResOracle) (pf : i40e_pf) (vf : i40e_vf)
    (flr : Bool) : i40e_vf × List HwEvent :=
  let vf_active := test_bit .I40E_VF_STATE_ACTIVE vf.vf_states
  let vf1 := { vf with vf_states := clear_bit .I40E_VF_STATE_ACTIVE vf.vf_states }
  let vf2 := { vf1 with vf_states := clear_bit .I40E_VF_STATE_INIT vf1.vf_states }
  let _synced := if !flr && vf_active && !o.radq then i40e_sync_vfr_reset k o.vfr_polls
                 else .I40E_SUCCESS
  let ev1 :=
    if !flr then
      [HwEvent.wr32 (.I40E_VPGEN_VFRTRIG vf.vf_id) (o.vfrtrig ||| I40E_VPGEN_VFRTRIG_VFSWR_MASK)]
    else []
  let reg_idx := (pf.hw.vf_base_id + vf.vf_id) / 32
  let bit_idx := (pf.hw.vf_base_id + vf.vf_id) % 32
  let ev2 := [HwEvent.wr32 (.I40E_GLGEN_VFLRSTAT reg_idx) (2 ^ bit_idx), HwEvent.flush]
  let q := i40e_quiesce_vf_pci o.pci_polls pf vf2
  (vf2, ev1 ++ ev2 ++ q.2)

/-- Clean up a VF after the hardware reset: tear its resources down and build
them again. -/
def i40e_cleanup_reset_vf (k : Consts) (o : ResOracle) (pf : i40e_pf) (vf : i40e_vf) :
    i40e_pf × i40e_vf × List HwEvent :=
  let p := i40e_config_vf_promiscuous_mode o.promisc_aq o.promisc_kcalloc_ok pf vf
    vf.lan_vsi_id false false
  let f := i40e_free_vf_res o.copy_ok pf vf
  let ev1 := [HwEvent.wr32 (.I40E_VPGEN_VFRTRIG vf.vf_id)
    (o.vfrtrig_cleanup &&& (0xffffffff ^^^ I40E_VPGEN_VFRTRIG_VFSWR_MASK))]
  let a := i40e_alloc_vf_res k o f.1 f.2.1
  let done := [HwEvent.wr32 (.I40E_VFGEN_RSTAT1 vf.vf_id) VIRTCHNL_VFR_VFACTIVE]
  if !a.1.isErr then
    let abs_vf_id := vf.vf_id + pf.hw.vf_base_id
    let vf1 := a.2.2.1
    let vf2 := { vf1 with vf_states := set_bit .I40E_VF_STATE_ACTIVE vf1.vf_states }
    let vf3 := { vf2 with vf_states := clear_bit .I40E_VF_STATE_DISABLED vf2.vf_states }
    let pre := test_bit .I40E_VF_STATE_PRE_ENABLE vf3.vf_states
    let vf4 := { vf3 with vf_states := clear_bit .I40E_VF_STATE_PRE_ENABLE vf3.vf_states }
    let ev2 := if !pre then [HwEvent.notify_client_of_vf_reset abs_vf_id] else []
    let vf5 := { vf4 with num_vlan := 0 }
    (a.2.1, vf5,
      p.2 ++ f.2.2 ++ ev1 ++ a.2.2.2 ++ [HwEvent.enable_vf_mappings vf.vf_id] ++ ev2 ++ done)
  else
    (a.2.1, a.2.2.1, p.2 ++ f.2.2 ++ ev1 ++ a.2.2.2 ++ done)

/-- The part of `i40e_reset_vf` that runs once the PF-wide
`__I40E_VF_DISABLE` flag has been taken and the reset has been triggered: wait
for the hardware, stop the rings, clean up, release the flag. -/
def i40e_reset_vf_finish (k : Consts) (o : ResOracle) (pf : i40e_pf) (vf : i40e_vf) :
    i40e_pf × i40e_vf × List HwEvent :=
  let _rsd := poll_until o.vfrstat_polls 10 0
  let ev1 := if vf.lan_vsi_idx ≠ 0 then [HwEvent.vsi_stop_rings vf.lan_vsi_idx] else []
  let c := i40e_cleanup_reset_vf k o pf vf
  let vf1 := { c.2.1 with reset_timestamp := o.ktime }
  let pf1 := { c.1 with state := { c.1.state with I40E_VF_DISABLE := false } }
  (pf1, vf1, ev1 ++ c.2.2 ++ [HwEvent.flush])

/-- The part of `i40e_reset_vf` up to and including the trigger, entered with
the flag clear: take the flag, trigger the reset. -/
def i40e_reset_vf_begin (k : Consts) (o : ResOracle) (pf : i40e_pf) (vf : i40e_vf) (flr : Bool) :
    i40e_pf × i40e_vf × List HwEvent :=
  let pf1 := { pf with state := { pf.state with I40E_VF_DISABLE := true } }
  let t := i40e_trigger_vf_reset k o pf1 vf flr
  (pf1, t.1, t.2)

/-- Reset one VF.  Result: return value, PF, VF, events. -/
def i40e_reset_vf (k : Consts) (o : ResOracle) (pf : i40e_pf) (vf : i40e_vf) (flr : Bool) :
    Bool × i40e_pf × i40e_vf × List HwEvent :=
  if pf.state.I40E_VF_RESETS_DISABLED then (true, pf, vf, [])
  else if pf.state.I40E_VF_DISABLE then (false, pf, vf, [])
  else
    let b := i40e_reset_vf_begin k o pf vf flr
    let f := i40e_reset_vf_finish k o b.1 b.2.1
    (true, f.1, f.2.1, b.2.2 ++ f.2.2)

/-- The trigger loop of `i40e_reset_all_vfs`: `n` VFs left, at VF `v`. -/
def i40e_reset_all_vfs_trigger (k : Consts) (o : Nat → ResOracle) (flr : Bool) :
    Nat → Nat → i40e_pf → i40e_pf × List HwEvent
  | 0, _, pf => (pf, [])
  | n + 1, v, pf =>
    match pf.vf[v]? with
    | none => i40e_reset_all_vfs_trigger k o flr n (v + 1) pf
    | some vf =>
      let t := i40e_trigger_vf_reset k (o v) pf vf flr
      let r := i40e_reset_all_vfs_trigger k o flr n (v + 1) { pf with vf := pf.vf.set v t.1 }
      (r.1, t.2 ++ r.2)

/-- The cleanup loop of `i40e_reset_all_vfs`: `n` VFs left, at VF `v`. -/
def i40e_reset_all_vfs_cleanup (k : Consts) (o : Nat → ResOracle) :
    Nat → Nat → i40e_pf → i40e_pf × List HwEvent
  | 0, _, pf => (pf, [])
  | n + 1, v, pf =>
    match pf.vf[v]? with
    | none => i40e_reset_all_vfs_cleanup k o n (v + 1) pf
    | some vf =>
      let c := i40e_cleanup_reset_vf k (o v) pf vf
      let r := i40e_reset_all_vfs_cleanup k o n (v + 1) { c.1 with vf := c.1.vf.set v c.2.1 }
      (r.1, c.2.2 ++ r.2)

/-- The two ring-stopping loops of `i40e_reset_all_vfs`. -/
def i40e_reset_all_vfs_stop_rings (pf : i40e_pf) : List HwEvent :=
  ((pf.vf.take pf.num_alloc_vfs).filter (fun vf => vf.lan_vsi_idx ≠ 0)).map
      (fun vf => HwEvent.vsi_stop_rings_no_wait vf.lan_vsi_idx) ++
  ((pf.vf.take pf.num_alloc_vfs).filter (fun vf => vf.lan_vsi_idx ≠ 0)).map
      (fun vf => HwEvent.vsi_wait_queues_disabled vf.lan_vsi_idx)

/-- Reset all allocated VFs in one go; `o v` is the oracle for VF `v`. -/
def i40e_reset_all_vfs (k : Consts) (o : Nat → ResOracle) (pf : i40e_pf) (flr : Bool) :
    Bool × i40e_pf × List HwEvent :=
  if pf.num_alloc_vfs = 0 then (false, pf, [])
  else if pf.state.I40E_VF_DISABLE then (false, pf, [])
  else
    let pf1 := { pf with state := { pf.state with I40E_VF_DISABLE := true } }
    let t := i40e_reset_all_vfs_trigger k o flr pf1.num_alloc_vfs 0 pf1
    let ev1 := i40e_reset_all_vfs_stop_rings t.1
    let c := i40e_reset_all_vfs_cleanup k o t.1.num_alloc_vfs 0 t.1
    let pf2 := { c.1 with state := { c.1.state with I40E_VF_DISABLE := false } }
    (true, pf2, t.2 ++ ev1 ++ c.2 ++ [HwEvent.flush])

/-- Indicate a pending reset to the VF. -/
def i40e_vc_notify_vf_reset (pf : i40e_pf) (vf : i40e_vf) : List HwEvent :=
  if vf.vf_id ≥ pf.num_alloc_vfs then []
  else if !test_bit .I40E_VF_STATE_INIT vf.vf_states &&
      !test_bit .I40E_VF_STATE_ACTIVE vf.vf_states then []
  else [HwEvent.aq_send_msg_to_vf (vf.vf_id + pf.hw.vf_base_id) .VIRTCHNL_OP_EVENT .I40E_SUCCESS]

/-- The retry loop of `i40e_vc_reset_vf`, `n` attempts left. -/
def i40e_vc_reset_vf_loop (k : Consts) (o : ResOracle) :
    Nat → i40e_pf → i40e_vf → i40e_pf × i40e_vf × List HwEvent
  | 0, pf, vf => (pf, vf, [])
  | n + 1, pf, vf =>
    if pf.state.I40E_VFS_RELEASING then (pf, vf, [])
    else
      let r := i40e_reset_vf k o pf vf false
      if r.1 then (r.2.1, r.2.2.1, r.2.2.2)
      else
        let r2 := i40e_vc_reset_vf_loop k o n r.2.1 r.2.2.1
        (r2.1, r2.2.1, r.2.2.2 ++ r2.2.2)

/-- Reset VF handler. -/
def i40e_vc_reset_vf (k : Consts) (o : ResOracle) (pf : i40e_pf) (vf : i40e_vf)
    (notify_vf : Bool) : i40e_pf × i40e_vf × List HwEvent :=
  let ev0 := if notify_vf then i40e_vc_notify_vf_reset pf vf else []
  let r := i40e_vc_reset_vf_loop k o 20 pf vf
  (r.1, r.2.1, ev0 ++ r.2.2)

/-! ### Queue count renegotiation -/

/-- The first loop of `i40e_check_enough_queue` over the pile entries that
follow the owned range, with `more` entries still wanted. -/
def i40e_check_enough_queue_behind : List Nat → Nat → Bool
  | [], _ => false
  | e :: rest, more =>
    if pile_entry_valid e then false
    else if more = 1 then true
    else i40e_check_enough_queue_behind rest (more - 1)

/-- The second loop of `i40e_check_enough_queue`, at index `i` with
`pool_size` free entries seen in a row. -/
def i40e_check_enough_queue_pool (needed : Nat) : List Nat → Nat → Nat → Option Nat
  | [], _, _ => none
  | e :: rest, i, pool_size =>
    if pile_entry_valid e then i40e_check_enough_queue_pool needed rest (i + 1) 0
    else if needed ≤ pool_size + 1 then some i
    else i40e_check_enough_queue_pool needed rest (i + 1) (pool_size + 1)

/-- Find enough queues; `Except.error` carries the negative return value. -/
def i40e_check_enough_queue (pf : i40e_pf) (vf : i40e_vf) (needed : Nat) : Except Status Nat :=
  let vsi := pf_vsi pf vf.lan_vsi_idx
  let cur_queues := vsi.alloc_queue_pairs
  if cur_queues ≥ needed then .ok vsi.base_queue
  else if cur_queues > 0 &&
      i40e_check_enough_queue_behind (pf.qp_pile.list.drop (vsi.base_queue + cur_queues))
        (needed - cur_queues) then
    .ok vsi.base_queue
  else
    match i40e_check_enough_queue_pool needed pf.qp_pile.list 0 0 with
    | some i => .ok i
    | none => .error .ENOMEM

/-- The longest run of free entries of a list of pile entries, with `run`
free entries just before its head and `best` the longest run seen. -/
def pile_max_free_run : List Nat → Nat → Nat → Nat
  | [], run, best => max run best
  | e :: rest, run, best =>
    if pile_entry_valid e then pile_max_free_run rest 0 (max run best)
    else pile_max_free_run rest (run + 1) best

/-- Modelled from the spec: `i40e_max_lump_qp`, defined outside the sources at
hand: the size of the largest contiguous free range of the queue pile
(section 4.3).  The pile of the model always exists, so the negative result
for a missing pile does not occur. -/
def i40e_max_lump_qp (pf : i40e_pf) : Int :=
  (pile_max_free_run pf.qp_pile.list 0 0 : Nat)

def i40e_set_vf_num_queues (k : Consts) (o : ResOracle) (pf : i40e_pf) (vf : i40e_vf)
    (num_queues : Nat) : Status × i40e_pf × i40e_vf × List HwEvent :=
  let cur_pairs := vf.num_queue_pairs
  if num_queues > I40E_MAX_VF_QUEUES then (.EINVAL, pf, vf, [])
  else if ((num_queues : Int) - (cur_pairs : Int) > (pf.queues_left : Int)) then
    (.EINVAL, pf, vf, [])
  else if (match i40e_check_enough_queue pf vf num_queues with
           | .ok _ => false
           | .error _ => true) then
    (.EINVAL, pf, vf, [])
  else if i40e_max_lump_qp pf < 0 then (.EINVAL, pf, vf, [])
  else if (num_queues : Int) > i40e_max_lump_qp pf then (.EINVAL, pf, vf, [])
  else
    let vf1 := { vf with num_req_queues := num_queues }
    let r := i40e_vc_reset_vf k o pf vf1 true
    (.I40E_SUCCESS, r.1, r.2.1, r.2.2)

/-- Handler of REQUEST_QUEUES; `req_pairs` is `vfres->num_queue_pairs`. -/
def i40e_vc_request_queues_msg (k : Consts) (o : Oracle) (ro : ResOracle) (pf : i40e_pf)
    (vf : i40e_vf) (req_pairs : Nat) : Status × i40e_pf × i40e_vf × List HwEvent :=
  if !i40e_sync_vf_state k o.polls .I40E_VF_STATE_ACTIVE then (.EINVAL, pf, vf, [])
  else i40e_set_vf_num_queues k ro pf vf req_pairs

/-! ### Multi-channel (ADq) requests -/

/-- The value `SPEED_UNKNOWN` (-1) of `linux/ethtool.h` in a `u32`. -/
def SPEED_UNKNOWN : Nat := 0xffffffff

def i40e_vc_link_speed2mbps (link_speed : i40e_aq_link_speed) : Nat :=
  match link_speed with
  | .I40E_LINK_SPEED_100MB => 100
  | .I40E_LINK_SPEED_1GB => 1000
  | .I40E_LINK_SPEED_2_5GB => 2500
  | .I40E_LINK_SPEED_5GB => 5000
  | .I40E_LINK_SPEED_10GB => 10000
  | .I40E_LINK_SPEED_20GB => 20000
  | .I40E_LINK_SPEED_25GB => 25000
  | .I40E_LINK_SPEED_40GB => 40000
  | .I40E_LINK_SPEED_UNKNOWN => SPEED_UNKNOWN

structure virtchnl_channel_info where
  count : Nat
  max_tx_rate : Nat
  deriving DecidableEq, Repr

/-- The payload of ENABLE_CHANNELS. -/
structure virtchnl_tc_info where
  num_tc : Nat
  list : List virtchnl_channel_info
  deriving DecidableEq, Repr

/-- The element `tci->list[i]`. -/
def tci_list (tci : virtchnl_tc_info) (i : Nat) : virtchnl_channel_info :=
  tci.list.getD i { count := 0, max_tx_rate := 0 }

/-- The inner `for` loop of `i40e_is_ok_to_alloc_vsi`: the value of `qp_free`
when it ends, started at entry `i`. -/
def i40e_is_ok_to_alloc_vsi_run (list : List Nat) (i qp_needed : Nat) : Nat :=
  (((list.drop i).take qp_needed).takeWhile (fun e => !pile_entry_valid e)).length

/-- The `while` loop of `i40e_is_ok_to_alloc_vsi` at index `i` with the current
`qp_free`; the result is `qp_free` when the loop ends.  Every iteration moves
`i` forward, so `fuel` = number of entries is enough. -/
def i40e_is_ok_to_alloc_vsi_scan (list : List Nat) (qp_needed : Nat) : Nat → Nat → Nat → Nat
  | 0, _, qp_free => qp_free
  | fuel + 1, i, qp_free =>
    if i < list.length then
      if pile_entry_valid (list.getD i 0) then
        i40e_is_ok_to_alloc_vsi_scan list qp_needed fuel (i + 1) qp_free
      else
        let f := i40e_is_ok_to_alloc_vsi_run list i qp_needed
        if f ≥ qp_needed then f
        else i40e_is_ok_to_alloc_vsi_scan list qp_needed fuel (i + f) f
    else qp_free

/-- The first index below `next_vsi` whose slot is empty, `next_vsi` when
there is none: the loop `while (i < pf->next_vsi && pf->vsi[i]) i++`. -/
def i40e_is_ok_to_alloc_vsi_slot (pf : i40e_pf) : Nat :=
  ((List.range pf.next_vsi).find? (fun i =>
    match pf.vsi[i]? with
    | some (some _) => false
    | _ => true)).getD pf.next_vsi

/-- Check the resources for new channel VSIs.  `pile` is the pointer argument:
`none` is a null pointer. -/
def i40e_is_ok_to_alloc_vsi (pf : i40e_pf) (pile : Option i40e_lump_tracking)
    (qp_needed num_vsi : Nat) : Bool :=
  match pile with
  | none => false
  | some pile =>
    if qp_needed = 0 then false
    else if i40e_is_ok_to_alloc_vsi_scan pile.list qp_needed pile.list.length 0 0
        < qp_needed then false
    else if pf.next_vsi + num_vsi ≥ pf.vsi.length then
      if i40e_is_ok_to_alloc_vsi_slot pf + num_vsi ≥ pf.vsi.length then false else true
    else true

/-- The loop of `i40e_vc_add_qch_msg` that copies the channel data, `n`
channels left, at channel `i`; `Except.error` is the jump to `err` with the VF
as changed so far. -/
def i40e_vc_add_qch_parse (speed : Nat) (tci : virtchnl_tc_info) :
    Nat → Nat → i40e_vf → Except i40e_vf i40e_vf
  | 0, _, vf => .ok vf
  | n + 1, i, vf =>
    let c := tci_list tci i
    if c.max_tx_rate ≠ 0 && decide (c.max_tx_rate > speed) then .error vf
    else
      let vf1 :=
        if c.max_tx_rate ≠ 0 then
          { vf with ch := vf.ch.set i { vf_ch vf i with max_tx_rate := c.max_tx_rate } }
        else vf
      let vf2 := { vf1 with ch := vf1.ch.set i { vf_ch vf1 i with num_qps := c.count } }
      i40e_vc_add_qch_parse speed tci n (i + 1) vf2

/-- The label `err` of a handler: send the response with status `aq_ret`. -/
def handler_err (k : Consts) (o : Oracle) (pf : i40e_pf) (vf : i40e_vf) (op : virtchnl_ops)
    (aq_ret : Status) (ev : List HwEvent) : Status × i40e_pf × i40e_vf × List HwEvent :=
  let r := i40e_vc_send_resp_to_vf k o.send_ret pf vf op aq_ret
  (r.1, pf, r.2.1, ev ++ r.2.2)

/-- Handler of ENABLE_CHANNELS. -/
def i40e_vc_add_qch_msg (k : Consts) (o : Oracle) (ro : ResOracle) (pf : i40e_pf) (vf : i40e_vf)
    (tci : virtchnl_tc_info) : Status × i40e_pf × i40e_vf × List HwEvent :=
  let err := fun (vf : i40e_vf) (aq_ret : Status) =>
    handler_err k o pf vf .VIRTCHNL_OP_ENABLE_CHANNELS aq_ret []
  if !i40e_sync_vf_state k o.polls .I40E_VF_STATE_ACTIVE then err vf .I40E_ERR_PARAM
  else if vf.mac_anti_spoof then err vf .I40E_ERR_PARAM
  else if !vf.driver_caps_ADQ then err vf .I40E_ERR_PARAM
  else if tci.num_tc = 0 || decide (tci.num_tc > I40E_MAX_VF_VSI) then err vf .I40E_ERR_PARAM
  else if (List.range tci.num_tc).any (fun i =>
      (tci_list tci i).count = 0 || decide ((tci_list tci i).count > I40E_DEFAULT_QUEUES_PER_VF))
    then err vf .I40E_ERR_PARAM
  else if decide (tci.num_tc > 1) &&
      !i40e_is_ok_to_alloc_vsi pf (some pf.qp_pile) ((tci.num_tc - 1) * vf.num_queue_pairs)
        (tci.num_tc - 1) then
    err vf .I40E_ERR_CONFIG
  else if pf.queues_left < I40E_MAX_VF_QUEUES - I40E_DEFAULT_QUEUES_PER_VF then
    err vf .I40E_ERR_PARAM
  else
    let vf1 := { vf with num_queue_pairs := I40E_MAX_VF_QUEUES }
    let speed := i40e_vc_link_speed2mbps pf.hw.link_speed
    if speed = SPEED_UNKNOWN then err vf1 .I40E_ERR_PARAM
    else
      let vf2 := { vf1 with num_tc := tci.num_tc }
      match i40e_vc_add_qch_parse speed tci vf2.num_tc 0 vf2 with
      | .error vf3 => err vf3 .I40E_ERR_PARAM
      | .ok vf3 =>
        let vf4 := { vf3 with adq_enabled := true }
        let r := i40e_vc_reset_vf k ro pf vf4 true
        (.I40E_SUCCESS, r.1, r.2.1, r.2.2)

/-- The loop of `i40e_del_qch` over the channels 1 .. num_tc - 1, `n` channels
left, at channel `i`. -/
def i40e_del_qch_loop : Nat → Nat → i40e_pf → i40e_vf → i40e_pf × i40e_vf × List HwEvent
  | 0, _, pf, vf => (pf, vf, [])
  | n + 1, i, pf, vf =>
    if (vf_ch vf i).vsi_idx ≠ 0 then
      let pf1 := i40e_vsi_release pf (vf_ch vf i).vsi_idx
      let vf1 := { vf with ch := vf.ch.set i { vf_ch vf i with vsi_idx := 0, vsi_id := 0 } }
      let r := i40e_del_qch_loop n (i + 1) pf1 vf1
      (r.1, r.2.1, HwEvent.vsi_release (vf_ch vf i).vsi_idx :: r.2.2)
    else i40e_del_qch_loop n (i + 1) pf vf

def i40e_del_qch (pf : i40e_pf) (vf : i40e_vf) : i40e_pf × i40e_vf × List HwEvent :=
  i40e_del_qch_loop (vf.num_tc - 1) 1 pf vf

/-- Handler of DISABLE_CHANNELS.  The cloud filter list is outside the model
state; deleting it appears as one event. -/
def i40e_vc_del_qch_msg (k : Consts) (o : Oracle) (ro : ResOracle) (pf : i40e_pf) (vf : i40e_vf) :
    Status × i40e_pf × i40e_vf × List HwEvent :=
  if !i40e_sync_vf_state k o.polls .I40E_VF_STATE_ACTIVE then
    handler_err k o pf vf .VIRTCHNL_OP_DISABLE_CHANNELS .I40E_ERR_PARAM []
  else
    let d :=
      if vf.adq_enabled then
        let q := i40e_del_qch pf vf
        (q.1, { q.2.1 with adq_enabled := false, num_tc := 0 },
          HwEvent.del_all_cloud_filters vf.vf_id :: q.2.2)
      else (pf, vf, [])
    let r := i40e_vc_reset_vf k ro d.1 d.2.1 true
    (.I40E_SUCCESS, r.1, r.2.1, d.2.2 ++ r.2.2)

/-! ### Cloud filters -/

/-- The fields of `struct virtchnl_l4_spec` the validation reads; `vlan_id` is
the value after `ntohs` (a byte swap, under which `&` and the test against
zero are unchanged), `dst_ip0` is `dst_ip[0]`. -/
structure virtchnl_l4_spec where
  src_mac : Mac
  dst_mac : Mac
  vlan_id : Nat
  dst_ip0 : Nat
  src_port : Nat
  dst_port : Nat
  deriving DecidableEq, Repr

/-- Modelled from the spec: the flow types of the virtchnl protocol header,
which is not among the sources; only TCP over IPv4 and IPv6 are accepted. -/
inductive virtchnl_flow_type where
  | VIRTCHNL_TCP_V4_FLOW
  | VIRTCHNL_TCP_V6_FLOW
  | other_flow (n : Nat)
  deriving DecidableEq, Repr

/-- The payload of ADD_CLOUD_FILTER / DEL_CLOUD_FILTER. -/
structure virtchnl_filter where
  data : virtchnl_l4_spec
  mask : virtchnl_l4_spec
  flow_type : virtchnl_flow_type
  action : Nat
  action_meta : Nat
  deriving DecidableEq, Repr

/-- Validate a cloud filter; the result is `I40E_SUCCESS` or
`I40E_ERR_CONFIG`. -/
def i40e_validate_cloud_filter (pf : i40e_pf) (vf : i40e_vf) (tc_filter : virtchnl_filter) :
    Status :=
  let mask := tc_filter.mask
  let data := tc_filter.data
  if tc_filter.action = 0 then .I40E_ERR_CONFIG
  else if tc_filter.action_meta > I40E_MAX_VF_VSI then .I40E_ERR_CONFIG
  else if (if mask.dst_mac.b0 ≠ 0 && mask.dst_ip0 = 0 then
        let vsi := pf_vsi pf vf.lan_vsi_idx
        !i40e_find_mac vsi data.dst_mac ||
          (mask.vlan_id ≠ 0 && !vsi.mac_filter_hash.any (fun f => f.vlan = (data.vlan_id : Int)))
      else !vf.vf_caps.I40E_VIRTCHNL_VF_CAP_PRIVILEGE) then .I40E_ERR_CONFIG
  else if (mask.dst_mac.b0 &&& data.dst_mac.b0) ≠ 0 &&
      (is_broadcast_ether_addr data.dst_mac || is_zero_ether_addr data.dst_mac) then
    .I40E_ERR_CONFIG
  else if (mask.src_mac.b0 &&& data.src_mac.b0) ≠ 0 &&
      (is_broadcast_ether_addr data.src_mac || is_zero_ether_addr data.src_mac) then
    .I40E_ERR_CONFIG
  else if (mask.dst_port &&& data.dst_port) ≠ 0 && data.dst_port = 0 then .I40E_ERR_CONFIG
  else if (mask.src_port &&& data.src_port) ≠ 0 && data.src_port = 0 then .I40E_ERR_CONFIG
  else if tc_filter.flow_type ≠ .VIRTCHNL_TCP_V6_FLOW &&
      tc_filter.flow_type ≠ .VIRTCHNL_TCP_V4_FLOW then .I40E_ERR_CONFIG
  else if (mask.vlan_id &&& data.vlan_id) ≠ 0 && decide ((data.vlan_id : Int) > I40E_MAX_VLANID)
    then .I40E_ERR_CONFIG
  else .I40E_SUCCESS

/-! ### The mailbox message and the opcode handlers -/

/-- The message buffer as the handlers read it: each handler casts the buffer
to its own payload type, and each field below is the buffer seen through one
of these casts.  `vsi_id` is the VSI id every queue, VLAN and RSS payload
starts with, `vlan_id` the `num_elements` VLAN ids of a VLAN filter list,
`len_ok` whether the length field of an RSS payload has the expected value. -/
structure Msg where
  version : virtchnl_version_info
  driver_caps_ADQ : Bool
  driver_caps_RX_POLLING : Bool
  promisc_info : virtchnl_promisc_info
  ether_addr_list : virtchnl_ether_addr_list
  num_queue_pairs : Nat
  tc_info : virtchnl_tc_info
  filter : virtchnl_filter
  vsi_id : Nat
  vlan_id : List Nat
  len_ok : Bool
  hena : Nat

/-- The shape of the handlers whose work between the checks and the response
is not modelled statement by statement (queue, IRQ, RSS and statistics
programming): when the checks fail the response carries `I40E_ERR_PARAM`;
otherwise the work happens, leaving a status, and the response carries it.
The work sends nothing to the VF and does not write `vf_id`, `num_alloc_vfs`
or the hardware capabilities. -/
def handler_with_work (k : Consts) (o : Oracle) (pf : i40e_pf) (vf : i40e_vf)
    (op : virtchnl_ops) (checks_ok : Bool) : Status × i40e_pf × i40e_vf × List HwEvent :=
  if !checks_ok then handler_err k o pf vf op .I40E_ERR_PARAM []
  else
    let w := o.work op pf vf
    let pf1 := { w.2.1 with num_alloc_vfs := pf.num_alloc_vfs, hw := pf.hw }
    let vf1 := { w.2.2 with vf_id := vf.vf_id }
    handler_err k o pf1 vf1 op w.1 [HwEvent.handler_work op]

/-- Handler of VERSION. -/
def i40e_vc_get_version_msg (k : Consts) (o : Oracle) (pf : i40e_pf) (vf : i40e_vf) (msg : Msg) :
    Status × i40e_pf × i40e_vf × List HwEvent :=
  handler_err k o pf { vf with vf_ver := msg.version } .VIRTCHNL_OP_VERSION .I40E_SUCCESS []

/-- Modelled from the spec: the version test of the virtchnl protocol header,
which is not among the sources: protocol version 1.1. -/
def VF_IS_V11 (ver : virtchnl_version_info) : Bool := ver.major == 1 && ver.minor == 1

/-- Handler of GET_VF_RESOURCES.  Of the capability negotiation only the two
capability bits tested elsewhere are kept; the content of the reply is not
modelled. -/
def i40e_vc_get_vf_resources_msg (k : Consts) (o : Oracle) (pf : i40e_pf) (vf : i40e_vf)
    (msg : Msg) : Status × i40e_pf × i40e_vf × List HwEvent :=
  let op := virtchnl_ops.VIRTCHNL_OP_GET_VF_RESOURCES
  if !i40e_sync_vf_state k o.polls .I40E_VF_STATE_INIT then
    handler_err k o pf vf op .I40E_ERR_PARAM []
  else if !o.kzalloc_ok 0 then handler_err k o pf vf op .I40E_ERR_NO_MEMORY []
  else
    let vf1 :=
      if VF_IS_V11 vf.vf_ver then
        { vf with driver_caps_ADQ := msg.driver_caps_ADQ,
                  driver_caps_RX_POLLING := msg.driver_caps_RX_POLLING }
      else { vf with driver_caps_ADQ := false, driver_caps_RX_POLLING := false }
    if vf1.driver_caps_RX_POLLING && pf.flags_MFP_ENABLED then
      handler_err k o pf vf1 op .I40E_ERR_PARAM []
    else
      let vf2 := { vf1 with vf_states := set_bit .I40E_VF_STATE_ACTIVE vf1.vf_states }
      let vf3 := { vf2 with
        vf_states := (set_bit .I40E_VF_STATE_RESOURCES_LOADED vf2.vf_states) }
      handler_err k o pf vf3 op .I40E_SUCCESS []

/-- Handler of CONFIG_PROMISCUOUS_MODE in the shape of the other handlers. -/
def i40e_vc_config_promiscuous_mode (k : Consts) (o : Oracle) (pf : i40e_pf) (vf : i40e_vf)
    (msg : Msg) : Status × i40e_pf × i40e_vf × List HwEvent :=
  let r := i40e_vc_config_promiscuous_mode_msg k o pf vf msg.promisc_info
  (r.1, pf, r.2.1, r.2.2)

def i40e_vc_config_queues_msg (k : Consts) (o : Oracle) (pf : i40e_pf) (vf : i40e_vf) :
    Status × i40e_pf × i40e_vf × List HwEvent :=
  handler_with_work k o pf vf .VIRTCHNL_OP_CONFIG_VSI_QUEUES
    (i40e_sync_vf_state k o.polls .I40E_VF_STATE_ACTIVE)

def i40e_vc_config_irq_map_msg (k : Consts) (o : Oracle) (pf : i40e_pf) (vf : i40e_vf) :
    Status × i40e_pf × i40e_vf × List HwEvent :=
  handler_with_work k o pf vf .VIRTCHNL_OP_CONFIG_IRQ_MAP
    (i40e_sync_vf_state k o.polls .I40E_VF_STATE_ACTIVE)

def i40e_vc_enable_queues_msg (k : Consts) (o : Oracle) (pf : i40e_pf) (vf : i40e_vf) :
    Status × i40e_pf × i40e_vf × List HwEvent :=
  handler_with_work k o pf vf .VIRTCHNL_OP_ENABLE_QUEUES
    (!vf.pf_ctrl_disable && i40e_sync_vf_state k o.polls .I40E_VF_STATE_ACTIVE)

def i40e_vc_disable_queues_msg (k : Consts) (o : Oracle) (pf : i40e_pf) (vf : i40e_vf) :
    Status × i40e_pf × i40e_vf × List HwEvent :=
  handler_with_work k o pf vf .VIRTCHNL_OP_DISABLE_QUEUES
    (i40e_sync_vf_state k o.polls .I40E_VF_STATE_ACTIVE)

def i40e_vc_get_stats_msg (k : Consts) (o : Oracle) (pf : i40e_pf) (vf : i40e_vf) :
    Status × i40e_pf × i40e_vf × List HwEvent :=
  handler_with_work k o pf vf .VIRTCHNL_OP_GET_STATS
    (i40e_sync_vf_state k o.polls .I40E_VF_STATE_ACTIVE)

/-- Handler of ADD_ETH_ADDR. -/
def i40e_vc_add_mac_addr_msg (k : Consts) (o : Oracle) (pf : i40e_pf) (vf : i40e_vf)
    (msg : Msg) : Status × i40e_pf × i40e_vf × List HwEvent :=
  let al := msg.ether_addr_list
  if !i40e_sync_vf_state k o.polls .I40E_VF_STATE_ACTIVE ||
      !i40e_vc_isvalid_vsi_id pf vf al.vsi_id then
    let r := i40e_vc_send_msg_to_vf_ex k o.send_ret pf vf .VIRTCHNL_OP_ADD_ETH_ADDR
      .I40E_ERR_PARAM false
    (r.1, pf, r.2.1, r.2.2)
  else
    let a := i40e_add_vf_mac_filters o.mac pf vf (pf_vsi pf vf.lan_vsi_idx) (some false) al
    let pf1 := { pf with vsi := pf.vsi.set vf.lan_vsi_idx (some a.2.2.1) }
    let r := i40e_vc_send_msg_to_vf_ex k o.send_ret pf1 a.2.1 .VIRTCHNL_OP_ADD_ETH_ADDR a.1
      (a.2.2.2.1.getD false)
    (r.1, pf1, r.2.1, a.2.2.2.2 ++ r.2.2)

/-- Handler of DEL_ETH_ADDR. -/
def i40e_vc_del_mac_addr_msg (k : Consts) (o : Oracle) (pf : i40e_pf) (vf : i40e_vf)
    (msg : Msg) : Status × i40e_pf × i40e_vf × List HwEvent :=
  let al := msg.ether_addr_list
  if !i40e_sync_vf_state k o.polls .I40E_VF_STATE_ACTIVE ||
      !i40e_vc_isvalid_vsi_id pf vf al.vsi_id then
    handler_err k o pf vf .VIRTCHNL_OP_DEL_ETH_ADDR .I40E_ERR_PARAM []
  else
    let d := i40e_del_vf_mac_filters o.mac vf (pf_vsi pf vf.lan_vsi_idx) al
    let pf1 := { pf with vsi := pf.vsi.set vf.lan_vsi_idx (some d.2.2.1) }
    handler_err k o pf1 d.2.1 .VIRTCHNL_OP_DEL_ETH_ADDR d.1 d.2.2.2

/-- Check if the VF can add another VLAN filter. -/
def i40e_check_vf_vlan_cap (vf : i40e_vf) : Status :=
  if decide (vf.num_vlan + 1 > I40E_VC_MAX_VLAN_PER_VF) &&
      !vf.vf_caps.I40E_VIRTCHNL_VF_CAP_PRIVILEGE then .I40E_ERR_CONFIG
  else .I40E_SUCCESS

/-- Add a VLAN tag to the VLAN list of the VM; `ok` says whether the
allocation of the entry succeeds.  The width of `num_vlan` is declared outside
the sources at hand; the model counts without wrap-around. -/
def i40e_add_vmvlan_to_list (ok : Bool) (vf : i40e_vf) (vlan : Nat) : Status × i40e_vf :=
  if !ok then (.I40E_ERR_NO_MEMORY, vf)
  else (.I40E_SUCCESS,
    { vf with num_vlan := vf.num_vlan + 1, vm_vlan_list := vlan :: vf.vm_vlan_list })

/-- Delete a VLAN tag from the VLAN list of the VM: the first entry with that
tag, if there is one.  An entry being found, the list is not empty; the model
does not wrap `num_vlan` around at 0. -/
def i40e_del_vmvlan_from_list (o : VlanOracle) (vsi : i40e_vsi) (vf : i40e_vf) (vlan : Nat) :
    i40e_vsi × i40e_vf :=
  if vf.vm_vlan_list.contains vlan then
    (o.vsi_kill_vlan vsi vlan,
      { vf with num_vlan := vf.num_vlan - 1, vm_vlan_list := vf.vm_vlan_list.erase vlan })
  else (vsi, vf)

/-- The promiscuous-mode commands issued for one VLAN id by the VLAN
handlers. -/
def i40e_vc_vlan_promisc (vf : i40e_vf) (seid : Nat) (enable : Bool) (vid : Nat) :
    List HwEvent :=
  (if test_bit .I40E_VF_STATE_UC_PROMISC vf.vf_states then
    [HwEvent.aq_set_vsi_uc_promisc_on_vlan seid enable (vid : Int)] else []) ++
  (if test_bit .I40E_VF_STATE_MC_PROMISC vf.vf_states then
    [HwEvent.aq_set_vsi_mc_promisc_on_vlan seid enable (vid : Int)] else [])

/-- The statement `if (!ret && vfl->vlan_id[i]) aq_ret =
i40e_add_vmvlan_to_list(...)` of the second loop of `i40e_vc_add_vlan_msg`:
the value of `aq_ret` after it (it was `I40E_SUCCESS` before) and the VF. -/
def i40e_vc_add_vlan_entry (o : VlanOracle) (i : Nat) (ret : Status) (vf : i40e_vf)
    (vid : Nat) : Status × i40e_vf :=
  if !ret.isErr && vid ≠ 0 then i40e_add_vmvlan_to_list (o.kzalloc_ok i) vf vid
  else (.I40E_SUCCESS, vf)

/-- The second loop of `i40e_vc_add_vlan_msg`, at element `i`.  Result: the
value of `aq_ret` when the loop is left, the VSI, the VF, the events. -/
def i40e_vc_add_vlan_loop (o : VlanOracle) :
    List Nat → Nat → i40e_vsi → i40e_vf → Status × i40e_vsi × i40e_vf × List HwEvent
  | [], _, vsi, vf => (.I40E_SUCCESS, vsi, vf, [])
  | vid :: rest, i, vsi, vf =>
    if (i40e_check_vf_vlan_cap vf).isErr then (i40e_check_vf_vlan_cap vf, vsi, vf, [])
    else if vid ≠ 0 && o.trunk_set_by_pf then (.I40E_ERR_CONFIG, vsi, vf, [])
    else
      let a := o.vsi_add_vlan i vsi vid
      let l := i40e_vc_add_vlan_entry o i a.1 vf vid
      if l.1.isErr then (l.1, a.2, l.2, [])
      else
        let r := i40e_vc_add_vlan_loop o rest (i + 1) a.2 l.2
        (r.1, r.2.1, r.2.2.1, i40e_vc_vlan_promisc l.2 vsi.seid true vid ++ r.2.2.2)

/-- Handler of ADD_VLAN. -/
def i40e_vc_add_vlan_msg (k : Consts) (o : Oracle) (pf : i40e_pf) (vf : i40e_vf) (msg : Msg) :
    Status × i40e_pf × i40e_vf × List HwEvent :=
  let op := virtchnl_ops.VIRTCHNL_OP_ADD_VLAN
  if !i40e_sync_vf_state k o.polls .I40E_VF_STATE_ACTIVE ||
      !i40e_vc_isvalid_vsi_id pf vf msg.vsi_id then
    handler_err k o pf vf op .I40E_ERR_PARAM []
  else if msg.vlan_id.any (fun vid =>
      (o.vlan.is_vid && vid ≠ 0) || decide ((vid : Int) > I40E_MAX_VLANID)) then
    handler_err k o pf vf op .I40E_ERR_PARAM []
  else
    let r := i40e_vc_add_vlan_loop o.vlan msg.vlan_id 0 (pf_vsi pf vf.lan_vsi_idx) vf
    let pf1 := { pf with vsi := pf.vsi.set vf.lan_vsi_idx (some r.2.1) }
    handler_err k o pf1 r.2.2.1 op r.1 (HwEvent.vlan_stripping vf.lan_vsi_idx true :: r.2.2.2)

/-- The last loop of `i40e_vc_remove_vlan_msg`. -/
def i40e_vc_remove_vlan_loop (o : VlanOracle) :
    List Nat → i40e_vsi → i40e_vf → i40e_vsi × i40e_vf × List HwEvent
  | [], vsi, vf => (vsi, vf, [])
  | vid :: rest, vsi, vf =>
    let d := i40e_del_vmvlan_from_list o vsi vf vid
    let r := i40e_vc_remove_vlan_loop o rest d.1 d.2
    (r.1, r.2.1, i40e_vc_vlan_promisc d.2 vsi.seid false vid ++ r.2.2)

/-- Handler of DEL_VLAN. -/
def i40e_vc_remove_vlan_msg (k : Consts) (o : Oracle) (pf : i40e_pf) (vf : i40e_vf) (msg : Msg) :
    Status × i40e_pf × i40e_vf × List HwEvent :=
  let op := virtchnl_ops.VIRTCHNL_OP_DEL_VLAN
  if !i40e_sync_vf_state k o.polls .I40E_VF_STATE_ACTIVE ||
      !i40e_vc_isvalid_vsi_id pf vf msg.vsi_id then
    handler_err k o pf vf op .I40E_ERR_PARAM []
  else if !vf.vf_caps.I40E_VIRTCHNL_VF_CAP_PRIVILEGE && o.vlan.trunk_vlans_weight ≠ 0 then
    handler_err k o pf vf op .I40E_SUCCESS []
  else if msg.vlan_id.any (fun vid => decide ((vid : Int) > I40E_MAX_VLANID)) then
    handler_err k o pf vf op .I40E_ERR_PARAM []
  else if o.vlan.is_vid then
    handler_err k o pf vf op
      (if msg.vlan_id.length > 1 || msg.vlan_id.getD 0 o.vlan.stray ≠ 0 then .I40E_ERR_PARAM
       else .I40E_SUCCESS) []
  else
    let r := i40e_vc_remove_vlan_loop o.vlan msg.vlan_id (pf_vsi pf vf.lan_vsi_idx) vf
    let pf1 := { pf with vsi := pf.vsi.set vf.lan_vsi_idx (some r.1) }
    handler_err k o pf1 r.2.1 op .I40E_SUCCESS r.2.2

def i40e_vc_config_rss_key (k : Consts) (o : Oracle) (pf : i40e_pf) (vf : i40e_vf) (msg : Msg) :
    Status × i40e_pf × i40e_vf × List HwEvent :=
  handler_with_work k o pf vf .VIRTCHNL_OP_CONFIG_RSS_KEY
    (i40e_sync_vf_state k o.polls .I40E_VF_STATE_ACTIVE &&
      i40e_vc_isvalid_vsi_id pf vf msg.vsi_id && msg.len_ok)

def i40e_vc_config_rss_lut (k : Consts) (o : Oracle) (pf : i40e_pf) (vf : i40e_vf) (msg : Msg) :
    Status × i40e_pf × i40e_vf × List HwEvent :=
  handler_with_work k o pf vf .VIRTCHNL_OP_CONFIG_RSS_LUT
    (i40e_sync_vf_state k o.polls .I40E_VF_STATE_ACTIVE &&
      i40e_vc_isvalid_vsi_id pf vf msg.vsi_id && msg.len_ok)

/-- Handler of GET_RSS_HENA_CAPS. -/
def i40e_vc_get_rss_hena (k : Consts) (o : Oracle) (pf : i40e_pf) (vf : i40e_vf) :
    Status × i40e_pf × i40e_vf × List HwEvent :=
  let op := virtchnl_ops.VIRTCHNL_OP_GET_RSS_HENA_CAPS
  if !i40e_sync_vf_state k o.polls .I40E_VF_STATE_ACTIVE then
    handler_err k o pf vf op .I40E_ERR_PARAM []
  else if !o.kzalloc_ok 0 then handler_err k o pf vf op .I40E_ERR_NO_MEMORY []
  else handler_err k o pf vf op .I40E_SUCCESS []

/-- Handler of SET_RSS_HENA. -/
def i40e_vc_set_rss_hena (k : Consts) (o : Oracle) (pf : i40e_pf) (vf : i40e_vf) (msg : Msg) :
    Status × i40e_pf × i40e_vf × List HwEvent :=
  let op := virtchnl_ops.VIRTCHNL_OP_SET_RSS_HENA
  if !i40e_sync_vf_state k o.polls .I40E_VF_STATE_ACTIVE then
    handler_err k o pf vf op .I40E_ERR_PARAM []
  else
    handler_err k o pf vf op .I40E_SUCCESS
      [HwEvent.wr32 (.I40E_VFQF_HENA1 0 vf.vf_id) (msg.hena % 2 ^ 32),
       HwEvent.wr32 (.I40E_VFQF_HENA1 1 vf.vf_id) (msg.hena / 2 ^ 32 % 2 ^ 32)]

/-- Handlers of ENABLE_VLAN_STRIPPING (`enable = true`) and
DISABLE_VLAN_STRIPPING (`enable = false`); `o.aq 0` is what
`i40e_vlan_stripping_enable` / `_disable` returns. -/
def i40e_vc_vlan_stripping (k : Consts) (o : Oracle) (pf : i40e_pf) (vf : i40e_vf)
    (enable : Bool) : Status × i40e_pf × i40e_vf × List HwEvent :=
  let op := if enable then virtchnl_ops.VIRTCHNL_OP_ENABLE_VLAN_STRIPPING
            else virtchnl_ops.VIRTCHNL_OP_DISABLE_VLAN_STRIPPING
  if !i40e_sync_vf_state k o.polls .I40E_VF_STATE_ACTIVE then
    handler_err k o pf vf op .I40E_ERR_PARAM []
  else
    let vf1 := if !(o.aq 0).isErr then { vf with vlan_stripping := enable } else vf
    handler_err k o pf vf1 op (o.aq 0) [HwEvent.vlan_stripping vf.lan_vsi_idx enable]

def i40e_vc_enable_vlan_stripping (k : Consts) (o : Oracle) (pf : i40e_pf) (vf : i40e_vf) :
    Status × i40e_pf × i40e_vf × List HwEvent :=
  i40e_vc_vlan_stripping k o pf vf true

def i40e_vc_disable_vlan_stripping (k : Consts) (o : Oracle) (pf : i40e_pf) (vf : i40e_vf) :
    Status × i40e_pf × i40e_vf × List HwEvent :=
  i40e_vc_vlan_stripping k o pf vf false

/-- Handler of REQUEST_QUEUES in the shape of the other handlers. -/
def i40e_vc_request_queues (k : Consts) (o : Oracle) (ro : ResOracle) (pf : i40e_pf)
    (vf : i40e_vf) (msg : Msg) : Status × i40e_pf × i40e_vf × List HwEvent :=
  i40e_vc_request_queues_msg k o ro pf vf msg.num_queue_pairs

/-- Handler of DEL_CLOUD_FILTER.  The cloud filter list is outside the model
state: the admin-queue command and the list update are the work. -/
def i40e_vc_del_cloud_filter (k : Consts) (o : Oracle) (pf : i40e_pf) (vf : i40e_vf)
    (msg : Msg) : Status × i40e_pf × i40e_vf × List HwEvent :=
  let op := virtchnl_ops.VIRTCHNL_OP_DEL_CLOUD_FILTER
  if !i40e_sync_vf_state k o.polls .I40E_VF_STATE_ACTIVE then
    handler_err k o pf vf op .I40E_ERR_PARAM []
  else if !vf.adq_enabled then handler_err k o pf vf op .I40E_ERR_PARAM []
  else if (i40e_validate_cloud_filter pf vf msg.filter).isErr then
    handler_err k o pf vf op .I40E_ERR_PARAM []
  else handler_with_work k o pf vf op true

/-- Handler of ADD_CLOUD_FILTER.  The cloud filter list is outside the model
state: the admin-queue command and the list update are the work.  A failing
`kzalloc` of the filter returns -ENOMEM at once. -/
def i40e_vc_add_cloud_filter (k : Consts) (o : Oracle) (pf : i40e_pf) (vf : i40e_vf)
    (msg : Msg) : Status × i40e_pf × i40e_vf × List HwEvent :=
  let op := virtchnl_ops.VIRTCHNL_OP_ADD_CLOUD_FILTER
  let err_out := fun (aq_ret : Status) (is_quiet : Bool) =>
    let r := i40e_vc_send_msg_to_vf_ex k o.send_ret pf vf op aq_ret is_quiet
    (r.1, pf, r.2.1, r.2.2)
  if !i40e_sync_vf_state k o.polls .I40E_VF_STATE_ACTIVE then err_out .I40E_ERR_PARAM false
  else if !vf.adq_enabled then err_out .I40E_ERR_PARAM false
  else if pf.fdir_pf_active_filters ≠ 0 || !pf.fdir_filter_list_empty then
    err_out .I40E_ERR_PARAM true
  else if (i40e_validate_cloud_filter pf vf msg.filter).isErr then err_out .I40E_ERR_PARAM false
  else if !o.kzalloc_ok 0 then (.ENOMEM, pf, vf, [])
  else
    let w := o.work op pf vf
    let pf1 := { w.2.1 with num_alloc_vfs := pf.num_alloc_vfs, hw := pf.hw }
    let vf1 := { w.2.2 with vf_id := vf.vf_id }
    let r := i40e_vc_send_msg_to_vf_ex k o.send_ret pf1 vf1 op .I40E_SUCCESS false
    (r.1, pf1, r.2.1, HwEvent.handler_work op :: r.2.2)

/-- Send a link status message to one VF. -/
def i40e_vc_notify_vf_link_state (pf : i40e_pf) (vf : i40e_vf) : List HwEvent :=
  [HwEvent.aq_send_msg_to_vf (vf.vf_id + pf.hw.vf_base_id) .VIRTCHNL_OP_EVENT .I40E_SUCCESS]

/-- The `switch (v_opcode)` of `i40e_vc_process_vf_msg`, built with
`__TC_MQPRIO_MODE_MAX`. -/
def i40e_vc_process_vf_msg_switch (k : Consts) (o : Oracle) (ro : ResOracle) (pf : i40e_pf)
    (vf : i40e_vf) (v_opcode : virtchnl_ops) (msg : Msg) :
    Status × i40e_pf × i40e_vf × List HwEvent :=
  match v_opcode with
  | .VIRTCHNL_OP_VERSION => i40e_vc_get_version_msg k o pf vf msg
  | .VIRTCHNL_OP_GET_VF_RESOURCES =>
    let r := i40e_vc_get_vf_resources_msg k o pf vf msg
    (r.1, r.2.1, r.2.2.1, r.2.2.2 ++ i40e_vc_notify_vf_link_state r.2.1 r.2.2.1)
  | .VIRTCHNL_OP_RESET_VF =>
    let vf1 := { vf with
      vf_states := (clear_bit .I40E_VF_STATE_RESOURCES_LOADED vf.vf_states) }
    let r := i40e_vc_reset_vf k ro pf vf1 false
    (.I40E_SUCCESS, r.1, r.2.1, r.2.2)
  | .VIRTCHNL_OP_CONFIG_PROMISCUOUS_MODE => i40e_vc_config_promiscuous_mode k o pf vf msg
  | .VIRTCHNL_OP_CONFIG_VSI_QUEUES => i40e_vc_config_queues_msg k o pf vf
  | .VIRTCHNL_OP_CONFIG_IRQ_MAP => i40e_vc_config_irq_map_msg k o pf vf
  | .VIRTCHNL_OP_ENABLE_QUEUES =>
    let r := i40e_vc_enable_queues_msg k o pf vf
    (r.1, r.2.1, r.2.2.1, r.2.2.2 ++ i40e_vc_notify_vf_link_state r.2.1 r.2.2.1)
  | .VIRTCHNL_OP_DISABLE_QUEUES => i40e_vc_disable_queues_msg k o pf vf
  | .VIRTCHNL_OP_ADD_ETH_ADDR => i40e_vc_add_mac_addr_msg k o pf vf msg
  | .VIRTCHNL_OP_DEL_ETH_ADDR => i40e_vc_del_mac_addr_msg k o pf vf msg
  | .VIRTCHNL_OP_ADD_VLAN => i40e_vc_add_vlan_msg k o pf vf msg
  | .VIRTCHNL_OP_DEL_VLAN => i40e_vc_remove_vlan_msg k o pf vf msg
  | .VIRTCHNL_OP_GET_STATS => i40e_vc_get_stats_msg k o pf vf
  | .VIRTCHNL_OP_CONFIG_RSS_KEY => i40e_vc_config_rss_key k o pf vf msg
  | .VIRTCHNL_OP_CONFIG_RSS_LUT => i40e_vc_config_rss_lut k o pf vf msg
  | .VIRTCHNL_OP_GET_RSS_HENA_CAPS => i40e_vc_get_rss_hena k o pf vf
  | .VIRTCHNL_OP_SET_RSS_HENA => i40e_vc_set_rss_hena k o pf vf msg
  | .VIRTCHNL_OP_ENABLE_VLAN_STRIPPING => i40e_vc_enable_vlan_stripping k o pf vf
  | .VIRTCHNL_OP_DISABLE_VLAN_STRIPPING => i40e_vc_disable_vlan_stripping k o pf vf
  | .VIRTCHNL_OP_REQUEST_QUEUES => i40e_vc_request_queues k o ro pf vf msg
  | .VIRTCHNL_OP_ENABLE_CHANNELS => i40e_vc_add_qch_msg k o ro pf vf msg.tc_info
  | .VIRTCHNL_OP_DISABLE_CHANNELS => i40e_vc_del_qch_msg k o ro pf vf
  | .VIRTCHNL_OP_ADD_CLOUD_FILTER => i40e_vc_add_cloud_filter k o pf vf msg
  | .VIRTCHNL_OP_DEL_CLOUD_FILTER => i40e_vc_del_cloud_filter k o pf vf msg
  | op => handler_err k o pf vf op .I40E_ERR_NOT_IMPLEMENTED []

/-- The cast `(s16)` of an unsigned value. -/
def s16 (n : Nat) : Int :=
  if n % 65536 < 32768 then ((n % 65536 : Nat) : Int) else ((n % 65536 : Nat) : Int) - 65536

/-- Process a request from a VF: return value, PF, hardware events.  `vf_id`
is the absolute id of the source VF (a signed 16-bit number).  The array
`pf->vf` holds `num_alloc_vfs` descriptors; the model returns -EINVAL as well
where its list of descriptors is shorter. -/
def i40e_vc_process_vf_msg (k : Consts) (o : Oracle) (ro : ResOracle) (pf : i40e_pf)
    (vf_id : Int) (v_opcode : virtchnl_ops) (msg : Msg) : Status × i40e_pf × List HwEvent :=
  let pf0 := { pf with vf_aq_requests := pf.vf_aq_requests + 1 }
  let local_vf_id : Int := vf_id - s16 pf0.hw.vf_base_id
  if local_vf_id < 0 || local_vf_id ≥ (pf0.num_alloc_vfs : Int) then (.EINVAL, pf0, [])
  else
    match pf0.vf[local_vf_id.toNat]? with
    | none => (.EINVAL, pf0, [])
    | some vf =>
      if test_bit .I40E_VF_STATE_DISABLED vf.vf_states then (.I40E_ERR_PARAM, pf0, [])
      else
        match o.validate_ret with
        | .ok =>
          let r := i40e_vc_process_vf_msg_switch k o ro pf0 vf v_opcode msg
          (r.1, { r.2.1 with vf := r.2.1.vf.set local_vf_id.toNat r.2.2.1 }, r.2.2.2)
        | v =>
          let r := i40e_vc_send_resp_to_vf k o.send_ret pf0 vf v_opcode .I40E_ERR_PARAM
          (if v = .VIRTCHNL_STATUS_ERR_PARAM then .EPERM else .EINVAL,
            { pf0 with vf := pf0.vf.set local_vf_id.toNat r.2.1 }, r.2.2)

/-- The number of messages with opcode `op` among the events that go to the VF
with absolute id `abs_vf_id`. -/
def count_msgs_to_vf (abs_vf_id : Nat) (op : virtchnl_ops) (ev : List HwEvent) : Nat :=
  ev.countP (fun e =>
    match e with
    | .aq_send_msg_to_vf a o _ => a == abs_vf_id && o == op
    | _ => false)

/-- Whether no event of the list is a message to a VF. -/
def no_msgs (ev : List HwEvent) : Bool :=
  ev.all (fun e =>
    match e with
    | .aq_send_msg_to_vf _ _ _ => false
    | _ => true)

/-! ### Sequences of responses -/

/-- One call of `i40e_vc_send_msg_to_vf_ex`: its opcode, `v_retval`,
`is_quiet`, and what `i40e_aq_send_msg_to_vf` returns for it. -/
structure vc_response where
  v_opcode : virtchnl_ops
  v_retval : Status
  is_quiet : Bool
  send_ret : Status

/-- The VF descriptor after the responses of `rs` have been sent one after
the other through `i40e_vc_send_msg_to_vf_ex`. -/
def send_responses (k : Consts) (pf : i40e_pf) (vf : i40e_vf) (rs : List vc_response) : i40e_vf :=
  rs.foldl (fun v r =>
    (i40e_vc_send_msg_to_vf_ex k r.send_ret pf v r.v_opcode r.v_retval r.is_quiet).2.1) vf

/-- The number of responses at the end of `rs` that all satisfy `p`. -/
def trailing_run (p : vc_response → Bool) (rs : List vc_response) : Nat :=
  (rs.reverse.takeWhile p).length

/-- A failed response in the claim's words: one whose `v_retval` is not
zero. -/
def vc_response.failed (r : vc_response) : Bool := r.v_retval.isErr

/-- A response the function counts as invalid: failed and not quiet. -/
def vc_response.counted (r : vc_response) : Bool := r.v_retval.isErr && !r.is_quiet

/-- The trusted quota in the words of the specification: an equal share
(division by the number of allocated VFs) of the per-port pool that remains
after the untrusted baseline has been reserved for every other VF.  It is
compared with `I40E_VC_MAX_MACVLAN_PER_TRUSTED_VF`, the macro of the code. -/
def trusted_quota_as_specified (vf_num : Int) (num_ports : Int) : Int :=
  Int.tdiv (I40E_MAX_MACVLAN_PER_PF num_ports - (vf_num - 1) * I40E_VC_MAX_MAC_ADDR_PER_VF) vf_num

/-! ### Sequences of VLAN requests -/

/-- One ADD_VLAN (`is_add`) or DEL_VLAN message with the environment of its
handling. -/
structure vlan_request where
  is_add : Bool
  o : Oracle
  msg : Msg

/-- The PF and the VF after the handler of one VLAN request. -/
def vlan_request.apply (k : Consts) (s : i40e_pf × i40e_vf) (r : vlan_request) :
    i40e_pf × i40e_vf :=
  if r.is_add then
    ((i40e_vc_add_vlan_msg k r.o s.1 s.2 r.msg).2.1, (i40e_vc_add_vlan_msg k r.o s.1 s.2 r.msg).2.2.1)
  else
    ((i40e_vc_remove_vlan_msg k r.o s.1 s.2 r.msg).2.1,
      (i40e_vc_remove_vlan_msg k r.o s.1 s.2 r.msg).2.2.1)

/-- The checks of `i40e_vc_add_qch_msg` that come before its first write to the
VF descriptor, in the order of the source; the result is the `aq_ret` of the
first check that fails (the jump to `err`), `none` when all of them pass. -/
def i40e_vc_add_qch_msg_checks (k : Consts) (o : Oracle) (pf : i40e_pf) (vf : i40e_vf)
    (tci : virtchnl_tc_info) : Option Status :=
  if !i40e_sync_vf_state k o.polls .I40E_VF_STATE_ACTIVE then some .I40E_ERR_PARAM
  else if vf.mac_anti_spoof then some .I40E_ERR_PARAM
  else if !vf.driver_caps_ADQ then some .I40E_ERR_PARAM
  else if tci.num_tc = 0 || decide (tci.num_tc > I40E_MAX_VF_VSI) then some .I40E_ERR_PARAM
  else if (List.range tci.num_tc).any (fun i =>
      (tci_list tci i).count = 0 || decide ((tci_list tci i).count > I40E_DEFAULT_QUEUES_PER_VF))
    then some .I40E_ERR_PARAM
  else if decide (tci.num_tc > 1) &&
      !i40e_is_ok_to_alloc_vsi pf (some pf.qp_pile) ((tci.num_tc - 1) * vf.num_queue_pairs)
        (tci.num_tc - 1) then
    some .I40E_ERR_CONFIG
  else if pf.queues_left < I40E_MAX_VF_QUEUES - I40E_DEFAULT_QUEUES_PER_VF then
    some .I40E_ERR_PARAM
  else none

/-! ### The lifecycle of one VF -/

/-- The resource loop of `i40e_free_vfs` at one VF, with the PF as the
function has it at that point: `__I40E_VFS_RELEASING` and `__I40E_VF_DISABLE`
are set and `num_alloc_vfs` is zero.  A VF in INIT state gets
`i40e_free_vf_res`.  The mirror rules, the ring stopping and the register
writes of `i40e_disable_vf_mappings` are outside the model state.  After the
loop the function frees the VF array. -/
def i40e_free_vfs_vf (copy_ok : Nat → Bool) (pf : i40e_pf) (vf : i40e_vf) :
    i40e_pf × i40e_vf × List HwEvent :=
  let pf1 := { pf with
    state := { pf.state with I40E_VFS_RELEASING := true, I40E_VF_DISABLE := true },
    num_alloc_vfs := 0 }
  if test_bit .I40E_VF_STATE_INIT vf.vf_states then i40e_free_vf_res copy_ok pf1 vf
  else (pf1, vf, [])

/-- One step in the life of a VF: a call of one of the functions that create,
tear down or activate its resources, with the oracle of that call. -/
inductive LifecycleOp where
  | alloc_vf_res (k : Consts) (o : ResOracle)
  | free_vf_res (copy_ok : Nat → Bool)
  | trigger_vf_reset (k : Consts) (o : ResOracle) (flr : Bool)
  | cleanup_reset_vf (k : Consts) (o : ResOracle)
  | free_vfs (copy_ok : Nat → Bool)
  | get_vf_resources_msg (k : Consts) (o : Oracle) (msg : Msg)

/-- The PF and the VF after one step. -/
def LifecycleOp.apply (s : i40e_pf × i40e_vf) : LifecycleOp → i40e_pf × i40e_vf
  | .alloc_vf_res k o => ((i40e_alloc_vf_res k o s.1 s.2).2.1, (i40e_alloc_vf_res k o s.1 s.2).2.2.1)
  | .free_vf_res c => ((i40e_free_vf_res c s.1 s.2).1, (i40e_free_vf_res c s.1 s.2).2.1)
  | .trigger_vf_reset k o flr => (s.1, (i40e_trigger_vf_reset k o s.1 s.2 flr).1)
  | .cleanup_reset_vf k o =>
    ((i40e_cleanup_reset_vf k o s.1 s.2).1, (i40e_cleanup_reset_vf k o s.1 s.2).2.1)
  | .free_vfs c => ((i40e_free_vfs_vf c s.1 s.2).1, (i40e_free_vfs_vf c s.1 s.2).2.1)
  | .get_vf_resources_msg k o msg =>
    ((i40e_vc_get_vf_resources_msg k o s.1 s.2 msg).2.1,
     (i40e_vc_get_vf_resources_msg k o s.1 s.2 msg).2.2.1)

/-! ### Queue ids -/

/-- Modelled from the spec: the end-of-list marker of the interrupt linked
list, declared in a header outside the sources at hand (the 11-bit queue index
field with all bits set). -/
def I40E_QUEUE_END_OF_LIST : Nat := 0x7FF

/-- Modelled from the spec: the number of bits of a queue map the handlers
look at, declared outside the sources at hand; up to 4 VSIs of up to 4 queues
each (section 3). -/
def I40E_MAX_VSI_QP : Nat := 16

def i40e_vc_isvalid_queue_id (pf : i40e_pf) (vsi_id qid : Nat) : Bool :=
  match i40e_find_vsi_from_id pf vsi_id with
  | some vsi => decide (qid < vsi.alloc_queue_pairs)
  | none => false

/-- The PF relative queue id of a VSI relative one.  The parameter
`vsi_queue_id` is a `u8` and the result a `u16`.  With a non-contiguous
mapping the entry `queue_mapping[vsi_queue_id]` is read; the array has 16
entries and C does not check the index. -/
def i40e_vc_get_pf_queue_id (pf : i40e_pf) (vsi_id vsi_queue_id : Nat) : Nat :=
  match i40e_find_vsi_from_id pf vsi_id with
  | none => I40E_QUEUE_END_OF_LIST
  | some vsi =>
    if vsi.info_mapping_flags_NONCONTIG then vsi.info_queue_mapping.getD (vsi_queue_id % 2 ^ 8) 0
    else (vsi.info_queue_mapping.getD 0 0 + vsi_queue_id % 2 ^ 8) % 2 ^ 16

/-- The channel loop of `i40e_get_real_pf_qid`, at channel `i` with `n`
channels left; the result is `vsi_id` and `queue_id` when the loop is left. -/
def i40e_get_real_pf_qid_loop (vf : i40e_vf) : Nat → Nat → Nat → Nat → Nat × Nat
  | 0, _, vsi_id, queue_id => (vsi_id, queue_id)
  | n + 1, i, vsi_id, queue_id =>
    if queue_id < (vf_ch vf i).num_qps then ((vf_ch vf i).vsi_id, queue_id)
    else i40e_get_real_pf_qid_loop vf n (i + 1) vsi_id (queue_id - (vf_ch vf i).num_qps)

/-- The VSI id and the VSI relative queue id `i40e_get_real_pf_qid` hands to
`i40e_vc_get_pf_queue_id`. -/
def i40e_get_real_pf_qid_pair (vf : i40e_vf) (vsi_id queue_id : Nat) : Nat × Nat :=
  if vf.adq_enabled then i40e_get_real_pf_qid_loop vf vf.num_tc 0 vsi_id queue_id
  else (vsi_id, queue_id)

/-- Wrapper of `i40e_vc_get_pf_queue_id` that handles ADq. -/
def i40e_get_real_pf_qid (pf : i40e_pf) (vf : i40e_vf) (vsi_id queue_id : Nat) : Nat :=
  i40e_vc_get_pf_queue_id pf (i40e_get_real_pf_qid_pair vf vsi_id queue_id).1
    (i40e_get_real_pf_qid_pair vf vsi_id queue_id).2

/-- The VSI id and the queue id `i40e_validate_queue_map` checks for the set
bit `vsi_queue_id`; `vsi_id` is the value of the variable when the bit is
reached. -/
def i40e_validate_queue_map_pair (vf : i40e_vf) (vsi_id vsi_queue_id : Nat) : Nat × Nat :=
  if vf.adq_enabled then
    ((vf_ch vf (vsi_queue_id / I40E_MAX_VF_VSI)).vsi_id,
      vsi_queue_id % I40E_DEFAULT_QUEUES_PER_VF)
  else (vsi_id, vsi_queue_id)

/-- The loop of `i40e_validate_queue_map` over the bit positions still to
visit. -/
def i40e_validate_queue_map_loop (pf : i40e_pf) (vf : i40e_vf) (queuemap : Nat) :
    List Nat → Nat → Status
  | [], _ => .I40E_SUCCESS
  | q :: rest, vsi_id =>
    if queuemap.testBit q then
      if !i40e_vc_isvalid_queue_id pf (i40e_validate_queue_map_pair vf vsi_id q).1
          (i40e_validate_queue_map_pair vf vsi_id q).2 then .EINVAL
      else i40e_validate_queue_map_loop pf vf queuemap rest
        (i40e_validate_queue_map_pair vf vsi_id q).1
    else i40e_validate_queue_map_loop pf vf queuemap rest vsi_id

/-- Check a Tx or Rx queue map: every set bit below `I40E_MAX_VSI_QP` must
name a valid queue. -/
def i40e_validate_queue_map (pf : i40e_pf) (vf : i40e_vf) (vsi_id queuemap : Nat) : Status :=
  i40e_validate_queue_map_loop pf vf queuemap (List.range I40E_MAX_VSI_QP) vsi_id

/-- Follows the spec's words: the number of queues of the channels before
channel `i`, `q_0 + ... + q_(i-1)`. -/
def spec_queues_before (vf : i40e_vf) (i : Nat) : Nat :=
  ((List.range i).map (fun j => (vf_ch vf j).num_qps)).sum

/-! ### Host administrative operations -/

/-- Modelled from the spec: the shift of the priority bits in a VLAN tag,
declared in a header outside the sources at hand (the three priority bits sit
above the 12-bit VLAN id and one more bit). -/
def I40E_VLAN_PRIORITY_SHIFT : Nat := 13

def VFD_LINKSTATE_OFF : Nat := 0x00

def VFD_LINKSTATE_ON : Nat := 0x01

def VFD_LINKSTATE_AUTO : Nat := 0x02

/-- Modelled from the spec: the link states of the kernel interface
`ndo_set_vf_link_state`, declared in a kernel header outside the sources at
hand. -/
def IFLA_VF_LINK_STATE_AUTO : Nat := 0

/-- Modelled from the spec: see `IFLA_VF_LINK_STATE_AUTO`. -/
def IFLA_VF_LINK_STATE_ENABLE : Nat := 1

/-- Modelled from the spec: see `IFLA_VF_LINK_STATE_AUTO`. -/
def IFLA_VF_LINK_STATE_DISABLE : Nat := 2

/-- What the environment decides during one host administrative operation:
the oracle of the VF reset it may trigger, what `i40e_sync_vsi_filters` and
`i40e_set_bw_limit` return, the port VLAN tag `*i40e_get_current_vid(vsi)` on
entry, on the VSI the reset built and at the end, and what
`i40e_add_vlan_all_mac` (for tag 0 and for the new VLAN) and
`i40e_vsi_add_pvid` return. -/
structure NdoOracle where
  res : ResOracle
  sync_vsi_filters_ret : Status
  set_bw_limit_ret : Status
  current_vid : Nat
  current_vid_after_reset : Nat
  current_vid_at_end : Nat
  add_vlan_all_mac_zero_ret : Status
  add_vlan_all_mac_ret : Status
  vsi_add_pvid_ret : Status

/-- Check that the VF is enabled and its VSI exists; `vf` is `pf->vf[vf_id]`,
read only when `vf_id` is below `num_alloc_vfs`. -/
def i40e_validate_vf (pf : i40e_pf) (vf : i40e_vf) (vf_id : Nat) : Status :=
  if vf_id ≥ pf.num_alloc_vfs then .EINVAL
  else if (i40e_find_vsi_from_id pf vf.lan_vsi_id).isNone then .EINVAL
  else .I40E_SUCCESS

/-- The part of `i40e_set_vf_mac` between taking the flag and the label
`error_param`.  The wait loop for INIT only delays: without a reset running
beside it all its reads of `vf->vf_states` are the read of the test that
follows.  Deleting the default address and then every filter leaves the VSI
without filters. -/
def i40e_set_vf_mac_body (k : Consts) (o : NdoOracle) (pf : i40e_pf) (vf : i40e_vf) (mac : Mac) :
    Status × i40e_pf × i40e_vf × List HwEvent :=
  if is_multicast_ether_addr mac then (.EINVAL, pf, vf, [])
  else if !test_bit .I40E_VF_STATE_INIT vf.vf_states then (.EAGAIN, pf, vf, [])
  else
    let vsi := pf_vsi pf vf.lan_vsi_idx
    let pf1 := { pf with vsi := pf.vsi.set vf.lan_vsi_idx (some { vsi with mac_filter_hash := [] }) }
    if o.sync_vsi_filters_ret.isErr then (.EIO_, pf1, vf, [.sync_vsi_filters vsi.idx])
    else
      let vf1 := i40e_free_vmvlan_list { vf with default_lan_addr := mac }
      let vf2 := { vf1 with pf_set_mac := !is_zero_ether_addr mac }
      let r := i40e_vc_reset_vf k o.res pf1 vf2 true
      (.I40E_SUCCESS, r.1, r.2.1, HwEvent.sync_vsi_filters vsi.idx :: r.2.2)

/-- Set the MAC address of a VF on behalf of the administrator.  Result:
return value, PF, VF, events. -/
def i40e_set_vf_mac (k : Consts) (o : NdoOracle) (pf : i40e_pf) (vf : i40e_vf) (mac : Mac) :
    Status × i40e_pf × i40e_vf × List HwEvent :=
  if pf.state.I40E_VIRTCHNL_OP_PENDING then (.EAGAIN, pf, vf, [])
  else
    let b := i40e_set_vf_mac_body k o
      { pf with state := { pf.state with I40E_VIRTCHNL_OP_PENDING := true } } vf mac
    (b.1, { b.2.1 with state := { b.2.1.state with I40E_VIRTCHNL_OP_PENDING := false } },
      b.2.2.1, b.2.2.2)

/-- The kernel entry point for setting a VF's MAC address; `vf` is
`pf->vf[vf_id]`. -/
def i40e_ndo_set_vf_mac (k : Consts) (o : NdoOracle) (pf : i40e_pf) (vf : i40e_vf)
    (vf_id : Nat) (mac : Mac) : Status × i40e_pf × i40e_vf × List HwEvent :=
  if (i40e_validate_vf pf vf vf_id).isErr then (i40e_validate_vf pf vf vf_id, pf, vf, [])
  else i40e_set_vf_mac k o pf vf mac

/-- The part of `i40e_ndo_set_vf_port_vlan` after the VF reset, up to the
label `error_pvid`.  What the calls do to the filters of the VSI is outside
the model state; the values they return come from the oracle. -/
def i40e_ndo_set_vf_port_vlan_program (o : NdoOracle) (pf : i40e_pf) (vf : i40e_vf)
    (vlan_id qos vlanprio : Nat) : Status × i40e_vf × List HwEvent :=
  let pvid := o.current_vid_after_reset
  if ((!(vlan_id ≠ 0 || qos ≠ 0) || vlanprio ≠ pvid) && pvid ≠ 0) &&
      o.add_vlan_all_mac_zero_ret.isErr then (o.add_vlan_all_mac_zero_ret, vf, [])
  else
    let p := i40e_config_vf_promiscuous_mode o.res.promisc_aq o.res.promisc_kcalloc_ok pf vf
      vf.lan_vsi_id false false
    if p.1.isErr then (p.1, vf, p.2)
    else if (vlan_id ≠ 0 || qos ≠ 0) && o.vsi_add_pvid_ret.isErr then
      (o.vsi_add_pvid_ret, vf, p.2)
    else if vlan_id ≠ 0 && o.add_vlan_all_mac_ret.isErr then (o.add_vlan_all_mac_ret, vf, p.2)
    else
      let alluni := test_bit .I40E_VF_STATE_UC_PROMISC vf.vf_states
      let allmulti := test_bit .I40E_VF_STATE_MC_PROMISC vf.vf_states
      let vf1 := { vf with port_vlan_id := o.current_vid_at_end }
      if o.current_vid_at_end ≠ 0 then
        let p2 := i40e_config_vf_promiscuous_mode o.res.promisc_aq o.res.promisc_kcalloc_ok pf vf1
          (pf_vsi pf vf1.lan_vsi_idx).id allmulti alluni
        (p2.1, vf1, p.2 ++ p2.2)
      else (.I40E_SUCCESS, vf1, p.2)

/-- The part of `i40e_ndo_set_vf_port_vlan` between taking the flag and the
label `error_pvid`, built without `IFLA_VF_VLAN_INFO_MAX`.  The trunk bitmap
and `allow_untagged` are outside the model state. -/
def i40e_ndo_set_vf_port_vlan_body (k : Consts) (o : NdoOracle) (pf : i40e_pf) (vf : i40e_vf)
    (vf_id vlan_id qos : Nat) : Status × i40e_pf × i40e_vf × List HwEvent :=
  let vlanprio := (vlan_id ||| (qos <<< I40E_VLAN_PRIORITY_SHIFT)) % 2 ^ 16
  if (i40e_validate_vf pf vf vf_id).isErr then (i40e_validate_vf pf vf vf_id, pf, vf, [])
  else if decide ((vlan_id : Int) > I40E_MAX_VLANID) || decide (qos > 7) then (.EINVAL, pf, vf, [])
  else if !test_bit .I40E_VF_STATE_INIT vf.vf_states then (.EAGAIN, pf, vf, [])
  else if o.current_vid = vlanprio then (.I40E_SUCCESS, pf, vf, [])
  else
    let r := i40e_vc_reset_vf k o.res pf vf true
    let g := i40e_ndo_set_vf_port_vlan_program o r.1 r.2.1 vlan_id qos vlanprio
    (g.1, r.1, g.2.1, HwEvent.vlan_stripping vf.lan_vsi_idx true :: (r.2.2 ++ g.2.2))

/-- Program the port VLAN and the priority of a VF. -/
def i40e_ndo_set_vf_port_vlan (k : Consts) (o : NdoOracle) (pf : i40e_pf) (vf : i40e_vf)
    (vf_id vlan_id qos : Nat) : Status × i40e_pf × i40e_vf × List HwEvent :=
  if pf.state.I40E_VIRTCHNL_OP_PENDING then (.EAGAIN, pf, vf, [])
  else
    let b := i40e_ndo_set_vf_port_vlan_body k o
      { pf with state := { pf.state with I40E_VIRTCHNL_OP_PENDING := true } } vf vf_id vlan_id qos
    (b.1, { b.2.1 with state := { b.2.1.state with I40E_VIRTCHNL_OP_PENDING := false } },
      b.2.2.1, b.2.2.2)

/-- Configure the Tx rate of a VF; the rate programmed by `i40e_set_bw_limit`
is outside the model state. -/
def i40e_ndo_set_vf_bw (o : NdoOracle) (pf : i40e_pf) (vf : i40e_vf) (vf_id max_tx_rate : Nat) :
    Status × i40e_pf × i40e_vf × List HwEvent :=
  if pf.state.I40E_VIRTCHNL_OP_PENDING then (.EAGAIN, pf, vf, [])
  else
    let pf1 := { pf with state := { pf.state with I40E_VIRTCHNL_OP_PENDING := true } }
    let b : Status × i40e_vf :=
      if (i40e_validate_vf pf1 vf vf_id).isErr then (i40e_validate_vf pf1 vf vf_id, vf)
      else if !test_bit .I40E_VF_STATE_INIT vf.vf_states then (.EAGAIN, vf)
      else if o.set_bw_limit_ret.isErr then (o.set_bw_limit_ret, vf)
      else (.I40E_SUCCESS, { vf with tx_rate := max_tx_rate })
    (b.1, { pf1 with state := { pf1.state with I40E_VIRTCHNL_OP_PENDING := false } }, b.2, [])

/-- Return the configuration of a VF; the content of `*ivi` is not
modelled. -/
def i40e_ndo_get_vf_config (pf : i40e_pf) (vf : i40e_vf) (vf_id : Nat) :
    Status × i40e_pf × i40e_vf × List HwEvent :=
  if pf.state.I40E_VIRTCHNL_OP_PENDING then (.EAGAIN, pf, vf, [])
  else
    let pf1 := { pf with state := { pf.state with I40E_VIRTCHNL_OP_PENDING := true } }
    let ret :=
      if (i40e_validate_vf pf1 vf vf_id).isErr then i40e_validate_vf pf1 vf vf_id
      else if vsi_slot_free pf1.vsi vf.lan_vsi_idx then .ENOENT
      else .I40E_SUCCESS
    (ret, { pf1 with state := { pf1.state with I40E_VIRTCHNL_OP_PENDING := false } }, vf, [])

/-- Set the link state of a VF through the kernel interface, regardless of
the physical link state. -/
def i40e_ndo_set_vf_link_state (pf : i40e_pf) (vf : i40e_vf) (vf_id link : Nat) :
    Status × i40e_pf × i40e_vf × List HwEvent :=
  if pf.state.I40E_VIRTCHNL_OP_PENDING then (.EAGAIN, pf, vf, [])
  else
    let pf1 := { pf with state := { pf.state with I40E_VIRTCHNL_OP_PENDING := true } }
    let ev := [HwEvent.aq_send_msg_to_vf (vf.vf_id + pf.hw.vf_base_id) .VIRTCHNL_OP_EVENT
      .I40E_SUCCESS]
    let b : Status × i40e_vf × List HwEvent :=
      if vf_id ≥ pf1.num_alloc_vfs then (.EINVAL, vf, [])
      else if link = IFLA_VF_LINK_STATE_AUTO then
        (.I40E_SUCCESS, { vf with link_forced := false }, ev)
      else if link = IFLA_VF_LINK_STATE_ENABLE then
        (.I40E_SUCCESS, { vf with link_forced := true, link_up := true }, ev)
      else if link = IFLA_VF_LINK_STATE_DISABLE then
        (.I40E_SUCCESS, { vf with link_forced := true, link_up := false }, ev)
      else (.EINVAL, vf, [])
    (b.1, { pf1 with state := { pf1.state with I40E_VIRTCHNL_OP_PENDING := false } }, b.2.1,
      b.2.2)

/-- Enable or disable the trust setting of a VF, built with
`__TC_MQPRIO_MODE_MAX`. -/
def i40e_ndo_set_vf_trust (k : Consts) (o : NdoOracle) (pf : i40e_pf) (vf : i40e_vf)
    (vf_id : Nat) (setting : Bool) : Status × i40e_pf × i40e_vf × List HwEvent :=
  if pf.state.I40E_VIRTCHNL_OP_PENDING then (.EAGAIN, pf, vf, [])
  else
    let pf1 := { pf with state := { pf.state with I40E_VIRTCHNL_OP_PENDING := true } }
    let b : Status × i40e_pf × i40e_vf × List HwEvent :=
      if vf_id ≥ pf1.num_alloc_vfs then (.EINVAL, pf1, vf, [])
      else if pf1.flags_MFP_ENABLED then (.EINVAL, pf1, vf, [])
      else
        let setting1 := if pf1.vf_base_mode_only then false else setting
        if setting1 = vf.trusted then (.I40E_SUCCESS, pf1, vf, [])
        else
          let r := i40e_vc_reset_vf k o.res pf1 { vf with trusted := setting1 } true
          let ev := if r.2.1.adq_enabled && !r.2.1.trusted then
              [HwEvent.del_all_cloud_filters vf.vf_id]
            else []
          (.I40E_SUCCESS, r.1, r.2.1, r.2.2 ++ ev)
    (b.1, { b.2.1 with state := { b.2.1.state with I40E_VIRTCHNL_OP_PENDING := false } },
      b.2.2.1, b.2.2.2)

/-- Configure the requested link state for a VF. -/
def i40e_configure_vf_link (pf : i40e_pf) (vf : i40e_vf) (link : Nat) :
    Status × i40e_vf × List HwEvent :=
  let ev := [HwEvent.aq_send_msg_to_vf (vf.vf_id + pf.hw.vf_base_id) .VIRTCHNL_OP_EVENT
    .I40E_SUCCESS]
  if link = VFD_LINKSTATE_AUTO then (.I40E_SUCCESS, { vf with link_forced := false }, ev)
  else if link = VFD_LINKSTATE_ON then
    (.I40E_SUCCESS, { vf with link_forced := true, link_up := true }, ev)
  else if link = VFD_LINKSTATE_OFF then
    (.I40E_SUCCESS, { vf with link_forced := true, link_up := false }, ev)
  else (.EINVAL, vf, [])

/-- The operation `set_link_state` of the VF configuration interface
(`i40e_vfd_ops`); `vf` is `pf->vf[vf_id]`. -/
def i40e_set_link_state (pf : i40e_pf) (vf : i40e_vf) (vf_id link : Nat) :
    Status × i40e_pf × i40e_vf × List HwEvent :=
  if (i40e_validate_vf pf vf vf_id).isErr then (i40e_validate_vf pf vf vf_id, pf, vf, [])
  else
    let c := i40e_configure_vf_link pf vf link
    (c.1, pf, c.2.1, c.2.2)

/-- A call of one of the host administrative operations that take the flag
`__I40E_VIRTCHNL_OP_PENDING`, with its arguments. -/
inductive NdoOp where
  | set_vf_mac (mac : Mac)
  | set_vf_port_vlan (vf_id vlan_id qos : Nat)
  | set_vf_bw (vf_id max_tx_rate : Nat)
  | set_vf_trust (vf_id : Nat) (setting : Bool)
  | set_vf_link_state (vf_id link : Nat)
  | get_vf_config (vf_id : Nat)

/-- The result of the call: return value, PF, VF, events. -/
def NdoOp.run (k : Consts) (o : NdoOracle) (pf : i40e_pf) (vf : i40e_vf) :
    NdoOp → Status × i40e_pf × i40e_vf × List HwEvent
  | .set_vf_mac mac => i40e_set_vf_mac k o pf vf mac
  | .set_vf_port_vlan vf_id vlan_id qos => i40e_ndo_set_vf_port_vlan k o pf vf vf_id vlan_id qos
  | .set_vf_bw vf_id max_tx_rate => i40e_ndo_set_vf_bw o pf vf vf_id max_tx_rate
  | .set_vf_trust vf_id setting => i40e_ndo_set_vf_trust k o pf vf vf_id setting
  | .set_vf_link_state vf_id link => i40e_ndo_set_vf_link_state pf vf vf_id link
  | .get_vf_config vf_id => i40e_ndo_get_vf_config pf vf vf_id

/-! ### Sample states used by the closed statements of Part II -/

/-- A locally administered unicast address ending in `n`. -/
def sample_ucast (n : Nat) : Mac := { b0 := 0x02, b1 := 0, b2 := 0, b3 := 0, b4 := 0, b5 := n }

/-- A multicast address ending in `n`. -/
def sample_mcast (n : Nat) : Mac := { b0 := 0x01, b1 := 0, b2 := 0x5e, b3 := 0, b4 := 0, b5 := n }

def sample_states : vf_state_bits :=
  { I40E_VF_STATE_INIT := true, I40E_VF_STATE_ACTIVE := true, I40E_VF_STATE_DISABLED := false,
    I40E_VF_STATE_MC_PROMISC := false, I40E_VF_STATE_UC_PROMISC := false,
    I40E_VF_STATE_PRE_ENABLE := false, I40E_VF_STATE_RESOURCES_LOADED := true }

def sample_channel : i40evf_channel := { vsi_idx := 0, vsi_id := 0, num_qps := 0, max_tx_rate := 0 }

/-- An untrusted, active VF 0 holding the default four queue pairs on the VSI
in slot 1 of the table. -/
def sample_vf : i40e_vf :=
  { vf_id := 0, vf_ver := { major := 1, minor := 1 }, vf_states := sample_states,
    vf_caps := { I40E_VIRTCHNL_VF_CAP_PRIVILEGE := false, I40E_VIRTCHNL_VF_CAP_L2 := true },
    trusted := false, pf_set_mac := false, pf_ctrl_disable := false, mac_anti_spoof := true,
    driver_caps_ADQ := false, driver_caps_RX_POLLING := false, vlan_stripping := true,
    default_lan_addr := sample_ucast 1,
    legacy_last_added_umac := { addr := eth_zero_addr, time_modified := 0 },
    vm_mac_list := [], num_vlan := 0, vm_vlan_list := [], port_vlan_id := 0,
    lan_vsi_idx := 1, lan_vsi_id := 11, num_queue_pairs := 4, num_req_queues := 0,
    adq_enabled := false, num_tc := 0,
    ch := [sample_channel, sample_channel, sample_channel, sample_channel],
    tx_rate := 0, num_invalid_msgs := 0, num_valid_msgs := 0, reset_timestamp := 0 }

/-- The LAN VSI of `sample_vf`, holding its default address and the broadcast
address. -/
def sample_vsi : i40e_vsi :=
  { idx := 1, id := 11, seid := 391, vf_id := 0, base_queue := 8, alloc_queue_pairs := 4,
    num_queue_pairs := 4,
    mac_filter_hash := [{ macaddr := eth_broadcast_addr, vlan := I40E_VLAN_ANY },
                        { macaddr := sample_ucast 1, vlan := I40E_VLAN_ANY }] }

/-- The PF's own LAN VSI in slot 0 of the table. -/
def sample_pf_vsi : i40e_vsi :=
  { idx := 0, id := 10, seid := 390, vf_id := 0, base_queue := 0, alloc_queue_pairs := 8,
    num_queue_pairs := 8, mac_filter_hash := [] }

def sample_pf : i40e_pf :=
  { state := { I40E_VF_DISABLE := false, I40E_VF_RESETS_DISABLED := false,
               I40E_VFS_RELEASING := false, I40E_VIRTCHNL_OP_PENDING := false },
    hw := { vf_base_id := 32, num_ports := 2, num_msix_vectors_vf := 5,
            link_speed := .I40E_LINK_SPEED_10GB },
    num_alloc_vfs := 1, vf := [sample_vf],
    vsi := [some sample_pf_vsi, some sample_vsi, none, none],
    mac_list := [[]],
    next_vsi := 2, lan_vsi := 0,
    qp_pile := { list := List.replicate 8 0x8000 ++ List.replicate 4 0x8001 ++ List.replicate 20 0 },
    queues_left := 2, num_vf_qps := 4, vf_base_mode_only := false, vf_aq_requests := 0,
    flags_MFP_ENABLED := false, fdir_pf_active_filters := 0, fdir_filter_list_empty := true }

/-- Every allocation succeeds and the filter sync reports success. -/
def sample_oracle : MacOracle :=
  { add_mac_filter_ok := fun _ => true, kzalloc_ok := fun _ => true,
    sync_vsi_filters_ret := .I40E_SUCCESS, jiffies := 1000, expire := 3000 }

def sample_elem (m : Mac) : virtchnl_ether_addr := { addr := m, type := 0 }

/-- Sixteen multicast addresses: with the two filters of `sample_vsi` they fill
the quota of an unprivileged VF exactly. -/
def sample_batch16 : virtchnl_ether_addr_list :=
  { vsi_id := 11, list := (List.range 16).map (fun n => sample_elem (sample_mcast n)) }

/-- One more multicast address. -/
def sample_batch1 : virtchnl_ether_addr_list :=
  { vsi_id := 11, list := [sample_elem (sample_mcast 100)] }

/-- Five addresses, the middle one (position 5 / 2) being the broadcast
address. -/
def sample_batch_bad_middle : virtchnl_ether_addr_list :=
  { vsi_id := 11,
    list := [sample_elem (sample_mcast 1), sample_elem (sample_mcast 2),
             sample_elem eth_broadcast_addr,
             sample_elem (sample_mcast 3), sample_elem (sample_mcast 4)] }

def sample_consts : Consts :=
  { I40E_VF_STATE_WAIT_COUNT := 20, I40E_DEFAULT_NUM_INVALID_MSGS_ALLOWED := 10,
    I40E_VFR_WAIT_COUNT := 100, I40E_BW_CREDIT_DIVISOR := 50 }

/-- No port VLAN and no trunk configured; adding a VLAN succeeds and the VSI is
taken as unchanged. -/
def sample_vlan_oracle : VlanOracle :=
  { is_vid := false, trunk_set_by_pf := false, trunk_vlans_weight := 0,
    vsi_add_vlan := fun _ vsi _ => (.I40E_SUCCESS, vsi), vsi_kill_vlan := fun vsi _ => vsi,
    kzalloc_ok := fun _ => true, stray := 0 }

/-- The state bits stay as they are in `sample_vf` during the call, every
hardware command succeeds. -/
def sample_msg_oracle : Oracle :=
  { polls := fun _ => sample_states, send_ret := .I40E_SUCCESS, aq := fun _ => .I40E_SUCCESS,
    kzalloc_ok := fun _ => true, mac := sample_oracle, validate_ret := .ok,
    work := fun _ pf vf => (.I40E_SUCCESS, pf, vf), vlan := sample_vlan_oracle }

/-- The firmware hands out id `100 + n` and seid `400 + n` for the VSI of
channel `n`; every allocation and command succeeds. -/
def sample_vsi_oracle (n : Nat) : VsiOracle :=
  { hw_add_ok := true, id := 100 + n, seid := 400 + n, add_mac_filter_ok := fun _ => true,
    hena := 0, sync_vsi_filters_ret := .I40E_SUCCESS, bw_limit_ret := .I40E_SUCCESS,
    restore_vfd_config_ret := .I40E_SUCCESS }

def sample_res_oracle : ResOracle :=
  { vsi := sample_vsi_oracle, copy_ok := fun _ => true, radq := true,
    vfr_polls := fun _ => true, pci_polls := fun _ => true, vfrstat_polls := fun _ => true,
    vfrtrig := 0, vfrtrig_cleanup := 1, promisc_aq := fun _ => .I40E_SUCCESS,
    promisc_kcalloc_ok := true, ktime := 5000 }

/-- A request for both promiscuous flags on the VF's own VSI. -/
def sample_promisc_info : virtchnl_promisc_info := { vsi_id := 11, flags := 3 }

def sample_adq_channel : i40evf_channel := { vsi_idx := 0, vsi_id := 0, num_qps := 4, max_tx_rate := 0 }

/-- A VF that asked for four traffic classes and has been torn down for its
reset: no VSI, no queues, INIT and ACTIVE clear. -/
def sample_adq_vf : i40e_vf :=
  { sample_vf with
    vf_states := { sample_states with I40E_VF_STATE_INIT := false, I40E_VF_STATE_ACTIVE := false },
    mac_anti_spoof := false, driver_caps_ADQ := true,
    lan_vsi_idx := 0, lan_vsi_id := 0, num_queue_pairs := 0,
    adq_enabled := true, num_tc := 4,
    ch := [sample_adq_channel, sample_adq_channel, sample_adq_channel, sample_adq_channel] }

/-- A queue pile of 32 entries whose first 8 belong to the PF's VSI 0. -/
def sample_pile : i40e_lump_tracking :=
  { list := List.replicate 8 0x8000 ++ List.replicate 24 0 }

/-- A PF whose VSI table has three free slots besides the PF's own VSI: room
for three of the four VSIs of a four-class split, while the counter of free
queue pairs says 12. -/
def sample_pf_three_slots : i40e_pf :=
  { sample_pf with
    vf := [sample_adq_vf],
    vsi := [some sample_pf_vsi, none, none, none],
    next_vsi := 1, qp_pile := sample_pile, queues_left := 12 }

/-- The same PF with only 8 queue pairs left on the counter. -/
def sample_pf_eight_left : i40e_pf := { sample_pf_three_slots with queues_left := 8 }

/-- The PF while some reset holds the PF-wide `__I40E_VF_DISABLE` flag. -/
def sample_pf_resetting : i40e_pf :=
  { sample_pf with state := { sample_pf.state with I40E_VF_DISABLE := true } }

/-- An active VF with the default four queue pairs that may ask for ADq: spoof
check off, ADq capability negotiated. -/
def sample_vf_adq_capable : i40e_vf :=
  { sample_vf with mac_anti_spoof := false, driver_caps_ADQ := true }

/-- A PF with 12 queue pairs left on its counter, a VSI table of 8 slots and a
pile of 32 entries: 8 of the PF, 4 of VF 0, 20 free. -/
def sample_pf_twelve_left : i40e_pf :=
  { sample_pf with
    vf := [sample_vf_adq_capable],
    vsi := [some sample_pf_vsi, some sample_vsi, none, none, none, none, none, none],
    queues_left := 12 }

/-- An ENABLE_CHANNELS request for two traffic classes of four queues. -/
def sample_tc_info : virtchnl_tc_info :=
  { num_tc := 2, list := [{ count := 4, max_tx_rate := 0 }, { count := 4, max_tx_rate := 0 }] }

/-- The handler result of ENABLE_CHANNELS (two traffic classes of four queues)
for VF 0 of `sample_pf_twelve_left`. -/
def sample_after_enable_channels : Status × i40e_pf × i40e_vf × List HwEvent :=
  i40e_vc_add_qch_msg sample_consts sample_msg_oracle sample_res_oracle sample_pf_twelve_left
    sample_vf_adq_capable sample_tc_info

/-- The handler result of a DISABLE_CHANNELS that follows
`sample_after_enable_channels`. -/
def sample_after_disable_channels : Status × i40e_pf × i40e_vf × List HwEvent :=
  i40e_vc_del_qch_msg sample_consts sample_msg_oracle sample_res_oracle
    sample_after_enable_channels.2.1 sample_after_enable_channels.2.2.1

/-- The oracle of a call during which neither INIT nor ACTIVE is ever seen
(the VF is in the middle of a reset). -/
def sample_msg_oracle_in_reset : Oracle :=
  { sample_msg_oracle with
    polls := fun _ => { sample_states with I40E_VF_STATE_INIT := false,
                                           I40E_VF_STATE_ACTIVE := false } }

/-- A mailbox message whose payload, seen as an address list, is
`sample_batch1`, as a promiscuous-mode request `sample_promisc_info`, as a
channel request `sample_tc_info`, as a queue request 4 queue pairs, and as a
cloud filter one for the VF's own address and TCP over IPv4, as a VLAN filter
list the single VLAN 100. -/
def sample_msg : Msg :=
  { version := { major := 1, minor := 1 }, driver_caps_ADQ := true,
    driver_caps_RX_POLLING := false, promisc_info := sample_promisc_info,
    ether_addr_list := sample_batch1, num_queue_pairs := 4, tc_info := sample_tc_info,
    filter := { data := { src_mac := eth_zero_addr, dst_mac := sample_ucast 1, vlan_id := 0,
                          dst_ip0 := 0, src_port := 0, dst_port := 0 },
                mask := { src_mac := eth_zero_addr, dst_mac := eth_broadcast_addr, vlan_id := 0,
                          dst_ip0 := 0, src_port := 0, dst_port := 0 },
                flow_type := .VIRTCHNL_TCP_V4_FLOW, action := 1, action_meta := 0 },
    vsi_id := 11, vlan_id := [100], len_ok := true, hena := 0 }

/-- The VF of `sample_vf` after ten invalid messages in a row. -/
def sample_vf_ten_invalid : i40e_vf := { sample_vf with num_invalid_msgs := 10 }

/-- The PF of `sample_pf_twelve_left` whose VF 0 is disabled (its DISABLED bit
is set). -/
def sample_pf_vf_disabled : i40e_pf :=
  { sample_pf_twelve_left with
    vf := [{ sample_vf_adq_capable with
      vf_states := (set_bit .I40E_VF_STATE_DISABLED sample_states) }] }

/-- The oracle of a call whose message fails the structural validation with
`VIRTCHNL_STATUS_ERR_PARAM`. -/
def sample_msg_oracle_malformed : Oracle :=
  { sample_msg_oracle with validate_ret := .VIRTCHNL_STATUS_ERR_PARAM }

/-- A failed response that is not quiet, followed by a failed quiet one. -/
def sample_responses : List vc_response :=
  [{ v_opcode := .VIRTCHNL_OP_ADD_VLAN, v_retval := .I40E_ERR_PARAM, is_quiet := false,
     send_ret := .I40E_SUCCESS },
   { v_opcode := .VIRTCHNL_OP_ADD_ETH_ADDR, v_retval := .EPERM, is_quiet := true,
     send_ret := .I40E_SUCCESS }]

/-- Eleven failed quiet responses in a row. -/
def sample_quiet_failures : List vc_response :=
  List.replicate 11 { v_opcode := .VIRTCHNL_OP_ADD_ETH_ADDR, v_retval := .EPERM, is_quiet := true,
                      send_ret := .I40E_SUCCESS }

/-- Eleven failed responses in a row that are not quiet. -/
def sample_loud_failures : List vc_response :=
  List.replicate 11 { v_opcode := .VIRTCHNL_OP_ADD_VLAN, v_retval := .I40E_ERR_PARAM,
                      is_quiet := false, send_ret := .I40E_SUCCESS }

/-- The VF of `sample_vf` with its address set by the host administrator. -/
def sample_vf_pinned : i40e_vf := { sample_vf with pf_set_mac := true }

/-- A trusted VF 0: trust flag and privilege bit set. -/
def sample_vf_trusted : i40e_vf :=
  { sample_vf with
    trusted := true,
    vf_caps := { I40E_VIRTCHNL_VF_CAP_PRIVILEGE := true, I40E_VIRTCHNL_VF_CAP_L2 := true } }

/-- A PF on a four-port device with 32 allocated VFs. -/
def sample_pf_32_vfs : i40e_pf :=
  { sample_pf with num_alloc_vfs := 32, hw := { sample_pf.hw with num_ports := 4 } }

/-- A PF on a four-port device with 128 allocated VFs. -/
def sample_pf_128_vfs : i40e_pf :=
  { sample_pf with num_alloc_vfs := 128, hw := { sample_pf.hw with num_ports := 4 } }

/-- Five multicast addresses without a filter on `sample_vsi`. -/
def sample_batch5 : virtchnl_ether_addr_list :=
  { vsi_id := 11, list := (List.range 5).map (fun n => sample_elem (sample_mcast n)) }

/-- The VSI of `sample_vsi` with one more filter, for a multicast address. -/
def sample_vsi_with_mcast : i40e_vsi :=
  { sample_vsi with
    mac_filter_hash :=
      { macaddr := sample_mcast 0, vlan := I40E_VLAN_ANY } :: sample_vsi.mac_filter_hash }

/-- The VF of `sample_vf` with that multicast address on its list. -/
def sample_vf_with_mcast : i40e_vf := { sample_vf with vm_mac_list := [sample_mcast 0] }

/-- A multicast address that has a filter, followed by the broadcast
address. -/
def sample_del_batch_bad_last : virtchnl_ether_addr_list :=
  { vsi_id := 11, list := [sample_elem (sample_mcast 0), sample_elem eth_broadcast_addr] }

/-- One legacy-typed unicast address other than the default one. -/
def sample_add_legacy_batch : virtchnl_ether_addr_list :=
  { vsi_id := 11, list := [sample_elem (sample_ucast 2)] }

/-- The VF and the VSI of `sample_vf` after adding `sample_add_legacy_batch`
at the clock of `sample_oracle`: the address is cached as the candidate. -/
def sample_after_add_legacy : i40e_vf × i40e_vsi :=
  MacBatch.apply sample_pf (sample_vf, sample_vsi)
    (.add sample_oracle (some false) sample_add_legacy_batch)

/-- The candidate first, then the default address, both legacy-typed. -/
def sample_del_both_batch : virtchnl_ether_addr_list :=
  { vsi_id := 11, list := [sample_elem (sample_ucast 2), sample_elem (sample_ucast 1)] }

/-- The default address alone, legacy-typed. -/
def sample_del_default_batch : virtchnl_ether_addr_list :=
  { vsi_id := 11, list := [sample_elem (sample_ucast 1)] }

/-- The PF of `sample_pf` with the pile entry right behind the four queues of
`sample_vf` owned by someone else: entries 0 to 7 belong to the PF, 8 to 11 to
the VF, 12 to a third owner, and 13 to 32 are free. -/
def sample_pf_blocked_behind : i40e_pf :=
  { sample_pf with
    qp_pile := { list := List.replicate 8 0x8000 ++ List.replicate 4 0x8001 ++ [0x8002] ++
                         List.replicate 20 0 } }

/-- The PF of `sample_pf` with every slot of its VSI table of four taken and
the cursor `next_vsi` at 1, as after the slots were filled in order and slot 0
was released and taken again. -/
def sample_pf_full_table : i40e_pf :=
  { sample_pf with
    vsi := [some sample_pf_vsi, some sample_vsi, some { sample_vsi with idx := 2, id := 12 },
            some { sample_vsi with idx := 3, id := 13 }],
    next_vsi := 1 }

/-- An ENABLE_CHANNELS request for two traffic classes whose second one asks
for a rate of 20000 Mbps, above the 10000 Mbps of the sample link. -/
def sample_tc_info_rate_too_high : virtchnl_tc_info :=
  { num_tc := 2, list := [{ count := 4, max_tx_rate := 0 }, { count := 2, max_tx_rate := 20000 }] }

/-- The PF of `sample_pf` while VF resets are disabled, as during the removal
of the driver. -/
def sample_pf_resets_disabled : i40e_pf :=
  { sample_pf with state := { sample_pf.state with I40E_VF_RESETS_DISABLED := true } }

/-- The oracle of `sample_res_oracle` with a firmware that refuses every new
VSI. -/
def sample_res_oracle_hw_refuses : ResOracle :=
  { sample_res_oracle with vsi := fun n => { sample_vsi_oracle n with hw_add_ok := false } }

/-- The cloud filter of `sample_msg` naming traffic class 4. -/
def sample_filter_tc_four : virtchnl_filter := { sample_msg.filter with action_meta := 4 }

/-- A message carrying `sample_filter_tc_four`. -/
def sample_msg_filter_tc_four : Msg := { sample_msg with filter := sample_filter_tc_four }

/-- A VF right after the VF array was allocated: no state bit set, no VSI, no
queues. -/
def sample_vf_fresh : i40e_vf :=
  { sample_vf with
    vf_states := { I40E_VF_STATE_INIT := false, I40E_VF_STATE_ACTIVE := false,
                   I40E_VF_STATE_DISABLED := false, I40E_VF_STATE_MC_PROMISC := false,
                   I40E_VF_STATE_UC_PROMISC := false, I40E_VF_STATE_PRE_ENABLE := false,
                   I40E_VF_STATE_RESOURCES_LOADED := false },
    lan_vsi_idx := 0, lan_vsi_id := 0, num_queue_pairs := 0 }

/-- A life of three steps: the resources are allocated, the VF driver fetches
them, the PF driver tears all VFs down. -/
def sample_lifecycle : List LifecycleOp :=
  [.alloc_vf_res sample_consts sample_res_oracle,
   .get_vf_resources_msg sample_consts sample_msg_oracle sample_msg,
   .free_vfs sample_res_oracle.copy_ok]

/-- An ENABLE_CHANNELS request for two traffic classes of two queues. -/
def sample_tc_info_two_by_two : virtchnl_tc_info :=
  { num_tc := 2, list := [{ count := 2, max_tx_rate := 0 }, { count := 2, max_tx_rate := 0 }] }

/-- The handler result of ENABLE_CHANNELS (two traffic classes of two queues)
for VF 0 of `sample_pf_twelve_left`. -/
def sample_after_enable_two_by_two : Status × i40e_pf × i40e_vf × List HwEvent :=
  i40e_vc_add_qch_msg sample_consts sample_msg_oracle sample_res_oracle sample_pf_twelve_left
    sample_vf_adq_capable sample_tc_info_two_by_two

/-- The PF of `sample_pf` while a host administrative operation holds the flag
`__I40E_VIRTCHNL_OP_PENDING`. -/
def sample_pf_op_pending : i40e_pf :=
  { sample_pf with state := { sample_pf.state with I40E_VIRTCHNL_OP_PENDING := true } }

/-- No port VLAN anywhere; every call succeeds. -/
def sample_ndo_oracle : NdoOracle :=
  { res := sample_res_oracle, sync_vsi_filters_ret := .I40E_SUCCESS,
    set_bw_limit_ret := .I40E_SUCCESS, current_vid := 0, current_vid_after_reset := 0,
    current_vid_at_end := 0, add_vlan_all_mac_zero_ret := .I40E_SUCCESS,
    add_vlan_all_mac_ret := .I40E_SUCCESS, vsi_add_pvid_ret := .I40E_SUCCESS }

theorem isErr_eq_true_iff (s : Status) : s.isErr = true ↔ s ≠ .I40E_SUCCESS := by
  cases s <;> simp [Status.isErr]

/-- When the first loop of the permission check runs to its end, the counter
it returns is the number of batch elements without a filter on the VSI. -/
theorem check_loop_ok (vf : i40e_vf) (vsi : i40e_vsi) (l : List virtchnl_ether_addr) :
    ∀ (c n : Nat), i40e_check_vf_permission_loop vf vsi l c = .ok n →
      n = c + l.countP (fun e => !i40e_find_mac vsi e.addr) := by
  induction l with
  | nil =>
    intro c n h
    simp [i40e_check_vf_permission_loop] at h
    simp [h]
  | cons e rest ih =>
    intro c n h
    unfold i40e_check_vf_permission_loop at h
    split at h
    · cases h
    · split at h
      · cases h
      · have := ih _ _ h
        by_cases hf : i40e_find_mac vsi e.addr = true
        · simp [hf] at this
          simp [List.countP_cons, hf, this]
        · simp [hf] at this
          simp [List.countP_cons, hf, this]
          omega

/-- A batch holding a broadcast or zero address never passes the first loop. -/
theorem check_loop_invalid (vf : i40e_vf) (vsi : i40e_vsi) (l : List virtchnl_ether_addr)
    (h : ∃ e ∈ l, is_broadcast_ether_addr e.addr = true ∨ is_zero_ether_addr e.addr = true) :
    ∀ (c : Nat), ∃ r, i40e_check_vf_permission_loop vf vsi l c = .error r ∧
      r.1 ≠ .I40E_SUCCESS := by
  induction l with
  | nil => simp at h
  | cons e rest ih =>
    intro c
    unfold i40e_check_vf_permission_loop
    split
    · exact ⟨_, rfl, by simp⟩
    · rename_i hnb
      split
      · exact ⟨_, rfl, by simp⟩
      · apply ih
        obtain ⟨x, hx, hbad⟩ := h
        rcases List.mem_cons.mp hx with rfl | hx
        · exfalso
          apply hnb
          rcases hbad with hb | hz
          · simp [hb]
          · simp [hz]
        · exact ⟨x, hx, hbad⟩

/-- Every early return of the first loop carries a non-zero status. -/
theorem check_loop_error_ne (vf : i40e_vf) (vsi : i40e_vsi) (l : List virtchnl_ether_addr) :
    ∀ (c : Nat) (r : Status × Bool), i40e_check_vf_permission_loop vf vsi l c = .error r →
      r.1 ≠ .I40E_SUCCESS := by
  induction l with
  | nil =>
    intro c r h
    simp [i40e_check_vf_permission_loop] at h
  | cons e rest ih =>
    intro c r h
    unfold i40e_check_vf_permission_loop at h
    split at h
    · cases h; simp
    · split at h
      · cases h; simp
      · exact ih _ _ h

/-- The limit the permission check applies to the VF: the fixed constant when
the privilege bit is clear, the trusted share otherwise. -/
theorem check_rejects_over_quota (pf : i40e_pf) (vf : i40e_vf) (vsi : i40e_vsi)
    (al : virtchnl_ether_addr_list) (q : Option Bool)
    (h : ((i40e_count_filters vsi +
            al.list.countP (fun e => !i40e_find_mac vsi e.addr) : Nat) : Int) >
          (if vf.vf_caps.I40E_VIRTCHNL_VF_CAP_PRIVILEGE then
            I40E_VC_MAX_MACVLAN_PER_TRUSTED_VF pf.num_alloc_vfs pf.hw.num_ports
           else (I40E_VC_MAX_MAC_ADDR_PER_VF : Int))) :
    (i40e_check_vf_permission pf vf vsi al q).1 ≠ .I40E_SUCCESS := by
  unfold i40e_check_vf_permission
  cases q with
  | none => simp
  | some q0 =>
    simp only
    cases hl : i40e_check_vf_permission_loop vf vsi al.list 0 with
    | error r =>
      obtain ⟨r1, r2⟩ := r
      exact check_loop_error_ne vf vsi al.list 0 (r1, r2) hl
    | ok n =>
      have hn := check_loop_ok vf vsi al.list 0 n hl
      simp only [Nat.zero_add] at hn
      subst hn
      by_cases hp : vf.vf_caps.I40E_VIRTCHNL_VF_CAP_PRIVILEGE = true
      · simp only [hp, if_true] at h
        have h' : I40E_VC_MAX_MACVLAN_PER_TRUSTED_VF pf.num_alloc_vfs pf.hw.num_ports <
            (i40e_count_filters vsi : Int) +
              (al.list.countP (fun e => !i40e_find_mac vsi e.addr) : Int) := by
          push_cast at h
          exact h
        simp [hp, h']
      · have hp' : vf.vf_caps.I40E_VIRTCHNL_VF_CAP_PRIVILEGE = false := by simpa using hp
        simp only [hp', Bool.false_eq_true, if_false] at h
        have h' : i40e_count_filters vsi +
            al.list.countP (fun e => !i40e_find_mac vsi e.addr) > I40E_VC_MAX_MAC_ADDR_PER_VF := by
          exact_mod_cast h
        simp [hp', h']

theorem check_rejects_invalid (pf : i40e_pf) (vf : i40e_vf) (vsi : i40e_vsi)
    (al : virtchnl_ether_addr_list) (q : Option Bool)
    (h : ∃ e ∈ al.list, is_broadcast_ether_addr e.addr = true ∨ is_zero_ether_addr e.addr = true) :
    (i40e_check_vf_permission pf vf vsi al q).1 ≠ .I40E_SUCCESS := by
  unfold i40e_check_vf_permission
  cases q with
  | none => simp
  | some q0 =>
    obtain ⟨r, hr, hne⟩ := check_loop_invalid vf vsi al.list h 0
    simp only [hr]
    exact hne

/-- C2: an ADD_ETH_ADDR batch that the permission check rejects (because a
broadcast or zero address sits at any position, for instance the middle
position N/2, or because the addresses without a filter would push the count
over the quota that applies to the VF, or for any other reason) makes
i40e_add_vf_mac_filters return the check's non-zero status with nothing
applied: the VF descriptor (its vm_mac_list and default MAC included) and the
VSI filter set are as before and no filter sync is issued. -/
theorem C2_rejected_add_batch_applies_nothing (o : MacOracle) (pf : i40e_pf) (vf : i40e_vf)
    (vsi : i40e_vsi) (q : Option Bool) (al : virtchnl_ether_addr_list)
    (h : (i40e_check_vf_permission pf vf vsi al q).1 ≠ .I40E_SUCCESS ∨
         (∃ e ∈ al.list,
            is_broadcast_ether_addr e.addr = true ∨ is_zero_ether_addr e.addr = true) ∨
         (∃ e, al.list[al.list.length / 2]? = some e ∧
            (is_broadcast_ether_addr e.addr = true ∨ is_zero_ether_addr e.addr = true)) ∨
         ((i40e_count_filters vsi +
            al.list.countP (fun e => !i40e_find_mac vsi e.addr) : Nat) : Int) >
          (if vf.vf_caps.I40E_VIRTCHNL_VF_CAP_PRIVILEGE then
            I40E_VC_MAX_MACVLAN_PER_TRUSTED_VF pf.num_alloc_vfs pf.hw.num_ports
           else (I40E_VC_MAX_MAC_ADDR_PER_VF : Int))) :
    (i40e_add_vf_mac_filters o pf vf vsi q al).1 ≠ .I40E_SUCCESS ∧
    (i40e_add_vf_mac_filters o pf vf vsi q al).1 = (i40e_check_vf_permission pf vf vsi al q).1 ∧
    (i40e_add_vf_mac_filters o pf vf vsi q al).2.1 = vf ∧
    (i40e_add_vf_mac_filters o pf vf vsi q al).2.2.1 = vsi ∧
    (i40e_add_vf_mac_filters o pf vf vsi q al).2.2.2.2 = [] := by
  have hrej : (i40e_check_vf_permission pf vf vsi al q).1 ≠ .I40E_SUCCESS := by
    rcases h with h | h | h | h
    · exact h
    · exact check_rejects_invalid pf vf vsi al q h
    · obtain ⟨e, he, hbad⟩ := h
      exact check_rejects_invalid pf vf vsi al q ⟨e, List.getElem?_mem he, hbad⟩
    · exact check_rejects_over_quota pf vf vsi al q h
  have herr : (i40e_check_vf_permission pf vf vsi al q).1.isErr = true :=
    (isErr_eq_true_iff _).mpr hrej
  simp only [i40e_add_vf_mac_filters, herr, if_true]
  exact ⟨hrej, trivial, trivial, trivial, trivial⟩

theorem C2_witness :
    (∃ e, sample_batch_bad_middle.list[sample_batch_bad_middle.list.length / 2]? = some e ∧
        (is_broadcast_ether_addr e.addr = true ∨ is_zero_ether_addr e.addr = true)) ∧
    (i40e_add_vf_mac_filters sample_oracle sample_pf sample_vf sample_vsi (some false)
        sample_batch_bad_middle).1 ≠ .I40E_SUCCESS ∧
    (i40e_add_vf_mac_filters sample_oracle sample_pf sample_vf sample_vsi (some false)
        sample_batch_bad_middle).2.1 = sample_vf ∧
    (i40e_add_vf_mac_filters sample_oracle sample_pf sample_vf sample_vsi (some false)
        sample_batch_bad_middle).2.2.1 = sample_vsi :=
  have hmid : ∃ e, sample_batch_bad_middle.list[sample_batch_bad_middle.list.length / 2]? = some e ∧
      (is_broadcast_ether_addr e.addr = true ∨ is_zero_ether_addr e.addr = true) :=
    ⟨sample_elem eth_broadcast_addr, by decide, Or.inl (by decide)⟩
  have h := C2_rejected_add_batch_applies_nothing sample_oracle sample_pf sample_vf sample_vsi
    (some false) sample_batch_bad_middle (Or.inr (Or.inr (Or.inl hmid)))
  ⟨hmid, h.1, h.2.2.1, h.2.2.2.1⟩

/-! ### Promiscuous mode of an untrusted VF (C3) -/

theorem sync_loop_of_never (polls : Nat → vf_state_bits) (state : i40e_vf_states) :
    ∀ (n i : Nat), (∀ j, i ≤ j → j ≤ i + n → test_bit state (polls j) = false) →
      i40e_sync_vf_state_loop polls state n i = false := by
  intro n
  induction n with
  | zero =>
    intro i h
    simpa [i40e_sync_vf_state_loop] using h i (le_refl _) (by omega)
  | succ n ih =>
    intro i h
    unfold i40e_sync_vf_state_loop
    have hi := h i (le_refl _) (by omega)
    simp only [hi, Bool.false_eq_true, if_false]
    exact ih (i + 1) (fun j h1 h2 => h j (by omega) (by omega))

/-- A bit set at none of the bounded polls makes the state check fail. -/
theorem sync_vf_state_of_never (k : Consts) (polls : Nat → vf_state_bits) (state : i40e_vf_states)
    (h : ∀ j, j ≤ k.I40E_VF_STATE_WAIT_COUNT → test_bit state (polls j) = false) :
    i40e_sync_vf_state k polls state = false :=
  sync_loop_of_never polls state _ 0 (fun j _ h2 => h j (by omega))

/-- C4 (the code at the claim's input, and in general): a REQUEST_QUEUES that
asks for more queue pairs beyond the VF's current ones than pf->queues_left
holds makes the handler return -EINVAL with the PF and the VF descriptor
untouched (num_queue_pairs and num_req_queues keep their values, no reset)
and with no hardware event at all: no message reporting the rejection is sent
to the VF. -/
theorem C4_over_capacity_request_gets_no_response (k : Consts) (o : Oracle) (ro : ResOracle)
    (pf : i40e_pf) (vf : i40e_vf) (req_pairs : Nat)
    (h : (req_pairs : Int) - (vf.num_queue_pairs : Int) > (pf.queues_left : Int)) :
    i40e_vc_request_queues_msg k o ro pf vf req_pairs = (.EINVAL, pf, vf, []) := by
  unfold i40e_vc_request_queues_msg
  split
  · rfl
  · unfold i40e_set_vf_num_queues
    simp only []
    split
    · rfl
    · simp [h]

theorem C4_witness :
    sample_vf.num_queue_pairs = 4 ∧ sample_pf.queues_left = 2 ∧
    test_bit .I40E_VF_STATE_ACTIVE sample_vf.vf_states = true ∧
    i40e_vc_request_queues_msg sample_consts sample_msg_oracle sample_res_oracle sample_pf
      sample_vf 8 = (.EINVAL, sample_pf, sample_vf, []) :=
  ⟨by decide, by decide, by decide,
    C4_over_capacity_request_gets_no_response sample_consts sample_msg_oracle sample_res_oracle
      sample_pf sample_vf 8 (by decide)⟩

/-! ### ADq activation without enough resources (C5) -/

theorem alloc_vsi_res_keeps (k : Consts) (o : VsiOracle) (pf : i40e_pf) (vf : i40e_vf)
    (idx : Nat) :
    (i40e_alloc_vsi_res k o pf vf idx).2.1.queues_left = pf.queues_left ∧
    (i40e_alloc_vsi_res k o pf vf idx).2.2.1.adq_enabled = vf.adq_enabled ∧
    (i40e_alloc_vsi_res k o pf vf idx).2.2.1.vf_states = vf.vf_states ∧
    (i40e_alloc_vsi_res k o pf vf idx).2.2.1.num_tc = vf.num_tc := by
  unfold i40e_alloc_vsi_res
  cases hs : i40e_vsi_setup o pf vf.vf_id with
  | none => simp
  | some r =>
    obtain ⟨pf1, vsi⟩ := r
    have hq : pf1.queues_left = pf.queues_left := by
      unfold i40e_vsi_setup at hs
      split at hs
      · cases hs
      · split at hs
        · cases hs
        · split at hs
          · cases hs; rfl
          · cases hs
    simp only []
    refine ⟨?_, ?_, ?_, ?_⟩
    · split <;> simp [hq]
    · split <;> split <;> rfl
    · split <;> split <;> rfl
    · split <;> split <;> rfl

theorem alloc_vf_res_adq_keeps (k : Consts) (o : ResOracle) :
    ∀ (n idx : Nat) (pf : i40e_pf) (vf : i40e_vf),
      (i40e_alloc_vf_res_adq k o n idx pf vf).2.2.1.adq_enabled = vf.adq_enabled := by
  intro n
  induction n with
  | zero => intro idx pf vf; rfl
  | succ n ih =>
    intro idx pf vf
    unfold i40e_alloc_vf_res_adq
    simp only []
    split
    · exact (alloc_vsi_res_keeps k (o.vsi idx) pf vf idx).2.1
    · simp only []
      rw [ih]
      exact (alloc_vsi_res_keeps k (o.vsi idx) pf vf idx).2.1

theorem free_vf_res_adq_keeps :
    ∀ (n j : Nat) (pf : i40e_pf) (vf : i40e_vf),
      (i40e_free_vf_res_adq n j pf vf).2.1.adq_enabled = vf.adq_enabled ∧
      (i40e_free_vf_res_adq n j pf vf).2.1.lan_vsi_idx = vf.lan_vsi_idx ∧
      (i40e_free_vf_res_adq n j pf vf).2.1.vf_states = vf.vf_states ∧
      (i40e_free_vf_res_adq n j pf vf).2.1.num_queue_pairs = vf.num_queue_pairs ∧
      (i40e_free_vf_res_adq n j pf vf).1.queues_left = pf.queues_left := by
  intro n
  induction n with
  | zero => intro j pf vf; exact ⟨rfl, rfl, rfl, rfl, rfl⟩
  | succ n ih =>
    intro j pf vf
    unfold i40e_free_vf_res_adq
    simp only []
    have h := ih (j + 1) (if j ≠ 0 then i40e_vsi_release pf (vf_ch vf j).vsi_idx else pf)
      { vf with ch := vf.ch.set j { vf_ch vf j with vsi_idx := 0, vsi_id := 0 } }
    refine ⟨h.1, h.2.1, h.2.2.1, h.2.2.2.1, ?_⟩
    rw [h.2.2.2.2]
    split
    · unfold i40e_vsi_release
      split
      · rfl
      · split <;> rfl
    · rfl

/-- After `i40e_free_vf_res` the VF has no LAN VSI, INIT is clear and the ADq
request is as it was. -/
theorem free_vf_res_facts (c : Nat → Bool) (pf : i40e_pf) (vf : i40e_vf) :
    (i40e_free_vf_res c pf vf).2.1.adq_enabled = vf.adq_enabled ∧
    (i40e_free_vf_res c pf vf).2.1.lan_vsi_idx = 0 ∧
    (i40e_free_vf_res c pf vf).2.1.vf_states.I40E_VF_STATE_INIT = false ∧
    (i40e_free_vf_res c pf vf).2.1.num_queue_pairs = 0 := by
  have hl : (i40e_free_vf_res_lan c pf vf).2.1.adq_enabled = vf.adq_enabled ∧
      (i40e_free_vf_res_lan c pf vf).2.1.lan_vsi_idx = 0 ∧
      (i40e_free_vf_res_lan c pf vf).2.1.vf_states.I40E_VF_STATE_INIT = false := by
    unfold i40e_free_vf_res_lan
    simp only []
    split
    · exact ⟨rfl, rfl, rfl⟩
    · rename_i h
      refine ⟨rfl, ?_, rfl⟩
      simpa using h
  have ht : ∀ v : i40e_vf, (i40e_free_vf_res_tail v).adq_enabled = v.adq_enabled ∧
      (i40e_free_vf_res_tail v).lan_vsi_idx = v.lan_vsi_idx ∧
      (i40e_free_vf_res_tail v).vf_states.I40E_VF_STATE_INIT = v.vf_states.I40E_VF_STATE_INIT ∧
      (i40e_free_vf_res_tail v).num_queue_pairs = 0 := by
    intro v
    unfold i40e_free_vf_res_tail i40e_free_vmmac_list i40e_free_vmvlan_list
    split <;> simp [clear_bit, assign_bit]
  unfold i40e_free_vf_res
  simp only []
  split
  · have ha := free_vf_res_adq_keeps (i40e_free_vf_res_lan c pf vf).2.1.num_tc 0
      (i40e_free_vf_res_lan c pf vf).1 (i40e_free_vf_res_lan c pf vf).2.1
    refine ⟨?_, ?_, ?_, ?_⟩
    · rw [(ht _).1, ha.1, hl.1]
    · rw [(ht _).2.1, ha.2.1, hl.2.1]
    · rw [(ht _).2.2.1, ha.2.2.1, hl.2.2]
    · exact (ht _).2.2.2
  · refine ⟨?_, ?_, ?_, ?_⟩
    · rw [(ht _).1, hl.1]
    · rw [(ht _).2.1, hl.2.1]
    · rw [(ht _).2.2.1, hl.2.2]
    · exact (ht _).2.2.2

/-- C5 as stated fails: with a four-class request, 12 queue pairs on the
counter and room in the VSI table for three VSIs only, i40e_alloc_vf_res does
not fall back to single-VSI mode; it fails with -ENOENT, ADq stays requested
and the VF is left without its primary VSI and without INIT. -/
theorem C5_counterexample :
    sample_adq_vf.adq_enabled = true ∧ sample_adq_vf.num_tc = 4 ∧
    (sample_pf_three_slots.vsi.filter (fun slot => slot.isNone)).length = 3 ∧
    (i40e_alloc_vf_res sample_consts sample_res_oracle sample_pf_three_slots sample_adq_vf).1 =
      .ENOENT ∧
    (i40e_alloc_vf_res sample_consts sample_res_oracle sample_pf_three_slots
      sample_adq_vf).2.2.1.adq_enabled = true ∧
    (i40e_alloc_vf_res sample_consts sample_res_oracle sample_pf_three_slots
      sample_adq_vf).2.2.1.lan_vsi_idx = 0 ∧
    (i40e_alloc_vf_res sample_consts sample_res_oracle sample_pf_three_slots
      sample_adq_vf).2.2.1.vf_states.I40E_VF_STATE_INIT = false := by
  decide

theorem vsi_table_find_slot_lt (pf : i40e_pf) (i : Nat) (h : vsi_table_find_slot pf = some i) :
    i < pf.vsi.length := by
  have hfree : vsi_slot_free pf.vsi i = true := by
    unfold vsi_table_find_slot at h
    split at h
    · rename_i j hj
      cases h
      exact List.find?_some hj
    · exact List.find?_some h
  unfold vsi_slot_free at hfree
  split at hfree
  · rename_i hs
    exact (List.getElem?_eq_some.mp hs).1
  · cases hfree

/-- A successful `i40e_alloc_vsi_res` for index 0 leaves the VF's LAN VSI in
the slot `lan_vsi_idx` of the VSI table. -/
theorem alloc_vsi_res_primary (k : Consts) (o : VsiOracle) (pf : i40e_pf) (vf : i40e_vf)
    (h : (i40e_alloc_vsi_res k o pf vf 0).1 = .I40E_SUCCESS) :
    ∃ vsi, (i40e_alloc_vsi_res k o pf vf 0).2.1.vsi[(i40e_alloc_vsi_res k o pf vf 0).2.2.1.lan_vsi_idx]?
      = some (some vsi) := by
  unfold i40e_alloc_vsi_res at h ⊢
  cases hs : i40e_vsi_setup o pf vf.vf_id with
  | none => simp [hs] at h
  | some r =>
    obtain ⟨pf1, vsi⟩ := r
    have hidx : vsi.idx < pf1.vsi.length := by
      unfold i40e_vsi_setup at hs
      split at hs
      · cases hs
      · rename_i idx hslot
        split at hs
        · cases hs
        · split at hs
          · cases hs
            simp only [List.length_set]
            exact vsi_table_find_slot_lt pf idx hslot
          · cases hs
    simp only [eq_self_iff_true, if_true]
    cases vf.adq_enabled <;> simp [hidx]

/-! ### A reset requested while another one is in progress (C7) -/

/-- C7: (a) when the PF-wide __I40E_VF_DISABLE flag is set and resets are not
disabled, i40e_reset_vf returns false, issues nothing (no trigger, teardown or
rebuild step) and leaves the PF (its flags and queues_left included) and the
VF as they are; (b) the same holds for i40e_reset_all_vfs whenever the flag is
set; (c) hence a second reset, of one VF or of all, arriving after a first
i40e_reset_vf has taken the flag and triggered the hardware is such a no-op,
and the first one completes its single teardown and rebuild from the state it
left. -/
theorem C7_reset_is_noop_while_disable_flag_is_set (k : Consts) (o o2 : ResOracle)
    (oa : Nat → ResOracle) (pf : i40e_pf) (vf vf2 : i40e_vf) (flr flr2 : Bool) :
    (pf.state.I40E_VF_DISABLE = true → pf.state.I40E_VF_RESETS_DISABLED = false →
      i40e_reset_vf k o pf vf flr = (false, pf, vf, [])) ∧
    (pf.state.I40E_VF_DISABLE = true →
      i40e_reset_all_vfs k oa pf flr = (false, pf, [])) ∧
    (pf.state.I40E_VF_DISABLE = false → pf.state.I40E_VF_RESETS_DISABLED = false →
      (i40e_reset_vf_begin k o pf vf flr).1.state.I40E_VF_DISABLE = true ∧
      i40e_reset_vf k o2 (i40e_reset_vf_begin k o pf vf flr).1 vf2 flr2 =
        (false, (i40e_reset_vf_begin k o pf vf flr).1, vf2, []) ∧
      i40e_reset_all_vfs k oa (i40e_reset_vf_begin k o pf vf flr).1 flr2 =
        (false, (i40e_reset_vf_begin k o pf vf flr).1, []) ∧
      i40e_reset_vf k o pf vf flr =
        (true,
         (i40e_reset_vf_finish k o (i40e_reset_vf_begin k o pf vf flr).1
           (i40e_reset_vf_begin k o pf vf flr).2.1).1,
         (i40e_reset_vf_finish k o (i40e_reset_vf_begin k o pf vf flr).1
           (i40e_reset_vf_begin k o pf vf flr).2.1).2.1,
         (i40e_reset_vf_begin k o pf vf flr).2.2 ++
           (i40e_reset_vf_finish k o (i40e_reset_vf_begin k o pf vf flr).1
             (i40e_reset_vf_begin k o pf vf flr).2.1).2.2)) := by
  refine ⟨?_, ?_, ?_⟩
  · intro hd hr
    simp [i40e_reset_vf, hd, hr]
  · intro hd
    unfold i40e_reset_all_vfs
    split
    · rfl
    · simp [hd]
  · intro hd hr
    refine ⟨rfl, ?_, ?_, ?_⟩
    · simp [i40e_reset_vf, i40e_reset_vf_begin, hr]
    · unfold i40e_reset_all_vfs
      split
      · rfl
      · simp [i40e_reset_vf_begin]
    · simp [i40e_reset_vf, hd, hr]

theorem C7_witness :
    sample_pf_resetting.state.I40E_VF_DISABLE = true ∧
    sample_pf_resetting.state.I40E_VF_RESETS_DISABLED = false ∧
    i40e_reset_vf sample_consts sample_res_oracle sample_pf_resetting sample_vf false =
      (false, sample_pf_resetting, sample_vf, []) ∧
    i40e_reset_all_vfs sample_consts (fun _ => sample_res_oracle) sample_pf_resetting false =
      (false, sample_pf_resetting, []) :=
  have h := C7_reset_is_noop_while_disable_flag_is_set sample_consts sample_res_oracle
    sample_res_oracle (fun _ => sample_res_oracle) sample_pf_resetting sample_vf sample_vf
    false false
  ⟨by decide, by decide, h.1 (by decide) (by decide), h.2.1 (by decide)⟩

/-! ### Queue accounting across ENABLE_CHANNELS and DISABLE_CHANNELS (C6) -/

/-- C6 (the code at a failing input): VF 0 holds the default 4 queue pairs and
pf->queues_left is 12, so the counter plus the queue pairs held beyond the
default is 12.  An ENABLE_CHANNELS request for two traffic classes of four
queues succeeds and resets the VF; afterwards queues_left is still 12 while the
VF is accounted 16 queue pairs (sum 24) and holds 8 entries of the queue pile.
The DISABLE_CHANNELS that follows brings the VF back to 4 queue pairs and
leaves queues_left at 24, twice its initial value and more than the 20 free
entries of the pile. -/
theorem C6_enable_channels_breaks_queue_accounting :
    sample_pf_twelve_left.queues_left +
        (sample_vf_adq_capable.num_queue_pairs - I40E_DEFAULT_QUEUES_PER_VF) = 12 ∧
    sample_after_enable_channels.1 = .I40E_SUCCESS ∧
    sample_after_enable_channels.2.2.1.adq_enabled = true ∧
    sample_after_enable_channels.2.1.queues_left = 12 ∧
    sample_after_enable_channels.2.2.1.num_queue_pairs = 16 ∧
    sample_after_enable_channels.2.1.queues_left +
        (sample_after_enable_channels.2.2.1.num_queue_pairs - I40E_DEFAULT_QUEUES_PER_VF) = 24 ∧
    (sample_after_enable_channels.2.1.qp_pile.list.filter
        (fun e => e = I40E_PILE_VALID_BIT + 1 ∨ e = I40E_PILE_VALID_BIT + 2)).length = 8 ∧
    sample_after_disable_channels.1 = .I40E_SUCCESS ∧
    sample_after_disable_channels.2.2.1.num_queue_pairs = 4 ∧
    sample_after_disable_channels.2.1.queues_left = 24 ∧
    (sample_after_disable_channels.2.1.qp_pile.list.filter
        (fun e => !pile_entry_valid e)).length = 20 := by
  decide

/-! ### Requests against a VF whose state bit is not set (C8) -/

theorem send_err_param_eq (k : Consts) (send_ret : Status) (pf : i40e_pf) (vf : i40e_vf)
    (op : virtchnl_ops) (hid : vf.vf_id < pf.num_alloc_vfs) :
    i40e_vc_send_msg_to_vf_ex k send_ret pf vf op .I40E_ERR_PARAM false =
      (if send_ret.isErr then .EIO_ else .I40E_SUCCESS,
       if vf.num_invalid_msgs + 1 > k.I40E_DEFAULT_NUM_INVALID_MSGS_ALLOWED then
         { vf with num_invalid_msgs := vf.num_invalid_msgs + 1,
                   vf_states := (set_bit .I40E_VF_STATE_DISABLED vf.vf_states) }
       else { vf with num_invalid_msgs := vf.num_invalid_msgs + 1 },
       [HwEvent.aq_send_msg_to_vf (vf.vf_id + pf.hw.vf_base_id) op .I40E_ERR_PARAM]) := by
  have hnge : ¬ (vf.vf_id ≥ pf.num_alloc_vfs) := by omega
  have herr : Status.I40E_ERR_PARAM.isErr = true := rfl
  simp only [i40e_vc_send_msg_to_vf_ex, hnge, if_false, herr, Bool.not_false, Bool.and_self,
    if_true]
  split <;> split <;> rfl

/-- C8 counterexample: ADD_ETH_ADDR for a VF whose ACTIVE bit is set at none
of the polls (the address list itself is acceptable).  The handler sends the
error response, and the VF descriptor does not stay as it was: its counter of
invalid messages goes from 0 to 1, and for a VF that already has ten invalid
messages (the allowance of the sample constants) the DISABLED bit gets set. -/
theorem C8_counterexample :
    (∀ j, test_bit .I40E_VF_STATE_ACTIVE (sample_msg_oracle_in_reset.polls j) = false) ∧
    (i40e_vc_add_mac_addr_msg sample_consts sample_msg_oracle_in_reset sample_pf sample_vf
        sample_msg).2.2.2 =
      [HwEvent.aq_send_msg_to_vf 32 .VIRTCHNL_OP_ADD_ETH_ADDR .I40E_ERR_PARAM] ∧
    sample_vf.num_invalid_msgs = 0 ∧
    (i40e_vc_add_mac_addr_msg sample_consts sample_msg_oracle_in_reset sample_pf sample_vf
        sample_msg).2.2.1.num_invalid_msgs = 1 ∧
    (i40e_vc_add_mac_addr_msg sample_consts sample_msg_oracle_in_reset sample_pf sample_vf
        sample_msg).2.2.1 ≠ sample_vf ∧
    test_bit .I40E_VF_STATE_DISABLED sample_vf_ten_invalid.vf_states = false ∧
    test_bit .I40E_VF_STATE_DISABLED
      (i40e_vc_add_mac_addr_msg sample_consts sample_msg_oracle_in_reset sample_pf
        sample_vf_ten_invalid sample_msg).2.2.1.vf_states = true := by
  refine ⟨fun _ => rfl, ?_, ?_, ?_, ?_, ?_, ?_⟩ <;> decide

/-- C8 (amended): for every opcode handler that requires a state bit (listed
with the bit and the opcode), for a VF in the allocated range: if the bit is
set at none of the bounded polls of i40e_sync_vf_state, the handler leaves the
PF (filter sets included) as it is, issues exactly one hardware command, the
response with the request's opcode and status I40E_ERR_PARAM, and changes in
the VF descriptor only what sending an error response changes: the counter of
invalid messages goes up by one, and DISABLED is set once the counter exceeds
the allowance.  REQUEST_QUEUES returns -EINVAL with the PF and the VF
untouched, and whatever it issues is a message to the VF. -/
theorem C8_state_check_failure_only_sends_error_response (k : Consts) (o : Oracle)
    (ro : ResOracle) (pf : i40e_pf) (vf : i40e_vf) (msg : Msg)
    (hid : vf.vf_id < pf.num_alloc_vfs) :
    (∀ t ∈ [(i40e_vf_states.I40E_VF_STATE_INIT, virtchnl_ops.VIRTCHNL_OP_GET_VF_RESOURCES,
              i40e_vc_get_vf_resources_msg k o pf vf msg),
            (.I40E_VF_STATE_ACTIVE, .VIRTCHNL_OP_CONFIG_PROMISCUOUS_MODE,
              i40e_vc_config_promiscuous_mode k o pf vf msg),
            (.I40E_VF_STATE_ACTIVE, .VIRTCHNL_OP_CONFIG_VSI_QUEUES,
              i40e_vc_config_queues_msg k o pf vf),
            (.I40E_VF_STATE_ACTIVE, .VIRTCHNL_OP_CONFIG_IRQ_MAP,
              i40e_vc_config_irq_map_msg k o pf vf),
            (.I40E_VF_STATE_ACTIVE, .VIRTCHNL_OP_ENABLE_QUEUES,
              i40e_vc_enable_queues_msg k o pf vf),
            (.I40E_VF_STATE_ACTIVE, .VIRTCHNL_OP_DISABLE_QUEUES,
              i40e_vc_disable_queues_msg k o pf vf),
            (.I40E_VF_STATE_ACTIVE, .VIRTCHNL_OP_ADD_ETH_ADDR,
              i40e_vc_add_mac_addr_msg k o pf vf msg),
            (.I40E_VF_STATE_ACTIVE, .VIRTCHNL_OP_DEL_ETH_ADDR,
              i40e_vc_del_mac_addr_msg k o pf vf msg),
            (.I40E_VF_STATE_ACTIVE, .VIRTCHNL_OP_ADD_VLAN, i40e_vc_add_vlan_msg k o pf vf msg),
            (.I40E_VF_STATE_ACTIVE, .VIRTCHNL_OP_DEL_VLAN,
              i40e_vc_remove_vlan_msg k o pf vf msg),
            (.I40E_VF_STATE_ACTIVE, .VIRTCHNL_OP_GET_STATS, i40e_vc_get_stats_msg k o pf vf),
            (.I40E_VF_STATE_ACTIVE, .VIRTCHNL_OP_CONFIG_RSS_KEY,
              i40e_vc_config_rss_key k o pf vf msg),
            (.I40E_VF_STATE_ACTIVE, .VIRTCHNL_OP_CONFIG_RSS_LUT,
              i40e_vc_config_rss_lut k o pf vf msg),
            (.I40E_VF_STATE_ACTIVE, .VIRTCHNL_OP_GET_RSS_HENA_CAPS,
              i40e_vc_get_rss_hena k o pf vf),
            (.I40E_VF_STATE_ACTIVE, .VIRTCHNL_OP_SET_RSS_HENA,
              i40e_vc_set_rss_hena k o pf vf msg),
            (.I40E_VF_STATE_ACTIVE, .VIRTCHNL_OP_ENABLE_VLAN_STRIPPING,
              i40e_vc_enable_vlan_stripping k o pf vf),
            (.I40E_VF_STATE_ACTIVE, .VIRTCHNL_OP_DISABLE_VLAN_STRIPPING,
              i40e_vc_disable_vlan_stripping k o pf vf),
            (.I40E_VF_STATE_ACTIVE, .VIRTCHNL_OP_ENABLE_CHANNELS,
              i40e_vc_add_qch_msg k o ro pf vf msg.tc_info),
            (.I40E_VF_STATE_ACTIVE, .VIRTCHNL_OP_DISABLE_CHANNELS,
              i40e_vc_del_qch_msg k o ro pf vf),
            (.I40E_VF_STATE_ACTIVE, .VIRTCHNL_OP_ADD_CLOUD_FILTER,
              i40e_vc_add_cloud_filter k o pf vf msg),
            (.I40E_VF_STATE_ACTIVE, .VIRTCHNL_OP_DEL_CLOUD_FILTER,
              i40e_vc_del_cloud_filter k o pf vf msg)],
      (∀ j, j ≤ k.I40E_VF_STATE_WAIT_COUNT → test_bit t.1 (o.polls j) = false) →
        t.2.2.2.1 = pf ∧
        t.2.2.2.2.2 =
          [HwEvent.aq_send_msg_to_vf (vf.vf_id + pf.hw.vf_base_id) t.2.1 .I40E_ERR_PARAM] ∧
        t.2.2.2.2.1 =
          (if vf.num_invalid_msgs + 1 > k.I40E_DEFAULT_NUM_INVALID_MSGS_ALLOWED then
            { vf with num_invalid_msgs := vf.num_invalid_msgs + 1,
                      vf_states := (set_bit .I40E_VF_STATE_DISABLED vf.vf_states) }
          else { vf with num_invalid_msgs := vf.num_invalid_msgs + 1 })) ∧
    ((∀ j, j ≤ k.I40E_VF_STATE_WAIT_COUNT →
        test_bit .I40E_VF_STATE_ACTIVE (o.polls j) = false) →
      (i40e_vc_request_queues k o ro pf vf msg).1 = .EINVAL ∧
      (i40e_vc_request_queues k o ro pf vf msg).2.1 = pf ∧
      (i40e_vc_request_queues k o ro pf vf msg).2.2.1 = vf ∧
      ∀ e ∈ (i40e_vc_request_queues k o ro pf vf msg).2.2.2,
        ∃ s, e = HwEvent.aq_send_msg_to_vf (vf.vf_id + pf.hw.vf_base_id)
          .VIRTCHNL_OP_REQUEST_QUEUES s) := by
  have hE := fun op => send_err_param_eq k o.send_ret pf vf op hid
  constructor
  · intro t ht hnever
    simp only [List.mem_cons, List.mem_singleton, List.not_mem_nil, or_false] at ht
    have hs : ∀ st, (st, t.2) = t → i40e_sync_vf_state k o.polls st = false := by
      intro st hst
      apply sync_vf_state_of_never
      rw [← hst] at hnever
      exact hnever
    rcases ht with h | h | h | h | h | h | h | h | h | h | h | h | h | h | h | h | h | h | h |
      h | h <;> subst h <;> have hs2 := hs _ rfl
    all_goals
      simp [i40e_vc_get_vf_resources_msg, i40e_vc_config_promiscuous_mode,
        i40e_vc_config_promiscuous_mode_msg, i40e_vc_config_queues_msg,
        i40e_vc_config_irq_map_msg, i40e_vc_enable_queues_msg, i40e_vc_disable_queues_msg,
        i40e_vc_add_mac_addr_msg, i40e_vc_del_mac_addr_msg, i40e_vc_add_vlan_msg,
        i40e_vc_remove_vlan_msg, i40e_vc_get_stats_msg, i40e_vc_config_rss_key,
        i40e_vc_config_rss_lut, i40e_vc_get_rss_hena, i40e_vc_set_rss_hena,
        i40e_vc_enable_vlan_stripping, i40e_vc_disable_vlan_stripping, i40e_vc_vlan_stripping,
        i40e_vc_add_qch_msg, i40e_vc_del_qch_msg, i40e_vc_add_cloud_filter,
        i40e_vc_del_cloud_filter, handler_with_work, handler_err, i40e_vc_send_resp_to_vf,
        i40e_vc_send_msg_to_vf, hs2, hE]
  · intro hnever
    have hs := sync_vf_state_of_never k o.polls .I40E_VF_STATE_ACTIVE hnever
    simp [i40e_vc_request_queues, i40e_vc_request_queues_msg, hs]

theorem C8_witness :
    sample_vf.vf_id < sample_pf.num_alloc_vfs ∧
    (∀ j, j ≤ sample_consts.I40E_VF_STATE_WAIT_COUNT →
      test_bit .I40E_VF_STATE_INIT (sample_msg_oracle_in_reset.polls j) = false) ∧
    (∀ j, j ≤ sample_consts.I40E_VF_STATE_WAIT_COUNT →
      test_bit .I40E_VF_STATE_ACTIVE (sample_msg_oracle_in_reset.polls j) = false) ∧
    (i40e_vc_get_vf_resources_msg sample_consts sample_msg_oracle_in_reset sample_pf sample_vf
        sample_msg).2.2.2 =
      [HwEvent.aq_send_msg_to_vf (sample_vf.vf_id + sample_pf.hw.vf_base_id)
        .VIRTCHNL_OP_GET_VF_RESOURCES .I40E_ERR_PARAM] ∧
    (i40e_vc_config_promiscuous_mode sample_consts sample_msg_oracle_in_reset sample_pf
        sample_vf sample_msg).2.1 = sample_pf ∧
    (i40e_vc_request_queues sample_consts sample_msg_oracle_in_reset sample_res_oracle
        sample_pf sample_vf sample_msg).1 = .EINVAL :=
  have h := C8_state_check_failure_only_sends_error_response sample_consts
    sample_msg_oracle_in_reset sample_res_oracle sample_pf sample_vf sample_msg (by decide)
  ⟨by decide, fun _ _ => rfl, fun _ _ => rfl,
    (h.1 _ (List.mem_cons_self _ _) (fun _ _ => rfl)).2.1,
    (h.1 _ (List.mem_cons_of_mem _ (List.mem_cons_self _ _)) (fun _ _ => rfl)).1,
    (h.2 (fun _ _ => rfl)).1⟩

/-! ### The checks before the dispatch (C9) -/

/-- C9: with local id = vf_id - (s16)vf_base_id, i40e_vc_process_vf_msg (which
first counts the request in pf->vf_aq_requests) (a) returns -EINVAL, issuing
nothing and changing nothing else, when the local id is negative or not below
num_alloc_vfs; for the VF at an in-range local id it (b) returns
I40E_ERR_PARAM, issuing nothing and changing nothing else, when the VF's
DISABLED bit is set; (c) when the bit is clear and the structural validation
rejects the message, returns -EPERM (validation result
VIRTCHNL_STATUS_ERR_PARAM) or -EINVAL (any other), and all it does is to
send the response with the request's opcode and status I40E_ERR_PARAM, the VF
descriptor being the one that sending leaves; (d) only when the id is in
range, the bit is clear and the validation accepted the message is the result
that of the opcode switch, the one place where handlers are called. -/
theorem C9_dispatch_runs_handler_only_after_checks (k : Consts) (o : Oracle) (ro : ResOracle)
    (pf : i40e_pf) (vf_id : Int) (v_opcode : virtchnl_ops) (msg : Msg) :
    ((vf_id - s16 pf.hw.vf_base_id < 0 ∨ (pf.num_alloc_vfs : Int) ≤ vf_id - s16 pf.hw.vf_base_id) →
      i40e_vc_process_vf_msg k o ro pf vf_id v_opcode msg =
        (.EINVAL, { pf with vf_aq_requests := pf.vf_aq_requests + 1 }, [])) ∧
    (∀ vf : i40e_vf,
      0 ≤ vf_id - s16 pf.hw.vf_base_id →
      vf_id - s16 pf.hw.vf_base_id < (pf.num_alloc_vfs : Int) →
      pf.vf[(vf_id - s16 pf.hw.vf_base_id).toNat]? = some vf →
      (test_bit .I40E_VF_STATE_DISABLED vf.vf_states = true →
        i40e_vc_process_vf_msg k o ro pf vf_id v_opcode msg =
          (.I40E_ERR_PARAM, { pf with vf_aq_requests := pf.vf_aq_requests + 1 }, [])) ∧
      (test_bit .I40E_VF_STATE_DISABLED vf.vf_states = false → o.validate_ret ≠ .ok →
        vf.vf_id < pf.num_alloc_vfs →
        i40e_vc_process_vf_msg k o ro pf vf_id v_opcode msg =
          (if o.validate_ret = .VIRTCHNL_STATUS_ERR_PARAM then .EPERM else .EINVAL,
           { pf with
             vf_aq_requests := pf.vf_aq_requests + 1,
             vf := pf.vf.set (vf_id - s16 pf.hw.vf_base_id).toNat
               (i40e_vc_send_resp_to_vf k o.send_ret pf vf v_opcode .I40E_ERR_PARAM).2.1 },
           [HwEvent.aq_send_msg_to_vf (vf.vf_id + pf.hw.vf_base_id) v_opcode
             .I40E_ERR_PARAM])) ∧
      (test_bit .I40E_VF_STATE_DISABLED vf.vf_states = false → o.validate_ret = .ok →
        i40e_vc_process_vf_msg k o ro pf vf_id v_opcode msg =
          ((i40e_vc_process_vf_msg_switch k o ro
              { pf with vf_aq_requests := pf.vf_aq_requests + 1 } vf v_opcode msg).1,
           { (i40e_vc_process_vf_msg_switch k o ro
                { pf with vf_aq_requests := pf.vf_aq_requests + 1 } vf v_opcode msg).2.1 with
             vf := (i40e_vc_process_vf_msg_switch k o ro
                { pf with vf_aq_requests := pf.vf_aq_requests + 1 } vf v_opcode msg).2.1.vf.set
               (vf_id - s16 pf.hw.vf_base_id).toNat
               (i40e_vc_process_vf_msg_switch k o ro
                { pf with vf_aq_requests := pf.vf_aq_requests + 1 } vf v_opcode msg).2.2.1 },
           (i40e_vc_process_vf_msg_switch k o ro
              { pf with vf_aq_requests := pf.vf_aq_requests + 1 } vf v_opcode msg).2.2.2))) := by
  constructor
  · intro h
    have hc : (decide (vf_id - s16 pf.hw.vf_base_id < 0) ||
        decide (vf_id - s16 pf.hw.vf_base_id ≥ (pf.num_alloc_vfs : Int))) = true := by
      rcases h with h | h <;> simp [h]
    simp only [i40e_vc_process_vf_msg, hc, if_true]
  · intro vf h0 h1 hvf
    have hc : (decide (vf_id - s16 pf.hw.vf_base_id < 0) ||
        decide (vf_id - s16 pf.hw.vf_base_id ≥ (pf.num_alloc_vfs : Int))) = false := by
      simp only [Bool.or_eq_false_iff, decide_eq_false_iff_not]
      omega
    have hp : i40e_vc_process_vf_msg k o ro pf vf_id v_opcode msg =
        (if test_bit .I40E_VF_STATE_DISABLED vf.vf_states then
          (.I40E_ERR_PARAM, { pf with vf_aq_requests := pf.vf_aq_requests + 1 }, [])
        else
          match o.validate_ret with
          | .ok =>
            let r := i40e_vc_process_vf_msg_switch k o ro
              { pf with vf_aq_requests := pf.vf_aq_requests + 1 } vf v_opcode msg
            (r.1, { r.2.1 with vf := r.2.1.vf.set (vf_id - s16 pf.hw.vf_base_id).toNat r.2.2.1 },
              r.2.2.2)
          | v =>
            let r := i40e_vc_send_resp_to_vf k o.send_ret
              { pf with vf_aq_requests := pf.vf_aq_requests + 1 } vf v_opcode .I40E_ERR_PARAM
            (if v = .VIRTCHNL_STATUS_ERR_PARAM then .EPERM else .EINVAL,
              { pf with vf_aq_requests := pf.vf_aq_requests + 1,
                        vf := pf.vf.set (vf_id - s16 pf.hw.vf_base_id).toNat r.2.1 }, r.2.2)) := by
      unfold i40e_vc_process_vf_msg
      simp only [hc, Bool.false_eq_true, if_false, hvf]
    rw [hp]
    refine ⟨?_, ?_, ?_⟩
    · intro hd
      simp only [hd, if_true]
    · intro hd hv hid
      have hnge : ¬ (vf.vf_id ≥ pf.num_alloc_vfs) := by omega
      have herr : Status.I40E_ERR_PARAM.isErr = true := rfl
      cases hval : o.validate_ret with
      | ok => exact absurd hval hv
      | VIRTCHNL_STATUS_ERR_PARAM =>
        simp [hd, i40e_vc_send_resp_to_vf,
          i40e_vc_send_msg_to_vf, i40e_vc_send_msg_to_vf_ex, hnge, herr]
        split <;> split <;> simp
      | other_error =>
        simp [hd, i40e_vc_send_resp_to_vf,
          i40e_vc_send_msg_to_vf, i40e_vc_send_msg_to_vf_ex, hnge, herr]
        split <;> split <;> simp
    · intro hd hv
      simp only [hd, hv, Bool.false_eq_true, if_false]

theorem C9_witness :
    ((5 : Int) - s16 sample_pf_twelve_left.hw.vf_base_id < 0) ∧
    i40e_vc_process_vf_msg sample_consts sample_msg_oracle sample_res_oracle
        sample_pf_twelve_left 5 .VIRTCHNL_OP_VERSION sample_msg =
      (.EINVAL, { sample_pf_twelve_left with vf_aq_requests := 1 }, []) ∧
    i40e_vc_process_vf_msg sample_consts sample_msg_oracle sample_res_oracle
        sample_pf_vf_disabled 32 .VIRTCHNL_OP_VERSION sample_msg =
      (.I40E_ERR_PARAM, { sample_pf_vf_disabled with vf_aq_requests := 1 }, []) ∧
    (i40e_vc_process_vf_msg sample_consts sample_msg_oracle_malformed sample_res_oracle
        sample_pf_twelve_left 32 .VIRTCHNL_OP_VERSION sample_msg).1 = .EPERM ∧
    (i40e_vc_process_vf_msg sample_consts sample_msg_oracle_malformed sample_res_oracle
        sample_pf_twelve_left 32 .VIRTCHNL_OP_VERSION sample_msg).2.2 =
      [HwEvent.aq_send_msg_to_vf 32 .VIRTCHNL_OP_VERSION .I40E_ERR_PARAM] ∧
    (i40e_vc_process_vf_msg sample_consts sample_msg_oracle sample_res_oracle
        sample_pf_twelve_left 32 .VIRTCHNL_OP_VERSION sample_msg).2.2 =
      [HwEvent.aq_send_msg_to_vf 32 .VIRTCHNL_OP_VERSION .I40E_SUCCESS] :=
  have ha := (C9_dispatch_runs_handler_only_after_checks sample_consts sample_msg_oracle
    sample_res_oracle sample_pf_twelve_left 5 .VIRTCHNL_OP_VERSION sample_msg).1
    (Or.inl (by decide))
  have hb := ((C9_dispatch_runs_handler_only_after_checks sample_consts sample_msg_oracle
    sample_res_oracle sample_pf_vf_disabled 32 .VIRTCHNL_OP_VERSION sample_msg).2
    { sample_vf_adq_capable with vf_states := (set_bit .I40E_VF_STATE_DISABLED sample_states) }
    (by decide) (by decide) rfl).1 (by decide)
  have hc := ((C9_dispatch_runs_handler_only_after_checks sample_consts
    sample_msg_oracle_malformed sample_res_oracle sample_pf_twelve_left 32 .VIRTCHNL_OP_VERSION
    sample_msg).2 sample_vf_adq_capable (by decide) (by decide) rfl).2.1
    (by decide) (by decide) (by decide)
  have hd := ((C9_dispatch_runs_handler_only_after_checks sample_consts sample_msg_oracle
    sample_res_oracle sample_pf_twelve_left 32 .VIRTCHNL_OP_VERSION sample_msg).2
    sample_vf_adq_capable (by decide) (by decide) rfl).2.2 (by decide) rfl
  ⟨by decide, ha, hb, (congrArg Prod.fst hc).trans (by decide),
    congrArg (fun r => r.2.2) hc, (congrArg (fun r => r.2.2) hd).trans (by decide)⟩

/-! ### One response per request (C10) -/

theorem send_events_eq (k : Consts) (send_ret : Status) (pf : i40e_pf) (vf : i40e_vf)
    (op : virtchnl_ops) (ret : Status) (q : Bool) (hid : vf.vf_id < pf.num_alloc_vfs) :
    (i40e_vc_send_msg_to_vf_ex k send_ret pf vf op ret q).2.2 =
      [HwEvent.aq_send_msg_to_vf (vf.vf_id + pf.hw.vf_base_id) op ret] := by
  have hnge : ¬ (vf.vf_id ≥ pf.num_alloc_vfs) := by omega
  simp only [i40e_vc_send_msg_to_vf_ex, hnge, if_false]
  split <;> rfl

theorem count_msgs_single (a : Nat) (op : virtchnl_ops) (ret : Status) :
    count_msgs_to_vf a op [HwEvent.aq_send_msg_to_vf a op ret] = 1 := by
  simp [count_msgs_to_vf]

theorem count_msgs_append (a : Nat) (op : virtchnl_ops) (l1 l2 : List HwEvent) :
    count_msgs_to_vf a op (l1 ++ l2) = count_msgs_to_vf a op l1 + count_msgs_to_vf a op l2 := by
  simp [count_msgs_to_vf, List.countP_append]

/-- The response label of a handler sends one message with the handler's
opcode. -/
theorem handler_err_count (k : Consts) (o : Oracle) (pf : i40e_pf) (vf : i40e_vf)
    (op : virtchnl_ops) (ret : Status) (ev : List HwEvent) (hid : vf.vf_id < pf.num_alloc_vfs)
    (hev : count_msgs_to_vf (vf.vf_id + pf.hw.vf_base_id) op ev = 0) :
    count_msgs_to_vf (vf.vf_id + pf.hw.vf_base_id) op (handler_err k o pf vf op ret ev).2.2.2 =
      1 := by
  simp only [handler_err, i40e_vc_send_resp_to_vf, i40e_vc_send_msg_to_vf, count_msgs_append,
    send_events_eq k o.send_ret pf vf op ret false hid, hev, count_msgs_single]

theorem handler_with_work_count (k : Consts) (o : Oracle) (pf : i40e_pf) (vf : i40e_vf)
    (op : virtchnl_ops) (c : Bool) (hid : vf.vf_id < pf.num_alloc_vfs) :
    count_msgs_to_vf (vf.vf_id + pf.hw.vf_base_id) op (handler_with_work k o pf vf op c).2.2.2 =
      1 := by
  unfold handler_with_work
  split
  · exact handler_err_count k o pf vf op _ [] hid rfl
  · exact handler_err_count k o
      { (o.work op pf vf).2.1 with num_alloc_vfs := pf.num_alloc_vfs, hw := pf.hw }
      { (o.work op pf vf).2.2 with vf_id := vf.vf_id } op _ [HwEvent.handler_work op] hid
      (by simp [count_msgs_to_vf])

theorem update_vf_mac_addr_vf_id (j : Nat) (vf : i40e_vf) (e : virtchnl_ether_addr) :
    (i40e_update_vf_mac_addr j vf e).vf_id = vf.vf_id := by
  unfold i40e_update_vf_mac_addr
  simp only []
  split
  · rfl
  · split
    · rfl
    · split <;> rfl

theorem add_loop_vf_id (o : MacOracle) (l : List virtchnl_ether_addr) :
    ∀ (i : Nat) (vf : i40e_vf) (vsi : i40e_vsi),
      (i40e_add_vf_mac_filters_loop o l i vf vsi).2.1.vf_id = vf.vf_id := by
  induction l with
  | nil => intro i vf vsi; rfl
  | cons e rest ih =>
    intro i vf vsi
    unfold i40e_add_vf_mac_filters_loop
    split
    · rw [ih, update_vf_mac_addr_vf_id]
    · split
      · rfl
      · simp only []
        split
        · unfold i40e_add_vmmac_to_list
          split <;> rfl
        · rw [ih, update_vf_mac_addr_vf_id]
          unfold i40e_add_vmmac_to_list
          split <;> rfl

theorem del_loop_vf_id (l : List virtchnl_ether_addr) :
    ∀ (vf : i40e_vf) (vsi : i40e_vsi) (w g : Bool),
      (i40e_del_vf_mac_filters_loop l vf vsi w g).2.1.vf_id = vf.vf_id := by
  induction l with
  | nil => intro vf vsi w g; rfl
  | cons e rest ih =>
    intro vf vsi w g
    unfold i40e_del_vf_mac_filters_loop
    simp only []
    split
    · rfl
    · split
      · rfl
      · rw [ih]
        rfl

theorem clear_default_mac_addr_vf_id (j x : Nat) (vf : i40e_vf) (b : Bool) :
    (i40e_vf_clear_default_mac_addr j x vf b).vf_id = vf.vf_id := by
  unfold i40e_vf_clear_default_mac_addr
  simp only []
  split
  · split <;> rfl
  · rfl

theorem add_vf_mac_filters_msgs (o : MacOracle) (pf : i40e_pf) (vf : i40e_vf) (vsi : i40e_vsi)
    (q : Option Bool) (al : virtchnl_ether_addr_list) (a : Nat) (op : virtchnl_ops) :
    (i40e_add_vf_mac_filters o pf vf vsi q al).2.1.vf_id = vf.vf_id ∧
    count_msgs_to_vf a op (i40e_add_vf_mac_filters o pf vf vsi q al).2.2.2.2 = 0 := by
  unfold i40e_add_vf_mac_filters
  simp only []
  split
  · exact ⟨rfl, rfl⟩
  · split
    · exact ⟨add_loop_vf_id o al.list 0 vf vsi, rfl⟩
    · exact ⟨add_loop_vf_id o al.list 0 vf vsi, by simp [count_msgs_to_vf]⟩

theorem del_vf_mac_filters_msgs (o : MacOracle) (vf : i40e_vf) (vsi : i40e_vsi)
    (al : virtchnl_ether_addr_list) (a : Nat) (op : virtchnl_ops) :
    (i40e_del_vf_mac_filters o vf vsi al).2.1.vf_id = vf.vf_id ∧
    count_msgs_to_vf a op (i40e_del_vf_mac_filters o vf vsi al).2.2.2 = 0 := by
  unfold i40e_del_vf_mac_filters
  simp only []
  split
  · exact ⟨del_loop_vf_id al.list vf vsi false false, rfl⟩
  · refine ⟨?_, by simp [count_msgs_to_vf]⟩
    split
    · rw [clear_default_mac_addr_vf_id]
      exact del_loop_vf_id al.list vf vsi false false
    · exact del_loop_vf_id al.list vf vsi false false

theorem no_msgs_append (l1 l2 : List HwEvent) :
    no_msgs (l1 ++ l2) = (no_msgs l1 && no_msgs l2) := by
  simp [no_msgs, List.all_append]

theorem no_msgs_ite (c : Prop) [Decidable c] (a b : List HwEvent) (ha : no_msgs a = true)
    (hb : no_msgs b = true) : no_msgs (if c then a else b) = true := by
  split <;> assumption

theorem count_msgs_of_no_msgs (a : Nat) (op : virtchnl_ops) (ev : List HwEvent)
    (h : no_msgs ev = true) : count_msgs_to_vf a op ev = 0 := by
  induction ev with
  | nil => rfl
  | cons e rest ih =>
    simp only [no_msgs, List.all_cons, Bool.and_eq_true] at h
    have h2 := ih (by simpa [no_msgs] using h.2)
    cases e <;> simp_all [count_msgs_to_vf, List.countP_cons]

theorem set_vsi_promisc_loop_no_msgs (aq : Nat → Status) (seid : Nat) (m u : Bool)
    (l : List Int) :
    ∀ (n : Nat) (r : Status), no_msgs (i40e_set_vsi_promisc_loop aq seid m u l n r).2 = true := by
  induction l with
  | nil => intro n r; rfl
  | cons v rest ih =>
    intro n r
    have h := ih (n + 2) (aq (n + 1))
    simp only [i40e_set_vsi_promisc_loop, no_msgs, List.all_cons] at h ⊢
    simpa using h

theorem set_vsi_promisc_no_msgs (aq : Nat → Status) (seid : Nat) (m u : Bool)
    (vl : Option (List Int)) : no_msgs (i40e_set_vsi_promisc aq seid m u vl).2 = true := by
  unfold i40e_set_vsi_promisc
  split
  · exact set_vsi_promisc_loop_no_msgs aq seid m u _ 0 _
  · split <;> rfl

theorem config_vf_promiscuous_mode_no_msgs (aq : Nat → Status) (kc : Bool) (pf : i40e_pf)
    (vf : i40e_vf) (vsi_id : Nat) (m u : Bool) :
    no_msgs (i40e_config_vf_promiscuous_mode aq kc pf vf vsi_id m u).2 = true := by
  unfold i40e_config_vf_promiscuous_mode
  split
  · rfl
  · split
    · rfl
    · split
      · exact set_vsi_promisc_no_msgs _ _ _ _ _
      · split
        · split
          · rfl
          · exact set_vsi_promisc_no_msgs _ _ _ _ _
        · exact set_vsi_promisc_no_msgs _ _ _ _ _

theorem alloc_vsi_res_no_msgs (k : Consts) (o : VsiOracle) (pf : i40e_pf) (vf : i40e_vf)
    (idx : Nat) : no_msgs (i40e_alloc_vsi_res k o pf vf idx).2.2.2 = true := by
  unfold i40e_alloc_vsi_res
  split
  · rfl
  · simp only [no_msgs_append, Bool.and_eq_true]
    exact ⟨⟨⟨rfl, no_msgs_ite _ _ _ rfl rfl⟩, no_msgs_ite _ _ _ rfl rfl⟩, rfl⟩

theorem free_vf_res_irq_no_msgs (m v : Nat) : no_msgs (i40e_free_vf_res_irq m v) = true := by
  simp [i40e_free_vf_res_irq, no_msgs, List.all_eq_true]

theorem free_vf_res_adq_no_msgs :
    ∀ (n j : Nat) (pf : i40e_pf) (vf : i40e_vf),
      no_msgs (i40e_free_vf_res_adq n j pf vf).2.2 = true := by
  intro n
  induction n with
  | zero => intro j pf vf; rfl
  | succ n ih =>
    intro j pf vf
    simp only [i40e_free_vf_res_adq, no_msgs_append, ih, Bool.and_true]
    exact no_msgs_ite _ _ _ rfl rfl

theorem free_vf_res_no_msgs (c : Nat → Bool) (pf : i40e_pf) (vf : i40e_vf) :
    no_msgs (i40e_free_vf_res c pf vf).2.2 = true := by
  simp only [i40e_free_vf_res, no_msgs_append, free_vf_res_irq_no_msgs, Bool.and_true,
    Bool.and_eq_true]
  constructor
  · unfold i40e_free_vf_res_lan
    simp only []
    split <;> rfl
  · split
    · exact free_vf_res_adq_no_msgs _ _ _ _
    · rfl

theorem alloc_vf_res_adq_no_msgs (k : Consts) (o : ResOracle) :
    ∀ (n idx : Nat) (pf : i40e_pf) (vf : i40e_vf),
      no_msgs (i40e_alloc_vf_res_adq k o n idx pf vf).2.2.2 = true := by
  intro n
  induction n with
  | zero => intro idx pf vf; rfl
  | succ n ih =>
    intro idx pf vf
    unfold i40e_alloc_vf_res_adq
    simp only []
    split
    · exact alloc_vsi_res_no_msgs _ _ _ _ _
    · simp only [no_msgs_append, ih, alloc_vsi_res_no_msgs, Bool.and_self]

theorem alloc_vf_res_channels_no_msgs (k : Consts) (o : ResOracle) (pf : i40e_pf)
    (vf : i40e_vf) (t : Nat) :
    no_msgs (i40e_alloc_vf_res_channels k o pf vf t).2.2.2.1 = true := by
  unfold i40e_alloc_vf_res_channels
  split
  · split
    · exact alloc_vf_res_adq_no_msgs _ _ _ _ _ _
    · rfl
  · rfl

theorem alloc_vf_res_no_msgs (k : Consts) (o : ResOracle) (pf : i40e_pf) (vf : i40e_vf) :
    no_msgs (i40e_alloc_vf_res k o pf vf).2.2.2 = true := by
  unfold i40e_alloc_vf_res
  simp only []
  split
  · simp only [i40e_alloc_vf_res_error_alloc, no_msgs_append, alloc_vsi_res_no_msgs,
      free_vf_res_no_msgs, Bool.and_self]
  · split
    · simp only [i40e_alloc_vf_res_error_alloc, no_msgs_append, alloc_vsi_res_no_msgs,
        alloc_vf_res_channels_no_msgs, free_vf_res_no_msgs, Bool.and_self]
    · simp only [no_msgs_append, alloc_vsi_res_no_msgs, alloc_vf_res_channels_no_msgs,
        Bool.and_self]

theorem trigger_vf_reset_no_msgs (k : Consts) (o : ResOracle) (pf : i40e_pf) (vf : i40e_vf)
    (flr : Bool) : no_msgs (i40e_trigger_vf_reset k o pf vf flr).2 = true := by
  simp only [i40e_trigger_vf_reset, no_msgs_append, Bool.and_eq_true]
  refine ⟨⟨no_msgs_ite _ _ _ rfl rfl, rfl⟩, ?_⟩
  unfold i40e_quiesce_vf_pci
  simp only []
  split <;> rfl

theorem cleanup_reset_vf_no_msgs (k : Consts) (o : ResOracle) (pf : i40e_pf) (vf : i40e_vf) :
    no_msgs (i40e_cleanup_reset_vf k o pf vf).2.2 = true := by
  unfold i40e_cleanup_reset_vf
  simp only []
  split
  · simp only [no_msgs_append, config_vf_promiscuous_mode_no_msgs, free_vf_res_no_msgs,
      alloc_vf_res_no_msgs, Bool.and_eq_true, and_true, true_and]
    exact ⟨⟨⟨rfl, rfl⟩, no_msgs_ite _ _ _ rfl rfl⟩, rfl⟩
  · simp only [no_msgs_append, config_vf_promiscuous_mode_no_msgs, free_vf_res_no_msgs,
      alloc_vf_res_no_msgs, Bool.and_eq_true, and_true, true_and]
    exact ⟨rfl, rfl⟩

theorem reset_vf_no_msgs (k : Consts) (o : ResOracle) (pf : i40e_pf) (vf : i40e_vf)
    (flr : Bool) : no_msgs (i40e_reset_vf k o pf vf flr).2.2.2 = true := by
  unfold i40e_reset_vf
  split
  · rfl
  · split
    · rfl
    · simp only [i40e_reset_vf_begin, i40e_reset_vf_finish, no_msgs_append,
        trigger_vf_reset_no_msgs, cleanup_reset_vf_no_msgs, Bool.and_eq_true, and_true,
        true_and]
      exact ⟨no_msgs_ite _ _ _ rfl rfl, rfl⟩

theorem vc_reset_vf_loop_no_msgs (k : Consts) (o : ResOracle) :
    ∀ (n : Nat) (pf : i40e_pf) (vf : i40e_vf),
      no_msgs (i40e_vc_reset_vf_loop k o n pf vf).2.2 = true := by
  intro n
  induction n with
  | zero => intro pf vf; rfl
  | succ n ih =>
    intro pf vf
    unfold i40e_vc_reset_vf_loop
    split
    · rfl
    · simp only []
      split
      · exact reset_vf_no_msgs _ _ _ _ _
      · simp only [no_msgs_append, reset_vf_no_msgs, ih, Bool.and_self]

/-- A reset started without notification sends no message to any VF. -/
theorem vc_reset_vf_no_msgs (k : Consts) (o : ResOracle) (pf : i40e_pf) (vf : i40e_vf) :
    no_msgs (i40e_vc_reset_vf k o pf vf false).2.2 = true := by
  simp only [i40e_vc_reset_vf, Bool.false_eq_true, if_false, List.nil_append,
    vc_reset_vf_loop_no_msgs]

theorem handler_err_count2 (k : Consts) (o : Oracle) (pf : i40e_pf) (vf : i40e_vf)
    (op : virtchnl_ops) (ret : Status) (ev : List HwEvent) (a : Nat)
    (hid : vf.vf_id < pf.num_alloc_vfs) (ha : a = vf.vf_id + pf.hw.vf_base_id)
    (hev : no_msgs ev = true) :
    count_msgs_to_vf a op (handler_err k o pf vf op ret ev).2.2.2 = 1 := by
  subst ha
  exact handler_err_count k o pf vf op ret ev hid (count_msgs_of_no_msgs _ _ _ hev)

theorem handler_err_count3 (k : Consts) (o : Oracle) (pf : i40e_pf) (vf : i40e_vf)
    (op : virtchnl_ops) (ret : Status) (ev : List HwEvent) (a : Nat)
    (hid : vf.vf_id < pf.num_alloc_vfs) (ha : a = vf.vf_id + pf.hw.vf_base_id)
    (hev : count_msgs_to_vf a op ev = 0) :
    count_msgs_to_vf a op (handler_err k o pf vf op ret ev).2.2.2 = 1 := by
  subst ha
  exact handler_err_count k o pf vf op ret ev hid hev

theorem send_count (k : Consts) (sr : Status) (pf : i40e_pf) (vf : i40e_vf)
    (op : virtchnl_ops) (ret : Status) (q : Bool) (a : Nat)
    (hid : vf.vf_id < pf.num_alloc_vfs) (ha : a = vf.vf_id + pf.hw.vf_base_id) :
    count_msgs_to_vf a op (i40e_vc_send_msg_to_vf_ex k sr pf vf op ret q).2.2 = 1 := by
  subst ha
  rw [send_events_eq k sr pf vf op ret q hid, count_msgs_single]

theorem get_vf_resources_msg_count (k : Consts) (o : Oracle) (pf : i40e_pf) (vf : i40e_vf)
    (msg : Msg) (hid : vf.vf_id < pf.num_alloc_vfs) :
    count_msgs_to_vf (vf.vf_id + pf.hw.vf_base_id) .VIRTCHNL_OP_GET_VF_RESOURCES
      (i40e_vc_get_vf_resources_msg k o pf vf msg).2.2.2 = 1 := by
  unfold i40e_vc_get_vf_resources_msg
  simp only []
  repeat' split
  all_goals exact handler_err_count2 k o pf _ _ _ _ _ hid rfl rfl

theorem config_promiscuous_mode_count (k : Consts) (o : Oracle) (pf : i40e_pf) (vf : i40e_vf)
    (msg : Msg) (hid : vf.vf_id < pf.num_alloc_vfs) :
    count_msgs_to_vf (vf.vf_id + pf.hw.vf_base_id) .VIRTCHNL_OP_CONFIG_PROMISCUOUS_MODE
      (i40e_vc_config_promiscuous_mode k o pf vf msg).2.2.2 = 1 := by
  unfold i40e_vc_config_promiscuous_mode i40e_vc_config_promiscuous_mode_msg
  simp only []
  split
  · exact handler_err_count2 k o pf vf _ _ [] _ hid rfl rfl
  · split
    · exact handler_err_count2 k o pf vf _ _ [] _ hid rfl rfl
    · split
      · exact handler_err_count2 k o pf vf _ _ [] _ hid rfl rfl
      · split
        · exact handler_err_count2 k o pf vf _ _ [] _ hid rfl rfl
        · split
          · exact handler_err_count2 k o pf vf _ _ _ _ hid rfl
              (config_vf_promiscuous_mode_no_msgs _ _ _ _ _ _ _)
          · exact handler_err_count2 k o pf _ _ _ _ _ hid rfl
              (config_vf_promiscuous_mode_no_msgs _ _ _ _ _ _ _)

theorem add_mac_addr_msg_count (k : Consts) (o : Oracle) (pf : i40e_pf) (vf : i40e_vf)
    (msg : Msg) (hid : vf.vf_id < pf.num_alloc_vfs) :
    count_msgs_to_vf (vf.vf_id + pf.hw.vf_base_id) .VIRTCHNL_OP_ADD_ETH_ADDR
      (i40e_vc_add_mac_addr_msg k o pf vf msg).2.2.2 = 1 := by
  unfold i40e_vc_add_mac_addr_msg
  simp only []
  split
  · exact send_count k _ pf vf _ _ _ _ hid rfl
  · have h := add_vf_mac_filters_msgs o.mac pf vf (pf_vsi pf vf.lan_vsi_idx) (some false)
      msg.ether_addr_list (vf.vf_id + pf.hw.vf_base_id) .VIRTCHNL_OP_ADD_ETH_ADDR
    rw [count_msgs_append, h.2, Nat.zero_add]
    exact send_count k _ _ _ _ _ _ _ (by rw [h.1]; exact hid) (by rw [h.1])

theorem del_mac_addr_msg_count (k : Consts) (o : Oracle) (pf : i40e_pf) (vf : i40e_vf)
    (msg : Msg) (hid : vf.vf_id < pf.num_alloc_vfs) :
    count_msgs_to_vf (vf.vf_id + pf.hw.vf_base_id) .VIRTCHNL_OP_DEL_ETH_ADDR
      (i40e_vc_del_mac_addr_msg k o pf vf msg).2.2.2 = 1 := by
  unfold i40e_vc_del_mac_addr_msg
  simp only []
  split
  · exact handler_err_count2 k o pf vf _ _ [] _ hid rfl rfl
  · have h := del_vf_mac_filters_msgs o.mac vf (pf_vsi pf vf.lan_vsi_idx)
      msg.ether_addr_list (vf.vf_id + pf.hw.vf_base_id) .VIRTCHNL_OP_DEL_ETH_ADDR
    exact handler_err_count3 k o _ _ _ _ _ _ (by rw [h.1]; exact hid) (by rw [h.1]) h.2

theorem get_rss_hena_count (k : Consts) (o : Oracle) (pf : i40e_pf) (vf : i40e_vf)
    (hid : vf.vf_id < pf.num_alloc_vfs) :
    count_msgs_to_vf (vf.vf_id + pf.hw.vf_base_id) .VIRTCHNL_OP_GET_RSS_HENA_CAPS
      (i40e_vc_get_rss_hena k o pf vf).2.2.2 = 1 := by
  unfold i40e_vc_get_rss_hena
  simp only []
  repeat' split
  all_goals exact handler_err_count2 k o pf _ _ _ _ _ hid rfl rfl

theorem set_rss_hena_count (k : Consts) (o : Oracle) (pf : i40e_pf) (vf : i40e_vf) (msg : Msg)
    (hid : vf.vf_id < pf.num_alloc_vfs) :
    count_msgs_to_vf (vf.vf_id + pf.hw.vf_base_id) .VIRTCHNL_OP_SET_RSS_HENA
      (i40e_vc_set_rss_hena k o pf vf msg).2.2.2 = 1 := by
  unfold i40e_vc_set_rss_hena
  simp only []
  repeat' split
  all_goals exact handler_err_count2 k o pf _ _ _ _ _ hid rfl rfl

theorem enable_vlan_stripping_count (k : Consts) (o : Oracle) (pf : i40e_pf) (vf : i40e_vf)
    (hid : vf.vf_id < pf.num_alloc_vfs) :
    count_msgs_to_vf (vf.vf_id + pf.hw.vf_base_id) .VIRTCHNL_OP_ENABLE_VLAN_STRIPPING
      (i40e_vc_enable_vlan_stripping k o pf vf).2.2.2 = 1 := by
  unfold i40e_vc_enable_vlan_stripping i40e_vc_vlan_stripping
  simp only [if_true]
  repeat' split
  all_goals exact handler_err_count2 k o pf _ _ _ _ _ hid rfl rfl

theorem disable_vlan_stripping_count (k : Consts) (o : Oracle) (pf : i40e_pf) (vf : i40e_vf)
    (hid : vf.vf_id < pf.num_alloc_vfs) :
    count_msgs_to_vf (vf.vf_id + pf.hw.vf_base_id) .VIRTCHNL_OP_DISABLE_VLAN_STRIPPING
      (i40e_vc_disable_vlan_stripping k o pf vf).2.2.2 = 1 := by
  unfold i40e_vc_disable_vlan_stripping i40e_vc_vlan_stripping
  simp only [Bool.false_eq_true, if_false]
  repeat' split
  all_goals exact handler_err_count2 k o pf _ _ _ _ _ hid rfl rfl

theorem del_cloud_filter_count (k : Consts) (o : Oracle) (pf : i40e_pf) (vf : i40e_vf)
    (msg : Msg) (hid : vf.vf_id < pf.num_alloc_vfs) :
    count_msgs_to_vf (vf.vf_id + pf.hw.vf_base_id) .VIRTCHNL_OP_DEL_CLOUD_FILTER
      (i40e_vc_del_cloud_filter k o pf vf msg).2.2.2 = 1 := by
  unfold i40e_vc_del_cloud_filter
  simp only []
  split
  · exact handler_err_count2 k o pf _ _ _ _ _ hid rfl rfl
  · split
    · exact handler_err_count2 k o pf _ _ _ _ _ hid rfl rfl
    · split
      · exact handler_err_count2 k o pf _ _ _ _ _ hid rfl rfl
      · exact handler_with_work_count k o pf vf _ _ hid

theorem add_cloud_filter_count (k : Consts) (o : Oracle) (pf : i40e_pf) (vf : i40e_vf)
    (msg : Msg) (hid : vf.vf_id < pf.num_alloc_vfs) (hk : o.kzalloc_ok 0 = true) :
    count_msgs_to_vf (vf.vf_id + pf.hw.vf_base_id) .VIRTCHNL_OP_ADD_CLOUD_FILTER
      (i40e_vc_add_cloud_filter k o pf vf msg).2.2.2 = 1 := by
  unfold i40e_vc_add_cloud_filter
  simp only [hk, Bool.not_true, Bool.false_eq_true, if_false]
  split
  · exact send_count k _ pf vf _ _ _ _ hid rfl
  · split
    · exact send_count k _ pf vf _ _ _ _ hid rfl
    · split
      · exact send_count k _ pf vf _ _ _ _ hid rfl
      · split
        · exact send_count k _ pf vf _ _ _ _ hid rfl
        · have h := send_count k o.send_ret
            { (o.work .VIRTCHNL_OP_ADD_CLOUD_FILTER pf vf).2.1 with
              num_alloc_vfs := pf.num_alloc_vfs, hw := pf.hw }
            { (o.work .VIRTCHNL_OP_ADD_CLOUD_FILTER pf vf).2.2 with vf_id := vf.vf_id }
            .VIRTCHNL_OP_ADD_CLOUD_FILTER .I40E_SUCCESS false
            (vf.vf_id + pf.hw.vf_base_id) hid rfl
          simpa [count_msgs_to_vf, List.countP_cons] using h

theorem vc_reset_vf_count (k : Consts) (o : ResOracle) (pf : i40e_pf) (vf : i40e_vf) (b : Bool)
    (a : Nat) (op : virtchnl_ops) (hop : op ≠ .VIRTCHNL_OP_EVENT) :
    count_msgs_to_vf a op (i40e_vc_reset_vf k o pf vf b).2.2 = 0 := by
  have hne : (virtchnl_ops.VIRTCHNL_OP_EVENT == op) = false := by
    simpa using fun h => hop h.symm
  simp only [i40e_vc_reset_vf, count_msgs_append,
    count_msgs_of_no_msgs _ _ _ (vc_reset_vf_loop_no_msgs k o 20 pf vf), Nat.add_zero]
  split
  · unfold i40e_vc_notify_vf_reset
    split
    · rfl
    · split
      · rfl
      · simp [count_msgs_to_vf, hne]
  · rfl

theorem add_qch_parse_vf_id (speed : Nat) (tci : virtchnl_tc_info) :
    ∀ (n i : Nat) (vf : i40e_vf),
      (∀ v, i40e_vc_add_qch_parse speed tci n i vf = .error v → v.vf_id = vf.vf_id) := by
  intro n
  induction n with
  | zero =>
    intro i vf v h
    simp [i40e_vc_add_qch_parse] at h
  | succ n ih =>
    intro i vf v h
    unfold i40e_vc_add_qch_parse at h
    simp only [] at h
    split at h
    · cases h
      rfl
    · have h2 := ih _ _ v h
      rw [h2]
      split <;> rfl

theorem del_qch_loop_no_msgs :
    ∀ (n i : Nat) (pf : i40e_pf) (vf : i40e_vf),
      no_msgs (i40e_del_qch_loop n i pf vf).2.2 = true := by
  intro n
  induction n with
  | zero => intro i pf vf; rfl
  | succ n ih =>
    intro i pf vf
    unfold i40e_del_qch_loop
    split
    · have h := ih (i + 1) (i40e_vsi_release pf (vf_ch vf i).vsi_idx)
        { vf with ch := vf.ch.set i { vf_ch vf i with vsi_idx := 0, vsi_id := 0 } }
      simpa [no_msgs] using h
    · exact ih _ _ _

theorem del_qch_msg_count (k : Consts) (o : Oracle) (ro : ResOracle) (pf : i40e_pf)
    (vf : i40e_vf) (hid : vf.vf_id < pf.num_alloc_vfs) :
    count_msgs_to_vf (vf.vf_id + pf.hw.vf_base_id) .VIRTCHNL_OP_DISABLE_CHANNELS
      (i40e_vc_del_qch_msg k o ro pf vf).2.2.2 ≤ 1 := by
  unfold i40e_vc_del_qch_msg
  split
  · exact le_of_eq (handler_err_count2 k o pf _ _ _ _ _ hid rfl rfl)
  · simp only [count_msgs_append]
    rw [vc_reset_vf_count _ _ _ _ _ _ _ (by decide), Nat.add_zero]
    split
    · have h := del_qch_loop_no_msgs (vf.num_tc - 1) 1 pf vf
      have h2 : no_msgs (HwEvent.del_all_cloud_filters vf.vf_id :: (i40e_del_qch pf vf).2.2) =
          true := by
        simpa [no_msgs, i40e_del_qch] using h
      rw [count_msgs_of_no_msgs _ _ _ h2]
      exact Nat.zero_le _
    · exact Nat.zero_le _

theorem add_qch_msg_count (k : Consts) (o : Oracle) (ro : ResOracle) (pf : i40e_pf)
    (vf : i40e_vf) (tci : virtchnl_tc_info) (hid : vf.vf_id < pf.num_alloc_vfs) :
    count_msgs_to_vf (vf.vf_id + pf.hw.vf_base_id) .VIRTCHNL_OP_ENABLE_CHANNELS
      (i40e_vc_add_qch_msg k o ro pf vf tci).2.2.2 ≤ 1 := by
  unfold i40e_vc_add_qch_msg
  simp only []
  repeat' split
  all_goals first
    | exact le_of_eq (handler_err_count2 k o pf _ _ _ _ _ hid rfl rfl)
    | (rw [vc_reset_vf_count _ _ _ _ _ _ _ (by decide)]; exact Nat.zero_le _)
    | skip
  · rename_i v hv
    have h := add_qch_parse_vf_id _ _ _ _ _ v hv
    exact le_of_eq (handler_err_count2 k o pf _ _ _ _ _ (by rw [h]; exact hid)
      (by rw [h]) rfl)

theorem request_queues_count (k : Consts) (o : Oracle) (ro : ResOracle) (pf : i40e_pf)
    (vf : i40e_vf) (msg : Msg) :
    count_msgs_to_vf (vf.vf_id + pf.hw.vf_base_id) .VIRTCHNL_OP_REQUEST_QUEUES
      (i40e_vc_request_queues k o ro pf vf msg).2.2.2 ≤ 1 := by
  unfold i40e_vc_request_queues i40e_vc_request_queues_msg i40e_set_vf_num_queues
  simp only []
  repeat' split
  all_goals first
    | exact Nat.zero_le _
    | (rw [vc_reset_vf_count _ _ _ _ _ _ _ (by decide)]; exact Nat.zero_le _)

theorem add_cloud_filter_count_le (k : Consts) (o : Oracle) (pf : i40e_pf) (vf : i40e_vf)
    (msg : Msg) (hid : vf.vf_id < pf.num_alloc_vfs) :
    count_msgs_to_vf (vf.vf_id + pf.hw.vf_base_id) .VIRTCHNL_OP_ADD_CLOUD_FILTER
      (i40e_vc_add_cloud_filter k o pf vf msg).2.2.2 ≤ 1 := by
  by_cases hk : o.kzalloc_ok 0 = true
  · exact le_of_eq (add_cloud_filter_count k o pf vf msg hid hk)
  · unfold i40e_vc_add_cloud_filter
    simp only [hk, Bool.not_false, if_true]
    repeat' split
    all_goals first
      | exact le_of_eq (send_count k _ pf vf _ _ _ _ hid rfl)
      | exact Nat.zero_le _

theorem vlan_promisc_no_msgs (vf : i40e_vf) (seid : Nat) (enable : Bool) (vid : Nat) :
    no_msgs (i40e_vc_vlan_promisc vf seid enable vid) = true := by
  simp only [i40e_vc_vlan_promisc, no_msgs_append, Bool.and_eq_true]
  exact ⟨no_msgs_ite _ _ _ rfl rfl, no_msgs_ite _ _ _ rfl rfl⟩

theorem add_vmvlan_to_list_vf_id (ok : Bool) (vf : i40e_vf) (vlan : Nat) :
    (i40e_add_vmvlan_to_list ok vf vlan).2.vf_id = vf.vf_id := by
  unfold i40e_add_vmvlan_to_list
  split <;> rfl

theorem add_vlan_entry_vf_id (o : VlanOracle) (i : Nat) (ret : Status) (vf : i40e_vf)
    (vid : Nat) : (i40e_vc_add_vlan_entry o i ret vf vid).2.vf_id = vf.vf_id := by
  unfold i40e_vc_add_vlan_entry
  split
  · exact add_vmvlan_to_list_vf_id _ _ _
  · rfl

theorem add_vlan_loop_msgs (o : VlanOracle) (l : List Nat) :
    ∀ (i : Nat) (vsi : i40e_vsi) (vf : i40e_vf),
      (i40e_vc_add_vlan_loop o l i vsi vf).2.2.1.vf_id = vf.vf_id ∧
      no_msgs (i40e_vc_add_vlan_loop o l i vsi vf).2.2.2 = true := by
  induction l with
  | nil => intro i vsi vf; exact ⟨rfl, rfl⟩
  | cons vid rest ih =>
    intro i vsi vf
    unfold i40e_vc_add_vlan_loop
    split
    · exact ⟨rfl, rfl⟩
    · split
      · exact ⟨rfl, rfl⟩
      · simp only []
        have hl := add_vlan_entry_vf_id o i (o.vsi_add_vlan i vsi vid).1 vf vid
        split
        · exact ⟨hl, rfl⟩
        · have h := ih (i + 1) (o.vsi_add_vlan i vsi vid).2
            (i40e_vc_add_vlan_entry o i (o.vsi_add_vlan i vsi vid).1 vf vid).2
          refine ⟨h.1.trans hl, ?_⟩
          rw [no_msgs_append, h.2, vlan_promisc_no_msgs]
          rfl

theorem del_vmvlan_from_list_vf_id (o : VlanOracle) (vsi : i40e_vsi) (vf : i40e_vf)
    (vlan : Nat) : (i40e_del_vmvlan_from_list o vsi vf vlan).2.vf_id = vf.vf_id := by
  unfold i40e_del_vmvlan_from_list
  split <;> rfl

theorem remove_vlan_loop_msgs (o : VlanOracle) (l : List Nat) :
    ∀ (vsi : i40e_vsi) (vf : i40e_vf),
      (i40e_vc_remove_vlan_loop o l vsi vf).2.1.vf_id = vf.vf_id ∧
      no_msgs (i40e_vc_remove_vlan_loop o l vsi vf).2.2 = true := by
  induction l with
  | nil => intro vsi vf; exact ⟨rfl, rfl⟩
  | cons vid rest ih =>
    intro vsi vf
    unfold i40e_vc_remove_vlan_loop
    simp only []
    have h := ih (i40e_del_vmvlan_from_list o vsi vf vid).1
      (i40e_del_vmvlan_from_list o vsi vf vid).2
    refine ⟨h.1.trans (del_vmvlan_from_list_vf_id _ _ _ _), ?_⟩
    rw [no_msgs_append, h.2, vlan_promisc_no_msgs]
    rfl

theorem add_vlan_msg_count (k : Consts) (o : Oracle) (pf : i40e_pf) (vf : i40e_vf) (msg : Msg)
    (hid : vf.vf_id < pf.num_alloc_vfs) :
    count_msgs_to_vf (vf.vf_id + pf.hw.vf_base_id) .VIRTCHNL_OP_ADD_VLAN
      (i40e_vc_add_vlan_msg k o pf vf msg).2.2.2 = 1 := by
  unfold i40e_vc_add_vlan_msg
  simp only []
  split
  · exact handler_err_count2 k o pf vf _ _ [] _ hid rfl rfl
  · split
    · exact handler_err_count2 k o pf vf _ _ [] _ hid rfl rfl
    · have h := add_vlan_loop_msgs o.vlan msg.vlan_id 0 (pf_vsi pf vf.lan_vsi_idx) vf
      exact handler_err_count2 k o _ _ _ _ _ _ (by rw [h.1]; exact hid) (by rw [h.1])
        (by simpa [no_msgs] using h.2)

theorem remove_vlan_msg_count (k : Consts) (o : Oracle) (pf : i40e_pf) (vf : i40e_vf)
    (msg : Msg) (hid : vf.vf_id < pf.num_alloc_vfs) :
    count_msgs_to_vf (vf.vf_id + pf.hw.vf_base_id) .VIRTCHNL_OP_DEL_VLAN
      (i40e_vc_remove_vlan_msg k o pf vf msg).2.2.2 = 1 := by
  unfold i40e_vc_remove_vlan_msg
  simp only []
  split
  · exact handler_err_count2 k o pf vf _ _ [] _ hid rfl rfl
  · split
    · exact handler_err_count2 k o pf vf _ _ [] _ hid rfl rfl
    · split
      · exact handler_err_count2 k o pf vf _ _ [] _ hid rfl rfl
      · split
        · exact handler_err_count2 k o pf vf _ _ [] _ hid rfl rfl
        · have h := remove_vlan_loop_msgs o.vlan msg.vlan_id (pf_vsi pf vf.lan_vsi_idx) vf
          exact handler_err_count2 k o _ _ _ _ _ _ (by rw [h.1]; exact hid) (by rw [h.1]) h.2

theorem notify_vf_link_state_count (pf : i40e_pf) (vf : i40e_vf) (a : Nat) (op : virtchnl_ops)
    (hop : op ≠ .VIRTCHNL_OP_EVENT) :
    count_msgs_to_vf a op (i40e_vc_notify_vf_link_state pf vf) = 0 := by
  have hne : (virtchnl_ops.VIRTCHNL_OP_EVENT == op) = false := by
    simpa using fun h => hop h.symm
  simp [i40e_vc_notify_vf_link_state, count_msgs_to_vf, hne]

/-- The opcode switch answers every request at most once, and exactly once
unless the opcode is RESET_VF, REQUEST_QUEUES, ENABLE_CHANNELS or
DISABLE_CHANNELS, or the filter allocation of ADD_CLOUD_FILTER fails. -/
theorem switch_count (k : Consts) (o : Oracle) (ro : ResOracle) (pf : i40e_pf) (vf : i40e_vf)
    (op : virtchnl_ops) (msg : Msg) (hid : vf.vf_id < pf.num_alloc_vfs) :
    count_msgs_to_vf (vf.vf_id + pf.hw.vf_base_id) op
        (i40e_vc_process_vf_msg_switch k o ro pf vf op msg).2.2.2 ≤ 1 ∧
    (op ≠ .VIRTCHNL_OP_RESET_VF → op ≠ .VIRTCHNL_OP_REQUEST_QUEUES →
      op ≠ .VIRTCHNL_OP_ENABLE_CHANNELS → op ≠ .VIRTCHNL_OP_DISABLE_CHANNELS →
      (op = .VIRTCHNL_OP_ADD_CLOUD_FILTER → o.kzalloc_ok 0 = true) →
      count_msgs_to_vf (vf.vf_id + pf.hw.vf_base_id) op
        (i40e_vc_process_vf_msg_switch k o ro pf vf op msg).2.2.2 = 1) ∧
    (op = .VIRTCHNL_OP_RESET_VF →
      count_msgs_to_vf (vf.vf_id + pf.hw.vf_base_id) op
        (i40e_vc_process_vf_msg_switch k o ro pf vf op msg).2.2.2 = 0) := by
  have one : ∀ n : Nat, n = 1 →
      n ≤ 1 ∧ (op ≠ .VIRTCHNL_OP_RESET_VF → op ≠ .VIRTCHNL_OP_REQUEST_QUEUES →
        op ≠ .VIRTCHNL_OP_ENABLE_CHANNELS → op ≠ .VIRTCHNL_OP_DISABLE_CHANNELS →
        (op = .VIRTCHNL_OP_ADD_CLOUD_FILTER → o.kzalloc_ok 0 = true) → n = 1) := by
    intro n hn
    exact ⟨le_of_eq hn, fun _ _ _ _ _ => hn⟩
  cases op
  case VIRTCHNL_OP_RESET_VF =>
    have h0 : count_msgs_to_vf (vf.vf_id + pf.hw.vf_base_id) .VIRTCHNL_OP_RESET_VF
        (i40e_vc_process_vf_msg_switch k o ro pf vf .VIRTCHNL_OP_RESET_VF msg).2.2.2 = 0 := by
      simp only [i40e_vc_process_vf_msg_switch]
      exact count_msgs_of_no_msgs _ _ _ (vc_reset_vf_no_msgs _ _ _ _)
    exact ⟨by rw [h0]; exact Nat.zero_le _, fun h => absurd rfl h, fun _ => h0⟩
  case VIRTCHNL_OP_REQUEST_QUEUES =>
    exact ⟨request_queues_count k o ro pf vf msg, fun _ h => absurd rfl h, fun h => by cases h⟩
  case VIRTCHNL_OP_ENABLE_CHANNELS =>
    exact ⟨add_qch_msg_count k o ro pf vf msg.tc_info hid, fun _ _ h => absurd rfl h,
      fun h => by cases h⟩
  case VIRTCHNL_OP_DISABLE_CHANNELS =>
    exact ⟨del_qch_msg_count k o ro pf vf hid, fun _ _ _ h => absurd rfl h, fun h => by cases h⟩
  case VIRTCHNL_OP_ADD_CLOUD_FILTER =>
    exact ⟨add_cloud_filter_count_le k o pf vf msg hid,
      fun _ _ _ _ hk => add_cloud_filter_count k o pf vf msg hid (hk rfl), fun h => by cases h⟩
  case VIRTCHNL_OP_GET_VF_RESOURCES =>
    have h1 : count_msgs_to_vf (vf.vf_id + pf.hw.vf_base_id) .VIRTCHNL_OP_GET_VF_RESOURCES
        (i40e_vc_process_vf_msg_switch k o ro pf vf .VIRTCHNL_OP_GET_VF_RESOURCES msg).2.2.2 =
          1 := by
      simp only [i40e_vc_process_vf_msg_switch, count_msgs_append,
        notify_vf_link_state_count _ _ _ _ (by decide : virtchnl_ops.VIRTCHNL_OP_GET_VF_RESOURCES
          ≠ .VIRTCHNL_OP_EVENT), Nat.add_zero]
      exact get_vf_resources_msg_count k o pf vf msg hid
    exact ⟨(one _ h1).1, (one _ h1).2, fun h => by cases h⟩
  case VIRTCHNL_OP_ENABLE_QUEUES =>
    have h1 : count_msgs_to_vf (vf.vf_id + pf.hw.vf_base_id) .VIRTCHNL_OP_ENABLE_QUEUES
        (i40e_vc_process_vf_msg_switch k o ro pf vf .VIRTCHNL_OP_ENABLE_QUEUES msg).2.2.2 =
          1 := by
      simp only [i40e_vc_process_vf_msg_switch, count_msgs_append,
        notify_vf_link_state_count _ _ _ _ (by decide : virtchnl_ops.VIRTCHNL_OP_ENABLE_QUEUES
          ≠ .VIRTCHNL_OP_EVENT), Nat.add_zero]
      exact handler_with_work_count k o pf vf _ _ hid
    exact ⟨(one _ h1).1, (one _ h1).2, fun h => by cases h⟩
  case VIRTCHNL_OP_UNKNOWN =>
    have h1 : count_msgs_to_vf (vf.vf_id + pf.hw.vf_base_id) .VIRTCHNL_OP_UNKNOWN
        (i40e_vc_process_vf_msg_switch k o ro pf vf .VIRTCHNL_OP_UNKNOWN msg).2.2.2 = 1 :=
      handler_err_count2 k o pf _ _ _ _ _ hid rfl rfl
    exact ⟨(one _ h1).1, (one _ h1).2, fun h => by cases h⟩
  case VIRTCHNL_OP_VERSION =>
    have h1 : count_msgs_to_vf (vf.vf_id + pf.hw.vf_base_id) .VIRTCHNL_OP_VERSION
        (i40e_vc_process_vf_msg_switch k o ro pf vf .VIRTCHNL_OP_VERSION msg).2.2.2 = 1 :=
      handler_err_count2 k o pf _ _ _ _ _ hid rfl rfl
    exact ⟨(one _ h1).1, (one _ h1).2, fun h => by cases h⟩
  case VIRTCHNL_OP_EVENT =>
    have h1 : count_msgs_to_vf (vf.vf_id + pf.hw.vf_base_id) .VIRTCHNL_OP_EVENT
        (i40e_vc_process_vf_msg_switch k o ro pf vf .VIRTCHNL_OP_EVENT msg).2.2.2 = 1 :=
      handler_err_count2 k o pf _ _ _ _ _ hid rfl rfl
    exact ⟨(one _ h1).1, (one _ h1).2, fun h => by cases h⟩
  case VIRTCHNL_OP_CONFIG_VSI_QUEUES =>
    have h1 : count_msgs_to_vf (vf.vf_id + pf.hw.vf_base_id) .VIRTCHNL_OP_CONFIG_VSI_QUEUES
        (i40e_vc_process_vf_msg_switch k o ro pf vf .VIRTCHNL_OP_CONFIG_VSI_QUEUES msg).2.2.2 = 1 :=
      handler_with_work_count k o pf vf _ _ hid
    exact ⟨(one _ h1).1, (one _ h1).2, fun h => by cases h⟩
  case VIRTCHNL_OP_CONFIG_IRQ_MAP =>
    have h1 : count_msgs_to_vf (vf.vf_id + pf.hw.vf_base_id) .VIRTCHNL_OP_CONFIG_IRQ_MAP
        (i40e_vc_process_vf_msg_switch k o ro pf vf .VIRTCHNL_OP_CONFIG_IRQ_MAP msg).2.2.2 = 1 :=
      handler_with_work_count k o pf vf _ _ hid
    exact ⟨(one _ h1).1, (one _ h1).2, fun h => by cases h⟩
  case VIRTCHNL_OP_DISABLE_QUEUES =>
    have h1 : count_msgs_to_vf (vf.vf_id + pf.hw.vf_base_id) .VIRTCHNL_OP_DISABLE_QUEUES
        (i40e_vc_process_vf_msg_switch k o ro pf vf .VIRTCHNL_OP_DISABLE_QUEUES msg).2.2.2 = 1 :=
      handler_with_work_count k o pf vf _ _ hid
    exact ⟨(one _ h1).1, (one _ h1).2, fun h => by cases h⟩
  case VIRTCHNL_OP_ADD_VLAN =>
    have h1 : count_msgs_to_vf (vf.vf_id + pf.hw.vf_base_id) .VIRTCHNL_OP_ADD_VLAN
        (i40e_vc_process_vf_msg_switch k o ro pf vf .VIRTCHNL_OP_ADD_VLAN msg).2.2.2 = 1 :=
      add_vlan_msg_count k o pf vf msg hid
    exact ⟨(one _ h1).1, (one _ h1).2, fun h => by cases h⟩
  case VIRTCHNL_OP_DEL_VLAN =>
    have h1 : count_msgs_to_vf (vf.vf_id + pf.hw.vf_base_id) .VIRTCHNL_OP_DEL_VLAN
        (i40e_vc_process_vf_msg_switch k o ro pf vf .VIRTCHNL_OP_DEL_VLAN msg).2.2.2 = 1 :=
      remove_vlan_msg_count k o pf vf msg hid
    exact ⟨(one _ h1).1, (one _ h1).2, fun h => by cases h⟩
  case VIRTCHNL_OP_GET_STATS =>
    have h1 : count_msgs_to_vf (vf.vf_id + pf.hw.vf_base_id) .VIRTCHNL_OP_GET_STATS
        (i40e_vc_process_vf_msg_switch k o ro pf vf .VIRTCHNL_OP_GET_STATS msg).2.2.2 = 1 :=
      handler_with_work_count k o pf vf _ _ hid
    exact ⟨(one _ h1).1, (one _ h1).2, fun h => by cases h⟩
  case VIRTCHNL_OP_CONFIG_RSS_KEY =>
    have h1 : count_msgs_to_vf (vf.vf_id + pf.hw.vf_base_id) .VIRTCHNL_OP_CONFIG_RSS_KEY
        (i40e_vc_process_vf_msg_switch k o ro pf vf .VIRTCHNL_OP_CONFIG_RSS_KEY msg).2.2.2 = 1 :=
      handler_with_work_count k o pf vf _ _ hid
    exact ⟨(one _ h1).1, (one _ h1).2, fun h => by cases h⟩
  case VIRTCHNL_OP_CONFIG_RSS_LUT =>
    have h1 : count_msgs_to_vf (vf.vf_id + pf.hw.vf_base_id) .VIRTCHNL_OP_CONFIG_RSS_LUT
        (i40e_vc_process_vf_msg_switch k o ro pf vf .VIRTCHNL_OP_CONFIG_RSS_LUT msg).2.2.2 = 1 :=
      handler_with_work_count k o pf vf _ _ hid
    exact ⟨(one _ h1).1, (one _ h1).2, fun h => by cases h⟩
  case VIRTCHNL_OP_CONFIG_PROMISCUOUS_MODE =>
    have h1 : count_msgs_to_vf (vf.vf_id + pf.hw.vf_base_id) .VIRTCHNL_OP_CONFIG_PROMISCUOUS_MODE
        (i40e_vc_process_vf_msg_switch k o ro pf vf .VIRTCHNL_OP_CONFIG_PROMISCUOUS_MODE msg).2.2.2 = 1 :=
      config_promiscuous_mode_count k o pf vf msg hid
    exact ⟨(one _ h1).1, (one _ h1).2, fun h => by cases h⟩
  case VIRTCHNL_OP_ADD_ETH_ADDR =>
    have h1 : count_msgs_to_vf (vf.vf_id + pf.hw.vf_base_id) .VIRTCHNL_OP_ADD_ETH_ADDR
        (i40e_vc_process_vf_msg_switch k o ro pf vf .VIRTCHNL_OP_ADD_ETH_ADDR msg).2.2.2 = 1 :=
      add_mac_addr_msg_count k o pf vf msg hid
    exact ⟨(one _ h1).1, (one _ h1).2, fun h => by cases h⟩
  case VIRTCHNL_OP_DEL_ETH_ADDR =>
    have h1 : count_msgs_to_vf (vf.vf_id + pf.hw.vf_base_id) .VIRTCHNL_OP_DEL_ETH_ADDR
        (i40e_vc_process_vf_msg_switch k o ro pf vf .VIRTCHNL_OP_DEL_ETH_ADDR msg).2.2.2 = 1 :=
      del_mac_addr_msg_count k o pf vf msg hid
    exact ⟨(one _ h1).1, (one _ h1).2, fun h => by cases h⟩
  case VIRTCHNL_OP_GET_RSS_HENA_CAPS =>
    have h1 : count_msgs_to_vf (vf.vf_id + pf.hw.vf_base_id) .VIRTCHNL_OP_GET_RSS_HENA_CAPS
        (i40e_vc_process_vf_msg_switch k o ro pf vf .VIRTCHNL_OP_GET_RSS_HENA_CAPS msg).2.2.2 = 1 :=
      get_rss_hena_count k o pf vf hid
    exact ⟨(one _ h1).1, (one _ h1).2, fun h => by cases h⟩
  case VIRTCHNL_OP_SET_RSS_HENA =>
    have h1 : count_msgs_to_vf (vf.vf_id + pf.hw.vf_base_id) .VIRTCHNL_OP_SET_RSS_HENA
        (i40e_vc_process_vf_msg_switch k o ro pf vf .VIRTCHNL_OP_SET_RSS_HENA msg).2.2.2 = 1 :=
      set_rss_hena_count k o pf vf msg hid
    exact ⟨(one _ h1).1, (one _ h1).2, fun h => by cases h⟩
  case VIRTCHNL_OP_ENABLE_VLAN_STRIPPING =>
    have h1 : count_msgs_to_vf (vf.vf_id + pf.hw.vf_base_id) .VIRTCHNL_OP_ENABLE_VLAN_STRIPPING
        (i40e_vc_process_vf_msg_switch k o ro pf vf .VIRTCHNL_OP_ENABLE_VLAN_STRIPPING msg).2.2.2 = 1 :=
      enable_vlan_stripping_count k o pf vf hid
    exact ⟨(one _ h1).1, (one _ h1).2, fun h => by cases h⟩
  case VIRTCHNL_OP_DISABLE_VLAN_STRIPPING =>
    have h1 : count_msgs_to_vf (vf.vf_id + pf.hw.vf_base_id) .VIRTCHNL_OP_DISABLE_VLAN_STRIPPING
        (i40e_vc_process_vf_msg_switch k o ro pf vf .VIRTCHNL_OP_DISABLE_VLAN_STRIPPING msg).2.2.2 = 1 :=
      disable_vlan_stripping_count k o pf vf hid
    exact ⟨(one _ h1).1, (one _ h1).2, fun h => by cases h⟩
  case VIRTCHNL_OP_DEL_CLOUD_FILTER =>
    have h1 : count_msgs_to_vf (vf.vf_id + pf.hw.vf_base_id) .VIRTCHNL_OP_DEL_CLOUD_FILTER
        (i40e_vc_process_vf_msg_switch k o ro pf vf .VIRTCHNL_OP_DEL_CLOUD_FILTER msg).2.2.2 = 1 :=
      del_cloud_filter_count k o pf vf msg hid
    exact ⟨(one _ h1).1, (one _ h1).2, fun h => by cases h⟩
  case unlisted n =>
    have h1 : count_msgs_to_vf (vf.vf_id + pf.hw.vf_base_id) (.unlisted n)
        (i40e_vc_process_vf_msg_switch k o ro pf vf (.unlisted n) msg).2.2.2 = 1 :=
      handler_err_count2 k o pf _ _ _ _ _ hid rfl rfl
    exact ⟨(one _ h1).1, (one _ h1).2, fun h => by cases h⟩

theorem process_vf_msg_of_checks (k : Consts) (o : Oracle) (ro : ResOracle) (pf : i40e_pf)
    (vf_id : Int) (op : virtchnl_ops) (msg : Msg) (vf : i40e_vf)
    (h0 : 0 ≤ vf_id - s16 pf.hw.vf_base_id)
    (h1 : vf_id - s16 pf.hw.vf_base_id < (pf.num_alloc_vfs : Int))
    (hvf : pf.vf[(vf_id - s16 pf.hw.vf_base_id).toNat]? = some vf)
    (hd : test_bit .I40E_VF_STATE_DISABLED vf.vf_states = false)
    (hv : o.validate_ret = .ok) :
    (i40e_vc_process_vf_msg k o ro pf vf_id op msg).2.2 =
      (i40e_vc_process_vf_msg_switch k o ro
        { pf with vf_aq_requests := pf.vf_aq_requests + 1 } vf op msg).2.2.2 := by
  have hc : (decide (vf_id - s16 pf.hw.vf_base_id < 0) ||
      decide (vf_id - s16 pf.hw.vf_base_id ≥ (pf.num_alloc_vfs : Int))) = false := by
    simp only [Bool.or_eq_false_iff, decide_eq_false_iff_not]
    omega
  unfold i40e_vc_process_vf_msg
  simp only [hc, Bool.false_eq_true, if_false, hvf, hd, hv]

/-- C10 counterexample: a RESET_VF message from VF 0 (absolute id 32) passes
the checks before the dispatch (id in range, DISABLED clear, validation
accepted), the dispatcher returns 0, and among the hardware events of the call
there is no message with opcode RESET_VF to the VF: the request is answered
by the reset alone. -/
theorem C10_counterexample :
    (0 ≤ (32 : Int) - s16 sample_pf_twelve_left.hw.vf_base_id ∧
      (32 : Int) - s16 sample_pf_twelve_left.hw.vf_base_id <
        (sample_pf_twelve_left.num_alloc_vfs : Int)) ∧
    sample_pf_twelve_left.vf[((32 : Int) - s16 sample_pf_twelve_left.hw.vf_base_id).toNat]? =
      some sample_vf_adq_capable ∧
    test_bit .I40E_VF_STATE_DISABLED sample_vf_adq_capable.vf_states = false ∧
    sample_msg_oracle.validate_ret = .ok ∧
    (i40e_vc_process_vf_msg sample_consts sample_msg_oracle sample_res_oracle
        sample_pf_twelve_left 32 .VIRTCHNL_OP_RESET_VF sample_msg).1 = .I40E_SUCCESS ∧
    count_msgs_to_vf 32 .VIRTCHNL_OP_RESET_VF
      (i40e_vc_process_vf_msg sample_consts sample_msg_oracle sample_res_oracle
        sample_pf_twelve_left 32 .VIRTCHNL_OP_RESET_VF sample_msg).2.2 = 0 ∧
    (i40e_vc_process_vf_msg sample_consts sample_msg_oracle sample_res_oracle
        sample_pf_twelve_left 32 .VIRTCHNL_OP_RESET_VF sample_msg).2.2 ≠ [] := by
  refine ⟨by decide, by decide, by decide, by decide, ?_, ?_, ?_⟩ <;> decide

/-- C10 (amended): for every message that passes the checks before the
dispatch of i40e_vc_process_vf_msg (the VF found at the in-range local id has
DISABLED clear and the validation accepted the message): (a) at most one
message carrying the request's opcode is sent to the originating VF; (b) it
is exactly one, on the success path and every failure path of the handler,
allocation failures of GET_VF_RESOURCES and GET_RSS_HENA_CAPS included, when
the opcode is none of RESET_VF, REQUEST_QUEUES, ENABLE_CHANNELS and
DISABLE_CHANNELS and, for ADD_CLOUD_FILTER, the allocation of the filter
succeeds; (c) a RESET_VF request gets no message with its opcode. -/
theorem C10_request_is_answered_once_unless_reset (k : Consts) (o : Oracle) (ro : ResOracle)
    (pf : i40e_pf) (vf_id : Int) (op : virtchnl_ops) (msg : Msg) (vf : i40e_vf)
    (h0 : 0 ≤ vf_id - s16 pf.hw.vf_base_id)
    (h1 : vf_id - s16 pf.hw.vf_base_id < (pf.num_alloc_vfs : Int))
    (hvf : pf.vf[(vf_id - s16 pf.hw.vf_base_id).toNat]? = some vf)
    (hidx : vf.vf_id = (vf_id - s16 pf.hw.vf_base_id).toNat)
    (hd : test_bit .I40E_VF_STATE_DISABLED vf.vf_states = false)
    (hv : o.validate_ret = .ok) :
    count_msgs_to_vf (vf.vf_id + pf.hw.vf_base_id) op
        (i40e_vc_process_vf_msg k o ro pf vf_id op msg).2.2 ≤ 1 ∧
    (op ≠ .VIRTCHNL_OP_RESET_VF → op ≠ .VIRTCHNL_OP_REQUEST_QUEUES →
      op ≠ .VIRTCHNL_OP_ENABLE_CHANNELS → op ≠ .VIRTCHNL_OP_DISABLE_CHANNELS →
      (op = .VIRTCHNL_OP_ADD_CLOUD_FILTER → o.kzalloc_ok 0 = true) →
      count_msgs_to_vf (vf.vf_id + pf.hw.vf_base_id) op
        (i40e_vc_process_vf_msg k o ro pf vf_id op msg).2.2 = 1) ∧
    (op = .VIRTCHNL_OP_RESET_VF →
      count_msgs_to_vf (vf.vf_id + pf.hw.vf_base_id) op
        (i40e_vc_process_vf_msg k o ro pf vf_id op msg).2.2 = 0) := by
  have hid : vf.vf_id < pf.num_alloc_vfs := by omega
  rw [process_vf_msg_of_checks k o ro pf vf_id op msg vf h0 h1 hvf hd hv]
  exact switch_count k o ro { pf with vf_aq_requests := pf.vf_aq_requests + 1 } vf op msg hid

theorem C10_witness :
    (0 ≤ (32 : Int) - s16 sample_pf_twelve_left.hw.vf_base_id ∧
      (32 : Int) - s16 sample_pf_twelve_left.hw.vf_base_id <
        (sample_pf_twelve_left.num_alloc_vfs : Int)) ∧
    test_bit .I40E_VF_STATE_DISABLED sample_vf_adq_capable.vf_states = false ∧
    sample_msg_oracle.validate_ret = .ok ∧
    count_msgs_to_vf (sample_vf_adq_capable.vf_id + sample_pf_twelve_left.hw.vf_base_id)
      .VIRTCHNL_OP_ADD_ETH_ADDR
      (i40e_vc_process_vf_msg sample_consts sample_msg_oracle sample_res_oracle
        sample_pf_twelve_left 32 .VIRTCHNL_OP_ADD_ETH_ADDR sample_msg).2.2 = 1 ∧
    count_msgs_to_vf (sample_vf_adq_capable.vf_id + sample_pf_twelve_left.hw.vf_base_id)
      .VIRTCHNL_OP_RESET_VF
      (i40e_vc_process_vf_msg sample_consts sample_msg_oracle sample_res_oracle
        sample_pf_twelve_left 32 .VIRTCHNL_OP_RESET_VF sample_msg).2.2 = 0 :=
  ⟨by decide, by decide, rfl,
    (C10_request_is_answered_once_unless_reset sample_consts sample_msg_oracle
      sample_res_oracle sample_pf_twelve_left 32 .VIRTCHNL_OP_ADD_ETH_ADDR sample_msg
      sample_vf_adq_capable (by decide) (by decide) rfl (by decide) (by decide) rfl).2.1
      (by decide) (by decide) (by decide) (by decide) (fun h => by cases h),
    (C10_request_is_answered_once_unless_reset sample_consts sample_msg_oracle
      sample_res_oracle sample_pf_twelve_left 32 .VIRTCHNL_OP_RESET_VF sample_msg
      sample_vf_adq_capable (by decide) (by decide) rfl (by decide) (by decide) rfl).2.2 rfl⟩

/-! ### The counters of valid and invalid messages (C11) -/

theorem trailing_run_append_singleton (p : vc_response → Bool) (rs : List vc_response)
    (r : vc_response) :
    trailing_run p (rs ++ [r]) = if p r then trailing_run p rs + 1 else 0 := by
  simp only [trailing_run, List.reverse_append, List.reverse_singleton, List.singleton_append,
    List.takeWhile_cons]
  split <;> simp

theorem send_responses_append_singleton (k : Consts) (pf : i40e_pf) (vf : i40e_vf)
    (rs : List vc_response) (r : vc_response) :
    send_responses k pf vf (rs ++ [r]) =
      (i40e_vc_send_msg_to_vf_ex k r.send_ret pf (send_responses k pf vf rs) r.v_opcode
        r.v_retval r.is_quiet).2.1 := by
  simp [send_responses, List.foldl_append]

/-- What one response does to the VF descriptor of an allocated VF. -/
theorem send_step (k : Consts) (sr : Status) (pf : i40e_pf) (vf : i40e_vf) (op : virtchnl_ops)
    (ret : Status) (q : Bool) (hid : vf.vf_id < pf.num_alloc_vfs) :
    (i40e_vc_send_msg_to_vf_ex k sr pf vf op ret q).2.1.vf_id = vf.vf_id ∧
    (i40e_vc_send_msg_to_vf_ex k sr pf vf op ret q).2.1.num_invalid_msgs =
      (if ret.isErr && !q then vf.num_invalid_msgs + 1 else 0) ∧
    (i40e_vc_send_msg_to_vf_ex k sr pf vf op ret q).2.1.num_valid_msgs =
      (if ret.isErr && !q then vf.num_valid_msgs else vf.num_valid_msgs + 1) ∧
    test_bit .I40E_VF_STATE_DISABLED
        (i40e_vc_send_msg_to_vf_ex k sr pf vf op ret q).2.1.vf_states =
      (test_bit .I40E_VF_STATE_DISABLED vf.vf_states ||
        ((ret.isErr && !q) &&
          decide (vf.num_invalid_msgs + 1 > k.I40E_DEFAULT_NUM_INVALID_MSGS_ALLOWED))) := by
  have hnge : ¬ (vf.vf_id ≥ pf.num_alloc_vfs) := by omega
  have hvf : (i40e_vc_send_msg_to_vf_ex k sr pf vf op ret q).2.1 =
      (if ret.isErr && !q then
        (if vf.num_invalid_msgs + 1 > k.I40E_DEFAULT_NUM_INVALID_MSGS_ALLOWED then
          { vf with num_invalid_msgs := vf.num_invalid_msgs + 1,
                    vf_states := (set_bit .I40E_VF_STATE_DISABLED vf.vf_states) }
         else { vf with num_invalid_msgs := vf.num_invalid_msgs + 1 })
       else { vf with num_valid_msgs := vf.num_valid_msgs + 1, num_invalid_msgs := 0 }) := by
    simp only [i40e_vc_send_msg_to_vf_ex, hnge, if_false]
    split <;> rfl
  rw [hvf]
  by_cases hc : (ret.isErr && !q) = true
  · simp only [hc, if_true, Bool.true_and]
    by_cases hgt : vf.num_invalid_msgs + 1 > k.I40E_DEFAULT_NUM_INVALID_MSGS_ALLOWED
    · simp [hgt, test_bit, set_bit, assign_bit]
    · simp [hgt]
  · simp [hc]

theorem send_responses_vf_id (k : Consts) (pf : i40e_pf) (vf : i40e_vf)
    (rs : List vc_response) (hid : vf.vf_id < pf.num_alloc_vfs) :
    (send_responses k pf vf rs).vf_id = vf.vf_id := by
  induction rs using List.reverseRecOn with
  | nil => rfl
  | append_singleton rs r ih =>
    rw [send_responses_append_singleton, (send_step k _ pf _ _ _ _ (by rw [ih]; exact hid)).1, ih]

/-- The counters and the DISABLED bit after a sequence of responses. -/
theorem send_responses_counters (k : Consts) (pf : i40e_pf) (vf : i40e_vf)
    (rs : List vc_response) (hid : vf.vf_id < pf.num_alloc_vfs) :
    (send_responses k pf vf rs).num_invalid_msgs =
      trailing_run vc_response.counted rs +
        (if rs.all vc_response.counted then vf.num_invalid_msgs else 0) ∧
    (send_responses k pf vf rs).num_valid_msgs =
      vf.num_valid_msgs + rs.countP (fun r => !r.counted) ∧
    (test_bit .I40E_VF_STATE_DISABLED (send_responses k pf vf rs).vf_states = true ↔
      test_bit .I40E_VF_STATE_DISABLED vf.vf_states = true ∨
      ∃ n, 1 ≤ n ∧ n ≤ rs.length ∧
        trailing_run vc_response.counted (rs.take n) +
          (if (rs.take n).all vc_response.counted then vf.num_invalid_msgs else 0) >
            k.I40E_DEFAULT_NUM_INVALID_MSGS_ALLOWED) := by
  induction rs using List.reverseRecOn with
  | nil =>
    simp only [send_responses, trailing_run, List.foldl_nil, List.reverse_nil,
      List.takeWhile_nil, List.length_nil, List.all_nil, if_true, Nat.zero_add, List.countP_nil,
      Nat.add_zero, true_and]
    constructor
    · exact fun h => Or.inl h
    · rintro (h | ⟨n, h1, h2, _⟩)
      · exact h
      · omega
  | append_singleton rs r ih =>
    have hid2 : (send_responses k pf vf rs).vf_id < pf.num_alloc_vfs := by
      rw [send_responses_vf_id k pf vf rs hid]; exact hid
    have hs := send_step k r.send_ret pf (send_responses k pf vf rs) r.v_opcode r.v_retval
      r.is_quiet hid2
    obtain ⟨ih1, ih2, ih3⟩ := ih
    rw [send_responses_append_singleton]
    refine ⟨?_, ?_, ?_⟩
    · rw [hs.2.1, trailing_run_append_singleton, List.all_append, ih1]
      by_cases hc : r.counted = true
      · have hc2 : (r.v_retval.isErr && !r.is_quiet) = true := hc
        simp only [hc, hc2, if_true, List.all_cons, List.all_nil, Bool.and_true]
        omega
      · have hc2 : ¬ (r.v_retval.isErr && !r.is_quiet) = true := hc
        simp [hc, hc2]
    · rw [hs.2.2.1, List.countP_append, ih2]
      by_cases hc : r.counted = true
      · have hc2 : (r.v_retval.isErr && !r.is_quiet) = true := hc
        simp [hc, hc2, List.countP_cons]
      · have hc2 : ¬ (r.v_retval.isErr && !r.is_quiet) = true := hc
        simp [hc, hc2, List.countP_cons]
        omega
    · rw [hs.2.2.2, Bool.or_eq_true, ih3, ih1]
      constructor
      · rintro (h | h)
        · rcases h with h | ⟨n, h1, h2, h3⟩
          · exact Or.inl h
          · refine Or.inr ⟨n, h1, by simp; omega, ?_⟩
            rw [List.take_append_of_le_length h2]
            exact h3
        · rw [Bool.and_eq_true, decide_eq_true_eq] at h
          refine Or.inr ⟨rs.length + 1, by omega, by simp, ?_⟩
          have hc : r.counted = true := h.1
          have ht : List.take (rs.length + 1) (rs ++ [r]) = rs ++ [r] := by
            apply List.take_of_length_le
            simp
          rw [ht, trailing_run_append_singleton, List.all_append]
          simp only [hc, if_true, List.all_cons, List.all_nil, Bool.and_true]
          have := h.2
          omega
      · rintro (h | ⟨n, h1, h2, h3⟩)
        · exact Or.inl (Or.inl h)
        · simp only [List.length_append, List.length_singleton] at h2
          by_cases hn : n ≤ rs.length
          · rw [List.take_append_of_le_length hn] at h3
            exact Or.inl (Or.inr ⟨n, h1, hn, h3⟩)
          · have hn2 : n = rs.length + 1 := by omega
            subst hn2
            have ht : List.take (rs.length + 1) (rs ++ [r]) = rs ++ [r] := by
              apply List.take_of_length_le
              simp
            rw [ht, trailing_run_append_singleton, List.all_append] at h3
            by_cases hc : r.counted = true
            · have hc2 : (r.v_retval.isErr && !r.is_quiet) = true := hc
              simp only [hc, if_true, List.all_cons, List.all_nil, Bool.and_true] at h3
              refine Or.inr ?_
              simp only [hc2, Bool.true_and, decide_eq_true_eq]
              omega
            · simp [hc] at h3

theorem process_vf_msg_disabled (k : Consts) (o : Oracle) (ro : ResOracle) (pf : i40e_pf)
    (vf_id : Int) (op : virtchnl_ops) (msg : Msg) (vf : i40e_vf)
    (h0 : 0 ≤ vf_id - s16 pf.hw.vf_base_id)
    (h1 : vf_id - s16 pf.hw.vf_base_id < (pf.num_alloc_vfs : Int))
    (hvf : pf.vf[(vf_id - s16 pf.hw.vf_base_id).toNat]? = some vf)
    (hd : test_bit .I40E_VF_STATE_DISABLED vf.vf_states = true) :
    i40e_vc_process_vf_msg k o ro pf vf_id op msg =
      (.I40E_ERR_PARAM, { pf with vf_aq_requests := pf.vf_aq_requests + 1 }, []) := by
  have hc : (decide (vf_id - s16 pf.hw.vf_base_id < 0) ||
      decide (vf_id - s16 pf.hw.vf_base_id ≥ (pf.num_alloc_vfs : Int))) = false := by
    simp only [Bool.or_eq_false_iff, decide_eq_false_iff_not]
    omega
  unfold i40e_vc_process_vf_msg
  simp only [hc, Bool.false_eq_true, if_false, hvf, hd, if_true]

/-- C11 counterexample: a failed response that is not quiet followed by a
failed quiet one are two consecutive failed responses with no successful one
in between, yet num_invalid_msgs is 0 afterwards (and num_valid_msgs 1); and
eleven failed quiet responses in a row, more than the allowance of ten of the
sample constants, leave the counter at 0 and DISABLED clear. -/
theorem C11_counterexample :
    sample_vf.num_invalid_msgs = 0 ∧ sample_vf.num_valid_msgs = 0 ∧
    trailing_run vc_response.failed sample_responses = 2 ∧
    (send_responses sample_consts sample_pf sample_vf sample_responses).num_invalid_msgs = 0 ∧
    (send_responses sample_consts sample_pf sample_vf sample_responses).num_valid_msgs = 1 ∧
    trailing_run vc_response.failed sample_quiet_failures = 11 ∧
    sample_consts.I40E_DEFAULT_NUM_INVALID_MSGS_ALLOWED = 10 ∧
    (send_responses sample_consts sample_pf sample_vf sample_quiet_failures).num_invalid_msgs
      = 0 ∧
    test_bit .I40E_VF_STATE_DISABLED
      (send_responses sample_consts sample_pf sample_vf sample_quiet_failures).vf_states =
        false := by
  decide

/-- C11 (amended): over every sequence of responses sent through
i40e_vc_send_msg_to_vf_ex for an allocated VF, with "counted" meaning failed
(v_retval not zero) and not quiet: (a) num_invalid_msgs is the number of
counted responses at the end of the sequence, plus the initial value when
every response was counted: a response that is successful or quiet resets it
to 0; (b) num_valid_msgs has grown by the number of responses that are
successful or quiet; (c) DISABLED is set afterwards exactly when it was set
before or the counter exceeded I40E_DEFAULT_NUM_INVALID_MSGS_ALLOWED after one
of the responses; (d) the dispatcher handles no message of a VF whose
DISABLED bit is set: it returns I40E_ERR_PARAM and issues nothing. -/
theorem C11_counter_of_consecutive_counted_failures (k : Consts) (pf : i40e_pf) (vf : i40e_vf)
    (rs : List vc_response) (hid : vf.vf_id < pf.num_alloc_vfs) :
    (send_responses k pf vf rs).num_invalid_msgs =
      trailing_run vc_response.counted rs +
        (if rs.all vc_response.counted then vf.num_invalid_msgs else 0) ∧
    (send_responses k pf vf rs).num_valid_msgs =
      vf.num_valid_msgs + rs.countP (fun r => !r.counted) ∧
    (test_bit .I40E_VF_STATE_DISABLED (send_responses k pf vf rs).vf_states = true ↔
      test_bit .I40E_VF_STATE_DISABLED vf.vf_states = true ∨
      ∃ n, 1 ≤ n ∧ n ≤ rs.length ∧
        trailing_run vc_response.counted (rs.take n) +
          (if (rs.take n).all vc_response.counted then vf.num_invalid_msgs else 0) >
            k.I40E_DEFAULT_NUM_INVALID_MSGS_ALLOWED) ∧
    (∀ (o : Oracle) (ro : ResOracle) (pf2 : i40e_pf) (vf_id : Int) (op : virtchnl_ops)
        (msg : Msg) (vd : i40e_vf),
      0 ≤ vf_id - s16 pf2.hw.vf_base_id →
      vf_id - s16 pf2.hw.vf_base_id < (pf2.num_alloc_vfs : Int) →
      pf2.vf[(vf_id - s16 pf2.hw.vf_base_id).toNat]? = some vd →
      test_bit .I40E_VF_STATE_DISABLED vd.vf_states = true →
      i40e_vc_process_vf_msg k o ro pf2 vf_id op msg =
        (.I40E_ERR_PARAM, { pf2 with vf_aq_requests := pf2.vf_aq_requests + 1 }, [])) :=
  ⟨(send_responses_counters k pf vf rs hid).1, (send_responses_counters k pf vf rs hid).2.1,
    (send_responses_counters k pf vf rs hid).2.2,
    fun o ro pf2 vf_id op msg vd h0 h1 hvf hd =>
      process_vf_msg_disabled k o ro pf2 vf_id op msg vd h0 h1 hvf hd⟩

theorem C11_witness :
    sample_vf.vf_id < sample_pf.num_alloc_vfs ∧
    (send_responses sample_consts sample_pf sample_vf sample_loud_failures).num_invalid_msgs =
      11 ∧
    test_bit .I40E_VF_STATE_DISABLED
      (send_responses sample_consts sample_pf sample_vf sample_loud_failures).vf_states = true ∧
    i40e_vc_process_vf_msg sample_consts sample_msg_oracle sample_res_oracle
        sample_pf_vf_disabled 32 .VIRTCHNL_OP_VERSION sample_msg =
      (.I40E_ERR_PARAM, { sample_pf_vf_disabled with vf_aq_requests := 1 }, []) :=
  have h := C11_counter_of_consecutive_counted_failures sample_consts sample_pf sample_vf
    sample_loud_failures (by decide)
  ⟨by decide, h.1.trans (by decide),
    h.2.2.1.mpr (Or.inr ⟨11, by decide, by decide, by decide⟩),
    h.2.2.2 sample_msg_oracle sample_res_oracle sample_pf_vf_disabled 32 .VIRTCHNL_OP_VERSION
      sample_msg
      { sample_vf_adq_capable with vf_states := (set_bit .I40E_VF_STATE_DISABLED sample_states) }
      (by decide) (by decide) rfl (by decide)⟩

/-! ### The administratively set MAC address (C12) -/

theorem max_macvlan_per_pf_eq (ports : Nat) :
    I40E_MAX_MACVLAN_PER_PF (ports : Int) = ((3072 / ports : Nat) : Int) := rfl

/-- Where the pool covers the baseline of every VF, the macro is the plain
equal share of the pool. -/
theorem trusted_quota_eq_share (n ports : Nat) (hn : 1 ≤ n) (h : 18 * n ≤ 3072 / ports) :
    I40E_VC_MAX_MACVLAN_PER_TRUSTED_VF (n : Int) (ports : Int) =
      ((3072 / ports / n : Nat) : Int) := by
  unfold I40E_VC_MAX_MACVLAN_PER_TRUSTED_VF
  rw [max_macvlan_per_pf_eq]
  generalize 3072 / ports = P at h ⊢
  have h1 : ((P : Nat) : Int) - (n : Int) * ((I40E_VC_MAX_MAC_ADDR_PER_VF : Nat) : Int) =
      ((P - n * 18 : Nat) : Int) := by
    have : n * 18 ≤ P := by omega
    rw [Nat.cast_sub this]
    simp [I40E_VC_MAX_MAC_ADDR_PER_VF]
  rw [h1]
  have h2 : Int.tdiv ((P - n * 18 : Nat) : Int) (n : Int) = (((P - n * 18) / n : Nat) : Int) := rfl
  rw [h2, Nat.sub_mul_div P n 18 (by omega)]
  have h3 : 18 ≤ P / n := by
    rw [Nat.le_div_iff_mul_le (by omega)]
    omega
  simp only [I40E_VC_MAX_MAC_ADDR_PER_VF]
  omega

/-- The macro reaches the untrusted limit exactly when the pool holds more
than 17 filters per VF. -/
theorem trusted_quota_ge_iff (n ports : Nat) (hn : 1 ≤ n) :
    ((I40E_VC_MAX_MAC_ADDR_PER_VF : Nat) : Int) ≤
        I40E_VC_MAX_MACVLAN_PER_TRUSTED_VF (n : Int) (ports : Int) ↔
      17 * n < 3072 / ports := by
  by_cases h : 18 * n ≤ 3072 / ports
  · rw [trusted_quota_eq_share n ports hn h]
    have h3 : 18 ≤ 3072 / ports / n := by
      rw [Nat.le_div_iff_mul_le (by omega)]
      omega
    constructor
    · intro _
      omega
    · intro _
      simp only [I40E_VC_MAX_MAC_ADDR_PER_VF]
      exact_mod_cast h3
  · unfold I40E_VC_MAX_MACVLAN_PER_TRUSTED_VF
    rw [max_macvlan_per_pf_eq]
    generalize 3072 / ports = P at h ⊢
    have h1 : ((P : Nat) : Int) - (n : Int) * ((I40E_VC_MAX_MAC_ADDR_PER_VF : Nat) : Int) =
        - ((n * 18 - P : Nat) : Int) := by
      have : P ≤ n * 18 := by omega
      rw [Nat.cast_sub this]
      simp [I40E_VC_MAX_MAC_ADDR_PER_VF]
    rw [h1, Int.neg_tdiv]
    have h2 : Int.tdiv ((n * 18 - P : Nat) : Int) (n : Int) = (((n * 18 - P) / n : Nat) : Int) :=
      rfl
    rw [h2]
    simp only [I40E_VC_MAX_MAC_ADDR_PER_VF]
    have hiff : (n * 18 - P) / n = 0 ↔ n * 18 - P < n := Nat.div_eq_zero_iff (by omega : 0 < n)
    generalize (n * 18 - P) / n = d at hiff ⊢
    constructor
    · intro hq
      have hz : d = 0 := by omega
      have := hiff.mp hz
      omega
    · intro hlt
      have hz : d = 0 := hiff.mpr (by omega)
      rw [hz]
      simp

/-- A batch without broadcast or zero address to which the rule of the
administratively set address does not apply passes the first loop, which
counts the addresses without a filter. -/
theorem check_loop_passes (vf : i40e_vf) (vsi : i40e_vsi) (l : List virtchnl_ether_addr)
    (h : ∀ e ∈ l, is_broadcast_ether_addr e.addr = false ∧ is_zero_ether_addr e.addr = false ∧
      (!vf.vf_caps.I40E_VIRTCHNL_VF_CAP_PRIVILEGE && !is_multicast_ether_addr e.addr &&
        vf.pf_set_mac && !ether_addr_equal e.addr vf.default_lan_addr) = false) :
    ∀ c, i40e_check_vf_permission_loop vf vsi l c =
      .ok (c + l.countP (fun e => !i40e_find_mac vsi e.addr)) := by
  induction l with
  | nil => intro c; simp [i40e_check_vf_permission_loop]
  | cons a rest ih =>
    intro c
    have ha := h a (List.mem_cons_self _ _)
    unfold i40e_check_vf_permission_loop
    simp only [ha.1, ha.2.1, ha.2.2, Bool.or_self, Bool.false_eq_true, if_false]
    rw [ih (fun e he => h e (List.mem_cons_of_mem _ he))]
    by_cases hf : i40e_find_mac vsi a.addr = true
    · simp [hf, List.countP_cons]
    · simp [hf, List.countP_cons]
      omega

/-- A batch that passes the first loop holds no broadcast and no zero
address. -/
theorem check_loop_ok_valid (vf : i40e_vf) (vsi : i40e_vsi) (l : List virtchnl_ether_addr) :
    ∀ c n, i40e_check_vf_permission_loop vf vsi l c = .ok n →
      ∀ e ∈ l, is_broadcast_ether_addr e.addr = false ∧ is_zero_ether_addr e.addr = false := by
  induction l with
  | nil => intro c n _ e he; cases he
  | cons a rest ih =>
    intro c n h e he
    unfold i40e_check_vf_permission_loop at h
    split at h
    · cases h
    · rename_i hv
      split at h
      · cases h
      · rcases List.mem_cons.mp he with rfl | he'
        · simpa using hv
        · exact ih _ _ h e he'

theorem check_vf_permission_privileged (pf : i40e_pf) (vf : i40e_vf) (vsi : i40e_vsi)
    (al : virtchnl_ether_addr_list) (q : Bool)
    (hp : vf.vf_caps.I40E_VIRTCHNL_VF_CAP_PRIVILEGE = true)
    (hv : ∀ e ∈ al.list, is_broadcast_ether_addr e.addr = false ∧
      is_zero_ether_addr e.addr = false) :
    i40e_check_vf_permission pf vf vsi al (some q) =
      (if ((i40e_count_filters vsi +
              al.list.countP (fun e => !i40e_find_mac vsi e.addr) : Nat) : Int) >
            I40E_VC_MAX_MACVLAN_PER_TRUSTED_VF pf.num_alloc_vfs pf.hw.num_ports
        then (.EPERM, some false) else (.I40E_SUCCESS, some false)) := by
  have hl := check_loop_passes vf vsi al.list
    (fun e he => ⟨(hv e he).1, (hv e he).2, by simp [hp]⟩) 0
  simp only [i40e_check_vf_permission, hl, hp, Bool.not_true, Bool.false_eq_true, if_false,
    Nat.zero_add]

/-- C13 counterexample: for 32 allocated VFs on a four-port device the quota
in the words of the claim, the equal share (768 - 18 * 31) / 32 of what is
left of the per-port pool after reserving 18 filters for each of the 31 other
VFs, is 6, while the macro gives 24; a trusted VF with 2 filters adding 5 new
addresses has its batch accepted, at 7 filters, above the claimed quota. -/
theorem C13_counterexample :
    trusted_quota_as_specified 32 4 = 6 ∧
    I40E_VC_MAX_MACVLAN_PER_TRUSTED_VF 32 4 = 24 ∧
    sample_pf_32_vfs.num_alloc_vfs = 32 ∧ sample_pf_32_vfs.hw.num_ports = 4 ∧
    sample_vf_trusted.vf_caps.I40E_VIRTCHNL_VF_CAP_PRIVILEGE = true ∧
    i40e_count_filters sample_vsi = 2 ∧
    sample_batch5.list.countP (fun e => !i40e_find_mac sample_vsi e.addr) = 5 ∧
    i40e_check_vf_permission sample_pf_32_vfs sample_vf_trusted sample_vsi sample_batch5
      (some false) = (.I40E_SUCCESS, some false) := by
  decide

/-- C13 (amended): for a VF with the privilege bit set (a trusted VF) and a
batch without broadcast or zero address, i40e_check_vf_permission answers
-EPERM exactly when the current filter count plus the number of batch
addresses without a filter exceeds I40E_VC_MAX_MACVLAN_PER_TRUSTED_VF
(num_alloc_vfs, num_ports), and success otherwise; that quota is, in C integer
arithmetic, ((3072 / num_ports - n * 18) / n) + 18, which for n >= 1 VFs with
18 * n <= 3072 / num_ports is the equal share (3072 / num_ports) / n of the
whole per-port pool. -/
theorem C13_trusted_quota_is_share_of_pool (pf : i40e_pf) (vf : i40e_vf) (vsi : i40e_vsi)
    (al : virtchnl_ether_addr_list) (q : Bool) (n ports : Nat)
    (hp : vf.vf_caps.I40E_VIRTCHNL_VF_CAP_PRIVILEGE = true)
    (hv : ∀ e ∈ al.list, is_broadcast_ether_addr e.addr = false ∧
      is_zero_ether_addr e.addr = false) :
    i40e_check_vf_permission pf vf vsi al (some q) =
      (if ((i40e_count_filters vsi +
              al.list.countP (fun e => !i40e_find_mac vsi e.addr) : Nat) : Int) >
            I40E_VC_MAX_MACVLAN_PER_TRUSTED_VF pf.num_alloc_vfs pf.hw.num_ports
        then (.EPERM, some false) else (.I40E_SUCCESS, some false)) ∧
    I40E_VC_MAX_MACVLAN_PER_TRUSTED_VF (n : Int) (ports : Int) =
      Int.tdiv (Int.tdiv 3072 (ports : Int) - (n : Int) * 18) (n : Int) + 18 ∧
    (1 ≤ n → 18 * n ≤ 3072 / ports →
      I40E_VC_MAX_MACVLAN_PER_TRUSTED_VF (n : Int) (ports : Int) =
        ((3072 / ports / n : Nat) : Int)) :=
  ⟨check_vf_permission_privileged pf vf vsi al q hp hv, rfl,
    fun hn h => trusted_quota_eq_share n ports hn h⟩

theorem C13_witness :
    sample_vf_trusted.vf_caps.I40E_VIRTCHNL_VF_CAP_PRIVILEGE = true ∧
    (∀ e ∈ sample_batch5.list, is_broadcast_ether_addr e.addr = false ∧
      is_zero_ether_addr e.addr = false) ∧
    i40e_check_vf_permission sample_pf_128_vfs sample_vf_trusted sample_vsi sample_batch5
      (some false) = (.EPERM, some false) ∧
    I40E_VC_MAX_MACVLAN_PER_TRUSTED_VF 32 4 = ((3072 / 4 / 32 : Nat) : Int) :=
  have h := C13_trusted_quota_is_share_of_pool sample_pf_128_vfs sample_vf_trusted sample_vsi
    sample_batch5 false 32 4 rfl (by decide)
  ⟨rfl, by decide, h.1.trans (by decide), h.2.2 (by decide) (by decide)⟩

/-- A batch accepted for a VF with the privilege bit clear passes the first
loop and stays within the untrusted limit. -/
theorem check_vf_permission_accepted (pf : i40e_pf) (vf : i40e_vf) (vsi : i40e_vsi)
    (al : virtchnl_ether_addr_list) (q : Option Bool)
    (hp : vf.vf_caps.I40E_VIRTCHNL_VF_CAP_PRIVILEGE = false)
    (h : (i40e_check_vf_permission pf vf vsi al q).1 = .I40E_SUCCESS) :
    (∀ e ∈ al.list, is_broadcast_ether_addr e.addr = false ∧
      is_zero_ether_addr e.addr = false) ∧
    i40e_count_filters vsi + al.list.countP (fun e => !i40e_find_mac vsi e.addr) ≤
      I40E_VC_MAX_MAC_ADDR_PER_VF := by
  unfold i40e_check_vf_permission at h
  cases q with
  | none => simp at h
  | some q0 =>
    simp only [] at h
    cases hl : i40e_check_vf_permission_loop vf vsi al.list 0 with
    | error r =>
      rw [hl] at h
      exact absurd h (check_loop_error_ne vf vsi al.list 0 r hl)
    | ok c =>
      rw [hl] at h
      have hc := check_loop_ok vf vsi al.list 0 c hl
      simp only [hp, Bool.not_false, if_true] at h
      refine ⟨check_loop_ok_valid vf vsi al.list 0 c hl, ?_⟩
      by_contra hgt
      have hgt2 : i40e_count_filters vsi + c > I40E_VC_MAX_MAC_ADDR_PER_VF := by omega
      simp [hgt2] at h

/-- C14 counterexample: for 128 allocated VFs on a four-port device the
limit of a trusted VF is 6, below the 18 of an untrusted VF; the batch of five
new addresses for a VF with 2 filters is accepted while the VF is untrusted
and refused with -EPERM once it is trusted. -/
theorem C14_counterexample :
    I40E_VC_MAX_MACVLAN_PER_TRUSTED_VF 128 4 = 6 ∧
    I40E_VC_MAX_MAC_ADDR_PER_VF = 18 ∧
    sample_pf_128_vfs.num_alloc_vfs = 128 ∧ sample_pf_128_vfs.hw.num_ports = 4 ∧
    sample_vf.vf_caps.I40E_VIRTCHNL_VF_CAP_PRIVILEGE = false ∧
    sample_vf_trusted =
      { sample_vf with
        trusted := true,
        vf_caps := { sample_vf.vf_caps with I40E_VIRTCHNL_VF_CAP_PRIVILEGE := true } } ∧
    i40e_check_vf_permission sample_pf_128_vfs sample_vf sample_vsi sample_batch5
      (some false) = (.I40E_SUCCESS, some false) ∧
    i40e_check_vf_permission sample_pf_128_vfs sample_vf_trusted sample_vsi sample_batch5
      (some false) = (.EPERM, some false) := by
  decide

/-- C14 (amended): for n >= 1 allocated VFs the limit
I40E_VC_MAX_MACVLAN_PER_TRUSTED_VF(n, num_ports) of a trusted VF is at least
the limit 18 of an untrusted VF exactly when 17 * n < 3072 / num_ports, which
holds whenever n * num_ports <= 128; under that condition any batch accepted
for a VF with the privilege bit clear is also accepted for the same VF with
the bit set. -/
theorem C14_trust_relaxes_quota_when_pool_suffices (pf : i40e_pf) (vf : i40e_vf)
    (vsi : i40e_vsi) (al : virtchnl_ether_addr_list) (q : Bool) (n ports : Nat)
    (hn : 1 ≤ n) :
    (((I40E_VC_MAX_MAC_ADDR_PER_VF : Nat) : Int) ≤
        I40E_VC_MAX_MACVLAN_PER_TRUSTED_VF (n : Int) (ports : Int) ↔
      17 * n < 3072 / ports) ∧
    (1 ≤ ports → n * ports ≤ 128 → 17 * n < 3072 / ports) ∧
    (1 ≤ pf.num_alloc_vfs → 17 * pf.num_alloc_vfs < 3072 / pf.hw.num_ports →
      vf.vf_caps.I40E_VIRTCHNL_VF_CAP_PRIVILEGE = false →
      (i40e_check_vf_permission pf vf vsi al (some q)).1 = .I40E_SUCCESS →
      i40e_check_vf_permission pf
        { vf with vf_caps := { vf.vf_caps with I40E_VIRTCHNL_VF_CAP_PRIVILEGE := true } }
        vsi al (some q) = (.I40E_SUCCESS, some false)) := by
  refine ⟨trusted_quota_ge_iff n ports hn, ?_, ?_⟩
  · intro hp hle
    have h1 : ports ≤ n * ports := Nat.le_mul_of_pos_left ports (by omega)
    have h2 : (17 * n + 1) * ports = 17 * (n * ports) + ports := by ring
    have h3 : (17 * n + 1) * ports ≤ 3072 := by omega
    have h4 := (Nat.le_div_iff_mul_le (by omega : 0 < ports)).mpr h3
    omega
  · intro hn2 hpool hp hacc
    obtain ⟨hv, hcnt⟩ := check_vf_permission_accepted pf vf vsi al (some q) hp hacc
    rw [check_vf_permission_privileged pf _ vsi al q rfl hv]
    have hq := (trusted_quota_ge_iff pf.num_alloc_vfs pf.hw.num_ports hn2).mpr hpool
    have hle : ((i40e_count_filters vsi +
        al.list.countP (fun e => !i40e_find_mac vsi e.addr) : Nat) : Int) ≤
        I40E_VC_MAX_MACVLAN_PER_TRUSTED_VF pf.num_alloc_vfs pf.hw.num_ports := by
      have : ((i40e_count_filters vsi +
          al.list.countP (fun e => !i40e_find_mac vsi e.addr) : Nat) : Int) ≤
          ((I40E_VC_MAX_MAC_ADDR_PER_VF : Nat) : Int) := by exact_mod_cast hcnt
      exact le_trans this hq
    simp only [gt_iff_lt, not_lt.mpr hle, if_false]

theorem C14_witness :
    1 ≤ 32 ∧ 32 * 4 ≤ 128 ∧
    (((I40E_VC_MAX_MAC_ADDR_PER_VF : Nat) : Int) ≤ I40E_VC_MAX_MACVLAN_PER_TRUSTED_VF 32 4) ∧
    i40e_check_vf_permission sample_pf_32_vfs
      { sample_vf with
        vf_caps := { sample_vf.vf_caps with I40E_VIRTCHNL_VF_CAP_PRIVILEGE := true } }
      sample_vsi sample_batch16 (some false) = (.I40E_SUCCESS, some false) :=
  have h := C14_trust_relaxes_quota_when_pool_suffices sample_pf_32_vfs sample_vf sample_vsi
    sample_batch16 false 32 4 (by decide)
  ⟨by decide, by decide, h.1.mpr (h.2.1 (by decide) (by decide)),
    h.2.2 (by decide) (by decide) rfl (by decide)⟩

/-! ### The VLAN cap of an untrusted VF (C15) -/

theorem del_loop_append (pre rest : List virtchnl_ether_addr) :
    ∀ (vf : i40e_vf) (vsi : i40e_vsi) (w g : Bool),
      (i40e_del_vf_mac_filters_loop pre vf vsi w g).1 = .I40E_SUCCESS →
      i40e_del_vf_mac_filters_loop (pre ++ rest) vf vsi w g =
        i40e_del_vf_mac_filters_loop rest
          (i40e_del_vf_mac_filters_loop pre vf vsi w g).2.1
          (i40e_del_vf_mac_filters_loop pre vf vsi w g).2.2.1
          (i40e_del_vf_mac_filters_loop pre vf vsi w g).2.2.2.1
          (i40e_del_vf_mac_filters_loop pre vf vsi w g).2.2.2.2 := by
  induction pre with
  | nil => intro vf vsi w g _; rfl
  | cons e pre ih =>
    intro vf vsi w g h
    simp only [List.cons_append]
    by_cases hb : (is_broadcast_ether_addr e.addr || is_zero_ether_addr e.addr) = true
    · simp [i40e_del_vf_mac_filters_loop, hb] at h
    · by_cases hd : (i40e_del_mac_filter vsi e.addr).1.isErr = true
      · simp [i40e_del_vf_mac_filters_loop, hb, hd] at h
      · simp only [i40e_del_vf_mac_filters_loop, hb, hd, Bool.false_eq_true, if_false] at h ⊢
        exact ih _ _ _ _ h

/-- The loop touches the list of the VM only. -/
theorem del_loop_vf (l : List virtchnl_ether_addr) :
    ∀ (vf : i40e_vf) (vsi : i40e_vsi) (w g : Bool),
      (i40e_del_vf_mac_filters_loop l vf vsi w g).2.1 =
        { vf with vm_mac_list := (i40e_del_vf_mac_filters_loop l vf vsi w g).2.1.vm_mac_list } := by
  induction l with
  | nil => intro vf vsi w g; rfl
  | cons e rest ih =>
    intro vf vsi w g
    unfold i40e_del_vf_mac_filters_loop
    simp only []
    split
    · rfl
    · split
      · rfl
      · rw [ih]
        rfl

theorem del_mac_filter_sub (vsi : i40e_vsi) (m : Mac) :
    ∀ f ∈ (i40e_del_mac_filter vsi m).2.mac_filter_hash, f ∈ vsi.mac_filter_hash := by
  intro f hf
  unfold i40e_del_mac_filter at hf
  split at hf
  · exact (List.mem_filter.mp hf).1
  · exact hf

theorem del_loop_sub (l : List virtchnl_ether_addr) :
    ∀ (vf : i40e_vf) (vsi : i40e_vsi) (w g : Bool),
      ∀ f ∈ (i40e_del_vf_mac_filters_loop l vf vsi w g).2.2.1.mac_filter_hash,
        f ∈ vsi.mac_filter_hash := by
  induction l with
  | nil => intro vf vsi w g f hf; exact hf
  | cons e rest ih =>
    intro vf vsi w g f hf
    unfold i40e_del_vf_mac_filters_loop at hf
    simp only [] at hf
    split at hf
    · exact hf
    · split at hf
      · exact del_mac_filter_sub vsi e.addr f hf
      · exact del_mac_filter_sub vsi e.addr f (ih _ _ _ _ f hf)

/-- After a loop that ran to its end no element of the batch has a filter on
the VSI. -/
theorem del_loop_deleted (l : List virtchnl_ether_addr) :
    ∀ (vf : i40e_vf) (vsi : i40e_vsi) (w g : Bool),
      (i40e_del_vf_mac_filters_loop l vf vsi w g).1 = .I40E_SUCCESS →
      ∀ e ∈ l, i40e_find_mac (i40e_del_vf_mac_filters_loop l vf vsi w g).2.2.1 e.addr = false := by
  induction l with
  | nil => intro vf vsi w g _ e he; cases he
  | cons a rest ih =>
    intro vf vsi w g h e he
    unfold i40e_del_vf_mac_filters_loop at h ⊢
    simp only [] at h ⊢
    split
    · rename_i hb
      simp [hb] at h
    · rename_i hb
      simp only [hb, if_false] at h
      split
      · rename_i hd
        simp [hd] at h
      · rename_i hd
        simp only [hd, if_false] at h
        rcases List.mem_cons.mp he with rfl | he'
        · simp only [i40e_find_mac, List.any_eq_false]
          intro f hf
          have hf2 := del_loop_sub rest _ _ _ _ f hf
          unfold i40e_del_mac_filter at hf2
          split at hf2
          · have := (List.mem_filter.mp hf2).2
            simpa using this
          · rename_i hnf
            simp [i40e_del_mac_filter, hnf, Status.isErr] at hd
        · exact ih _ _ _ _ h e he'

/-- The loop stops at an element that is the broadcast or the zero address or
has no filter on the VSI, leaving the VF and the VSI as they are at that
point. -/
theorem del_loop_bad_head (bad : virtchnl_ether_addr) (post : List virtchnl_ether_addr)
    (vf : i40e_vf) (vsi : i40e_vsi) (w g : Bool)
    (hbad : is_broadcast_ether_addr bad.addr = true ∨ is_zero_ether_addr bad.addr = true ∨
      i40e_find_mac vsi bad.addr = false) :
    (i40e_del_vf_mac_filters_loop (bad :: post) vf vsi w g).1 = .I40E_ERR_INVALID_MAC_ADDR ∧
    (i40e_del_vf_mac_filters_loop (bad :: post) vf vsi w g).2.1 = vf ∧
    (i40e_del_vf_mac_filters_loop (bad :: post) vf vsi w g).2.2.1 = vsi := by
  unfold i40e_del_vf_mac_filters_loop
  simp only []
  split
  · exact ⟨rfl, rfl, rfl⟩
  · rename_i hb
    have hnf : i40e_find_mac vsi bad.addr = false := by
      rcases hbad with h | h | h
      · simp [h] at hb
      · simp [h] at hb
      · exact h
    have hd : i40e_del_mac_filter vsi bad.addr = (.ENOENT, vsi) := by
      simp [i40e_del_mac_filter, hnf]
    have herr : Status.ENOENT.isErr = true := rfl
    simp only [hd, herr, if_true]
    exact ⟨trivial, trivial, trivial⟩

/-- A loop that ran to its end took the addresses of the batch off the list of
the VM and took every filter for one of them off the VSI, and nothing else. -/
theorem del_loop_success_state (l : List virtchnl_ether_addr) :
    ∀ (vf : i40e_vf) (vsi : i40e_vsi) (w g : Bool),
      (i40e_del_vf_mac_filters_loop l vf vsi w g).1 = .I40E_SUCCESS →
      (i40e_del_vf_mac_filters_loop l vf vsi w g).2.1 =
        { vf with vm_mac_list := (l.foldl (fun ml e => ml.erase e.addr) vf.vm_mac_list) } ∧
      (i40e_del_vf_mac_filters_loop l vf vsi w g).2.2.1 =
        { vsi with mac_filter_hash :=
            (vsi.mac_filter_hash.filter (fun f => l.all (fun e => !ether_addr_equal e.addr f.macaddr))) } := by
  induction l with
  | nil =>
    intro vf vsi w g _
    simp [i40e_del_vf_mac_filters_loop]
  | cons e rest ih =>
    intro vf vsi w g h
    by_cases hb : (is_broadcast_ether_addr e.addr || is_zero_ether_addr e.addr) = true
    · simp [i40e_del_vf_mac_filters_loop, hb] at h
    · by_cases hd : (i40e_del_mac_filter vsi e.addr).1.isErr = true
      · simp [i40e_del_vf_mac_filters_loop, hb, hd] at h
      · simp only [i40e_del_vf_mac_filters_loop, hb, hd, Bool.false_eq_true, if_false] at h ⊢
        have hi := ih _ _ _ _ h
        rw [hi.1, hi.2]
        have hf : i40e_find_mac vsi e.addr = true := by
          by_contra hnf
          simp [i40e_del_mac_filter, hnf, Status.isErr] at hd
        constructor
        · simp [i40e_del_vmmac_from_list]
        · simp [i40e_del_mac_filter, hf, List.filter_filter, Bool.and_comm]

/-- A loop that stops early stops at the first element that is the broadcast
or the zero address or has no filter on the VSI as the elements before it
left it. -/
theorem del_loop_err_split (l : List virtchnl_ether_addr) :
    ∀ (vf : i40e_vf) (vsi : i40e_vsi) (w g : Bool),
      (i40e_del_vf_mac_filters_loop l vf vsi w g).1.isErr = true →
      ∃ pre bad post, l = pre ++ bad :: post ∧
        (i40e_del_vf_mac_filters_loop pre vf vsi w g).1 = .I40E_SUCCESS ∧
        (is_broadcast_ether_addr bad.addr = true ∨ is_zero_ether_addr bad.addr = true ∨
          i40e_find_mac (i40e_del_vf_mac_filters_loop pre vf vsi w g).2.2.1 bad.addr = false) := by
  induction l with
  | nil =>
    intro vf vsi w g h
    simp [i40e_del_vf_mac_filters_loop, Status.isErr] at h
  | cons e rest ih =>
    intro vf vsi w g h
    by_cases hb : (is_broadcast_ether_addr e.addr || is_zero_ether_addr e.addr) = true
    · refine ⟨[], e, rest, rfl, rfl, ?_⟩
      rcases Bool.or_eq_true _ _ ▸ hb with h1 | h1
      · exact Or.inl h1
      · exact Or.inr (Or.inl h1)
    · by_cases hd : (i40e_del_mac_filter vsi e.addr).1.isErr = true
      · refine ⟨[], e, rest, rfl, rfl, Or.inr (Or.inr ?_)⟩
        show i40e_find_mac vsi e.addr = false
        by_contra hnf
        simp [i40e_del_mac_filter, hnf, Status.isErr] at hd
      · simp only [i40e_del_vf_mac_filters_loop, hb, hd, Bool.false_eq_true, if_false] at h
        obtain ⟨pre, bad, post, hl, hs, hbad⟩ := ih _ _ _ _ h
        refine ⟨e :: pre, bad, post, by rw [hl]; rfl, ?_, ?_⟩
        · simp only [i40e_del_vf_mac_filters_loop, hb, hd, Bool.false_eq_true, if_false]
          exact hs
        · simp only [i40e_del_vf_mac_filters_loop, hb, hd, Bool.false_eq_true, if_false]
          exact hbad

/-- C16 counterexample: a batch of a multicast address that has a filter
followed by the broadcast address is rejected with
`I40E_ERR_INVALID_MAC_ADDR`, yet the multicast address, which had a filter on
the VSI and an entry on `vm_mac_list` before, has neither afterwards. -/
theorem C16_counterexample :
    (i40e_del_vf_mac_filters sample_oracle sample_vf_with_mcast sample_vsi_with_mcast
        sample_del_batch_bad_last).1 = .I40E_ERR_INVALID_MAC_ADDR ∧
      i40e_find_mac sample_vsi_with_mcast (sample_mcast 0) = true ∧
      i40e_find_mac
        (i40e_del_vf_mac_filters sample_oracle sample_vf_with_mcast sample_vsi_with_mcast
          sample_del_batch_bad_last).2.2.1 (sample_mcast 0) = false ∧
      sample_vf_with_mcast.vm_mac_list = [sample_mcast 0] ∧
      (i40e_del_vf_mac_filters sample_oracle sample_vf_with_mcast sample_vsi_with_mcast
          sample_del_batch_bad_last).2.1.vm_mac_list = [] := by
  decide

/-- C16, amended: a DEL_ETH_ADDR batch whose loop in `i40e_del_vf_mac_filters`
stops early splits at its first offending element `bad`, which is the
broadcast or the zero address or has no filter left on the VSI.  The
function then returns `I40E_ERR_INVALID_MAC_ADDR`, pushes nothing to hardware
and leaves the default MAC and every field of the VF other than
`vm_mac_list` as they were; the elements `pre` before the offending one stay
deleted: their addresses are off `vm_mac_list`, their filters are off the VSI,
and no other filter is touched.  Only when the first element offends is the
state exactly as before. -/
theorem C16_rejected_delete_keeps_earlier_deletions (o : MacOracle) (vf : i40e_vf)
    (vsi : i40e_vsi) (al : virtchnl_ether_addr_list)
    (h : (i40e_del_vf_mac_filters_loop al.list vf vsi false false).1.isErr = true) :
    ∃ pre bad post, al.list = pre ++ bad :: post ∧
      (is_broadcast_ether_addr bad.addr = true ∨ is_zero_ether_addr bad.addr = true ∨
        i40e_find_mac (i40e_del_vf_mac_filters o vf vsi al).2.2.1 bad.addr = false) ∧
      (i40e_del_vf_mac_filters o vf vsi al).1 = .I40E_ERR_INVALID_MAC_ADDR ∧
      (i40e_del_vf_mac_filters o vf vsi al).2.2.2 = [] ∧
      (i40e_del_vf_mac_filters o vf vsi al).2.1 =
        { vf with vm_mac_list := (pre.foldl (fun ml e => ml.erase e.addr) vf.vm_mac_list) } ∧
      (i40e_del_vf_mac_filters o vf vsi al).2.1.default_lan_addr = vf.default_lan_addr ∧
      (i40e_del_vf_mac_filters o vf vsi al).2.2.1 =
        { vsi with mac_filter_hash :=
            (vsi.mac_filter_hash.filter (fun f => pre.all (fun e => !ether_addr_equal e.addr f.macaddr))) } ∧
      (∀ e ∈ pre, i40e_find_mac (i40e_del_vf_mac_filters o vf vsi al).2.2.1 e.addr = false) ∧
      (pre = [] → (i40e_del_vf_mac_filters o vf vsi al).2.1 = vf ∧
        (i40e_del_vf_mac_filters o vf vsi al).2.2.1 = vsi) := by
  obtain ⟨pre, bad, post, hl, hs, hbad⟩ := del_loop_err_split al.list vf vsi false false h
  have happ := del_loop_append pre (bad :: post) vf vsi false false hs
  have hhead := del_loop_bad_head bad post
    (i40e_del_vf_mac_filters_loop pre vf vsi false false).2.1
    (i40e_del_vf_mac_filters_loop pre vf vsi false false).2.2.1
    (i40e_del_vf_mac_filters_loop pre vf vsi false false).2.2.2.1
    (i40e_del_vf_mac_filters_loop pre vf vsi false false).2.2.2.2 hbad
  rw [← happ, ← hl] at hhead
  have hst := del_loop_success_state pre vf vsi false false hs
  have hdel := del_loop_deleted pre vf vsi false false hs
  have hr : i40e_del_vf_mac_filters o vf vsi al =
      (.I40E_ERR_INVALID_MAC_ADDR, (i40e_del_vf_mac_filters_loop pre vf vsi false false).2.1,
        (i40e_del_vf_mac_filters_loop pre vf vsi false false).2.2.1, []) := by
    unfold i40e_del_vf_mac_filters
    have herr : Status.I40E_ERR_INVALID_MAC_ADDR.isErr = true := rfl
    simp only [hhead.1, hhead.2.1, hhead.2.2, herr, if_true]
  refine ⟨pre, bad, post, hl, ?_, ?_, ?_, ?_, ?_, ?_, ?_, ?_⟩
  · rw [hr]; exact hbad
  · rw [hr]
  · rw [hr]
  · rw [hr]; exact hst.1
  · rw [hr]
    show (i40e_del_vf_mac_filters_loop pre vf vsi false false).2.1.default_lan_addr = _
    rw [hst.1]
  · rw [hr]; exact hst.2
  · rw [hr]; exact hdel
  · intro hp
    rw [hr]
    subst hp
    exact ⟨rfl, rfl⟩

theorem C16_witness :
    (i40e_del_vf_mac_filters_loop sample_del_batch_bad_last.list sample_vf_with_mcast
        sample_vsi_with_mcast false false).1.isErr = true ∧
    ∃ pre bad post, sample_del_batch_bad_last.list = pre ++ bad :: post ∧
      (is_broadcast_ether_addr bad.addr = true ∨ is_zero_ether_addr bad.addr = true ∨
        i40e_find_mac (i40e_del_vf_mac_filters sample_oracle sample_vf_with_mcast
          sample_vsi_with_mcast sample_del_batch_bad_last).2.2.1 bad.addr = false) ∧
      (i40e_del_vf_mac_filters sample_oracle sample_vf_with_mcast sample_vsi_with_mcast
        sample_del_batch_bad_last).1 = .I40E_ERR_INVALID_MAC_ADDR ∧
      (i40e_del_vf_mac_filters sample_oracle sample_vf_with_mcast sample_vsi_with_mcast
        sample_del_batch_bad_last).2.2.2 = [] ∧
      (i40e_del_vf_mac_filters sample_oracle sample_vf_with_mcast sample_vsi_with_mcast
        sample_del_batch_bad_last).2.1 =
        { sample_vf_with_mcast with
          vm_mac_list := (pre.foldl (fun ml e => ml.erase e.addr) sample_vf_with_mcast.vm_mac_list) } ∧
      (i40e_del_vf_mac_filters sample_oracle sample_vf_with_mcast sample_vsi_with_mcast
        sample_del_batch_bad_last).2.1.default_lan_addr = sample_vf_with_mcast.default_lan_addr ∧
      (i40e_del_vf_mac_filters sample_oracle sample_vf_with_mcast sample_vsi_with_mcast
        sample_del_batch_bad_last).2.2.1 =
        { sample_vsi_with_mcast with mac_filter_hash :=
            (sample_vsi_with_mcast.mac_filter_hash.filter (fun f => pre.all (fun e => !ether_addr_equal e.addr f.macaddr))) } ∧
      (∀ e ∈ pre, i40e_find_mac (i40e_del_vf_mac_filters sample_oracle sample_vf_with_mcast
        sample_vsi_with_mcast sample_del_batch_bad_last).2.2.1 e.addr = false) ∧
      (pre = [] → (i40e_del_vf_mac_filters sample_oracle sample_vf_with_mcast
          sample_vsi_with_mcast sample_del_batch_bad_last).2.1 = sample_vf_with_mcast ∧
        (i40e_del_vf_mac_filters sample_oracle sample_vf_with_mcast sample_vsi_with_mcast
          sample_del_batch_bad_last).2.2.1 = sample_vsi_with_mcast) :=
  ⟨by decide,
   C16_rejected_delete_keeps_earlier_deletions sample_oracle sample_vf_with_mcast
     sample_vsi_with_mcast sample_del_batch_bad_last (by decide)⟩

/-! ### The default MAC after a delete (C17) -/

theorem del_mac_filter_gone (vsi : i40e_vsi) (m : Mac) :
    i40e_find_mac (i40e_del_mac_filter vsi m).2 m = false := by
  unfold i40e_del_mac_filter
  split
  · simp [i40e_find_mac]
  · rename_i h
    simpa using h

theorem find_mac_of_sub (vsi1 vsi : i40e_vsi) (m : Mac)
    (hsub : ∀ f ∈ vsi1.mac_filter_hash, f ∈ vsi.mac_filter_hash)
    (h : i40e_find_mac vsi1 m = true) : i40e_find_mac vsi m = true := by
  simp only [i40e_find_mac, List.any_eq_true] at h ⊢
  obtain ⟨f, hf, he⟩ := h
  exact ⟨f, hsub f hf, he⟩

/-- Every element of a batch whose loop ran to its end had a filter on the
VSI when the loop began. -/
theorem del_loop_found (l : List virtchnl_ether_addr) :
    ∀ (vf : i40e_vf) (vsi : i40e_vsi) (w g : Bool),
      (i40e_del_vf_mac_filters_loop l vf vsi w g).1 = .I40E_SUCCESS →
      ∀ e ∈ l, i40e_find_mac vsi e.addr = true := by
  induction l with
  | nil => intro vf vsi w g _ e he; cases he
  | cons a rest ih =>
    intro vf vsi w g h e he
    by_cases hb : (is_broadcast_ether_addr a.addr || is_zero_ether_addr a.addr) = true
    · simp [i40e_del_vf_mac_filters_loop, hb] at h
    · by_cases hd : (i40e_del_mac_filter vsi a.addr).1.isErr = true
      · simp [i40e_del_vf_mac_filters_loop, hb, hd] at h
      · simp only [i40e_del_vf_mac_filters_loop, hb, hd, Bool.false_eq_true, if_false] at h
        rcases List.mem_cons.mp he with rfl | he'
        · by_contra hnf
          simp [i40e_del_mac_filter, hnf, Status.isErr] at hd
        · exact find_mac_of_sub _ vsi e.addr (del_mac_filter_sub vsi a.addr)
            (ih _ _ _ _ h e he')

/-- A batch none of whose elements names the default address of a VF that
may change it leaves the two flags of the loop as they were. -/
theorem del_loop_flags_no_hit (l : List virtchnl_ether_addr) :
    ∀ (vf : i40e_vf) (vsi : i40e_vsi) (w g : Bool),
      (∀ e ∈ l, (ether_addr_equal e.addr vf.default_lan_addr &&
        (vf.trusted || !vf.pf_set_mac)) = false) →
      (i40e_del_vf_mac_filters_loop l vf vsi w g).2.2.2 = (w, g) := by
  induction l with
  | nil => intro vf vsi w g _; rfl
  | cons a rest ih =>
    intro vf vsi w g h
    have ha := h a (List.mem_cons_self a rest)
    have hr : ∀ e ∈ rest, (ether_addr_equal e.addr
        (i40e_del_vmmac_from_list vf a.addr).default_lan_addr &&
        ((i40e_del_vmmac_from_list vf a.addr).trusted ||
          !(i40e_del_vmmac_from_list vf a.addr).pf_set_mac)) = false :=
      fun e he => h e (List.mem_cons_of_mem a he)
    unfold i40e_del_vf_mac_filters_loop
    simp only [ha, Bool.false_eq_true, if_false]
    split
    · rfl
    · split
      · rfl
      · exact ih _ _ _ _ hr

/-- In a batch whose loop ran to its end, an element that names the default
address of a VF that may change it sets the two flags: the default address
was deleted, through an entry of that element's type. -/
theorem del_loop_flags_of_hit (l : List virtchnl_ether_addr) :
    ∀ (vf : i40e_vf) (vsi : i40e_vsi) (w g : Bool),
      (i40e_del_vf_mac_filters_loop l vf vsi w g).1 = .I40E_SUCCESS →
      ∀ e ∈ l, (ether_addr_equal e.addr vf.default_lan_addr &&
        (vf.trusted || !vf.pf_set_mac)) = true →
      (i40e_del_vf_mac_filters_loop l vf vsi w g).2.2.2 = (true, i40e_is_vc_addr_legacy e) := by
  induction l with
  | nil => intro vf vsi w g _ e he; cases he
  | cons a rest ih =>
    intro vf vsi w g h e he hit
    by_cases hb : (is_broadcast_ether_addr a.addr || is_zero_ether_addr a.addr) = true
    · simp [i40e_del_vf_mac_filters_loop, hb] at h
    · by_cases hd : (i40e_del_mac_filter vsi a.addr).1.isErr = true
      · simp [i40e_del_vf_mac_filters_loop, hb, hd] at h
      · simp only [i40e_del_vf_mac_filters_loop, hb, hd, Bool.false_eq_true, if_false] at h ⊢
        rcases List.mem_cons.mp he with rfl | he'
        · have hfound := del_loop_found rest _ _ _ _ h
          have hr : ∀ b ∈ rest, (ether_addr_equal b.addr
              (i40e_del_vmmac_from_list vf e.addr).default_lan_addr &&
              ((i40e_del_vmmac_from_list vf e.addr).trusted ||
                !(i40e_del_vmmac_from_list vf e.addr).pf_set_mac)) = false := by
            intro b hbm
            by_contra hne
            have hbt : (ether_addr_equal b.addr vf.default_lan_addr &&
                (vf.trusted || !vf.pf_set_mac)) = true := by
              rw [Bool.not_eq_false] at hne
              exact hne
            have hit2 := hit
            simp only [Bool.and_eq_true] at hbt hit2
            have e1 : b.addr = vf.default_lan_addr := of_decide_eq_true hbt.1
            have e2 : e.addr = vf.default_lan_addr := of_decide_eq_true hit2.1
            have hgone := del_mac_filter_gone vsi e.addr
            have := hfound b hbm
            rw [e1, ← e2, hgone] at this
            cases this
          rw [del_loop_flags_no_hit rest _ _ _ _ hr]
          simp only [hit, if_true]
        · exact ih _ _ _ _ h e he' hit

/-- C17 counterexample: the VF of `sample_vf`, whose MAC is not pinned, adds
the legacy-typed address `sample_ucast 2`, which is cached as the candidate,
and then deletes that address and its default address in one batch, both
through legacy-typed entries and within the expiry window.  The batch is
accepted and the default MAC becomes the candidate, not the zero address,
although no filter for the candidate survives on the VSI. -/
theorem C17_counterexample :
    sample_after_add_legacy.1.default_lan_addr = sample_ucast 1 ∧
    sample_after_add_legacy.1.legacy_last_added_umac =
      { addr := sample_ucast 2, time_modified := 1000 } ∧
    i40e_is_legacy_umac_expired sample_oracle.jiffies sample_oracle.expire 1000 = false ∧
    (i40e_del_vf_mac_filters sample_oracle sample_after_add_legacy.1 sample_after_add_legacy.2
      sample_del_both_batch).1 = .I40E_SUCCESS ∧
    (i40e_del_vf_mac_filters sample_oracle sample_after_add_legacy.1 sample_after_add_legacy.2
      sample_del_both_batch).2.1.default_lan_addr = sample_ucast 2 ∧
    i40e_find_mac
      (i40e_del_vf_mac_filters sample_oracle sample_after_add_legacy.1 sample_after_add_legacy.2
        sample_del_both_batch).2.2.1 (sample_ucast 2) = false ∧
    sample_ucast 2 ≠ eth_zero_addr := by
  decide

/-- C17, amended.  Delete side, for a DEL_ETH_ADDR batch whose loop in
`i40e_del_vf_mac_filters` runs to its end: if an element names the current
default MAC and the VF is trusted or its MAC is not pinned, the default MAC
becomes the cached candidate `legacy_last_added_umac.addr` when that element
is legacy-typed and the candidate's timestamp is within the expiry window,
and the zero address otherwise; whether a filter for the candidate survives
on the VSI is not looked at.  If no element does so the default MAC is kept.
The cached candidate itself is never changed by a delete.  Add side,
`i40e_update_vf_mac_addr`: an address that is not a valid unicast one changes
nothing; a primary-typed valid address becomes the default; a non-primary
valid address becomes the default if the default is zero and is otherwise
cached as the candidate with the current timestamp, the default being
kept. -/
theorem C17_default_mac_after_delete (o : MacOracle) (vf : i40e_vf) (vsi : i40e_vsi)
    (al : virtchnl_ether_addr_list)
    (hs : (i40e_del_vf_mac_filters_loop al.list vf vsi false false).1 = .I40E_SUCCESS) :
    (∀ e ∈ al.list, ether_addr_equal e.addr vf.default_lan_addr = true →
      (vf.trusted || !vf.pf_set_mac) = true →
      (i40e_del_vf_mac_filters o vf vsi al).2.1.default_lan_addr =
        if (i40e_is_vc_addr_legacy e &&
            !i40e_is_legacy_umac_expired o.jiffies o.expire
              vf.legacy_last_added_umac.time_modified) = true
        then vf.legacy_last_added_umac.addr else eth_zero_addr) ∧
    ((∀ e ∈ al.list, (ether_addr_equal e.addr vf.default_lan_addr &&
        (vf.trusted || !vf.pf_set_mac)) = false) →
      (i40e_del_vf_mac_filters o vf vsi al).2.1.default_lan_addr = vf.default_lan_addr) ∧
    (i40e_del_vf_mac_filters o vf vsi al).2.1.legacy_last_added_umac =
      vf.legacy_last_added_umac ∧
    (∀ (jiffies : Nat) (v : i40e_vf) (e : virtchnl_ether_addr),
      (is_valid_ether_addr e.addr = false → i40e_update_vf_mac_addr jiffies v e = v) ∧
      (is_valid_ether_addr e.addr = true → i40e_is_vc_addr_primary e = true →
        i40e_update_vf_mac_addr jiffies v e = { v with default_lan_addr := e.addr }) ∧
      (is_valid_ether_addr e.addr = true → i40e_is_vc_addr_primary e = false →
        is_zero_ether_addr v.default_lan_addr = true →
        i40e_update_vf_mac_addr jiffies v e = { v with default_lan_addr := e.addr }) ∧
      (is_valid_ether_addr e.addr = true → i40e_is_vc_addr_primary e = false →
        is_zero_ether_addr v.default_lan_addr = false →
        i40e_update_vf_mac_addr jiffies v e =
          { v with legacy_last_added_umac := { addr := e.addr, time_modified := jiffies } })) := by
  have hst := (del_loop_success_state al.list vf vsi false false hs).1
  have hne : (i40e_del_vf_mac_filters_loop al.list vf vsi false false).1.isErr = false := by
    rw [hs]; rfl
  refine ⟨?_, ?_, ?_, ?_⟩
  · intro e he heq hperm
    have hit : (ether_addr_equal e.addr vf.default_lan_addr &&
        (vf.trusted || !vf.pf_set_mac)) = true := by rw [heq, hperm]; rfl
    have hfl := del_loop_flags_of_hit al.list vf vsi false false hs e he hit
    have h1 : (i40e_del_vf_mac_filters_loop al.list vf vsi false false).2.2.2.1 = true := by
      rw [hfl]
    have h2 : (i40e_del_vf_mac_filters_loop al.list vf vsi false false).2.2.2.2 =
        i40e_is_vc_addr_legacy e := by rw [hfl]
    unfold i40e_del_vf_mac_filters
    simp only [hne, Bool.false_eq_true, if_false, h1, if_true, h2, hst,
      i40e_vf_clear_default_mac_addr]
    cases i40e_is_vc_addr_legacy e <;>
      cases i40e_is_legacy_umac_expired o.jiffies o.expire
        vf.legacy_last_added_umac.time_modified <;> rfl
  · intro hno
    have hfl := del_loop_flags_no_hit al.list vf vsi false false hno
    have h1 : (i40e_del_vf_mac_filters_loop al.list vf vsi false false).2.2.2.1 = false := by
      rw [hfl]
    unfold i40e_del_vf_mac_filters
    simp only [hne, Bool.false_eq_true, if_false, h1, hst]
  · unfold i40e_del_vf_mac_filters
    simp only [hne, Bool.false_eq_true, if_false, hst, i40e_vf_clear_default_mac_addr]
    repeat' split
    all_goals rfl
  · intro jiffies v e
    refine ⟨?_, ?_, ?_, ?_⟩
    · intro h
      simp [i40e_update_vf_mac_addr, h]
    · intro h hp
      simp [i40e_update_vf_mac_addr, h, hp]
    · intro h hp hz
      simp [i40e_update_vf_mac_addr, h, hp, hz]
    · intro h hp hz
      simp [i40e_update_vf_mac_addr, h, hp, hz]

theorem C17_witness :
    (i40e_del_vf_mac_filters_loop sample_del_default_batch.list sample_after_add_legacy.1
      sample_after_add_legacy.2 false false).1 = .I40E_SUCCESS ∧
    sample_elem (sample_ucast 1) ∈ sample_del_default_batch.list ∧
    ether_addr_equal (sample_elem (sample_ucast 1)).addr
      sample_after_add_legacy.1.default_lan_addr = true ∧
    (sample_after_add_legacy.1.trusted || !sample_after_add_legacy.1.pf_set_mac) = true ∧
    (i40e_del_vf_mac_filters sample_oracle sample_after_add_legacy.1 sample_after_add_legacy.2
      sample_del_default_batch).2.1.default_lan_addr = sample_ucast 2 ∧
    i40e_find_mac
      (i40e_del_vf_mac_filters sample_oracle sample_after_add_legacy.1 sample_after_add_legacy.2
        sample_del_default_batch).2.2.1 (sample_ucast 2) = true :=
  ⟨by decide, by decide, by decide, by decide,
   ((C17_default_mac_after_delete sample_oracle sample_after_add_legacy.1
      sample_after_add_legacy.2 sample_del_default_batch (by decide)).1
      (sample_elem (sample_ucast 1)) (by decide) (by decide) (by decide)).trans (by decide),
   by decide⟩

/-! ### The value returned by `i40e_check_enough_queue` (C18) -/

/-- The window that makes the second loop of `i40e_check_enough_queue` return
ends at the returned index: the `needed` entries up to and including it are
free. -/
theorem check_enough_queue_pool_window (needed : Nat) (full : List Nat) :
    ∀ (l : List Nat) (i run : Nat), full.drop i = l → run ≤ i →
      (∀ t, i - run ≤ t → t < i → (full[t]?).map pile_entry_valid = some false) →
      ∀ j, i40e_check_enough_queue_pool needed l i run = some j →
        needed ≤ j + 1 ∧ j < full.length ∧
        ∀ t, j + 1 - needed ≤ t → t ≤ j → (full[t]?).map pile_entry_valid = some false := by
  intro l
  induction l with
  | nil =>
    intro i run _ _ _ j hj
    simp [i40e_check_enough_queue_pool] at hj
  | cons e rest ih =>
    intro i run hd hr hfree j hj
    have he : full[i]? = some e := by
      have h0 : (full.drop i)[0]? = some e := by rw [hd]; simp
      rw [List.getElem?_drop] at h0
      simpa using h0
    have hrest : full.drop (i + 1) = rest := by
      have h1 : (full.drop i).drop 1 = rest := by rw [hd]; rfl
      rw [List.drop_drop] at h1
      exact h1
    have hlen : i < full.length := by
      rcases Nat.lt_or_ge i full.length with h | h
      · exact h
      · rw [List.getElem?_eq_none h] at he
        cases he
    unfold i40e_check_enough_queue_pool at hj
    by_cases hv : pile_entry_valid e = true
    · simp only [hv, if_true] at hj
      refine ih (i + 1) 0 hrest (Nat.zero_le _) ?_ j hj
      intro t h1 h2
      omega
    · simp only [hv, Bool.false_eq_true, if_false] at hj
      have hvf : pile_entry_valid e = false := by
        cases h : pile_entry_valid e
        · rfl
        · exact absurd h hv
      by_cases hn : needed ≤ run + 1
      · simp only [hn, if_true, Option.some.injEq] at hj
        subst hj
        refine ⟨by omega, hlen, ?_⟩
        intro t h1 h2
        rcases Nat.lt_or_ge t i with h | h
        · exact hfree t (by omega) h
        · have : t = i := by omega
          subst this
          rw [he]
          simp [hvf]
      · simp only [hn, if_false] at hj
        refine ih (i + 1) (run + 1) hrest (by omega) ?_ j hj
        intro t h1 h2
        rcases Nat.lt_or_ge t i with h | h
        · exact hfree t (by omega) h
        · have : t = i := by omega
          subst this
          rw [he]
          simp [hvf]

/-- The run search in the words of the spec, which gives the base of the
first sufficient free run, finds the run the second loop of
`i40e_check_enough_queue` finds, and names its first entry where the loop
names its last. -/
theorem find_free_run_eq_pool (needed : Nat) (l : List Nat) :
    ∀ (i run : Nat), pile_find_free_run needed l i run =
      (i40e_check_enough_queue_pool needed l i run).map (fun j => j + 1 - needed) := by
  induction l with
  | nil => intro i run; rfl
  | cons e rest ih =>
    intro i run
    unfold pile_find_free_run i40e_check_enough_queue_pool
    split
    · exact ih _ _
    · split
      · rfl
      · exact ih _ _

/-- C18, the value returned by `i40e_check_enough_queue` from its second
loop, that is when the VSI owns fewer than `needed` queues and the entries
behind its range do not suffice: the value `i` is the index of the last entry
of the first sufficient free run, not of its first.  The `needed` entries
ending at `i` are free, the base of the run, which the run search in the
words of the spec returns, is `i + 1 - needed`, and for `needed` of 2 or more
the two differ. -/
theorem C18_check_enough_queue_returns_last_index (pf : i40e_pf) (vf : i40e_vf)
    (needed i : Nat)
    (hcur : (pf_vsi pf vf.lan_vsi_idx).alloc_queue_pairs < needed)
    (hbeh : (decide ((pf_vsi pf vf.lan_vsi_idx).alloc_queue_pairs > 0) &&
      i40e_check_enough_queue_behind
        (pf.qp_pile.list.drop
          ((pf_vsi pf vf.lan_vsi_idx).base_queue + (pf_vsi pf vf.lan_vsi_idx).alloc_queue_pairs))
        (needed - (pf_vsi pf vf.lan_vsi_idx).alloc_queue_pairs)) = false)
    (hres : i40e_check_enough_queue pf vf needed = .ok i) :
    pile_find_free_run needed pf.qp_pile.list 0 0 = some (i + 1 - needed) ∧
    needed ≤ i + 1 ∧ i < pf.qp_pile.list.length ∧
    (∀ t, i + 1 - needed ≤ t → t ≤ i →
      (pf.qp_pile.list[t]?).map pile_entry_valid = some false) ∧
    (2 ≤ needed → i ≠ i + 1 - needed) := by
  have hpool : i40e_check_enough_queue_pool needed pf.qp_pile.list 0 0 = some i := by
    unfold i40e_check_enough_queue at hres
    have hge : ¬ (pf_vsi pf vf.lan_vsi_idx).alloc_queue_pairs ≥ needed := by omega
    simp only [hge, if_false, hbeh, Bool.false_eq_true] at hres
    cases hp : i40e_check_enough_queue_pool needed pf.qp_pile.list 0 0 with
    | none => rw [hp] at hres; cases hres
    | some j =>
      rw [hp] at hres
      simp only [Except.ok.injEq] at hres
      rw [hres]
  have hw := check_enough_queue_pool_window needed pf.qp_pile.list pf.qp_pile.list 0 0 rfl
    (Nat.le_refl 0) (fun t _ h2 => absurd h2 (Nat.not_lt_zero t)) i hpool
  refine ⟨?_, hw.1, hw.2.1, hw.2.2, ?_⟩
  · rw [find_free_run_eq_pool, hpool]
    rfl
  · intro h2
    have := hw.1
    omega

theorem C18_witness :
    (pf_vsi sample_pf_blocked_behind sample_vf.lan_vsi_idx).alloc_queue_pairs = 4 ∧
    (pf_vsi sample_pf_blocked_behind sample_vf.lan_vsi_idx).base_queue = 8 ∧
    i40e_check_enough_queue sample_pf_blocked_behind sample_vf 6 = .ok 18 ∧
    pile_find_free_run 6 sample_pf_blocked_behind.qp_pile.list 0 0 = some 13 ∧
    (∀ t, 13 ≤ t → t ≤ 18 →
      (sample_pf_blocked_behind.qp_pile.list[t]?).map pile_entry_valid = some false) :=
  ⟨by decide, by decide, rfl,
   (C18_check_enough_queue_returns_last_index sample_pf_blocked_behind sample_vf 6 18
      (by decide) (by decide) rfl).1,
   (C18_check_enough_queue_returns_last_index sample_pf_blocked_behind sample_vf 6 18
      (by decide) (by decide) rfl).2.2.2.1⟩

/-! ### The resource check before ADq is enabled (C19) -/

/-- The count of the inner loop of `i40e_is_ok_to_alloc_vsi` over a list `l`
of entries: it is at most `n`, the entries it counted pass the test, and when
it stops short of `n` the next entry, if any, fails it. -/
theorem take_takeWhile_length (p : Nat → Bool) (l : List Nat) :
    ∀ (n : Nat),
      ((l.take n).takeWhile p).length ≤ n ∧
      (∀ t, t < ((l.take n).takeWhile p).length → (l[t]?).map p = some true) ∧
      (((l.take n).takeWhile p).length < n →
        (l[((l.take n).takeWhile p).length]?).map p ≠ some true) := by
  induction l with
  | nil =>
    intro n
    simp
  | cons a rest ih =>
    intro n
    cases n with
    | zero => simp
    | succ m =>
      have hi := ih m
      by_cases hp : p a = true
      · simp only [List.take_succ_cons, List.takeWhile_cons, hp, if_true, List.length_cons]
        refine ⟨by omega, ?_, ?_⟩
        · intro t ht
          cases t with
          | zero => simp [hp]
          | succ t =>
            simp only [List.getElem?_cons_succ]
            exact hi.2.1 t (by omega)
        · intro hlt
          simp only [List.getElem?_cons_succ]
          exact hi.2.2 (by omega)
      · simp only [List.take_succ_cons, List.takeWhile_cons, hp, Bool.false_eq_true, if_false,
          List.length_nil]
        refine ⟨by omega, ?_, ?_⟩
        · intro t ht
          omega
        · intro _
          simp [hp]

theorem alloc_vsi_run_le (list : List Nat) (i n : Nat) :
    i40e_is_ok_to_alloc_vsi_run list i n ≤ n :=
  (take_takeWhile_length (fun e => !pile_entry_valid e) (list.drop i) n).1

theorem alloc_vsi_run_free (list : List Nat) (i n t : Nat)
    (ht : t < i40e_is_ok_to_alloc_vsi_run list i n) :
    (list[i + t]?).map pile_entry_valid = some false := by
  have h := (take_takeWhile_length (fun e => !pile_entry_valid e) (list.drop i) n).2.1 t ht
  rw [List.getElem?_drop] at h
  cases hx : list[i + t]? with
  | none => rw [hx] at h; simp at h
  | some e =>
    rw [hx] at h
    simp only [Option.map_some', Option.some.injEq, Bool.not_eq_true'] at h ⊢
    exact h

theorem alloc_vsi_run_stop (list : List Nat) (i n : Nat)
    (hlt : i40e_is_ok_to_alloc_vsi_run list i n < n) :
    (list[i + i40e_is_ok_to_alloc_vsi_run list i n]?).map pile_entry_valid ≠ some false := by
  have h := (take_takeWhile_length (fun e => !pile_entry_valid e) (list.drop i) n).2.2 hlt
  rw [List.getElem?_drop] at h
  intro hc
  apply h
  cases hx : list[i + i40e_is_ok_to_alloc_vsi_run list i n]? with
  | none => rw [hx] at hc; simp at hc
  | some e =>
    rw [hx] at hc
    have hx2 : list[i + ((List.take n (List.drop i list)).takeWhile
        (fun e => !pile_entry_valid e)).length]? = some e := hx
    rw [hx2]
    simp only [Option.map_some', Option.some.injEq] at hc ⊢
    rw [hc]
    rfl

theorem alloc_vsi_run_pos (list : List Nat) (i n : Nat) (hi : i < list.length)
    (hf : pile_entry_valid (list.getD i 0) = false) (hn : 0 < n) :
    0 < i40e_is_ok_to_alloc_vsi_run list i n := by
  rcases Nat.eq_zero_or_pos (i40e_is_ok_to_alloc_vsi_run list i n) with h0 | h0
  · exfalso
    have hs := alloc_vsi_run_stop list i n (by omega)
    rw [h0] at hs
    apply hs
    simp only [Nat.add_zero]
    rw [List.getD_eq_getElem?_getD, List.getElem?_eq_getElem hi] at hf
    rw [List.getElem?_eq_getElem hi]
    simpa using hf
  · exact h0

/-- The `while` loop of `i40e_is_ok_to_alloc_vsi` ends with `qp_free` at
`qp_needed` or more exactly when the pile has `qp_needed` free entries in a
row; fuel for every entry from `i` on is enough. -/
theorem alloc_vsi_scan_iff (list : List Nat) (n : Nat) (hn : 0 < n) :
    ∀ (fuel i q : Nat), q < n → list.length ≤ fuel + i →
      (∀ s, s < i → ¬ ∀ t, t < n → (list[s + t]?).map pile_entry_valid = some false) →
      (n ≤ i40e_is_ok_to_alloc_vsi_scan list n fuel i q ↔
        ∃ s, ∀ t, t < n → (list[s + t]?).map pile_entry_valid = some false) := by
  have hend : ∀ i, list.length ≤ i →
      (∀ s, s < i → ¬ ∀ t, t < n → (list[s + t]?).map pile_entry_valid = some false) →
      ¬ ∃ s, ∀ t, t < n → (list[s + t]?).map pile_entry_valid = some false := by
    intro i hi hno ⟨s, hs⟩
    rcases Nat.lt_or_ge s i with h | h
    · exact hno s h hs
    · have h0 := hs 0 hn
      rw [List.getElem?_eq_none (by omega)] at h0
      simp at h0
  intro fuel
  induction fuel with
  | zero =>
    intro i q hq hlen hno
    simp only [i40e_is_ok_to_alloc_vsi_scan]
    constructor
    · intro h; omega
    · intro h; exact absurd h (hend i (by omega) hno)
  | succ fuel ih =>
    intro i q hq hlen hno
    unfold i40e_is_ok_to_alloc_vsi_scan
    by_cases hi : i < list.length
    · simp only [hi, if_true]
      by_cases hv : pile_entry_valid (list.getD i 0) = true
      · simp only [hv, if_true]
        refine ih (i + 1) q hq (by omega) ?_
        intro s hs hw
        rcases Nat.lt_or_ge s i with h | h
        · exact hno s h hw
        · have hsi : s = i := by omega
          subst hsi
          have h0 := hw 0 hn
          rw [List.getD_eq_getElem?_getD, List.getElem?_eq_getElem hi] at hv
          simp only [Nat.add_zero] at h0
          rw [List.getElem?_eq_getElem hi] at h0
          simp only [Option.getD_some] at hv
          simp [hv] at h0
      · have hvf : pile_entry_valid (list.getD i 0) = false := by
          cases h : pile_entry_valid (list.getD i 0)
          · rfl
          · exact absurd h hv
        simp only [hv, Bool.false_eq_true, if_false]
        by_cases hf : i40e_is_ok_to_alloc_vsi_run list i n ≥ n
        · simp only [hf, if_true]
          constructor
          · intro _
            exact ⟨i, fun t ht => alloc_vsi_run_free list i n t (by omega)⟩
          · intro _
            trivial
        · simp only [hf, if_false]
          have hpos := alloc_vsi_run_pos list i n hi hvf hn
          refine ih _ _ (by omega) (by omega) ?_
          intro s hs hw
          rcases Nat.lt_or_ge s i with h | h
          · exact hno s h hw
          · have hstop := alloc_vsi_run_stop list i n (by omega)
            apply hstop
            have := hw (i + i40e_is_ok_to_alloc_vsi_run list i n - s) (by omega)
            have he : s + (i + i40e_is_ok_to_alloc_vsi_run list i n - s) =
                i + i40e_is_ok_to_alloc_vsi_run list i n := by omega
            rw [he] at this
            exact this
    · simp only [hi, if_false]
      constructor
      · intro h; omega
      · intro h; exact absurd h (hend i (by omega) hno)

/-- What `i40e_is_ok_to_alloc_vsi` tests on an existing pile: it returns true
exactly when `qp_needed` is not 0, the pile has `qp_needed` free entries in a
row (starting at some index `s`), and the table of VSIs has more than
`num_vsi` slots from the cursor `next_vsi` on or, failing that, from the first
empty slot below the cursor on (from the cursor when there is none). -/
theorem ok_to_alloc_vsi_iff (pf : i40e_pf) (pile : i40e_lump_tracking)
    (qp_needed num_vsi : Nat) :
    i40e_is_ok_to_alloc_vsi pf (some pile) qp_needed num_vsi = true ↔
      (qp_needed ≠ 0 ∧
       (∃ s, ∀ t, t < qp_needed →
          (pile.list[s + t]?).map pile_entry_valid = some false) ∧
       (pf.next_vsi + num_vsi < pf.vsi.length ∨
        i40e_is_ok_to_alloc_vsi_slot pf + num_vsi < pf.vsi.length)) := by
  unfold i40e_is_ok_to_alloc_vsi
  simp only []
  by_cases h0 : qp_needed = 0
  · simp [h0]
  · have hscan := alloc_vsi_scan_iff pile.list qp_needed (Nat.pos_of_ne_zero h0)
      pile.list.length 0 0 (Nat.pos_of_ne_zero h0) (by omega)
      (fun s hs => absurd hs (Nat.not_lt_zero s))
    simp only [h0, if_false]
    by_cases hs : i40e_is_ok_to_alloc_vsi_scan pile.list qp_needed
        pile.list.length 0 0 < qp_needed
    · simp only [hs, if_true]
      constructor
      · intro h; cases h
      · intro h
        have := hscan.mpr h.2.1
        omega
    · simp only [hs, if_false]
      have hex := hscan.mp (by omega)
      by_cases hn : pf.next_vsi + num_vsi ≥ pf.vsi.length
      · simp only [hn, if_true]
        by_cases hsl : i40e_is_ok_to_alloc_vsi_slot pf + num_vsi ≥ pf.vsi.length
        · simp only [hsl, if_true]
          constructor
          · intro h; cases h
          · intro h
            rcases h.2.2 with h1 | h1 <;> omega
        · simp only [hsl, if_false]
          constructor
          · intro _
            exact ⟨h0, hex, Or.inr (by omega)⟩
          · intro _; trivial
      · simp only [hn, if_false]
        constructor
        · intro _
          exact ⟨h0, hex, Or.inl (by omega)⟩
        · intro _; trivial

/-- C19 (the code at the failing input, and in general).  In general:
`i40e_is_ok_to_alloc_vsi` returns false for a null pile, for `qp_needed` = 0
and for a pile without `qp_needed` free entries in a row; on an existing pile
it returns true exactly when `qp_needed` is not 0, the pile has such a run,
and the table of VSIs has more than `num_vsi` slots from the cursor `next_vsi`
on or, failing that, from the first empty slot below the cursor on.  The slots
from the cursor on are never looked at.  At the failing input,
`sample_pf_full_table`, every slot of the VSI table of four is taken and the
cursor is at 1: the slot search finds no slot and `i40e_vsi_setup` fails, yet
the check for 12 queue pairs and one new VSI returns true, since 1 + 1 is
below 4. -/
theorem C19_ok_to_alloc_vsi_checks_pile_and_cursor :
    (∀ (pf : i40e_pf) (qp_needed num_vsi : Nat),
      i40e_is_ok_to_alloc_vsi pf none qp_needed num_vsi = false) ∧
    (∀ (pf : i40e_pf) (pile : i40e_lump_tracking) (num_vsi : Nat),
      i40e_is_ok_to_alloc_vsi pf (some pile) 0 num_vsi = false) ∧
    (∀ (pf : i40e_pf) (pile : i40e_lump_tracking) (qp_needed num_vsi : Nat),
      (¬ ∃ s, ∀ t, t < qp_needed → (pile.list[s + t]?).map pile_entry_valid = some false) →
      i40e_is_ok_to_alloc_vsi pf (some pile) qp_needed num_vsi = false) ∧
    (∀ (pf : i40e_pf) (pile : i40e_lump_tracking) (qp_needed num_vsi : Nat),
      i40e_is_ok_to_alloc_vsi pf (some pile) qp_needed num_vsi = true ↔
        (qp_needed ≠ 0 ∧
         (∃ s, ∀ t, t < qp_needed →
            (pile.list[s + t]?).map pile_entry_valid = some false) ∧
         (pf.next_vsi + num_vsi < pf.vsi.length ∨
          i40e_is_ok_to_alloc_vsi_slot pf + num_vsi < pf.vsi.length))) ∧
    (sample_pf_full_table.vsi.all Option.isSome = true ∧
      (sample_pf_full_table.vsi.filter (fun slot => slot.isNone)).length = 0 ∧
      vsi_table_find_slot sample_pf_full_table = none ∧
      (i40e_vsi_setup (sample_vsi_oracle 0) sample_pf_full_table 0).isNone = true ∧
      i40e_is_ok_to_alloc_vsi sample_pf_full_table (some sample_pf_full_table.qp_pile) 12 1 =
        true) := by
  refine ⟨fun _ _ _ => rfl, fun _ _ _ => rfl, ?_, ok_to_alloc_vsi_iff, by decide⟩
  intro pf pile qp_needed num_vsi hno
  cases hx : i40e_is_ok_to_alloc_vsi pf (some pile) qp_needed num_vsi
  · rfl
  · exact absurd ((ok_to_alloc_vsi_iff pf pile qp_needed num_vsi).mp hx).2.1 hno

/-! ### A rejected ENABLE_CHANNELS request (C20) -/

/-- One round of the copy loop of `i40e_vc_add_qch_msg` for a channel whose
rate is accepted: entry `i` of `vf->ch` takes the requested queue count and,
when the requested rate is not 0, the requested rate. -/
theorem add_qch_parse_step (speed : Nat) (tci : virtchnl_tc_info) (n i : Nat) (vf : i40e_vf)
    (hok : ¬ ((tci_list tci i).max_tx_rate ≠ 0 ∧ (tci_list tci i).max_tx_rate > speed)) :
    i40e_vc_add_qch_parse speed tci (n + 1) i vf =
      i40e_vc_add_qch_parse speed tci n (i + 1)
        { vf with ch := (vf.ch.set i
            { vsi_idx := (vf_ch vf i).vsi_idx, vsi_id := (vf_ch vf i).vsi_id,
              num_qps := (tci_list tci i).count,
              max_tx_rate := (if (tci_list tci i).max_tx_rate ≠ 0
                then (tci_list tci i).max_tx_rate else (vf_ch vf i).max_tx_rate) }) } := by
  by_cases hr : (tci_list tci i).max_tx_rate = 0
  · rw [i40e_vc_add_qch_parse]
    simp [hr]
  · have hgt : ¬ ((tci_list tci i).max_tx_rate > speed) := fun h => hok ⟨hr, h⟩
    rw [i40e_vc_add_qch_parse]
    by_cases hi : i < vf.ch.length
    · simp [hr, hgt, vf_ch, List.getD_eq_getElem?_getD, hi]
    · simp [hr, hgt, List.set_eq_of_length_le (Nat.le_of_not_lt hi)]

theorem add_qch_parse_stop (speed : Nat) (tci : virtchnl_tc_info) (n i : Nat) (vf : i40e_vf)
    (hbad : (tci_list tci i).max_tx_rate ≠ 0 ∧ (tci_list tci i).max_tx_rate > speed) :
    i40e_vc_add_qch_parse speed tci (n + 1) i vf = .error vf := by
  rw [i40e_vc_add_qch_parse]
  simp [hbad.1, hbad.2]

/-- A copy loop that jumps to `err` stopped at the first channel `j` whose
rate is not 0 and above the link speed; it has touched `vf->ch` only, there
the entries of the channels before `j`, which hold the requested queue count
and, where the requested rate is not 0, the requested rate. -/
theorem add_qch_parse_error (speed : Nat) (tci : virtchnl_tc_info) :
    ∀ (n i : Nat) (vf vf3 : i40e_vf),
      i40e_vc_add_qch_parse speed tci n i vf = .error vf3 →
      vf3 = { vf with ch := vf3.ch } ∧
      ∃ j, i ≤ j ∧ j < i + n ∧
        ((tci_list tci j).max_tx_rate ≠ 0 ∧ (tci_list tci j).max_tx_rate > speed) ∧
        (∀ t, i ≤ t → t < j →
          ¬ ((tci_list tci t).max_tx_rate ≠ 0 ∧ (tci_list tci t).max_tx_rate > speed)) ∧
        (∀ t, t < i ∨ j ≤ t → vf3.ch[t]? = vf.ch[t]?) ∧
        (∀ t, i ≤ t → t < j → t < vf.ch.length →
          vf3.ch[t]? = some
            { vsi_idx := (vf_ch vf t).vsi_idx, vsi_id := (vf_ch vf t).vsi_id,
              num_qps := (tci_list tci t).count,
              max_tx_rate := (if (tci_list tci t).max_tx_rate ≠ 0
                then (tci_list tci t).max_tx_rate else (vf_ch vf t).max_tx_rate) }) := by
  intro n
  induction n with
  | zero =>
    intro i vf vf3 h
    simp [i40e_vc_add_qch_parse] at h
  | succ n ih =>
    intro i vf vf3 h
    by_cases hbad : (tci_list tci i).max_tx_rate ≠ 0 ∧ (tci_list tci i).max_tx_rate > speed
    · rw [add_qch_parse_stop speed tci n i vf hbad] at h
      simp only [Except.error.injEq] at h
      subst h
      refine ⟨rfl, i, Nat.le_refl i, by omega, hbad, ?_, ?_, ?_⟩
      · intro t h1 h2; omega
      · intro t _; rfl
      · intro t h1 h2; omega
    · rw [add_qch_parse_step speed tci n i vf hbad] at h
      obtain ⟨hvf, j, hj1, hj2, hjbad, hfirst, hsame, hset⟩ := ih _ _ _ h
      refine ⟨?_, j, by omega, by omega, hjbad, ?_, ?_, ?_⟩
      · rw [hvf]
      · intro t h1 h2
        rcases Nat.lt_or_ge i t with h3 | h3
        · exact hfirst t (by omega) h2
        · have : t = i := by omega
          subst this
          exact hbad
      · intro t ht
        have h1 := hsame t (by omega)
        rw [h1]
        simp only []
        rw [List.getElem?_set_ne (by omega)]
      · intro t h1 h2 h3
        rcases Nat.lt_or_ge i t with h4 | h4
        · have h5 := hset t (by omega) h2 (by simpa using h3)
          rw [h5]
          have hch : ∀ (x : i40evf_channel), vf_ch { vf with ch := vf.ch.set i x } t = vf_ch vf t := by
            intro x
            simp only [vf_ch, List.getD_eq_getElem?_getD]
            rw [List.getElem?_set_ne (by omega)]
          rw [hch]
        · have : t = i := by omega
          subst this
          have h5 := hsame t (Or.inl (Nat.lt_succ_self t))
          rw [h5]
          simp only []
          rw [List.getElem?_set_self h3]

theorem add_qch_msg_checks_isErr (k : Consts) (o : Oracle) (pf : i40e_pf) (vf : i40e_vf)
    (tci : virtchnl_tc_info) (st : Status)
    (h : i40e_vc_add_qch_msg_checks k o pf vf tci = some st) : st.isErr = true := by
  unfold i40e_vc_add_qch_msg_checks at h
  repeat' split at h
  all_goals (cases h <;> rfl)

/-- The handler of ENABLE_CHANNELS seen as its checks followed by its writes:
a failing check sends its status to the VF whose descriptor is as it was. -/
theorem add_qch_msg_eq (k : Consts) (o : Oracle) (ro : ResOracle) (pf : i40e_pf) (vf : i40e_vf)
    (tci : virtchnl_tc_info) :
    i40e_vc_add_qch_msg k o ro pf vf tci =
      match i40e_vc_add_qch_msg_checks k o pf vf tci with
      | some st => handler_err k o pf vf .VIRTCHNL_OP_ENABLE_CHANNELS st []
      | none =>
        if i40e_vc_link_speed2mbps pf.hw.link_speed = SPEED_UNKNOWN then
          handler_err k o pf { vf with num_queue_pairs := I40E_MAX_VF_QUEUES }
            .VIRTCHNL_OP_ENABLE_CHANNELS .I40E_ERR_PARAM []
        else
          match i40e_vc_add_qch_parse (i40e_vc_link_speed2mbps pf.hw.link_speed) tci tci.num_tc 0
              { vf with num_queue_pairs := I40E_MAX_VF_QUEUES, num_tc := tci.num_tc } with
          | .error vf3 => handler_err k o pf vf3 .VIRTCHNL_OP_ENABLE_CHANNELS .I40E_ERR_PARAM []
          | .ok vf3 =>
            (.I40E_SUCCESS, (i40e_vc_reset_vf k ro pf { vf3 with adq_enabled := true } true).1,
              (i40e_vc_reset_vf k ro pf { vf3 with adq_enabled := true } true).2.1,
              (i40e_vc_reset_vf k ro pf { vf3 with adq_enabled := true } true).2.2) := by
  unfold i40e_vc_add_qch_msg i40e_vc_add_qch_msg_checks
  simp only []
  by_cases h1 : (!i40e_sync_vf_state k o.polls .I40E_VF_STATE_ACTIVE) = true
  · simp only [h1, if_true]
  · simp only [h1, Bool.false_eq_true, if_false]
    by_cases h2 : vf.mac_anti_spoof = true
    · simp only [h2, if_true]
    · simp only [h2, Bool.false_eq_true, if_false]
      by_cases h3 : (!vf.driver_caps_ADQ) = true
      · simp only [h3, if_true]
      · simp only [h3, Bool.false_eq_true, if_false]
        by_cases h4 : (decide (tci.num_tc = 0) || decide (tci.num_tc > I40E_MAX_VF_VSI)) = true
        · simp only [h4, if_true]
        · simp only [h4, Bool.false_eq_true, if_false]
          by_cases h5 : ((List.range tci.num_tc).any (fun i =>
              decide ((tci_list tci i).count = 0) ||
                decide ((tci_list tci i).count > I40E_DEFAULT_QUEUES_PER_VF))) = true
          · simp only [h5, if_true]
          · simp only [h5, Bool.false_eq_true, if_false]
            by_cases h6 : (decide (tci.num_tc > 1) &&
                !i40e_is_ok_to_alloc_vsi pf (some pf.qp_pile)
                  ((tci.num_tc - 1) * vf.num_queue_pairs) (tci.num_tc - 1)) = true
            · simp only [h6, if_true]
            · simp only [h6, Bool.false_eq_true, if_false]
              by_cases h7 : pf.queues_left < I40E_MAX_VF_QUEUES - I40E_DEFAULT_QUEUES_PER_VF
              · simp only [h7, if_true]
              · simp only [h7, if_false]

/-- Sending a response leaves the ADq fields of the VF alone. -/
theorem send_keeps_adq (k : Consts) (sr : Status) (pf : i40e_pf) (vf : i40e_vf)
    (op : virtchnl_ops) (ret : Status) (q : Bool) :
    (i40e_vc_send_msg_to_vf_ex k sr pf vf op ret q).2.1.adq_enabled = vf.adq_enabled ∧
    (i40e_vc_send_msg_to_vf_ex k sr pf vf op ret q).2.1.num_tc = vf.num_tc ∧
    (i40e_vc_send_msg_to_vf_ex k sr pf vf op ret q).2.1.num_queue_pairs = vf.num_queue_pairs ∧
    (i40e_vc_send_msg_to_vf_ex k sr pf vf op ret q).2.1.ch = vf.ch := by
  unfold i40e_vc_send_msg_to_vf_ex
  split
  · exact ⟨rfl, rfl, rfl, rfl⟩
  · simp only []
    split <;> split <;> first | exact ⟨rfl, rfl, rfl, rfl⟩ | (split <;> exact ⟨rfl, rfl, rfl, rfl⟩)

theorem handler_err_keeps_adq (k : Consts) (o : Oracle) (pf : i40e_pf) (vf : i40e_vf)
    (op : virtchnl_ops) (ret : Status) (ev : List HwEvent) :
    (handler_err k o pf vf op ret ev).2.1 = pf ∧
    (handler_err k o pf vf op ret ev).2.2.1.adq_enabled = vf.adq_enabled ∧
    (handler_err k o pf vf op ret ev).2.2.1.num_tc = vf.num_tc ∧
    (handler_err k o pf vf op ret ev).2.2.1.num_queue_pairs = vf.num_queue_pairs ∧
    (handler_err k o pf vf op ret ev).2.2.1.ch = vf.ch :=
  ⟨rfl, send_keeps_adq k o.send_ret pf vf op ret false⟩

/-- The events of the label `err` reached with no event so far: the one
response when the VF is one of the PF, nothing otherwise. -/
theorem handler_err_events (k : Consts) (o : Oracle) (pf : i40e_pf) (vf : i40e_vf)
    (op : virtchnl_ops) (ret : Status) :
    (handler_err k o pf vf op ret []).2.2.2 =
      if vf.vf_id < pf.num_alloc_vfs then
        [HwEvent.aq_send_msg_to_vf (vf.vf_id + pf.hw.vf_base_id) op ret]
      else [] := by
  by_cases hid : vf.vf_id < pf.num_alloc_vfs
  · simp only [hid, if_true, handler_err, i40e_vc_send_resp_to_vf, i40e_vc_send_msg_to_vf,
      List.nil_append, send_events_eq k o.send_ret pf vf op ret false hid]
  · have hge : vf.vf_id ≥ pf.num_alloc_vfs := by omega
    simp only [hid, if_false, handler_err, i40e_vc_send_resp_to_vf, i40e_vc_send_msg_to_vf,
      List.nil_append, i40e_vc_send_msg_to_vf_ex, hge, if_true]

/-- C20 counterexample: VF 0 of `sample_pf_twelve_left`, not in ADq mode, with
`num_tc` 0 and all channel entries zero, asks for two traffic classes, the
second with a rate above the link speed.  The request is rejected with
`I40E_ERR_PARAM`, the only event being that response, yet `num_tc` is 2 and
`ch[0].num_qps` is 4 afterwards. -/
theorem C20_counterexample :
    sample_vf_adq_capable.num_tc = 0 ∧
    (vf_ch sample_vf_adq_capable 0).num_qps = 0 ∧
    (i40e_vc_add_qch_msg sample_consts sample_msg_oracle sample_res_oracle sample_pf_twelve_left
      sample_vf_adq_capable sample_tc_info_rate_too_high).2.2.2 =
      [HwEvent.aq_send_msg_to_vf 32 .VIRTCHNL_OP_ENABLE_CHANNELS .I40E_ERR_PARAM] ∧
    (i40e_vc_add_qch_msg sample_consts sample_msg_oracle sample_res_oracle sample_pf_twelve_left
      sample_vf_adq_capable sample_tc_info_rate_too_high).2.2.1.num_tc = 2 ∧
    (vf_ch (i40e_vc_add_qch_msg sample_consts sample_msg_oracle sample_res_oracle
      sample_pf_twelve_left sample_vf_adq_capable sample_tc_info_rate_too_high).2.2.1 0).num_qps
      = 4 := by
  decide

/-- C20, amended: an ENABLE_CHANNELS request that `i40e_vc_add_qch_msg`
answers with a message of that opcode (which it does only when it rejects the
request) triggers no reset: the PF is as before, the response, with a
non-success status, is the only event, and `adq_enabled` keeps its value.
When one of the checks made before the first write rejects it (state, spoof
check, ADq capability, number of traffic classes, queues per class,
resources for the new VSIs, queues left), `num_tc`, `num_queue_pairs` and
every `ch[i]` keep their values too.  When all those checks pass and the
link speed is unknown, `num_tc` and every `ch[i]` keep their values.  When
they pass, the link speed is known and the request is rejected, some channel
`j` below the requested number is the first whose rate is not 0 and above
the link speed; then `num_tc` holds the requested number, the entries of
`ch` from `j` on keep their values and those before `j` hold the requested
queue count and, where the requested rate is not 0, the requested rate. -/
theorem C20_rejected_enable_channels_keeps_adq_flag (k : Consts) (o : Oracle) (ro : ResOracle)
    (pf : i40e_pf) (vf : i40e_vf) (tci : virtchnl_tc_info)
    (hrej : 0 < count_msgs_to_vf (vf.vf_id + pf.hw.vf_base_id) .VIRTCHNL_OP_ENABLE_CHANNELS
      (i40e_vc_add_qch_msg k o ro pf vf tci).2.2.2) :
    (i40e_vc_add_qch_msg k o ro pf vf tci).2.1 = pf ∧
    (∃ st, st.isErr = true ∧ (i40e_vc_add_qch_msg k o ro pf vf tci).2.2.2 =
      [HwEvent.aq_send_msg_to_vf (vf.vf_id + pf.hw.vf_base_id) .VIRTCHNL_OP_ENABLE_CHANNELS st]) ∧
    (i40e_vc_add_qch_msg k o ro pf vf tci).2.2.1.adq_enabled = vf.adq_enabled ∧
    (i40e_vc_add_qch_msg_checks k o pf vf tci ≠ none →
      (i40e_vc_add_qch_msg k o ro pf vf tci).2.2.1.num_tc = vf.num_tc ∧
      (i40e_vc_add_qch_msg k o ro pf vf tci).2.2.1.num_queue_pairs = vf.num_queue_pairs ∧
      (i40e_vc_add_qch_msg k o ro pf vf tci).2.2.1.ch = vf.ch) ∧
    (i40e_vc_add_qch_msg_checks k o pf vf tci = none →
      i40e_vc_link_speed2mbps pf.hw.link_speed = SPEED_UNKNOWN →
      (i40e_vc_add_qch_msg k o ro pf vf tci).2.2.1.num_tc = vf.num_tc ∧
      (i40e_vc_add_qch_msg k o ro pf vf tci).2.2.1.ch = vf.ch) ∧
    (i40e_vc_add_qch_msg_checks k o pf vf tci = none →
      i40e_vc_link_speed2mbps pf.hw.link_speed ≠ SPEED_UNKNOWN →
      (i40e_vc_add_qch_msg k o ro pf vf tci).2.2.1.num_tc = tci.num_tc ∧
      ∃ j, j < tci.num_tc ∧
        ((tci_list tci j).max_tx_rate ≠ 0 ∧
          (tci_list tci j).max_tx_rate > i40e_vc_link_speed2mbps pf.hw.link_speed) ∧
        (∀ t, t < j → ¬ ((tci_list tci t).max_tx_rate ≠ 0 ∧
          (tci_list tci t).max_tx_rate > i40e_vc_link_speed2mbps pf.hw.link_speed)) ∧
        (∀ t, j ≤ t → (i40e_vc_add_qch_msg k o ro pf vf tci).2.2.1.ch[t]? = vf.ch[t]?) ∧
        (∀ t, t < j → t < vf.ch.length →
          (i40e_vc_add_qch_msg k o ro pf vf tci).2.2.1.ch[t]? = some
            { vsi_idx := (vf_ch vf t).vsi_idx, vsi_id := (vf_ch vf t).vsi_id,
              num_qps := (tci_list tci t).count,
              max_tx_rate := (if (tci_list tci t).max_tx_rate ≠ 0
                then (tci_list tci t).max_tx_rate else (vf_ch vf t).max_tx_rate) })) := by
  have hnil : ¬ 0 < count_msgs_to_vf (vf.vf_id + pf.hw.vf_base_id)
      .VIRTCHNL_OP_ENABLE_CHANNELS [] := by simp [count_msgs_to_vf]
  have heq := add_qch_msg_eq k o ro pf vf tci
  cases hc : i40e_vc_add_qch_msg_checks k o pf vf tci with
  | some st =>
    rw [hc] at heq
    simp only [] at heq
    have hev := handler_err_events k o pf vf .VIRTCHNL_OP_ENABLE_CHANNELS st
    have hid : vf.vf_id < pf.num_alloc_vfs := by
      by_contra hn
      rw [heq, hev, if_neg hn] at hrej
      exact hnil hrej
    rw [if_pos hid] at hev
    have hk := handler_err_keeps_adq k o pf vf .VIRTCHNL_OP_ENABLE_CHANNELS st []
    rw [heq]
    refine ⟨hk.1, ⟨st, add_qch_msg_checks_isErr k o pf vf tci st hc, hev⟩, hk.2.1,
      fun _ => hk.2.2, fun h => ?_, fun h => ?_⟩
    · cases h
    · cases h
  | none =>
    rw [hc] at heq
    simp only [] at heq
    by_cases hsp : i40e_vc_link_speed2mbps pf.hw.link_speed = SPEED_UNKNOWN
    · simp only [hsp, if_true] at heq
      have hev := handler_err_events k o pf { vf with num_queue_pairs := I40E_MAX_VF_QUEUES }
        .VIRTCHNL_OP_ENABLE_CHANNELS .I40E_ERR_PARAM
      have hid : vf.vf_id < pf.num_alloc_vfs := by
        by_contra hn
        rw [heq, hev] at hrej
        simp only [] at hrej
        rw [if_neg hn] at hrej
        exact hnil hrej
      simp only [] at hev
      rw [if_pos hid] at hev
      have hk := handler_err_keeps_adq k o pf { vf with num_queue_pairs := I40E_MAX_VF_QUEUES }
        .VIRTCHNL_OP_ENABLE_CHANNELS .I40E_ERR_PARAM []
      rw [heq]
      refine ⟨hk.1, ⟨.I40E_ERR_PARAM, rfl, hev⟩, hk.2.1, fun h => absurd rfl h,
        fun _ _ => ⟨hk.2.2.1, hk.2.2.2.2⟩, fun _ h => absurd hsp h⟩
    · simp only [hsp, if_false] at heq
      cases hp : i40e_vc_add_qch_parse (i40e_vc_link_speed2mbps pf.hw.link_speed) tci tci.num_tc 0
          { vf with num_queue_pairs := I40E_MAX_VF_QUEUES, num_tc := tci.num_tc } with
      | ok vf3 =>
        rw [hp] at heq
        simp only [] at heq
        rw [heq] at hrej
        simp only [] at hrej
        rw [vc_reset_vf_count k ro pf _ true _ _ (by decide)] at hrej
        exact absurd hrej (Nat.lt_irrefl 0)
      | error vf3 =>
        rw [hp] at heq
        simp only [] at heq
        obtain ⟨hvf, j, _, hj2, hjbad, hfirst, hsame, hset⟩ :=
          add_qch_parse_error _ tci _ _ _ _ hp
        have hvid : vf3.vf_id = vf.vf_id := by rw [hvf]
        have hvadq : vf3.adq_enabled = vf.adq_enabled := by rw [hvf]
        have hvtc : vf3.num_tc = tci.num_tc := by rw [hvf]
        have hev := handler_err_events k o pf vf3 .VIRTCHNL_OP_ENABLE_CHANNELS .I40E_ERR_PARAM
        rw [hvid] at hev
        have hid : vf.vf_id < pf.num_alloc_vfs := by
          by_contra hn
          rw [heq, hev, if_neg hn] at hrej
          exact hnil hrej
        rw [if_pos hid] at hev
        have hk := handler_err_keeps_adq k o pf vf3 .VIRTCHNL_OP_ENABLE_CHANNELS .I40E_ERR_PARAM []
        rw [heq]
        refine ⟨hk.1, ⟨.I40E_ERR_PARAM, rfl, hev⟩, hk.2.1.trans hvadq, fun h => absurd rfl h,
          fun _ h => absurd h hsp, fun _ _ => ⟨hk.2.2.1.trans hvtc, j, by omega, hjbad, ?_, ?_, ?_⟩⟩
        · intro t ht
          exact hfirst t (Nat.zero_le t) ht
        · intro t ht
          rw [hk.2.2.2.2]
          exact hsame t (Or.inr ht)
        · intro t ht hlen
          rw [hk.2.2.2.2]
          exact hset t (Nat.zero_le t) ht hlen

theorem C20_witness :
    0 < count_msgs_to_vf (sample_vf_adq_capable.vf_id + sample_pf_twelve_left.hw.vf_base_id)
      .VIRTCHNL_OP_ENABLE_CHANNELS
      (i40e_vc_add_qch_msg sample_consts sample_msg_oracle sample_res_oracle sample_pf_twelve_left
        sample_vf_adq_capable sample_tc_info_rate_too_high).2.2.2 ∧
    (i40e_vc_add_qch_msg sample_consts sample_msg_oracle sample_res_oracle sample_pf_twelve_left
      sample_vf_adq_capable sample_tc_info_rate_too_high).2.1 = sample_pf_twelve_left ∧
    (i40e_vc_add_qch_msg sample_consts sample_msg_oracle sample_res_oracle sample_pf_twelve_left
      sample_vf_adq_capable sample_tc_info_rate_too_high).2.2.1.adq_enabled =
      sample_vf_adq_capable.adq_enabled :=
  ⟨by decide,
   (C20_rejected_enable_channels_keeps_adq_flag sample_consts sample_msg_oracle
      sample_res_oracle sample_pf_twelve_left sample_vf_adq_capable
      sample_tc_info_rate_too_high (by decide)).1,
   (C20_rejected_enable_channels_keeps_adq_flag sample_consts sample_msg_oracle
      sample_res_oracle sample_pf_twelve_left sample_vf_adq_capable
      sample_tc_info_rate_too_high (by decide)).2.2.1⟩

/-! ### The state after the reset trigger (C24) -/

theorem quiesce_vf_pci_events (polls : Nat → Bool) (pf : i40e_pf) (vf : i40e_vf) :
    (i40e_quiesce_vf_pci polls pf vf).2 =
      [HwEvent.wr32 .I40E_PF_PCI_CIAA
        (VF_DEVICE_STATUS ||| ((vf.vf_id + pf.hw.vf_base_id) <<< I40E_PF_PCI_CIAA_VF_NUM_SHIFT))] := by
  unfold i40e_quiesce_vf_pci
  simp only []
  split <;> rfl

/-- C24: after i40e_trigger_vf_reset, for either value of flr and for every
outcome of the reads of the admin-queue bit and of the two polls (the
admin-queue sync and the PCI quiesce, timed out or not), INIT and ACTIVE are
both clear and nothing else of the VF descriptor has changed; a write to
VPGEN_VFRTRIG is among the hardware commands exactly when flr is false, it
goes to the register of this VF and the value written has the reset-start
bit VFSWR set. -/
theorem C24_trigger_clears_init_and_active (k : Consts) (o : ResOracle) (pf : i40e_pf)
    (vf : i40e_vf) (flr : Bool) :
    test_bit .I40E_VF_STATE_INIT (i40e_trigger_vf_reset k o pf vf flr).1.vf_states = false ∧
    test_bit .I40E_VF_STATE_ACTIVE (i40e_trigger_vf_reset k o pf vf flr).1.vf_states = false ∧
    (i40e_trigger_vf_reset k o pf vf flr).1 =
      { vf with vf_states :=
          (clear_bit .I40E_VF_STATE_INIT (clear_bit .I40E_VF_STATE_ACTIVE vf.vf_states)) } ∧
    (∀ (n v : Nat), HwEvent.wr32 (.I40E_VPGEN_VFRTRIG n) v ∈ (i40e_trigger_vf_reset k o pf vf flr).2 ↔
      (flr = false ∧ n = vf.vf_id ∧ v = o.vfrtrig ||| I40E_VPGEN_VFRTRIG_VFSWR_MASK)) ∧
    (o.vfrtrig ||| I40E_VPGEN_VFRTRIG_VFSWR_MASK) &&& I40E_VPGEN_VFRTRIG_VFSWR_MASK =
      I40E_VPGEN_VFRTRIG_VFSWR_MASK := by
  refine ⟨rfl, rfl, rfl, ?_, ?_⟩
  · intro n v
    unfold i40e_trigger_vf_reset
    simp only [quiesce_vf_pci_events]
    cases flr <;> simp
  · apply Nat.eq_of_testBit_eq
    intro i
    simp only [Nat.testBit_and, Nat.testBit_or]
    cases Nat.testBit o.vfrtrig i <;> simp

/-! ### The return value of `i40e_reset_vf` (C25) -/

/-- C25, the three ways through `i40e_reset_vf`.  With
`__I40E_VF_RESETS_DISABLED` set it returns true although nothing was done:
no trigger, no cleanup, no hardware command, PF and VF as they were.  With
that flag clear and `__I40E_VF_DISABLE` set it returns false and does
nothing.  With both clear it returns true and has run the trigger, the
stopping of the rings of the primary VSI when there is one, and the cleanup
with its rebuild, in that order. -/
theorem C25_reset_vf_returns_true_when_resets_disabled (k : Consts) (o : ResOracle)
    (pf : i40e_pf) (vf : i40e_vf) (flr : Bool) :
    (pf.state.I40E_VF_RESETS_DISABLED = true →
      i40e_reset_vf k o pf vf flr = (true, pf, vf, [])) ∧
    (pf.state.I40E_VF_RESETS_DISABLED = false → pf.state.I40E_VF_DISABLE = true →
      i40e_reset_vf k o pf vf flr = (false, pf, vf, [])) ∧
    (pf.state.I40E_VF_RESETS_DISABLED = false → pf.state.I40E_VF_DISABLE = false →
      (i40e_reset_vf k o pf vf flr).1 = true ∧
      (i40e_reset_vf k o pf vf flr).2.2.2 =
        (i40e_trigger_vf_reset k o
            { pf with state := { pf.state with I40E_VF_DISABLE := true } } vf flr).2 ++
          ((if (i40e_trigger_vf_reset k o
                { pf with state := { pf.state with I40E_VF_DISABLE := true } } vf flr).1.lan_vsi_idx
                ≠ 0
            then [HwEvent.vsi_stop_rings vf.lan_vsi_idx] else []) ++
           (i40e_cleanup_reset_vf k o
              { pf with state := { pf.state with I40E_VF_DISABLE := true } }
              (i40e_trigger_vf_reset k o
                { pf with state := { pf.state with I40E_VF_DISABLE := true } } vf flr).1).2.2 ++
           [HwEvent.flush])) := by
  refine ⟨?_, ?_, ?_⟩
  · intro h
    simp [i40e_reset_vf, h]
  · intro h1 h2
    simp [i40e_reset_vf, h1, h2]
  · intro h1 h2
    simp only [i40e_reset_vf, h1, h2, Bool.false_eq_true, if_false, i40e_reset_vf_begin,
      i40e_reset_vf_finish]
    exact ⟨trivial, rfl⟩

theorem C25_witness :
    sample_pf_resets_disabled.state.I40E_VF_RESETS_DISABLED = true ∧
    i40e_reset_vf sample_consts sample_res_oracle sample_pf_resets_disabled sample_vf false =
      (true, sample_pf_resets_disabled, sample_vf, []) :=
  ⟨by decide,
   (C25_reset_vf_returns_true_when_resets_disabled sample_consts sample_res_oracle
      sample_pf_resets_disabled sample_vf false).1 (by decide)⟩

/-! ### The reset-done indicator (C23) -/

/-- A VSI that `i40e_vsi_setup` sets up takes a slot that was empty, so every
slot that held a VSI holds the same VSI afterwards. -/
theorem vsi_setup_keeps_slots (o : VsiOracle) (pf pf1 : i40e_pf) (vf_id : Nat) (vsi : i40e_vsi)
    (hs : i40e_vsi_setup o pf vf_id = some (pf1, vsi)) :
    vsi_slot_free pf.vsi vsi.idx = true ∧
    pf1.vsi = pf.vsi.set vsi.idx (some vsi) ∧
    pf1.queues_left = pf.queues_left ∧ pf1.state = pf.state ∧ pf1.lan_vsi = pf.lan_vsi ∧
    pf1.num_alloc_vfs = pf.num_alloc_vfs ∧ pf1.hw = pf.hw ∧ pf1.vf = pf.vf ∧
    vsi.alloc_queue_pairs = pf.num_vf_qps := by
  unfold i40e_vsi_setup at hs
  split at hs
  · cases hs
  · rename_i idx hslot
    have hfree : vsi_slot_free pf.vsi idx = true := by
      unfold vsi_table_find_slot at hslot
      split at hslot
      · rename_i j hj
        cases hslot
        exact List.find?_some hj
      · exact List.find?_some hslot
    split at hs
    · cases hs
    · split at hs
      · simp only [Option.some.injEq, Prod.mk.injEq] at hs
        obtain ⟨h1, h2⟩ := hs
        subst h1
        subst h2
        exact ⟨hfree, rfl, rfl, rfl, rfl, rfl, rfl, rfl, rfl⟩
      · cases hs

theorem slot_set_of_free (l : List (Option i40e_vsi)) (idx i : Nat) (x : Option i40e_vsi)
    (v : i40e_vsi) (hfree : vsi_slot_free l idx = true) (h : l[i]? = some (some v)) :
    (l.set idx x)[i]? = some (some v) := by
  have hne : idx ≠ i := by
    intro he
    subst he
    simp [vsi_slot_free, h] at hfree
  rw [List.getElem?_set_ne hne]
  exact h

/-- Setting up a channel VSI (index other than 0) leaves the primary VSI index
and the state bits alone, and every slot of the VSI table that held a VSI
holds the same VSI afterwards. -/
theorem alloc_vsi_res_channel (k : Consts) (o : VsiOracle) (pf : i40e_pf) (vf : i40e_vf)
    (idx : Nat) (hidx : idx ≠ 0) :
    (i40e_alloc_vsi_res k o pf vf idx).2.2.1.lan_vsi_idx = vf.lan_vsi_idx ∧
    (i40e_alloc_vsi_res k o pf vf idx).2.1.lan_vsi = pf.lan_vsi ∧
    (i40e_alloc_vsi_res k o pf vf idx).2.1.state = pf.state ∧
    ∀ (i : Nat) (v : i40e_vsi), pf.vsi[i]? = some (some v) →
      (i40e_alloc_vsi_res k o pf vf idx).2.1.vsi[i]? = some (some v) := by
  unfold i40e_alloc_vsi_res
  cases hs : i40e_vsi_setup o pf vf.vf_id with
  | none => exact ⟨rfl, rfl, rfl, fun i v h => h⟩
  | some r =>
    obtain ⟨pf1, vsi⟩ := r
    have hk := vsi_setup_keeps_slots o pf pf1 vf.vf_id vsi hs
    simp only [hidx, if_false, Bool.false_and, Bool.false_eq_true]
    refine ⟨?_, hk.2.2.2.2.1, hk.2.2.2.1, ?_⟩
    · split <;> rfl
    · intro i v h
      rw [hk.2.1]
      exact slot_set_of_free pf.vsi vsi.idx i (some vsi) v hk.1 h

theorem alloc_vf_res_adq_channel (k : Consts) (o : ResOracle) :
    ∀ (n idx : Nat) (pf : i40e_pf) (vf : i40e_vf), idx ≠ 0 →
      (i40e_alloc_vf_res_adq k o n idx pf vf).2.2.1.lan_vsi_idx = vf.lan_vsi_idx ∧
      (i40e_alloc_vf_res_adq k o n idx pf vf).2.2.1.vf_states = vf.vf_states ∧
      (i40e_alloc_vf_res_adq k o n idx pf vf).2.1.lan_vsi = pf.lan_vsi ∧
      (i40e_alloc_vf_res_adq k o n idx pf vf).2.1.state = pf.state ∧
      ∀ (i : Nat) (v : i40e_vsi), pf.vsi[i]? = some (some v) →
        (i40e_alloc_vf_res_adq k o n idx pf vf).2.1.vsi[i]? = some (some v) := by
  intro n
  induction n with
  | zero => intro idx pf vf _; exact ⟨rfl, rfl, rfl, rfl, fun i v h => h⟩
  | succ n ih =>
    intro idx pf vf hidx
    have h1 := alloc_vsi_res_channel k (o.vsi idx) pf vf idx hidx
    have h2 := (alloc_vsi_res_keeps k (o.vsi idx) pf vf idx).2.2.1
    unfold i40e_alloc_vf_res_adq
    simp only []
    split
    · exact ⟨h1.1, h2, h1.2.1, h1.2.2.1, h1.2.2.2⟩
    · simp only []
      have h3 := ih (idx + 1) (i40e_alloc_vsi_res k (o.vsi idx) pf vf idx).2.1
        (i40e_alloc_vsi_res k (o.vsi idx) pf vf idx).2.2.1 (Nat.succ_ne_zero idx)
      refine ⟨h3.1.trans h1.1, h3.2.1.trans h2, h3.2.2.1.trans h1.2.1,
        h3.2.2.2.1.trans h1.2.2.1, ?_⟩
      intro i v h
      exact h3.2.2.2.2 i v (h1.2.2.2 i v h)

/-- Of the state bits `i40e_free_vf_res` clears INIT, MC_PROMISC and
UC_PROMISC and leaves the others. -/
theorem free_vf_res_states (c : Nat → Bool) (pf : i40e_pf) (vf : i40e_vf) :
    (i40e_free_vf_res c pf vf).2.1.vf_states =
      clear_bit .I40E_VF_STATE_UC_PROMISC
        (clear_bit .I40E_VF_STATE_MC_PROMISC (clear_bit .I40E_VF_STATE_INIT vf.vf_states)) := by
  have hl : (i40e_free_vf_res_lan c pf vf).2.1.vf_states =
      clear_bit .I40E_VF_STATE_INIT vf.vf_states := by
    unfold i40e_free_vf_res_lan
    simp only []
    split <;> rfl
  have ht : ∀ v : i40e_vf, (i40e_free_vf_res_tail v).vf_states =
      clear_bit .I40E_VF_STATE_UC_PROMISC (clear_bit .I40E_VF_STATE_MC_PROMISC v.vf_states) := by
    intro v
    unfold i40e_free_vf_res_tail i40e_free_vmmac_list i40e_free_vmvlan_list
    split <;> rfl
  unfold i40e_free_vf_res
  simp only []
  split
  · rw [ht, (free_vf_res_adq_keeps _ _ _ _).2.2.1, hl]
  · rw [ht, hl]

theorem alloc_vf_res_channels_facts (k : Consts) (o : ResOracle) (pf : i40e_pf) (vf : i40e_vf)
    (t : Nat) :
    (i40e_alloc_vf_res_channels k o pf vf t).2.2.1.lan_vsi_idx = vf.lan_vsi_idx ∧
    (i40e_alloc_vf_res_channels k o pf vf t).2.2.1.vf_states = vf.vf_states ∧
    (i40e_alloc_vf_res_channels k o pf vf t).2.1.lan_vsi = pf.lan_vsi ∧
    (i40e_alloc_vf_res_channels k o pf vf t).2.1.state = pf.state ∧
    ∀ (i : Nat) (v : i40e_vsi), pf.vsi[i]? = some (some v) →
      (i40e_alloc_vf_res_channels k o pf vf t).2.1.vsi[i]? = some (some v) := by
  unfold i40e_alloc_vf_res_channels
  split
  · split
    · exact alloc_vf_res_adq_channel k o (vf.num_tc - 1) 1 pf vf (Nat.succ_ne_zero 0)
    · exact ⟨rfl, rfl, rfl, rfl, fun i v h => h⟩
  · exact ⟨rfl, rfl, rfl, rfl, fun i v h => h⟩

/-- The two outcomes of `i40e_alloc_vf_res`.  When it fails the VF has been
through `i40e_free_vf_res`: INIT, MC_PROMISC and UC_PROMISC are clear, the
other state bits are as before, and there is no primary VSI.  When it
succeeds INIT has been set, the other state bits are as before, and the
primary VSI is in the slot `lan_vsi_idx` of the VSI table. -/
theorem alloc_vf_res_outcome (k : Consts) (o : ResOracle) (pf : i40e_pf) (vf : i40e_vf) :
    ((i40e_alloc_vf_res k o pf vf).1.isErr = true →
      (i40e_alloc_vf_res k o pf vf).2.2.1.vf_states =
        clear_bit .I40E_VF_STATE_UC_PROMISC
          (clear_bit .I40E_VF_STATE_MC_PROMISC (clear_bit .I40E_VF_STATE_INIT vf.vf_states)) ∧
      (i40e_alloc_vf_res k o pf vf).2.2.1.lan_vsi_idx = 0 ∧
      (i40e_alloc_vf_res k o pf vf).2.2.1.num_queue_pairs = 0) ∧
    ((i40e_alloc_vf_res k o pf vf).1.isErr = false →
      (i40e_alloc_vf_res k o pf vf).1 = .I40E_SUCCESS ∧
      (i40e_alloc_vf_res k o pf vf).2.2.1.vf_states =
        set_bit .I40E_VF_STATE_INIT vf.vf_states ∧
      ∃ vsi, (i40e_alloc_vf_res k o pf vf).2.1.vsi[(i40e_alloc_vf_res k o pf vf).2.2.1.lan_vsi_idx]?
        = some (some vsi)) := by
  have hr := alloc_vsi_res_keeps k (o.vsi 0) (i40e_alloc_vf_res_num_vf_qps pf vf) vf 0
  have hprim := alloc_vsi_res_primary k (o.vsi 0) (i40e_alloc_vf_res_num_vf_qps pf vf) vf
  unfold i40e_alloc_vf_res
  simp only []
  generalize i40e_alloc_vsi_res k (o.vsi 0) (i40e_alloc_vf_res_num_vf_qps pf vf) vf 0 = R
    at hr hprim ⊢
  by_cases h1 : R.1.isErr = true
  · simp only [h1, if_true, i40e_alloc_vf_res_error_alloc]
    refine ⟨fun _ => ⟨?_, (free_vf_res_facts _ _ _).2.1, (free_vf_res_facts _ _ _).2.2.2⟩,
      fun h => by cases h⟩
    rw [free_vf_res_states, hr.2.2.1]
  · simp only [h1, Bool.false_eq_true, if_false]
    generalize (pf_vsi R.2.1 R.2.2.1.lan_vsi_idx).alloc_queue_pairs = t
    have hc := alloc_vf_res_channels_facts k o R.2.1 R.2.2.1 t
    generalize i40e_alloc_vf_res_channels k o R.2.1 R.2.2.1 t = A at hc ⊢
    by_cases h2 : A.1.isErr = true
    · simp only [h2, if_true, i40e_alloc_vf_res_error_alloc]
      refine ⟨fun _ => ⟨?_, (free_vf_res_facts _ _ _).2.1, (free_vf_res_facts _ _ _).2.2.2⟩,
        fun h => by cases h⟩
      rw [free_vf_res_states, hc.2.1, hr.2.2.1]
    · simp only [h2, Bool.false_eq_true, if_false, i40e_alloc_vf_res_commit]
      refine ⟨(fun h => by cases h), fun _ => ⟨trivial, ?_, ?_⟩⟩
      · rw [hc.2.1, hr.2.2.1]
      · have hs : R.1 = .I40E_SUCCESS := by
          cases hx : R.1 <;> simp_all [Status.isErr]
        obtain ⟨v, hv⟩ := hprim hs
        refine ⟨v, ?_⟩
        have := hc.2.2.2.2 _ v hv
        rw [← hc.1] at this
        split <;> exact this

/-- C23, what `i40e_cleanup_reset_vf` has done when it writes
VIRTCHNL_VFR_VFACTIVE to VFGEN_RSTAT1.  The write is its last hardware
command on both paths.  When the rebuild `i40e_alloc_vf_res` succeeded, INIT
and ACTIVE are set, DISABLED and PRE_ENABLE are clear and the primary VSI is
in the slot `lan_vsi_idx` of the VSI table.  When the rebuild failed the
indicator is written all the same, with INIT clear and no primary VSI
(`lan_vsi_idx` is 0), ACTIVE and DISABLED being as they were before the
cleanup. -/
theorem C23_reset_done_is_written_whatever_the_rebuild (k : Consts) (o : ResOracle)
    (pf : i40e_pf) (vf : i40e_vf) :
    (i40e_cleanup_reset_vf k o pf vf).2.2.getLast? =
      some (HwEvent.wr32 (.I40E_VFGEN_RSTAT1 vf.vf_id) VIRTCHNL_VFR_VFACTIVE) ∧
    ((i40e_alloc_vf_res k o (i40e_free_vf_res o.copy_ok pf vf).1
        (i40e_free_vf_res o.copy_ok pf vf).2.1).1.isErr = false →
      test_bit .I40E_VF_STATE_INIT (i40e_cleanup_reset_vf k o pf vf).2.1.vf_states = true ∧
      test_bit .I40E_VF_STATE_ACTIVE (i40e_cleanup_reset_vf k o pf vf).2.1.vf_states = true ∧
      test_bit .I40E_VF_STATE_DISABLED (i40e_cleanup_reset_vf k o pf vf).2.1.vf_states = false ∧
      test_bit .I40E_VF_STATE_PRE_ENABLE (i40e_cleanup_reset_vf k o pf vf).2.1.vf_states = false ∧
      ∃ vsi, (i40e_cleanup_reset_vf k o pf vf).1.vsi[
        (i40e_cleanup_reset_vf k o pf vf).2.1.lan_vsi_idx]? = some (some vsi)) ∧
    ((i40e_alloc_vf_res k o (i40e_free_vf_res o.copy_ok pf vf).1
        (i40e_free_vf_res o.copy_ok pf vf).2.1).1.isErr = true →
      test_bit .I40E_VF_STATE_INIT (i40e_cleanup_reset_vf k o pf vf).2.1.vf_states = false ∧
      (i40e_cleanup_reset_vf k o pf vf).2.1.lan_vsi_idx = 0 ∧
      test_bit .I40E_VF_STATE_ACTIVE (i40e_cleanup_reset_vf k o pf vf).2.1.vf_states =
        test_bit .I40E_VF_STATE_ACTIVE vf.vf_states ∧
      test_bit .I40E_VF_STATE_DISABLED (i40e_cleanup_reset_vf k o pf vf).2.1.vf_states =
        test_bit .I40E_VF_STATE_DISABLED vf.vf_states) := by
  have ho := alloc_vf_res_outcome k o (i40e_free_vf_res o.copy_ok pf vf).1
    (i40e_free_vf_res o.copy_ok pf vf).2.1
  have hf := free_vf_res_states o.copy_ok pf vf
  unfold i40e_cleanup_reset_vf
  simp only []
  generalize i40e_alloc_vf_res k o (i40e_free_vf_res o.copy_ok pf vf).1
    (i40e_free_vf_res o.copy_ok pf vf).2.1 = A at ho ⊢
  by_cases ha : A.1.isErr = true
  · simp only [ha, Bool.not_true, Bool.false_eq_true, if_false]
    obtain ⟨h1, h2, _⟩ := ho.1 ha
    refine ⟨by rw [List.getLast?_append]; rfl, (fun h => by cases h),
      fun _ => ⟨?_, h2, ?_, ?_⟩⟩
    · rw [h1]; rfl
    · rw [h1, hf]; rfl
    · rw [h1, hf]; rfl
  · have ha2 : A.1.isErr = false := by
      cases h : A.1.isErr
      · rfl
      · exact absurd h ha
    simp only [ha2, Bool.not_false, if_true]
    obtain ⟨_, h1, v, hv⟩ := ho.2 ha2
    refine ⟨by rw [List.getLast?_append]; rfl, fun _ => ⟨?_, rfl, rfl, rfl, v, hv⟩,
      (fun h => by cases h)⟩
    rw [h1]
    rfl

theorem C23_witness :
    (i40e_alloc_vf_res sample_consts sample_res_oracle_hw_refuses
        (i40e_free_vf_res sample_res_oracle_hw_refuses.copy_ok sample_pf sample_vf).1
        (i40e_free_vf_res sample_res_oracle_hw_refuses.copy_ok sample_pf sample_vf).2.1).1.isErr
      = true ∧
    (i40e_cleanup_reset_vf sample_consts sample_res_oracle_hw_refuses sample_pf
      sample_vf).2.2.getLast? =
      some (HwEvent.wr32 (.I40E_VFGEN_RSTAT1 0) VIRTCHNL_VFR_VFACTIVE) ∧
    test_bit .I40E_VF_STATE_INIT (i40e_cleanup_reset_vf sample_consts
      sample_res_oracle_hw_refuses sample_pf sample_vf).2.1.vf_states = false ∧
    (i40e_cleanup_reset_vf sample_consts sample_res_oracle_hw_refuses sample_pf
      sample_vf).2.1.lan_vsi_idx = 0 :=
  ⟨by decide,
   (C23_reset_done_is_written_whatever_the_rebuild sample_consts
      sample_res_oracle_hw_refuses sample_pf sample_vf).1,
   ((C23_reset_done_is_written_whatever_the_rebuild sample_consts
      sample_res_oracle_hw_refuses sample_pf sample_vf).2.2 (by decide)).1,
   ((C23_reset_done_is_written_whatever_the_rebuild sample_consts
      sample_res_oracle_hw_refuses sample_pf sample_vf).2.2 (by decide)).2.1⟩

/-! ### Freeing right after allocating (C28) -/

theorem add_mac_filter_queues (ok : Bool) (vsi : i40e_vsi) (m : Mac) :
    ((i40e_add_mac_filter ok vsi m).getD vsi).alloc_queue_pairs = vsi.alloc_queue_pairs := by
  unfold i40e_add_mac_filter
  split
  · split <;> rfl
  · rfl

theorem merge_macs_queues (ok : Nat → Bool) (force : Bool) (l : List Mac) :
    ∀ (n : Nat) (vsi : i40e_vsi),
      (i40e_merge_macs ok force l n vsi).2.alloc_queue_pairs = vsi.alloc_queue_pairs := by
  induction l with
  | nil => intro n vsi; rfl
  | cons m rest ih =>
    intro n vsi
    unfold i40e_merge_macs
    split
    · exact ih _ _
    · split
      · rename_i v hv
        rw [ih]
        have := add_mac_filter_queues (ok n) vsi m
        rw [hv] at this
        exact this
      · split
        · exact ih _ _
        · rfl

/-- The primary VSI that a successful `i40e_alloc_vsi_res` leaves in the table
has the `pf->num_vf_qps` queue pairs asked for. -/
theorem alloc_vsi_res_primary_queues (k : Consts) (o : VsiOracle) (pf : i40e_pf) (vf : i40e_vf)
    (h : (i40e_alloc_vsi_res k o pf vf 0).1.isErr = false) :
    (pf_vsi (i40e_alloc_vsi_res k o pf vf 0).2.1
      (i40e_alloc_vsi_res k o pf vf 0).2.2.1.lan_vsi_idx).alloc_queue_pairs = pf.num_vf_qps := by
  unfold i40e_alloc_vsi_res at h ⊢
  cases hs : i40e_vsi_setup o pf vf.vf_id with
  | none =>
    rw [hs] at h
    cases h
  | some r =>
    obtain ⟨pf1, vsi⟩ := r
    have hk := vsi_setup_keeps_slots o pf pf1 vf.vf_id vsi hs
    have hidx : vsi.idx < pf1.vsi.length := by
      rw [hk.2.1, List.length_set]
      have hfree := hk.1
      unfold vsi_slot_free at hfree
      split at hfree
      · rename_i hx
        exact (List.getElem?_eq_some.mp hx).1
      · cases hfree
    simp only [eq_self_iff_true, if_true, Bool.true_and]
    have hlan : ∀ (b : Bool) (x : i40evf_channel),
        (if b = true then
          ({ ({ vf with lan_vsi_idx := vsi.idx, lan_vsi_id := vsi.id } : i40e_vf) with
              ch := (vf.ch.set 0 x) } : i40e_vf)
         else ({ vf with lan_vsi_idx := vsi.idx, lan_vsi_id := vsi.id } : i40e_vf)).lan_vsi_idx
          = vsi.idx := by
      intro b x
      cases b <;> rfl
    rw [hlan]
    simp only [pf_vsi, List.getElem?_set_self hidx]
    rw [merge_macs_queues, add_mac_filter_queues]
    split
    · rw [add_mac_filter_queues]
      exact hk.2.2.2.2.2.2.2.2
    · exact hk.2.2.2.2.2.2.2.2

theorem alloc_vf_res_adq_queues (k : Consts) (o : ResOracle) :
    ∀ (n idx : Nat) (pf : i40e_pf) (vf : i40e_vf),
      (i40e_alloc_vf_res_adq k o n idx pf vf).2.1.queues_left = pf.queues_left := by
  intro n
  induction n with
  | zero => intro idx pf vf; rfl
  | succ n ih =>
    intro idx pf vf
    unfold i40e_alloc_vf_res_adq
    simp only []
    split
    · exact (alloc_vsi_res_keeps k (o.vsi idx) pf vf idx).1
    · simp only []
      rw [ih]
      exact (alloc_vsi_res_keeps k (o.vsi idx) pf vf idx).1

/-- The ADq block of `i40e_alloc_vf_res` leaves the queue counter alone; the
total it reports is the one it was entered with, or `I40E_MAX_VF_QUEUES` when
the counter covers the difference to the default. -/
theorem alloc_vf_res_channels_queues (k : Consts) (o : ResOracle) (pf : i40e_pf) (vf : i40e_vf)
    (t : Nat) :
    (i40e_alloc_vf_res_channels k o pf vf t).2.1.queues_left = pf.queues_left ∧
    ((i40e_alloc_vf_res_channels k o pf vf t).2.2.2.2 = t ∨
     ((i40e_alloc_vf_res_channels k o pf vf t).2.2.2.2 = I40E_MAX_VF_QUEUES ∧
      I40E_MAX_VF_QUEUES - I40E_DEFAULT_QUEUES_PER_VF ≤ pf.queues_left)) := by
  unfold i40e_alloc_vf_res_channels
  split
  · split
    · rename_i h
      exact ⟨alloc_vf_res_adq_queues k o _ _ _ _, Or.inr ⟨rfl, h⟩⟩
    · exact ⟨rfl, Or.inl rfl⟩
  · exact ⟨rfl, Or.inl rfl⟩

theorem alloc_vf_res_num_vf_qps_facts (pf : i40e_pf) (vf : i40e_vf) :
    (i40e_alloc_vf_res_num_vf_qps pf vf).queues_left = pf.queues_left ∧
    (i40e_alloc_vf_res_num_vf_qps pf vf).vsi = pf.vsi ∧
    (i40e_alloc_vf_res_num_vf_qps pf vf).lan_vsi = pf.lan_vsi ∧
    (i40e_alloc_vf_res_num_vf_qps pf vf).state = pf.state ∧
    (i40e_alloc_vf_res_num_vf_qps pf vf).num_vf_qps - I40E_DEFAULT_QUEUES_PER_VF
      ≤ pf.queues_left := by
  unfold i40e_alloc_vf_res_num_vf_qps
  split
  · rename_i h
    simp only [Bool.and_eq_true, decide_eq_true_eq] at h
    refine ⟨rfl, rfl, rfl, rfl, ?_⟩
    show vf.num_req_queues - I40E_DEFAULT_QUEUES_PER_VF ≤ pf.queues_left
    omega
  · refine ⟨rfl, rfl, rfl, rfl, ?_⟩
    show I40E_DEFAULT_QUEUES_PER_VF - I40E_DEFAULT_QUEUES_PER_VF ≤ pf.queues_left
    omega

/-- A successful `i40e_alloc_vf_res` takes from `pf->queues_left` what the
stored queue count exceeds the default by, and the counter covers it. -/
theorem alloc_vf_res_queues (k : Consts) (o : ResOracle) (pf : i40e_pf) (vf : i40e_vf)
    (h : (i40e_alloc_vf_res k o pf vf).1.isErr = false) :
    (i40e_alloc_vf_res k o pf vf).2.1.queues_left +
      ((i40e_alloc_vf_res k o pf vf).2.2.1.num_queue_pairs - I40E_DEFAULT_QUEUES_PER_VF)
      = pf.queues_left := by
  have hn := alloc_vf_res_num_vf_qps_facts pf vf
  have hr := alloc_vsi_res_keeps k (o.vsi 0) (i40e_alloc_vf_res_num_vf_qps pf vf) vf 0
  have hq := alloc_vsi_res_primary_queues k (o.vsi 0) (i40e_alloc_vf_res_num_vf_qps pf vf) vf
  unfold i40e_alloc_vf_res at h ⊢
  simp only [] at h ⊢
  generalize i40e_alloc_vsi_res k (o.vsi 0) (i40e_alloc_vf_res_num_vf_qps pf vf) vf 0 = R
    at hr hq h ⊢
  by_cases h1 : R.1.isErr = true
  · simp only [h1, if_true, i40e_alloc_vf_res_error_alloc] at h
    cases h
  · have h1f : R.1.isErr = false := by
      cases hx : R.1.isErr
      · rfl
      · exact absurd hx h1
    have hq2 := hq h1f
    simp only [h1, Bool.false_eq_true, if_false] at h ⊢
    generalize (pf_vsi R.2.1 R.2.2.1.lan_vsi_idx).alloc_queue_pairs = t at hq2 h ⊢
    have hc := alloc_vf_res_channels_queues k o R.2.1 R.2.2.1 t
    generalize i40e_alloc_vf_res_channels k o R.2.1 R.2.2.1 t = A at hc h ⊢
    by_cases h2 : A.1.isErr = true
    · simp only [h2, if_true, i40e_alloc_vf_res_error_alloc] at h
      cases h
    · simp only [h2, Bool.false_eq_true, if_false, i40e_alloc_vf_res_commit]
      have e1 : A.2.1.queues_left = pf.queues_left := by rw [hc.1, hr.1, hn.1]
      have e2 : A.2.2.2.2 - I40E_DEFAULT_QUEUES_PER_VF ≤ pf.queues_left := by
        rcases hc.2 with hc2 | hc2
        · rw [hc2, hq2]
          exact hn.2.2.2.2
        · rw [hc2.1, ← hn.1, ← hr.1]
          exact hc2.2
      split
      · show A.2.1.queues_left - (A.2.2.2.2 - I40E_DEFAULT_QUEUES_PER_VF) +
          (A.2.2.2.2 - I40E_DEFAULT_QUEUES_PER_VF) = pf.queues_left
        rw [e1]
        omega
      · rename_i hle
        show A.2.1.queues_left + (A.2.2.2.2 - I40E_DEFAULT_QUEUES_PER_VF) = pf.queues_left
        rw [e1]
        omega

theorem retain_mac_list_queues (ok : Nat → Bool) (pf : i40e_pf) (vf : i40e_vf) (i : Nat) :
    (i40e_retain_mac_list ok pf vf i).2.queues_left = pf.queues_left := by
  unfold i40e_retain_mac_list
  split <;> rfl

theorem vsi_release_queues (pf : i40e_pf) (i : Nat) :
    (i40e_vsi_release pf i).queues_left = pf.queues_left := by
  unfold i40e_vsi_release
  split
  · rfl
  · split <;> rfl

/-- The queue accounting of `i40e_free_vf_res`: the counter grows by what the
stored queue count exceeds the default by. -/
theorem free_vf_res_queues (c : Nat → Bool) (pf : i40e_pf) (vf : i40e_vf) :
    (i40e_free_vf_res c pf vf).1.queues_left =
      pf.queues_left + (vf.num_queue_pairs - I40E_DEFAULT_QUEUES_PER_VF) := by
  have hl : (i40e_free_vf_res_lan c pf vf).1.queues_left =
      pf.queues_left + (vf.num_queue_pairs - I40E_DEFAULT_QUEUES_PER_VF) := by
    unfold i40e_free_vf_res_lan
    simp only []
    have hp : (if (vf.lan_vsi_idx ≠ 0 && !pf.state.I40E_VFS_RELEASING) = true then
        (i40e_retain_mac_list c pf
          { vf with vf_states := (clear_bit .I40E_VF_STATE_INIT vf.vf_states) }
          vf.lan_vsi_idx).2 else pf).queues_left = pf.queues_left := by
      split
      · exact retain_mac_list_queues _ _ _ _
      · rfl
    split
    · rw [vsi_release_queues]
      split
      · simp only [hp]
      · rename_i hle
        rw [hp]
        omega
    · split
      · simp only [hp]
      · rename_i hle
        rw [hp]
        omega
  unfold i40e_free_vf_res
  simp only []
  split
  · rw [(free_vf_res_adq_keeps _ _ _ _).2.2.2.2, hl]
  · exact hl

theorem vf_ch_set (vf : i40e_vf) (i j : Nat) (x : i40evf_channel) :
    vf_ch { vf with ch := vf.ch.set i x } j =
      if i = j ∧ i < vf.ch.length then x else vf_ch vf j := by
  unfold vf_ch
  simp only [List.getD_eq_getElem?_getD, List.getElem?_set]
  by_cases hij : i = j
  · subst hij
    by_cases hl : i < vf.ch.length
    · simp [hl]
    · simp [hl, List.getElem?_eq_none (Nat.le_of_not_lt hl)]
  · simp [hij]

theorem vf_ch_out_of_range (vf : i40e_vf) (j : Nat) (h : vf.ch.length ≤ j) :
    (vf_ch vf j).vsi_idx = 0 := by
  unfold vf_ch
  rw [List.getD_eq_getElem?_getD, List.getElem?_eq_none h]
  rfl

/-- The channel loop of `i40e_free_vf_res` zeroes the VSI index of the
channels it visits and leaves the other entries alone. -/
theorem free_vf_res_adq_ch :
    ∀ (n j0 : Nat) (pf : i40e_pf) (vf : i40e_vf) (j : Nat),
      (vf_ch (i40e_free_vf_res_adq n j0 pf vf).2.1 j).vsi_idx =
        if j0 ≤ j ∧ j < j0 + n then 0 else (vf_ch vf j).vsi_idx := by
  intro n
  induction n with
  | zero =>
    intro j0 pf vf j
    have : ¬ (j0 ≤ j ∧ j < j0 + 0) := by omega
    simp only [this, if_false]
    rfl
  | succ n ih =>
    intro j0 pf vf j
    unfold i40e_free_vf_res_adq
    simp only []
    rw [ih, vf_ch_set]
    by_cases h1 : j0 + 1 ≤ j ∧ j < j0 + 1 + n
    · have h2 : j0 ≤ j ∧ j < j0 + (n + 1) := by omega
      simp only [h1, h2, and_self, if_true]
    · simp only [h1, if_false]
      by_cases h3 : j0 = j
      · subst h3
        have h2 : j0 ≤ j0 ∧ j0 < j0 + (n + 1) := by omega
        simp only [h2, and_self, if_true, true_and]
        by_cases hl : j0 < vf.ch.length
        · simp only [hl, if_true]
        · simp only [hl, if_false]
          exact vf_ch_out_of_range vf j0 (by omega)
      · have h2 : ¬ (j0 ≤ j ∧ j < j0 + (n + 1)) := by omega
        simp only [h3, false_and, h2, if_false]

theorem free_vf_res_lan_ch (c : Nat → Bool) (pf : i40e_pf) (vf : i40e_vf) :
    (i40e_free_vf_res_lan c pf vf).2.1.ch = vf.ch ∧
    (i40e_free_vf_res_lan c pf vf).2.1.adq_enabled = vf.adq_enabled ∧
    (i40e_free_vf_res_lan c pf vf).2.1.num_tc = vf.num_tc := by
  unfold i40e_free_vf_res_lan
  simp only []
  split <;> exact ⟨rfl, rfl, rfl⟩

theorem free_vf_res_tail_ch (vf : i40e_vf) : (i40e_free_vf_res_tail vf).ch = vf.ch := by
  unfold i40e_free_vf_res_tail i40e_free_vmmac_list i40e_free_vmvlan_list
  split <;> rfl

/-- What `i40e_free_vf_res` does to the channel table: nothing when ADq is off
or channel 0 has no VSI index; otherwise the channels below `num_tc` get the
index 0 and the others are left alone. -/
theorem free_vf_res_ch (c : Nat → Bool) (pf : i40e_pf) (vf : i40e_vf) :
    ((vf.adq_enabled = false ∨ (vf_ch vf 0).vsi_idx = 0) →
      (i40e_free_vf_res c pf vf).2.1.ch = vf.ch) ∧
    (vf.adq_enabled = true → (vf_ch vf 0).vsi_idx ≠ 0 → ∀ j : Nat,
      (vf_ch (i40e_free_vf_res c pf vf).2.1 j).vsi_idx =
        if j < vf.num_tc then 0 else (vf_ch vf j).vsi_idx) := by
  have hl := free_vf_res_lan_ch c pf vf
  have hch : vf_ch (i40e_free_vf_res_lan c pf vf).2.1 0 = vf_ch vf 0 := by
    unfold vf_ch
    rw [hl.1]
  unfold i40e_free_vf_res
  simp only []
  rw [hl.2.1, hch]
  constructor
  · intro h
    have hc : (vf.adq_enabled && decide ((vf_ch vf 0).vsi_idx ≠ 0)) = false := by
      rcases h with h | h
      · rw [h]; rfl
      · rw [h]; simp
    simp only [hc, Bool.false_eq_true, if_false]
    rw [free_vf_res_tail_ch]
    exact hl.1
  · intro ha h0 j
    have hc : (vf.adq_enabled && decide ((vf_ch vf 0).vsi_idx ≠ 0)) = true := by
      rw [ha]; simp [h0]
    simp only [hc, if_true]
    have e : ∀ v : i40e_vf, vf_ch (i40e_free_vf_res_tail v) j = vf_ch v j := by
      intro v
      unfold vf_ch
      rw [free_vf_res_tail_ch]
    rw [e, free_vf_res_adq_ch, hl.2.2]
    have e2 : vf_ch (i40e_free_vf_res_lan c pf vf).2.1 j = vf_ch vf j := by
      unfold vf_ch
      rw [hl.1]
    rw [e2]
    simp only [Nat.zero_le, true_and, Nat.zero_add]

/-- What `i40e_alloc_vsi_res` does to the channel table: nothing when ADq is
off, and with ADq on only the entry of the channel being set up changes. -/
theorem alloc_vsi_res_ch (k : Consts) (o : VsiOracle) (pf : i40e_pf) (vf : i40e_vf) (idx : Nat) :
    (vf.adq_enabled = false → (i40e_alloc_vsi_res k o pf vf idx).2.2.1.ch = vf.ch) ∧
    (∀ j : Nat, j ≠ idx → vf_ch (i40e_alloc_vsi_res k o pf vf idx).2.2.1 j = vf_ch vf j) := by
  constructor
  · intro ha
    unfold i40e_alloc_vsi_res
    cases hs : i40e_vsi_setup o pf vf.vf_id with
    | none => rfl
    | some r =>
      by_cases h0 : idx = 0
      · simp [h0, ha]
      · simp [h0, ha]
  · intro j hj
    have hj2 : idx ≠ j := Ne.symm hj
    unfold i40e_alloc_vsi_res
    cases hs : i40e_vsi_setup o pf vf.vf_id with
    | none => rfl
    | some r =>
      by_cases h0 : idx = 0
      · cases ha : vf.adq_enabled
        · simp [h0, ha, vf_ch]
        · have hj3 : ¬ (0 = j) := by rw [← h0]; exact hj2
          simp [h0, ha, vf_ch, List.getD_eq_getElem?_getD, List.getElem?_set, hj3]
      · cases ha : vf.adq_enabled
        · simp [h0, ha, vf_ch]
        · simp [h0, ha, vf_ch, List.getD_eq_getElem?_getD, List.getElem?_set, hj2]

/-- The primary VSI of a successful `i40e_alloc_vsi_res` sits in a slot that
was free, and with ADq on channel 0 carries its index. -/
theorem alloc_vsi_res_primary_idx (k : Consts) (o : VsiOracle) (pf : i40e_pf) (vf : i40e_vf)
    (h : (i40e_alloc_vsi_res k o pf vf 0).1.isErr = false) :
    vsi_slot_free pf.vsi (i40e_alloc_vsi_res k o pf vf 0).2.2.1.lan_vsi_idx = true ∧
    (vf.adq_enabled = true → 0 < vf.ch.length →
      (vf_ch (i40e_alloc_vsi_res k o pf vf 0).2.2.1 0).vsi_idx =
        (i40e_alloc_vsi_res k o pf vf 0).2.2.1.lan_vsi_idx) := by
  unfold i40e_alloc_vsi_res at h ⊢
  cases hs : i40e_vsi_setup o pf vf.vf_id with
  | none =>
    rw [hs] at h
    cases h
  | some r =>
    obtain ⟨pf1, vsi⟩ := r
    have hk := vsi_setup_keeps_slots o pf pf1 vf.vf_id vsi hs
    constructor
    · cases ha : vf.adq_enabled
      · simp [ha]
        exact hk.1
      · simp [ha]
        exact hk.1
    · intro ha hl
      simp [ha, vf_ch, List.getD_eq_getElem?_getD, List.getElem?_set, hl]

theorem alloc_vf_res_adq_ch (k : Consts) (o : ResOracle) :
    ∀ (n idx : Nat) (pf : i40e_pf) (vf : i40e_vf) (j : Nat), (j < idx ∨ idx + n ≤ j) →
      vf_ch (i40e_alloc_vf_res_adq k o n idx pf vf).2.2.1 j = vf_ch vf j := by
  intro n
  induction n with
  | zero => intro idx pf vf j _; rfl
  | succ n ih =>
    intro idx pf vf j hj
    have h1 := (alloc_vsi_res_ch k (o.vsi idx) pf vf idx).2 j (by omega)
    unfold i40e_alloc_vf_res_adq
    simp only []
    split
    · exact h1
    · simp only []
      rw [ih (idx + 1) _ _ j (by omega)]
      exact h1

theorem alloc_vf_res_adq_num_tc (k : Consts) (o : ResOracle) :
    ∀ (n idx : Nat) (pf : i40e_pf) (vf : i40e_vf),
      (i40e_alloc_vf_res_adq k o n idx pf vf).2.2.1.num_tc = vf.num_tc := by
  intro n
  induction n with
  | zero => intro idx pf vf; rfl
  | succ n ih =>
    intro idx pf vf
    unfold i40e_alloc_vf_res_adq
    simp only []
    split
    · exact (alloc_vsi_res_keeps k (o.vsi idx) pf vf idx).2.2.2
    · simp only []
      rw [ih]
      exact (alloc_vsi_res_keeps k (o.vsi idx) pf vf idx).2.2.2

/-- What the ADq block of `i40e_alloc_vf_res` does to the channel table. -/
theorem alloc_vf_res_channels_ch (k : Consts) (o : ResOracle) (pf : i40e_pf) (vf : i40e_vf)
    (t : Nat) :
    (vf.adq_enabled = false →
      (i40e_alloc_vf_res_channels k o pf vf t).2.2.1.ch = vf.ch ∧
      (i40e_alloc_vf_res_channels k o pf vf t).2.2.1.adq_enabled = false) ∧
    ((i40e_alloc_vf_res_channels k o pf vf t).2.2.1.adq_enabled = true →
      vf.adq_enabled = true ∧
      (i40e_alloc_vf_res_channels k o pf vf t).2.2.1.num_tc = vf.num_tc ∧
      ∀ j : Nat, (j = 0 ∨ 1 + (vf.num_tc - 1) ≤ j) →
        vf_ch (i40e_alloc_vf_res_channels k o pf vf t).2.2.1 j = vf_ch vf j) := by
  unfold i40e_alloc_vf_res_channels
  constructor
  · intro ha
    simp [ha]
  · by_cases ha : vf.adq_enabled = true
    · simp only [ha, if_true]
      split
      · intro _
        refine ⟨trivial, alloc_vf_res_adq_num_tc k o _ _ _ _, fun j hj => ?_⟩
        exact alloc_vf_res_adq_ch k o _ _ _ _ j (by omega)
      · intro h
        cases h
    · simp only [ha, if_false]
      intro h
      exact absurd h ha

/-- What a successful `i40e_alloc_vf_res` does to the channel table.  With ADq
off nothing.  When ADq is still on afterwards, channel 0 carries the index of
the primary VSI, which is not 0 when slot 0 of the VSI table is taken, and the
entries from `num_tc` on are as before. -/
theorem alloc_vf_res_ch (k : Consts) (o : ResOracle) (pf : i40e_pf) (vf : i40e_vf)
    (h : (i40e_alloc_vf_res k o pf vf).1.isErr = false) :
    (vf.adq_enabled = false →
      (i40e_alloc_vf_res k o pf vf).2.2.1.ch = vf.ch ∧
      (i40e_alloc_vf_res k o pf vf).2.2.1.adq_enabled = false) ∧
    ((i40e_alloc_vf_res k o pf vf).2.2.1.adq_enabled = true →
      vsi_slot_free pf.vsi 0 = false → 0 < vf.ch.length → 1 ≤ vf.num_tc →
      (vf_ch (i40e_alloc_vf_res k o pf vf).2.2.1 0).vsi_idx ≠ 0 ∧
      (i40e_alloc_vf_res k o pf vf).2.2.1.num_tc = vf.num_tc ∧
      ∀ j : Nat, vf.num_tc ≤ j →
        vf_ch (i40e_alloc_vf_res k o pf vf).2.2.1 j = vf_ch vf j) := by
  have hn := alloc_vf_res_num_vf_qps_facts pf vf
  have hr := alloc_vsi_res_keeps k (o.vsi 0) (i40e_alloc_vf_res_num_vf_qps pf vf) vf 0
  have hp := alloc_vsi_res_primary_idx k (o.vsi 0) (i40e_alloc_vf_res_num_vf_qps pf vf) vf
  have hch := alloc_vsi_res_ch k (o.vsi 0) (i40e_alloc_vf_res_num_vf_qps pf vf) vf 0
  unfold i40e_alloc_vf_res at h ⊢
  simp only [] at h ⊢
  generalize i40e_alloc_vsi_res k (o.vsi 0) (i40e_alloc_vf_res_num_vf_qps pf vf) vf 0 = R
    at hr hp hch h ⊢
  by_cases h1 : R.1.isErr = true
  · simp only [h1, if_true, i40e_alloc_vf_res_error_alloc] at h
    cases h
  · have h1f : R.1.isErr = false := by
      cases hx : R.1.isErr
      · rfl
      · exact absurd hx h1
    have hp2 := hp h1f
    simp only [h1, Bool.false_eq_true, if_false] at h ⊢
    generalize (pf_vsi R.2.1 R.2.2.1.lan_vsi_idx).alloc_queue_pairs = t at h ⊢
    have hc := alloc_vf_res_channels_ch k o R.2.1 R.2.2.1 t
    generalize i40e_alloc_vf_res_channels k o R.2.1 R.2.2.1 t = A at hc h ⊢
    by_cases h2 : A.1.isErr = true
    · simp only [h2, if_true, i40e_alloc_vf_res_error_alloc] at h
      cases h
    · simp only [h2, Bool.false_eq_true, if_false, i40e_alloc_vf_res_commit]
      constructor
      · intro ha
        have hR : R.2.2.1.adq_enabled = false := by rw [hr.2.1]; exact ha
        obtain ⟨e1, e2⟩ := hc.1 hR
        exact ⟨by rw [e1]; exact hch.1 ha, e2⟩
      · intro ha hs0 hl ht
        obtain ⟨e1, e2, e3⟩ := hc.2 ha
        have hva : vf.adq_enabled = true := by rw [← hr.2.1]; exact e1
        refine ⟨?_, ?_, ?_⟩
        · show (vf_ch A.2.2.1 0).vsi_idx ≠ 0
          rw [e3 0 (Or.inl rfl), hp2.2 hva hl]
          intro hz
          have := hp2.1
          rw [hz, hn.2.1, hs0] at this
          cases this
        · show A.2.2.1.num_tc = vf.num_tc
          rw [e2, hr.2.2.2]
        · intro j hj
          show vf_ch A.2.2.1 j = vf_ch vf j
          rw [e3 j (Or.inr (by rw [hr.2.2.2]; omega))]
          exact hch.2 j (by omega)

/-- C28 as stated fails on the channel table, on two inputs.  First the ADq
fallback: `sample_adq_vf` asks for four traffic classes, all its channel VSI
indexes are 0, and `sample_pf_eight_left` has 8 queue pairs on its counter;
`i40e_alloc_vf_res` succeeds with ADq switched off, and after
`i40e_free_vf_res` channel 0 still carries the VSI index 1.  Second a default
allocation for a VF that had ADq before: the VF of
`sample_after_disable_channels`, freed, allocated again with success and freed
again, still carries the VSI index 1 in channel 0. -/
theorem C28_counterexample :
    ((i40e_alloc_vf_res sample_consts sample_res_oracle sample_pf_eight_left
        sample_adq_vf).1.isErr = false ∧
     sample_adq_vf.ch.map (fun c => c.vsi_idx) = [0, 0, 0, 0] ∧
     (i40e_free_vf_res sample_res_oracle.copy_ok
        (i40e_alloc_vf_res sample_consts sample_res_oracle sample_pf_eight_left
          sample_adq_vf).2.1
        (i40e_alloc_vf_res sample_consts sample_res_oracle sample_pf_eight_left
          sample_adq_vf).2.2.1).2.1.ch.map (fun c => c.vsi_idx) = [1, 0, 0, 0]) ∧
    ((i40e_alloc_vf_res sample_consts sample_res_oracle
        (i40e_free_vf_res sample_res_oracle.copy_ok sample_after_disable_channels.2.1
          sample_after_disable_channels.2.2.1).1
        (i40e_free_vf_res sample_res_oracle.copy_ok sample_after_disable_channels.2.1
          sample_after_disable_channels.2.2.1).2.1).1.isErr = false ∧
     sample_after_disable_channels.2.2.1.adq_enabled = false ∧
     (i40e_free_vf_res sample_res_oracle.copy_ok
        (i40e_alloc_vf_res sample_consts sample_res_oracle
          (i40e_free_vf_res sample_res_oracle.copy_ok sample_after_disable_channels.2.1
            sample_after_disable_channels.2.2.1).1
          (i40e_free_vf_res sample_res_oracle.copy_ok sample_after_disable_channels.2.1
            sample_after_disable_channels.2.2.1).2.1).2.1
        (i40e_alloc_vf_res sample_consts sample_res_oracle
          (i40e_free_vf_res sample_res_oracle.copy_ok sample_after_disable_channels.2.1
            sample_after_disable_channels.2.2.1).1
          (i40e_free_vf_res sample_res_oracle.copy_ok sample_after_disable_channels.2.1
            sample_after_disable_channels.2.2.1).2.1).2.2.1).2.1.ch.map (fun c => c.vsi_idx)
        = [1, 0, 0, 0]) := by
  refine ⟨⟨?_, ?_, ?_⟩, ⟨?_, ?_, ?_⟩⟩ <;> decide

/-- C28, amended.  `i40e_free_vf_res` applied right after a successful
`i40e_alloc_vf_res` puts `pf->queues_left` back to the value it had before the
allocation, whatever the kind of allocation, and leaves the VF with
`num_queue_pairs = 0`, `lan_vsi_idx = 0` and INIT, MC_PROMISC and UC_PROMISC
clear.  The channel table: when ADq was off at the allocation it is exactly as
it was before; when ADq is still on after the allocation (slot 0 of the VSI
table being taken, as by the PF's own VSI, and `num_tc` at least 1) the
channels below `num_tc` end with VSI index 0 and the others are as before. -/
theorem C28_free_after_alloc_restores_accounting (k : Consts) (o : ResOracle) (c : Nat → Bool)
    (pf : i40e_pf) (vf : i40e_vf) (h : (i40e_alloc_vf_res k o pf vf).1.isErr = false) :
    (i40e_free_vf_res c (i40e_alloc_vf_res k o pf vf).2.1
      (i40e_alloc_vf_res k o pf vf).2.2.1).1.queues_left = pf.queues_left ∧
    (i40e_free_vf_res c (i40e_alloc_vf_res k o pf vf).2.1
      (i40e_alloc_vf_res k o pf vf).2.2.1).2.1.num_queue_pairs = 0 ∧
    (i40e_free_vf_res c (i40e_alloc_vf_res k o pf vf).2.1
      (i40e_alloc_vf_res k o pf vf).2.2.1).2.1.lan_vsi_idx = 0 ∧
    test_bit .I40E_VF_STATE_INIT (i40e_free_vf_res c (i40e_alloc_vf_res k o pf vf).2.1
      (i40e_alloc_vf_res k o pf vf).2.2.1).2.1.vf_states = false ∧
    test_bit .I40E_VF_STATE_MC_PROMISC (i40e_free_vf_res c (i40e_alloc_vf_res k o pf vf).2.1
      (i40e_alloc_vf_res k o pf vf).2.2.1).2.1.vf_states = false ∧
    test_bit .I40E_VF_STATE_UC_PROMISC (i40e_free_vf_res c (i40e_alloc_vf_res k o pf vf).2.1
      (i40e_alloc_vf_res k o pf vf).2.2.1).2.1.vf_states = false ∧
    (vf.adq_enabled = false →
      (i40e_free_vf_res c (i40e_alloc_vf_res k o pf vf).2.1
        (i40e_alloc_vf_res k o pf vf).2.2.1).2.1.ch = vf.ch) ∧
    ((i40e_alloc_vf_res k o pf vf).2.2.1.adq_enabled = true →
      vsi_slot_free pf.vsi 0 = false → 0 < vf.ch.length → 1 ≤ vf.num_tc →
      ∀ j : Nat,
        (vf_ch (i40e_free_vf_res c (i40e_alloc_vf_res k o pf vf).2.1
          (i40e_alloc_vf_res k o pf vf).2.2.1).2.1 j).vsi_idx =
          if j < vf.num_tc then 0 else (vf_ch vf j).vsi_idx) := by
  have hq := alloc_vf_res_queues k o pf vf h
  have hc := alloc_vf_res_ch k o pf vf h
  generalize i40e_alloc_vf_res k o pf vf = A at hq hc
  have hf := free_vf_res_facts c A.2.1 A.2.2.1
  have hs := free_vf_res_states c A.2.1 A.2.2.1
  have hfc := free_vf_res_ch c A.2.1 A.2.2.1
  refine ⟨?_, hf.2.2.2, hf.2.1, ?_, ?_, ?_, ?_, ?_⟩
  · rw [free_vf_res_queues]
    exact hq
  · rw [hs]; rfl
  · rw [hs]; rfl
  · rw [hs]; rfl
  · intro ha
    obtain ⟨e1, e2⟩ := hc.1 ha
    rw [hfc.1 (Or.inl e2)]
    exact e1
  · intro ha h0 hl ht j
    obtain ⟨e1, e2, e3⟩ := hc.2 ha h0 hl ht
    rw [hfc.2 ha e1 j, e2]
    by_cases hj : j < vf.num_tc
    · simp only [hj, if_true]
    · simp only [hj, if_false]
      rw [e3 j (by omega)]

theorem C28_witness :
    (i40e_alloc_vf_res sample_consts sample_res_oracle sample_pf_twelve_left
      sample_adq_vf).1.isErr = false ∧
    (i40e_free_vf_res sample_res_oracle.copy_ok
      (i40e_alloc_vf_res sample_consts sample_res_oracle sample_pf_twelve_left sample_adq_vf).2.1
      (i40e_alloc_vf_res sample_consts sample_res_oracle sample_pf_twelve_left
        sample_adq_vf).2.2.1).1.queues_left = sample_pf_twelve_left.queues_left ∧
    ∀ j : Nat,
      (vf_ch (i40e_free_vf_res sample_res_oracle.copy_ok
        (i40e_alloc_vf_res sample_consts sample_res_oracle sample_pf_twelve_left
          sample_adq_vf).2.1
        (i40e_alloc_vf_res sample_consts sample_res_oracle sample_pf_twelve_left
          sample_adq_vf).2.2.1).2.1 j).vsi_idx =
        if j < sample_adq_vf.num_tc then 0 else (vf_ch sample_adq_vf j).vsi_idx :=
  ⟨by decide,
   (C28_free_after_alloc_restores_accounting sample_consts sample_res_oracle
      sample_res_oracle.copy_ok sample_pf_twelve_left sample_adq_vf (by decide)).1,
   (C28_free_after_alloc_restores_accounting sample_consts sample_res_oracle
      sample_res_oracle.copy_ok sample_pf_twelve_left sample_adq_vf (by decide)).2.2.2.2.2.2.2
      (by decide) (by decide) (by decide) (by decide)⟩

/-! ### The traffic class of a cloud filter (C30) -/

/-- C30, what `i40e_validate_cloud_filter` establishes about the traffic class.
An accepted filter has `action_meta ≤ I40E_MAX_VF_VSI`, and that is all: the
filter stays accepted when its `action_meta` is replaced by any value up to and
including `I40E_MAX_VF_VSI`, whatever `vf->num_tc` is.  So the size of the
channel table itself, one past its last entry, is accepted, and so is every
class from `num_tc` on. -/
theorem C30_validate_cloud_filter_bounds_class_by_table_size (pf : i40e_pf) (vf : i40e_vf)
    (f : virtchnl_filter) (m : Nat)
    (h : i40e_validate_cloud_filter pf vf f = .I40E_SUCCESS) (hm : m ≤ I40E_MAX_VF_VSI) :
    f.action_meta ≤ I40E_MAX_VF_VSI ∧
    i40e_validate_cloud_filter pf vf { f with action_meta := m } = .I40E_SUCCESS := by
  have hm2 : ¬ (m > I40E_MAX_VF_VSI) := by omega
  by_cases ha : f.action = 0
  · simp only [i40e_validate_cloud_filter, ha, if_true] at h
    cases h
  · by_cases hb : f.action_meta > I40E_MAX_VF_VSI
    · simp only [i40e_validate_cloud_filter, ha, hb, if_true, if_false] at h
      cases h
    · simp only [i40e_validate_cloud_filter, ha, hb, if_false] at h
      simp only [i40e_validate_cloud_filter, ha, hm2, if_false]
      exact ⟨by omega, h⟩

theorem C30_witness :
    i40e_validate_cloud_filter sample_after_enable_channels.2.1
      sample_after_enable_channels.2.2.1 sample_msg.filter = .I40E_SUCCESS ∧
    sample_after_enable_channels.2.2.1.adq_enabled = true ∧
    sample_after_enable_channels.2.2.1.num_tc = 2 ∧
    sample_after_enable_channels.2.2.1.ch.length = 4 ∧
    sample_filter_tc_four.action_meta = 4 ∧
    i40e_validate_cloud_filter sample_after_enable_channels.2.1
      sample_after_enable_channels.2.2.1 sample_filter_tc_four = .I40E_SUCCESS ∧
    HwEvent.handler_work .VIRTCHNL_OP_ADD_CLOUD_FILTER ∈
      (i40e_vc_add_cloud_filter sample_consts sample_msg_oracle sample_after_enable_channels.2.1
        sample_after_enable_channels.2.2.1 sample_msg_filter_tc_four).2.2.2 :=
  ⟨by decide, by decide, by decide, by decide, rfl,
   (C30_validate_cloud_filter_bounds_class_by_table_size sample_after_enable_channels.2.1
      sample_after_enable_channels.2.2.1 sample_msg.filter 4 (by decide) (by decide)).2,
   by decide⟩

/-! ### Deleting addresses under a pinned MAC (C27) -/

/-- C27 (the code at the failing input, and in general): when the host has
set the VF's MAC and the VF is not trusted, no DEL_ETH_ADDR batch changes the
default MAC or the cached candidate, whether the batch is accepted or
rejected, as claimed; but the filters are not protected: a batch whose loop
runs to its end and which names the pinned default address leaves the VSI
without a filter for it. -/
theorem C27_pinned_delete_keeps_default_mac (o : MacOracle) (vf : i40e_vf) (vsi : i40e_vsi)
    (al : virtchnl_ether_addr_list) (hp : vf.pf_set_mac = true) (ht : vf.trusted = false) :
    (i40e_del_vf_mac_filters o vf vsi al).2.1.default_lan_addr = vf.default_lan_addr ∧
    (i40e_del_vf_mac_filters o vf vsi al).2.1.legacy_last_added_umac =
      vf.legacy_last_added_umac ∧
    ((i40e_del_vf_mac_filters_loop al.list vf vsi false false).1 = .I40E_SUCCESS →
      (∃ e ∈ al.list, e.addr = vf.default_lan_addr) →
      i40e_find_mac (i40e_del_vf_mac_filters o vf vsi al).2.2.1 vf.default_lan_addr = false) := by
  have hno : ∀ e ∈ al.list, (ether_addr_equal e.addr vf.default_lan_addr &&
      (vf.trusted || !vf.pf_set_mac)) = false := by
    intro e _
    rw [hp, ht]
    simp
  have hfl := del_loop_flags_no_hit al.list vf vsi false false hno
  have hvf := del_loop_vf al.list vf vsi false false
  have h1 : (i40e_del_vf_mac_filters_loop al.list vf vsi false false).2.2.2.1 = false := by
    rw [hfl]
  have hres : (i40e_del_vf_mac_filters o vf vsi al).2.1 =
      (i40e_del_vf_mac_filters_loop al.list vf vsi false false).2.1 := by
    unfold i40e_del_vf_mac_filters
    simp only [h1, Bool.false_eq_true, if_false]
    split <;> rfl
  have hvsi : (i40e_del_vf_mac_filters o vf vsi al).2.2.1 =
      (i40e_del_vf_mac_filters_loop al.list vf vsi false false).2.2.1 := by
    unfold i40e_del_vf_mac_filters
    simp only []
    split <;> rfl
  refine ⟨?_, ?_, ?_⟩
  · rw [hres, hvf]
  · rw [hres, hvf]
  · intro hs hex
    obtain ⟨e, he, heq⟩ := hex
    rw [hvsi, ← heq]
    exact del_loop_deleted al.list vf vsi false false hs e he

theorem C27_witness :
    sample_vf_pinned.pf_set_mac = true ∧ sample_vf_pinned.trusted = false ∧
    sample_vf_pinned.vf_caps.I40E_VIRTCHNL_VF_CAP_PRIVILEGE = false ∧
    sample_vf_pinned.default_lan_addr = sample_ucast 1 ∧
    is_multicast_ether_addr (sample_ucast 1) = false ∧
    i40e_find_mac sample_vsi (sample_ucast 1) = true ∧
    (i40e_del_vf_mac_filters sample_oracle sample_vf_pinned sample_vsi
      sample_del_default_batch).1 = .I40E_SUCCESS ∧
    (i40e_del_vf_mac_filters sample_oracle sample_vf_pinned sample_vsi
      sample_del_default_batch).2.1.default_lan_addr = sample_vf_pinned.default_lan_addr ∧
    i40e_find_mac (i40e_del_vf_mac_filters sample_oracle sample_vf_pinned sample_vsi
      sample_del_default_batch).2.2.1 sample_vf_pinned.default_lan_addr = false ∧
    (i40e_del_vf_mac_filters sample_oracle sample_vf_pinned sample_vsi
      sample_del_both_batch).2.1.default_lan_addr = sample_vf_pinned.default_lan_addr :=
  ⟨by decide, by decide, by decide, by decide, by decide, by decide, by decide,
   (C27_pinned_delete_keeps_default_mac sample_oracle sample_vf_pinned sample_vsi
      sample_del_default_batch (by decide) (by decide)).1,
   (C27_pinned_delete_keeps_default_mac sample_oracle sample_vf_pinned sample_vsi
      sample_del_default_batch (by decide) (by decide)).2.2 (by decide)
      ⟨sample_elem (sample_ucast 1), by decide, by decide⟩,
   (C27_pinned_delete_keeps_default_mac sample_oracle sample_vf_pinned sample_vsi
      sample_del_both_batch (by decide) (by decide)).1⟩

/-! ### The primary VSI of a VF in INIT or ACTIVE state (C22) -/

theorem slot_free_zero_of_eq (l l1 : List (Option i40e_vsi)) (h : l1[0]? = l[0]?) :
    vsi_slot_free l1 0 = vsi_slot_free l 0 := by
  unfold vsi_slot_free
  rw [h]

/-- Setting up a VSI leaves slot 0 of the VSI table alone when that slot is
not free. -/
theorem alloc_vsi_res_slot_zero (k : Consts) (o : VsiOracle) (pf : i40e_pf) (vf : i40e_vf)
    (idx : Nat) (h0 : vsi_slot_free pf.vsi 0 = false) :
    (i40e_alloc_vsi_res k o pf vf idx).2.1.vsi[0]? = pf.vsi[0]? ∧
    (i40e_alloc_vsi_res k o pf vf idx).2.1.lan_vsi = pf.lan_vsi := by
  unfold i40e_alloc_vsi_res
  cases hs : i40e_vsi_setup o pf vf.vf_id with
  | none => exact ⟨rfl, rfl⟩
  | some r =>
    obtain ⟨pf1, vsi⟩ := r
    have hk := vsi_setup_keeps_slots o pf pf1 vf.vf_id vsi hs
    have hne : vsi.idx ≠ 0 := by
      intro hz
      have := hk.1
      rw [hz, h0] at this
      cases this
    have h1 : pf1.vsi[0]? = pf.vsi[0]? := by
      rw [hk.2.1, List.getElem?_set_ne hne]
    by_cases hi : idx = 0
    · simp only [hi, if_true]
      refine ⟨?_, hk.2.2.2.2.1⟩
      show (pf1.vsi.set vsi.idx _)[0]? = pf.vsi[0]?
      rw [List.getElem?_set_ne hne]
      exact h1
    · simp only [hi, if_false]
      exact ⟨h1, hk.2.2.2.2.1⟩

theorem alloc_vf_res_adq_slot_zero (k : Consts) (o : ResOracle) :
    ∀ (n idx : Nat) (pf : i40e_pf) (vf : i40e_vf), vsi_slot_free pf.vsi 0 = false →
      (i40e_alloc_vf_res_adq k o n idx pf vf).2.1.vsi[0]? = pf.vsi[0]? ∧
      (i40e_alloc_vf_res_adq k o n idx pf vf).2.1.lan_vsi = pf.lan_vsi := by
  intro n
  induction n with
  | zero => intro idx pf vf _; exact ⟨rfl, rfl⟩
  | succ n ih =>
    intro idx pf vf h0
    have h1 := alloc_vsi_res_slot_zero k (o.vsi idx) pf vf idx h0
    unfold i40e_alloc_vf_res_adq
    simp only []
    split
    · exact h1
    · simp only []
      have h2 := ih (idx + 1) (i40e_alloc_vsi_res k (o.vsi idx) pf vf idx).2.1
        (i40e_alloc_vsi_res k (o.vsi idx) pf vf idx).2.2.1
        ((slot_free_zero_of_eq _ _ h1.1).trans h0)
      exact ⟨h2.1.trans h1.1, h2.2.trans h1.2⟩

theorem vsi_release_slot_zero (pf : i40e_pf) (idx : Nat) (hl : pf.lan_vsi = 0) :
    (i40e_vsi_release pf idx).vsi[0]? = pf.vsi[0]? ∧ (i40e_vsi_release pf idx).lan_vsi = 0 := by
  unfold i40e_vsi_release
  split
  · exact ⟨rfl, hl⟩
  · rename_i hne
    rw [hl] at hne
    split
    · refine ⟨?_, hl⟩
      show (pf.vsi.set idx none)[0]? = pf.vsi[0]?
      rw [List.getElem?_set_ne hne]
    · exact ⟨rfl, hl⟩

theorem retain_mac_list_slot_zero (ok : Nat → Bool) (pf : i40e_pf) (vf : i40e_vf) (i : Nat) :
    (i40e_retain_mac_list ok pf vf i).2.vsi = pf.vsi ∧
    (i40e_retain_mac_list ok pf vf i).2.lan_vsi = pf.lan_vsi := by
  unfold i40e_retain_mac_list
  split <;> exact ⟨rfl, rfl⟩

theorem free_vf_res_adq_slot_zero :
    ∀ (n j : Nat) (pf : i40e_pf) (vf : i40e_vf), pf.lan_vsi = 0 →
      (i40e_free_vf_res_adq n j pf vf).1.vsi[0]? = pf.vsi[0]? ∧
      (i40e_free_vf_res_adq n j pf vf).1.lan_vsi = 0 := by
  intro n
  induction n with
  | zero => intro j pf vf hl; exact ⟨rfl, hl⟩
  | succ n ih =>
    intro j pf vf hl
    unfold i40e_free_vf_res_adq
    simp only []
    by_cases hj : j = 0
    · simp only [hj, ne_eq, not_true_eq_false, if_false]
      exact ih _ _ _ hl
    · simp only [hj, ne_eq, not_false_eq_true, if_true]
      have h1 := vsi_release_slot_zero pf (vf_ch vf j).vsi_idx hl
      have h2 := ih (j + 1) (i40e_vsi_release pf (vf_ch vf j).vsi_idx)
        { vf with ch := vf.ch.set j { vf_ch vf j with vsi_idx := 0, vsi_id := 0 } } h1.2
      exact ⟨h2.1.trans h1.1, h2.2⟩

theorem free_vf_res_lan_slot_zero (c : Nat → Bool) (pf : i40e_pf) (vf : i40e_vf)
    (hl : pf.lan_vsi = 0) :
    (i40e_free_vf_res_lan c pf vf).1.vsi[0]? = pf.vsi[0]? ∧
    (i40e_free_vf_res_lan c pf vf).1.lan_vsi = 0 := by
  have hr := retain_mac_list_slot_zero c pf
    { vf with vf_states := (clear_bit .I40E_VF_STATE_INIT vf.vf_states) } vf.lan_vsi_idx
  have hr2 := hr.2.trans hl
  have hr1 : (i40e_retain_mac_list c pf
      { vf with vf_states := (clear_bit .I40E_VF_STATE_INIT vf.vf_states) }
      vf.lan_vsi_idx).2.vsi[0]? = pf.vsi[0]? := by rw [hr.1]
  by_cases hc : vf.lan_vsi_idx = 0
  · by_cases hb : vf.num_queue_pairs > I40E_DEFAULT_QUEUES_PER_VF
    · simp only [i40e_free_vf_res_lan, hc, hb, ne_eq, not_true_eq_false, decide_False,
        Bool.false_and, Bool.false_eq_true, if_false, if_true]
      exact ⟨trivial, hl⟩
    · simp only [i40e_free_vf_res_lan, hc, hb, ne_eq, not_true_eq_false, decide_False,
        Bool.false_and, Bool.false_eq_true, if_false]
      exact ⟨trivial, hl⟩
  · by_cases ha : pf.state.I40E_VFS_RELEASING = true
    · by_cases hb : vf.num_queue_pairs > I40E_DEFAULT_QUEUES_PER_VF
      · simp only [i40e_free_vf_res_lan, hc, hb, ha, ne_eq, not_false_eq_true, decide_True,
          Bool.not_true, Bool.and_false, Bool.false_eq_true, if_false, if_true]
        refine ⟨(vsi_release_slot_zero _ _ ?_).1.trans ?_, (vsi_release_slot_zero _ _ ?_).2⟩
        · exact hl
        · rfl
        · exact hl
      · simp only [i40e_free_vf_res_lan, hc, hb, ha, ne_eq, not_false_eq_true, decide_True,
          Bool.not_true, Bool.and_false, Bool.false_eq_true, if_false, if_true]
        refine ⟨(vsi_release_slot_zero _ _ ?_).1.trans ?_, (vsi_release_slot_zero _ _ ?_).2⟩
        · exact hl
        · rfl
        · exact hl
    · have ha2 : pf.state.I40E_VFS_RELEASING = false := by
        cases hx : pf.state.I40E_VFS_RELEASING
        · rfl
        · exact absurd hx ha
      by_cases hb : vf.num_queue_pairs > I40E_DEFAULT_QUEUES_PER_VF
      · simp only [i40e_free_vf_res_lan, hc, hb, ha2, ne_eq, not_false_eq_true, decide_True,
          Bool.not_false, Bool.and_true, if_false, if_true]
        refine ⟨(vsi_release_slot_zero _ _ ?_).1.trans ?_, (vsi_release_slot_zero _ _ ?_).2⟩
        · exact hr2
        · exact hr1
        · exact hr2
      · simp only [i40e_free_vf_res_lan, hc, hb, ha2, ne_eq, not_false_eq_true, decide_True,
          Bool.not_false, Bool.and_true, if_false, if_true]
        refine ⟨(vsi_release_slot_zero _ _ ?_).1.trans ?_, (vsi_release_slot_zero _ _ ?_).2⟩
        · exact hr2
        · exact hr1
        · exact hr2

/-- Freeing a VF's resources leaves slot 0 of the VSI table alone when the
PF's own VSI is the one of slot 0. -/
theorem free_vf_res_slot_zero (c : Nat → Bool) (pf : i40e_pf) (vf : i40e_vf)
    (hl : pf.lan_vsi = 0) :
    (i40e_free_vf_res c pf vf).1.vsi[0]? = pf.vsi[0]? ∧
    (i40e_free_vf_res c pf vf).1.lan_vsi = 0 := by
  have h1 := free_vf_res_lan_slot_zero c pf vf hl
  unfold i40e_free_vf_res
  simp only []
  split
  · have h2 := free_vf_res_adq_slot_zero (i40e_free_vf_res_lan c pf vf).2.1.num_tc 0
      (i40e_free_vf_res_lan c pf vf).1 (i40e_free_vf_res_lan c pf vf).2.1 h1.2
    exact ⟨h2.1.trans h1.1, h2.2⟩
  · exact h1

theorem alloc_vf_res_channels_slot_zero (k : Consts) (o : ResOracle) (pf : i40e_pf)
    (vf : i40e_vf) (t : Nat) (h0 : vsi_slot_free pf.vsi 0 = false) :
    (i40e_alloc_vf_res_channels k o pf vf t).2.1.vsi[0]? = pf.vsi[0]? ∧
    (i40e_alloc_vf_res_channels k o pf vf t).2.1.lan_vsi = pf.lan_vsi := by
  unfold i40e_alloc_vf_res_channels
  split
  · split
    · exact alloc_vf_res_adq_slot_zero k o _ _ pf vf h0
    · exact ⟨rfl, rfl⟩
  · exact ⟨rfl, rfl⟩

/-- With the PF's own VSI in slot 0 of the VSI table, `i40e_alloc_vf_res`
leaves that slot alone, and the primary VSI of a successful allocation has an
index other than 0. -/
theorem alloc_vf_res_slot_zero (k : Consts) (o : ResOracle) (pf : i40e_pf) (vf : i40e_vf)
    (hl : pf.lan_vsi = 0) (h0 : vsi_slot_free pf.vsi 0 = false) :
    (i40e_alloc_vf_res k o pf vf).2.1.vsi[0]? = pf.vsi[0]? ∧
    (i40e_alloc_vf_res k o pf vf).2.1.lan_vsi = 0 ∧
    ((i40e_alloc_vf_res k o pf vf).1.isErr = false →
      (i40e_alloc_vf_res k o pf vf).2.2.1.lan_vsi_idx ≠ 0) := by
  have hn := alloc_vf_res_num_vf_qps_facts pf vf
  have h0n : vsi_slot_free (i40e_alloc_vf_res_num_vf_qps pf vf).vsi 0 = false := by
    rw [hn.2.1]; exact h0
  have hs := alloc_vsi_res_slot_zero k (o.vsi 0) (i40e_alloc_vf_res_num_vf_qps pf vf) vf 0 h0n
  have hp := alloc_vsi_res_primary_idx k (o.vsi 0) (i40e_alloc_vf_res_num_vf_qps pf vf) vf
  rw [hn.2.1] at hs hp
  rw [hn.2.2.1, hl] at hs
  unfold i40e_alloc_vf_res
  simp only []
  generalize i40e_alloc_vsi_res k (o.vsi 0) (i40e_alloc_vf_res_num_vf_qps pf vf) vf 0 = R
    at hs hp ⊢
  by_cases h1 : R.1.isErr = true
  · simp only [h1, if_true, i40e_alloc_vf_res_error_alloc]
    have hf := free_vf_res_slot_zero o.copy_ok R.2.1 R.2.2.1 hs.2
    exact ⟨hf.1.trans hs.1, hf.2, fun h => by cases h⟩
  · have h1f : R.1.isErr = false := by
      cases hx : R.1.isErr
      · rfl
      · exact absurd hx h1
    have hidx : R.2.2.1.lan_vsi_idx ≠ 0 := by
      intro hz
      have := (hp h1f).1
      rw [hz, h0] at this
      cases this
    simp only [h1, Bool.false_eq_true, if_false]
    generalize (pf_vsi R.2.1 R.2.2.1.lan_vsi_idx).alloc_queue_pairs = t
    have hc := alloc_vf_res_channels_slot_zero k o R.2.1 R.2.2.1 t
      ((slot_free_zero_of_eq _ _ hs.1).trans h0)
    have hcf := (alloc_vf_res_channels_facts k o R.2.1 R.2.2.1 t).1
    generalize i40e_alloc_vf_res_channels k o R.2.1 R.2.2.1 t = A at hc hcf ⊢
    by_cases h2 : A.1.isErr = true
    · simp only [h2, if_true, i40e_alloc_vf_res_error_alloc]
      have hf := free_vf_res_slot_zero o.copy_ok A.2.1 A.2.2.1 (hc.2.trans hs.2)
      exact ⟨hf.1.trans (hc.1.trans hs.1), hf.2, fun h => by cases h⟩
    · simp only [h2, Bool.false_eq_true, if_false, i40e_alloc_vf_res_commit]
      refine ⟨?_, ?_, fun _ => ?_⟩
      · split
        · exact hc.1.trans hs.1
        · exact hc.1.trans hs.1
      · split
        · exact hc.2.trans hs.2
        · exact hc.2.trans hs.2
      · show A.2.2.1.lan_vsi_idx ≠ 0
        rw [hcf]
        exact hidx

/-- With the PF's own VSI in slot 0 of the VSI table, `i40e_cleanup_reset_vf`
leaves that slot alone, and the VF it leaves in INIT state has a primary VSI
index other than 0. -/
theorem cleanup_reset_vf_slot_zero (k : Consts) (o : ResOracle) (pf : i40e_pf) (vf : i40e_vf)
    (hl : pf.lan_vsi = 0) (h0 : vsi_slot_free pf.vsi 0 = false) :
    (i40e_cleanup_reset_vf k o pf vf).1.vsi[0]? = pf.vsi[0]? ∧
    (i40e_cleanup_reset_vf k o pf vf).1.lan_vsi = 0 ∧
    (test_bit .I40E_VF_STATE_INIT (i40e_cleanup_reset_vf k o pf vf).2.1.vf_states = true →
      (i40e_cleanup_reset_vf k o pf vf).2.1.lan_vsi_idx ≠ 0) := by
  have hf := free_vf_res_slot_zero o.copy_ok pf vf hl
  have ha := alloc_vf_res_slot_zero k o (i40e_free_vf_res o.copy_ok pf vf).1
    (i40e_free_vf_res o.copy_ok pf vf).2.1 hf.2 ((slot_free_zero_of_eq _ _ hf.1).trans h0)
  have ho := alloc_vf_res_outcome k o (i40e_free_vf_res o.copy_ok pf vf).1
    (i40e_free_vf_res o.copy_ok pf vf).2.1
  unfold i40e_cleanup_reset_vf
  simp only []
  generalize i40e_alloc_vf_res k o (i40e_free_vf_res o.copy_ok pf vf).1
    (i40e_free_vf_res o.copy_ok pf vf).2.1 = A at ha ho ⊢
  by_cases he : A.1.isErr = true
  · simp only [he, Bool.not_true, Bool.false_eq_true, if_false]
    refine ⟨ha.1.trans hf.1, ha.2.1, fun hi => ?_⟩
    rw [(ho.1 he).1] at hi
    cases hi
  · have he2 : A.1.isErr = false := by
      cases h : A.1.isErr
      · rfl
      · exact absurd h he
    simp only [he2, Bool.not_false, if_true]
    exact ⟨ha.1.trans hf.1, ha.2.1, fun _ => ha.2.2 he2⟩

theorem send_keeps_init (k : Consts) (sr : Status) (pf : i40e_pf) (vf : i40e_vf)
    (op : virtchnl_ops) (ret : Status) (q : Bool) :
    (i40e_vc_send_msg_to_vf_ex k sr pf vf op ret q).2.1.lan_vsi_idx = vf.lan_vsi_idx ∧
    test_bit .I40E_VF_STATE_INIT (i40e_vc_send_msg_to_vf_ex k sr pf vf op ret q).2.1.vf_states =
      test_bit .I40E_VF_STATE_INIT vf.vf_states := by
  unfold i40e_vc_send_msg_to_vf_ex
  split
  · exact ⟨rfl, rfl⟩
  · simp only []
    split <;> split <;> first | exact ⟨rfl, rfl⟩ | (split <;> exact ⟨rfl, rfl⟩)

theorem handler_err_keeps_init (k : Consts) (o : Oracle) (pf : i40e_pf) (vf : i40e_vf)
    (op : virtchnl_ops) (ret : Status) (ev : List HwEvent) :
    (handler_err k o pf vf op ret ev).2.1 = pf ∧
    (handler_err k o pf vf op ret ev).2.2.1.lan_vsi_idx = vf.lan_vsi_idx ∧
    test_bit .I40E_VF_STATE_INIT (handler_err k o pf vf op ret ev).2.2.1.vf_states =
      test_bit .I40E_VF_STATE_INIT vf.vf_states :=
  ⟨rfl, send_keeps_init k o.send_ret pf vf op ret false⟩

/-- GET_VF_RESOURCES leaves the PF, the primary VSI index and the INIT bit
alone. -/
theorem get_vf_resources_msg_keeps_init (k : Consts) (o : Oracle) (pf : i40e_pf) (vf : i40e_vf)
    (msg : Msg) :
    (i40e_vc_get_vf_resources_msg k o pf vf msg).2.1 = pf ∧
    (i40e_vc_get_vf_resources_msg k o pf vf msg).2.2.1.lan_vsi_idx = vf.lan_vsi_idx ∧
    test_bit .I40E_VF_STATE_INIT (i40e_vc_get_vf_resources_msg k o pf vf msg).2.2.1.vf_states =
      test_bit .I40E_VF_STATE_INIT vf.vf_states := by
  unfold i40e_vc_get_vf_resources_msg
  simp only []
  repeat' split
  all_goals exact ⟨(handler_err_keeps_init _ _ _ _ _ _ _).1,
    (handler_err_keeps_init _ _ _ _ _ _ _).2.1.trans rfl,
    (handler_err_keeps_init _ _ _ _ _ _ _).2.2.trans rfl⟩

/-- One step of the lifecycle keeps the PF's own VSI in slot 0 and keeps the
rule that a VF in INIT state has a primary VSI index other than 0. -/
theorem lifecycle_step (op : LifecycleOp) (pf : i40e_pf) (vf : i40e_vf)
    (hl : pf.lan_vsi = 0) (h0 : vsi_slot_free pf.vsi 0 = false)
    (hI : test_bit .I40E_VF_STATE_INIT vf.vf_states = true → vf.lan_vsi_idx ≠ 0) :
    (LifecycleOp.apply (pf, vf) op).1.lan_vsi = 0 ∧
    vsi_slot_free (LifecycleOp.apply (pf, vf) op).1.vsi 0 = false ∧
    (test_bit .I40E_VF_STATE_INIT (LifecycleOp.apply (pf, vf) op).2.vf_states = true →
      (LifecycleOp.apply (pf, vf) op).2.lan_vsi_idx ≠ 0) := by
  cases op with
  | alloc_vf_res k o =>
    have ha := alloc_vf_res_slot_zero k o pf vf hl h0
    have ho := alloc_vf_res_outcome k o pf vf
    refine ⟨ha.2.1, (slot_free_zero_of_eq _ _ ha.1).trans h0, fun hi => ?_⟩
    show (i40e_alloc_vf_res k o pf vf).2.2.1.lan_vsi_idx ≠ 0
    by_cases he : (i40e_alloc_vf_res k o pf vf).1.isErr = true
    · have hi2 : test_bit .I40E_VF_STATE_INIT (i40e_alloc_vf_res k o pf vf).2.2.1.vf_states
          = true := hi
      rw [(ho.1 he).1] at hi2
      cases hi2
    · have he2 : (i40e_alloc_vf_res k o pf vf).1.isErr = false := by
        cases h : (i40e_alloc_vf_res k o pf vf).1.isErr
        · rfl
        · exact absurd h he
      exact ha.2.2 he2
  | free_vf_res c =>
    have hf := free_vf_res_slot_zero c pf vf hl
    refine ⟨hf.2, (slot_free_zero_of_eq _ _ hf.1).trans h0, fun hi => ?_⟩
    have hi2 : (i40e_free_vf_res c pf vf).2.1.vf_states.I40E_VF_STATE_INIT = true := hi
    rw [(free_vf_res_facts c pf vf).2.2.1] at hi2
    cases hi2
  | trigger_vf_reset k o flr =>
    refine ⟨hl, h0, fun hi => ?_⟩
    cases hi
  | cleanup_reset_vf k o =>
    have hc := cleanup_reset_vf_slot_zero k o pf vf hl h0
    exact ⟨hc.2.1, (slot_free_zero_of_eq _ _ hc.1).trans h0, hc.2.2⟩
  | free_vfs c =>
    show (i40e_free_vfs_vf c pf vf).1.lan_vsi = 0 ∧
      vsi_slot_free (i40e_free_vfs_vf c pf vf).1.vsi 0 = false ∧
      (test_bit .I40E_VF_STATE_INIT (i40e_free_vfs_vf c pf vf).2.1.vf_states = true →
        (i40e_free_vfs_vf c pf vf).2.1.lan_vsi_idx ≠ 0)
    unfold i40e_free_vfs_vf
    simp only []
    split
    · have hf := free_vf_res_slot_zero c
        { pf with
          state := { pf.state with I40E_VFS_RELEASING := true, I40E_VF_DISABLE := true },
          num_alloc_vfs := 0 } vf hl
      refine ⟨hf.2, (slot_free_zero_of_eq _ _ hf.1).trans h0, fun hi => ?_⟩
      have hi2 : (i40e_free_vf_res c _ vf).2.1.vf_states.I40E_VF_STATE_INIT = true := hi
      rw [(free_vf_res_facts c _ vf).2.2.1] at hi2
      cases hi2
    · exact ⟨hl, h0, hI⟩
  | get_vf_resources_msg k o msg =>
    have hg := get_vf_resources_msg_keeps_init k o pf vf msg
    show (i40e_vc_get_vf_resources_msg k o pf vf msg).2.1.lan_vsi = 0 ∧
      vsi_slot_free (i40e_vc_get_vf_resources_msg k o pf vf msg).2.1.vsi 0 = false ∧
      (test_bit .I40E_VF_STATE_INIT
          (i40e_vc_get_vf_resources_msg k o pf vf msg).2.2.1.vf_states = true →
        (i40e_vc_get_vf_resources_msg k o pf vf msg).2.2.1.lan_vsi_idx ≠ 0)
    rw [hg.1, hg.2.1, hg.2.2]
    exact ⟨hl, h0, hI⟩

theorem lifecycle_steps (ops : List LifecycleOp) :
    ∀ (pf : i40e_pf) (vf : i40e_vf), pf.lan_vsi = 0 → vsi_slot_free pf.vsi 0 = false →
      (test_bit .I40E_VF_STATE_INIT vf.vf_states = true → vf.lan_vsi_idx ≠ 0) →
      (test_bit .I40E_VF_STATE_INIT (ops.foldl LifecycleOp.apply (pf, vf)).2.vf_states = true →
        (ops.foldl LifecycleOp.apply (pf, vf)).2.lan_vsi_idx ≠ 0) := by
  induction ops with
  | nil => intro pf vf _ _ hI; exact hI
  | cons op rest ih =>
    intro pf vf hl h0 hI
    have hs := lifecycle_step op pf vf hl h0 hI
    exact ih (LifecycleOp.apply (pf, vf) op).1 (LifecycleOp.apply (pf, vf) op).2
      hs.1 hs.2.1 hs.2.2

/-- C22 as stated fails for the ACTIVE bit.  `sample_vf_fresh` has no state
bit set and no VSI.  After `i40e_alloc_vf_res` and GET_VF_RESOURCES it is in
INIT and ACTIVE state with its primary VSI in slot 1.  The teardown of
`i40e_free_vfs` then frees its resources: INIT is cleared and `lan_vsi_idx` is
0, while ACTIVE is still set. -/
theorem C22_counterexample :
    test_bit .I40E_VF_STATE_INIT sample_vf_fresh.vf_states = false ∧
    test_bit .I40E_VF_STATE_ACTIVE sample_vf_fresh.vf_states = false ∧
    sample_vf_fresh.lan_vsi_idx = 0 ∧
    test_bit .I40E_VF_STATE_INIT ((sample_lifecycle.take 2).foldl LifecycleOp.apply
      (sample_pf_three_slots, sample_vf_fresh)).2.vf_states = true ∧
    test_bit .I40E_VF_STATE_ACTIVE ((sample_lifecycle.take 2).foldl LifecycleOp.apply
      (sample_pf_three_slots, sample_vf_fresh)).2.vf_states = true ∧
    ((sample_lifecycle.take 2).foldl LifecycleOp.apply
      (sample_pf_three_slots, sample_vf_fresh)).2.lan_vsi_idx = 1 ∧
    test_bit .I40E_VF_STATE_INIT (sample_lifecycle.foldl LifecycleOp.apply
      (sample_pf_three_slots, sample_vf_fresh)).2.vf_states = false ∧
    test_bit .I40E_VF_STATE_ACTIVE (sample_lifecycle.foldl LifecycleOp.apply
      (sample_pf_three_slots, sample_vf_fresh)).2.vf_states = true ∧
    (sample_lifecycle.foldl LifecycleOp.apply
      (sample_pf_three_slots, sample_vf_fresh)).2.lan_vsi_idx = 0 := by
  decide

/-- C22, amended.  With the PF's own VSI in slot 0 of the VSI table, in every
state reached through any sequence of `i40e_alloc_vf_res`, `i40e_free_vf_res`,
`i40e_trigger_vf_reset`, `i40e_cleanup_reset_vf`, the teardown of
`i40e_free_vfs` and GET_VF_RESOURCES from a state in which it holds, a VF
whose INIT bit is set has a primary VSI (`lan_vsi_idx` is not 0); so the
primary VSI is absent only when INIT is clear.  The ACTIVE bit says nothing
about the primary VSI: `i40e_free_vf_res` sets `lan_vsi_idx` to 0 and leaves
ACTIVE as it was. -/
theorem C22_init_state_has_primary_vsi (ops : List LifecycleOp) (pf : i40e_pf) (vf : i40e_vf)
    (hl : pf.lan_vsi = 0) (h0 : vsi_slot_free pf.vsi 0 = false)
    (hI : test_bit .I40E_VF_STATE_INIT vf.vf_states = true → vf.lan_vsi_idx ≠ 0) :
    (test_bit .I40E_VF_STATE_INIT (ops.foldl LifecycleOp.apply (pf, vf)).2.vf_states = true →
      (ops.foldl LifecycleOp.apply (pf, vf)).2.lan_vsi_idx ≠ 0) ∧
    (∀ c : Nat → Bool,
      (i40e_free_vf_res c pf vf).2.1.lan_vsi_idx = 0 ∧
      test_bit .I40E_VF_STATE_ACTIVE (i40e_free_vf_res c pf vf).2.1.vf_states =
        test_bit .I40E_VF_STATE_ACTIVE vf.vf_states) := by
  refine ⟨lifecycle_steps ops pf vf hl h0 hI, fun c => ⟨(free_vf_res_facts c pf vf).2.1, ?_⟩⟩
  rw [free_vf_res_states]
  rfl

theorem C22_witness :
    sample_pf_three_slots.lan_vsi = 0 ∧ vsi_slot_free sample_pf_three_slots.vsi 0 = false ∧
    test_bit .I40E_VF_STATE_INIT ((sample_lifecycle.take 2).foldl LifecycleOp.apply
      (sample_pf_three_slots, sample_vf_fresh)).2.vf_states = true ∧
    ((sample_lifecycle.take 2).foldl LifecycleOp.apply
      (sample_pf_three_slots, sample_vf_fresh)).2.lan_vsi_idx ≠ 0 :=
  ⟨by decide, by decide, by decide,
   (C22_init_state_has_primary_vsi (sample_lifecycle.take 2) sample_pf_three_slots
      sample_vf_fresh (by decide) (by decide) (by decide)).1 (by decide)⟩

/-! ### Translating a VF queue id (C21) -/

theorem spec_queues_before_succ (vf : i40e_vf) (i : Nat) :
    spec_queues_before vf (i + 1) = spec_queues_before vf i + (vf_ch vf i).num_qps := by
  simp [spec_queues_before, List.range_succ]

theorem spec_queues_before_mono (vf : i40e_vf) (i j : Nat) (h : i ≤ j) :
    spec_queues_before vf i ≤ spec_queues_before vf j := by
  induction j with
  | zero =>
    have : i = 0 := by omega
    rw [this]
  | succ j ih =>
    by_cases hij : i = j + 1
    · rw [hij]
    · have := ih (by omega)
      rw [spec_queues_before_succ]
      omega

/-- The channel loop started at channel `i0` stops at channel `i0 + d` when
the queue id lies in the range of that channel, counted from `i0`. -/
theorem get_real_pf_qid_loop_hit (vf : i40e_vf) :
    ∀ (d n i0 vsi_id q : Nat), d < n →
      ((List.range' i0 d).map (fun j => (vf_ch vf j).num_qps)).sum ≤ q →
      q < ((List.range' i0 d).map (fun j => (vf_ch vf j).num_qps)).sum +
        (vf_ch vf (i0 + d)).num_qps →
      i40e_get_real_pf_qid_loop vf n i0 vsi_id q =
        ((vf_ch vf (i0 + d)).vsi_id,
          q - ((List.range' i0 d).map (fun j => (vf_ch vf j).num_qps)).sum) := by
  intro d
  induction d with
  | zero =>
    intro n i0 vsi_id q hn _ hhi
    obtain ⟨m, rfl⟩ : ∃ m, n = m + 1 := ⟨n - 1, by omega⟩
    simp only [List.range'_zero, List.map_nil, List.sum_nil, Nat.zero_add, Nat.add_zero,
      Nat.sub_zero] at hhi ⊢
    simp only [i40e_get_real_pf_qid_loop, hhi, if_true]
  | succ d ih =>
    intro n i0 vsi_id q hn hlo hhi
    obtain ⟨m, rfl⟩ : ∃ m, n = m + 1 := ⟨n - 1, by omega⟩
    have hr : List.range' i0 (d + 1) = i0 :: List.range' (i0 + 1) d := by
      simp [List.range'_succ]
    rw [hr] at hlo hhi ⊢
    simp only [List.map_cons, List.sum_cons] at hlo hhi ⊢
    have hnot : ¬ (q < (vf_ch vf i0).num_qps) := by omega
    have hidx : i0 + 1 + d = i0 + (d + 1) := by omega
    simp only [i40e_get_real_pf_qid_loop, hnot, if_false]
    rw [ih m (i0 + 1) vsi_id (q - (vf_ch vf i0).num_qps) (by omega) (by omega)
      (by rw [hidx]; omega), hidx]
    congr 1
    omega

/-- A queue id past the queues of all channels the loop visits leaves the
loop with the VSI id it was entered with. -/
theorem get_real_pf_qid_loop_miss (vf : i40e_vf) :
    ∀ (n i0 vsi_id q : Nat),
      ((List.range' i0 n).map (fun j => (vf_ch vf j).num_qps)).sum ≤ q →
      i40e_get_real_pf_qid_loop vf n i0 vsi_id q =
        (vsi_id, q - ((List.range' i0 n).map (fun j => (vf_ch vf j).num_qps)).sum) := by
  intro n
  induction n with
  | zero => intro i0 vsi_id q _; simp [i40e_get_real_pf_qid_loop]
  | succ n ih =>
    intro i0 vsi_id q hlo
    have hr : List.range' i0 (n + 1) = i0 :: List.range' (i0 + 1) n := by
      simp [List.range'_succ]
    rw [hr] at hlo ⊢
    simp only [List.map_cons, List.sum_cons] at hlo ⊢
    have hnot : ¬ (q < (vf_ch vf i0).num_qps) := by omega
    simp only [i40e_get_real_pf_qid_loop, hnot, if_false]
    rw [ih (i0 + 1) vsi_id (q - (vf_ch vf i0).num_qps) (by omega)]
    congr 1
    omega

/-- With ADq on, a queue id in the cumulative range of channel `i` resolves
to that channel's VSI and the queue id counted from the start of the range. -/
theorem get_real_pf_qid_pair_adq (vf : i40e_vf) (vsi_id q i : Nat)
    (ha : vf.adq_enabled = true) (hi : i < vf.num_tc)
    (hlo : spec_queues_before vf i ≤ q)
    (hhi : q < spec_queues_before vf i + (vf_ch vf i).num_qps) :
    i40e_get_real_pf_qid_pair vf vsi_id q =
      ((vf_ch vf i).vsi_id, q - spec_queues_before vf i) := by
  unfold spec_queues_before at hlo hhi ⊢
  rw [List.range_eq_range'] at hlo hhi ⊢
  have h := get_real_pf_qid_loop_hit vf i vf.num_tc 0 vsi_id q hi hlo
    (by rw [Nat.zero_add]; exact hhi)
  rw [Nat.zero_add] at h
  simp only [i40e_get_real_pf_qid_pair, ha, if_true]
  exact h

/-- Every queue id below the total of the first `n` channels lies in the
cumulative range of exactly one of them. -/
theorem spec_queues_channel_exists (vf : i40e_vf) :
    ∀ (n q : Nat), q < spec_queues_before vf n →
      ∃ i, i < n ∧ spec_queues_before vf i ≤ q ∧
        q < spec_queues_before vf i + (vf_ch vf i).num_qps := by
  intro n
  induction n with
  | zero =>
    intro q h
    simp [spec_queues_before] at h
  | succ n ih =>
    intro q h
    by_cases hq : q < spec_queues_before vf n
    · obtain ⟨i, hi, h1, h2⟩ := ih q hq
      exact ⟨i, by omega, h1, h2⟩
    · rw [spec_queues_before_succ] at h
      exact ⟨n, by omega, by omega, h⟩

theorem spec_queues_channel_unique (vf : i40e_vf) (q i j : Nat)
    (hi1 : spec_queues_before vf i ≤ q)
    (hi2 : q < spec_queues_before vf i + (vf_ch vf i).num_qps)
    (hj1 : spec_queues_before vf j ≤ q)
    (hj2 : q < spec_queues_before vf j + (vf_ch vf j).num_qps) : i = j := by
  by_contra hne
  rcases Nat.lt_or_gt_of_ne hne with h | h
  · have := spec_queues_before_mono vf (i + 1) j (by omega)
    rw [spec_queues_before_succ] at this
    omega
  · have := spec_queues_before_mono vf (j + 1) i (by omega)
    rw [spec_queues_before_succ] at this
    omega

/-- C21.  With ADq on, a queue id `q` in the cumulative range of channel `i`
(`q_0 + ... + q_(i-1) ≤ q < q_0 + ... + q_i`, `i < num_tc`) is translated by
`i40e_get_real_pf_qid` to what `i40e_vc_get_pf_queue_id` gives for the VSI of
channel `i` and the queue `q - (q_0 + ... + q_(i-1))`; every `q` below the
total of the `num_tc` channels lies in the range of exactly one channel.  With
ADq off the result is `i40e_vc_get_pf_queue_id (vsi_id, q)`.  That function
gives `I40E_QUEUE_END_OF_LIST` for an unknown VSI and `queue_mapping[0] + q`
for a contiguously mapped one, `q` being within its `u8` parameter and the sum
within its `u16` result. -/
theorem C21_real_pf_qid_goes_through_owning_channel (pf : i40e_pf) (vf : i40e_vf)
    (vsi_id q : Nat) :
    (vf.adq_enabled = true → ∀ i : Nat, i < vf.num_tc → spec_queues_before vf i ≤ q →
      q < spec_queues_before vf i + (vf_ch vf i).num_qps →
      i40e_get_real_pf_qid pf vf vsi_id q =
        i40e_vc_get_pf_queue_id pf (vf_ch vf i).vsi_id (q - spec_queues_before vf i)) ∧
    (q < spec_queues_before vf vf.num_tc →
      ∃ i, i < vf.num_tc ∧ spec_queues_before vf i ≤ q ∧
        q < spec_queues_before vf i + (vf_ch vf i).num_qps ∧
        ∀ j : Nat, spec_queues_before vf j ≤ q →
          q < spec_queues_before vf j + (vf_ch vf j).num_qps → j = i) ∧
    (vf.adq_enabled = false →
      i40e_get_real_pf_qid pf vf vsi_id q = i40e_vc_get_pf_queue_id pf vsi_id q) ∧
    (i40e_find_vsi_from_id pf vsi_id = none →
      i40e_vc_get_pf_queue_id pf vsi_id q = I40E_QUEUE_END_OF_LIST) ∧
    (∀ vsi : i40e_vsi, i40e_find_vsi_from_id pf vsi_id = some vsi →
      vsi.info_mapping_flags_NONCONTIG = false → q < 2 ^ 8 →
      vsi.info_queue_mapping.getD 0 0 + q < 2 ^ 16 →
      i40e_vc_get_pf_queue_id pf vsi_id q = vsi.info_queue_mapping.getD 0 0 + q) := by
  refine ⟨?_, ?_, ?_, ?_, ?_⟩
  · intro ha i hi hlo hhi
    unfold i40e_get_real_pf_qid
    rw [get_real_pf_qid_pair_adq vf vsi_id q i ha hi hlo hhi]
  · intro hq
    obtain ⟨i, hi, h1, h2⟩ := spec_queues_channel_exists vf vf.num_tc q hq
    exact ⟨i, hi, h1, h2, fun j hj1 hj2 => spec_queues_channel_unique vf q j i hj1 hj2 h1 h2⟩
  · intro ha
    simp only [i40e_get_real_pf_qid, i40e_get_real_pf_qid_pair, ha, Bool.false_eq_true, if_false]
  · intro hn
    simp only [i40e_vc_get_pf_queue_id, hn]
  · intro vsi hs hc h8 h16
    simp only [i40e_vc_get_pf_queue_id, hs, hc, Bool.false_eq_true, if_false]
    rw [Nat.mod_eq_of_lt h8, Nat.mod_eq_of_lt h16]

theorem C21_witness :
    sample_after_enable_channels.2.2.1.adq_enabled = true ∧
    sample_after_enable_channels.2.2.1.num_tc = 2 ∧
    spec_queues_before sample_after_enable_channels.2.2.1 1 = 4 ∧
    (vf_ch sample_after_enable_channels.2.2.1 1).num_qps = 4 ∧
    (vf_ch sample_after_enable_channels.2.2.1 1).vsi_id = 101 ∧
    i40e_get_real_pf_qid sample_after_enable_channels.2.1 sample_after_enable_channels.2.2.1
      100 5 =
      i40e_vc_get_pf_queue_id sample_after_enable_channels.2.1
        (vf_ch sample_after_enable_channels.2.2.1 1).vsi_id
        (5 - spec_queues_before sample_after_enable_channels.2.2.1 1) ∧
    i40e_vc_get_pf_queue_id sample_after_enable_channels.2.1 101 1 = 13 ∧
    i40e_get_real_pf_qid sample_pf sample_vf 11 3 = i40e_vc_get_pf_queue_id sample_pf 11 3 ∧
    i40e_vc_get_pf_queue_id sample_pf 77 3 = I40E_QUEUE_END_OF_LIST :=
  ⟨by decide, by decide, by decide, by decide, by decide,
   (C21_real_pf_qid_goes_through_owning_channel sample_after_enable_channels.2.1
      sample_after_enable_channels.2.2.1 100 5).1 (by decide) 1 (by decide) (by decide)
      (by decide),
   by decide,
   (C21_real_pf_qid_goes_through_owning_channel sample_pf sample_vf 11 3).2.2.1 (by decide),
   (C21_real_pf_qid_goes_through_owning_channel sample_pf sample_vf 77 3).2.2.2.1 (by decide)⟩

/-! ### Validating and translating the queues of an IRQ map (C29) -/

theorem spec_queues_before_full (vf : i40e_vf) (n : Nat) :
    ∀ i : Nat, (∀ j : Nat, j < i → (vf_ch vf j).num_qps = n) →
      spec_queues_before vf i = n * i := by
  intro i
  induction i with
  | zero => intro _; simp [spec_queues_before]
  | succ i ih =>
    intro h
    rw [spec_queues_before_succ, ih (fun j hj => h j (by omega)), h i (by omega)]
    rw [Nat.mul_succ]

/-- C29, the two pairs for a queue index `q` of an ADq VF that lies in the
cumulative range of channel `i`.  `i40e_get_real_pf_qid` resolves the VSI of
channel `i` and the queue `q - (q_0 + ... + q_(i-1))`;
`i40e_validate_queue_map` checks the VSI of channel `q / I40E_MAX_VF_VSI` and
the queue `q % I40E_DEFAULT_QUEUES_PER_VF`, whatever the queue counts of the
channels are.  The two pairs are the same when every channel before `i` has
exactly four queues and channel `i` at most four. -/
theorem C29_validated_and_resolved_queue (vf : i40e_vf) (vsi_id q i : Nat)
    (ha : vf.adq_enabled = true) (hi : i < vf.num_tc)
    (hlo : spec_queues_before vf i ≤ q)
    (hhi : q < spec_queues_before vf i + (vf_ch vf i).num_qps) :
    i40e_get_real_pf_qid_pair vf vsi_id q =
      ((vf_ch vf i).vsi_id, q - spec_queues_before vf i) ∧
    i40e_validate_queue_map_pair vf vsi_id q =
      ((vf_ch vf (q / I40E_MAX_VF_VSI)).vsi_id, q % I40E_DEFAULT_QUEUES_PER_VF) ∧
    ((∀ j : Nat, j < i → (vf_ch vf j).num_qps = 4) → (vf_ch vf i).num_qps ≤ 4 →
      i40e_get_real_pf_qid_pair vf vsi_id q = i40e_validate_queue_map_pair vf vsi_id q) := by
  have h1 := get_real_pf_qid_pair_adq vf vsi_id q i ha hi hlo hhi
  have h2 : i40e_validate_queue_map_pair vf vsi_id q =
      ((vf_ch vf (q / I40E_MAX_VF_VSI)).vsi_id, q % I40E_DEFAULT_QUEUES_PER_VF) := by
    simp only [i40e_validate_queue_map_pair, ha, if_true]
  refine ⟨h1, h2, fun hfull hle => ?_⟩
  have hs := spec_queues_before_full vf 4 i hfull
  rw [h1, h2, hs]
  rw [hs] at hlo hhi
  have e1 : q / I40E_MAX_VF_VSI = i := by
    show q / 4 = i
    omega
  have e2 : q % I40E_DEFAULT_QUEUES_PER_VF = q - 4 * i := by
    show q % 4 = q - 4 * i
    omega
  rw [e1, e2]

theorem C29_witness :
    sample_after_enable_two_by_two.1 = .I40E_SUCCESS ∧
    sample_after_enable_two_by_two.2.2.1.adq_enabled = true ∧
    sample_after_enable_two_by_two.2.2.1.num_tc = 2 ∧
    sample_after_enable_two_by_two.2.2.1.ch.map (fun c => (c.vsi_id, c.num_qps)) =
      [(100, 2), (101, 2), (0, 0), (0, 0)] ∧
    Nat.testBit 4 2 = true ∧
    i40e_validate_queue_map sample_after_enable_two_by_two.2.1
      sample_after_enable_two_by_two.2.2.1 100 4 = .I40E_SUCCESS ∧
    i40e_validate_queue_map_pair sample_after_enable_two_by_two.2.2.1 100 2 = (100, 2) ∧
    i40e_get_real_pf_qid_pair sample_after_enable_two_by_two.2.2.1 100 2 = (101, 0) ∧
    i40e_vc_get_pf_queue_id sample_after_enable_two_by_two.2.1 100 2 = 10 ∧
    i40e_get_real_pf_qid sample_after_enable_two_by_two.2.1
      sample_after_enable_two_by_two.2.2.1 100 2 = 12 :=
  ⟨by decide, by decide, by decide, by decide, by decide, by decide,
   (C29_validated_and_resolved_queue sample_after_enable_two_by_two.2.2.1 100 2 1 (by decide)
      (by decide) (by decide) (by decide)).2.1.trans (by decide),
   (C29_validated_and_resolved_queue sample_after_enable_two_by_two.2.2.1 100 2 1 (by decide)
      (by decide) (by decide) (by decide)).1.trans (by decide),
   by decide, by decide⟩

/-! ### The administrative flag of the host operations (C26) -/

theorem validate_vf_err (pf : i40e_pf) (vf : i40e_vf) (vf_id : Nat)
    (h : (i40e_validate_vf pf vf vf_id).isErr = true) :
    i40e_validate_vf pf vf vf_id = .EINVAL := by
  unfold i40e_validate_vf at h ⊢
  split
  · rfl
  · split
    · rfl
    · rename_i h1 h2
      simp only [h1, h2, if_false] at h
      cases h

/-- C26, the flag `__I40E_VIRTCHNL_OP_PENDING` in the host administrative
operations.  `i40e_set_vf_mac`, `i40e_ndo_set_vf_port_vlan`,
`i40e_ndo_set_vf_bw`, `i40e_ndo_set_vf_trust`, `i40e_ndo_set_vf_link_state`
and `i40e_ndo_get_vf_config` follow the protocol: entered with the flag set
they return -EAGAIN and leave the PF, the flag included, and the VF as they
are, and entered with the flag clear they return with the flag clear on every
path.  `i40e_set_link_state`, the link state operation of the VF
configuration interface, does not look at the flag: it never changes the PF,
and for a valid VF and the state ON it returns 0 with `link_forced` and
`link_up` set, whether the flag is held or not.  `i40e_ndo_set_vf_mac`
validates the VF before `i40e_set_vf_mac` takes the flag, so for an invalid
VF it returns -EINVAL also when the flag is held. -/
theorem C26_admin_flag_protocol (k : Consts) (o : NdoOracle) (pf : i40e_pf) (vf : i40e_vf) :
    (∀ op : NdoOp, pf.state.I40E_VIRTCHNL_OP_PENDING = true →
      op.run k o pf vf = (.EAGAIN, pf, vf, [])) ∧
    (∀ op : NdoOp, pf.state.I40E_VIRTCHNL_OP_PENDING = false →
      (op.run k o pf vf).2.1.state.I40E_VIRTCHNL_OP_PENDING = false) ∧
    (∀ vf_id link : Nat,
      (i40e_set_link_state pf vf vf_id link).2.1 = pf ∧
      (i40e_validate_vf pf vf vf_id = .I40E_SUCCESS → link = VFD_LINKSTATE_ON →
        (i40e_set_link_state pf vf vf_id link).1 = .I40E_SUCCESS ∧
        (i40e_set_link_state pf vf vf_id link).2.2.1 =
          { vf with link_forced := true, link_up := true })) ∧
    (∀ (vf_id : Nat) (mac : Mac), (i40e_validate_vf pf vf vf_id).isErr = true →
      i40e_ndo_set_vf_mac k o pf vf vf_id mac = (.EINVAL, pf, vf, [])) := by
  refine ⟨?_, ?_, ?_, ?_⟩
  · intro op h
    cases op <;>
      simp only [NdoOp.run, i40e_set_vf_mac, i40e_ndo_set_vf_port_vlan, i40e_ndo_set_vf_bw,
        i40e_ndo_set_vf_trust, i40e_ndo_set_vf_link_state, i40e_ndo_get_vf_config, h, if_true]
  · intro op h
    cases op <;>
      simp only [NdoOp.run, i40e_set_vf_mac, i40e_ndo_set_vf_port_vlan, i40e_ndo_set_vf_bw,
        i40e_ndo_set_vf_trust, i40e_ndo_set_vf_link_state, i40e_ndo_get_vf_config, h,
        Bool.false_eq_true, if_false]
  · intro vf_id link
    constructor
    · unfold i40e_set_link_state
      split <;> rfl
    · intro hv hl
      have hne : (i40e_validate_vf pf vf vf_id).isErr = false := by rw [hv]; rfl
      subst hl
      simp only [i40e_set_link_state, hne, Bool.false_eq_true, if_false, i40e_configure_vf_link]
      exact ⟨rfl, rfl⟩
  · intro vf_id mac h
    have he : Status.EINVAL.isErr = true := rfl
    simp only [i40e_ndo_set_vf_mac, validate_vf_err pf vf vf_id h, he, if_true]

theorem C26_witness :
    sample_pf_op_pending.state.I40E_VIRTCHNL_OP_PENDING = true ∧
    i40e_validate_vf sample_pf_op_pending sample_vf 0 = .I40E_SUCCESS ∧
    i40e_ndo_set_vf_link_state sample_pf_op_pending sample_vf 0 IFLA_VF_LINK_STATE_ENABLE =
      (.EAGAIN, sample_pf_op_pending, sample_vf, []) ∧
    (i40e_set_link_state sample_pf_op_pending sample_vf 0 VFD_LINKSTATE_ON).1 = .I40E_SUCCESS ∧
    (i40e_set_link_state sample_pf_op_pending sample_vf 0 VFD_LINKSTATE_ON).2.1 =
      sample_pf_op_pending ∧
    (i40e_set_link_state sample_pf_op_pending sample_vf 0 VFD_LINKSTATE_ON).2.2.1 =
      { sample_vf with link_forced := true, link_up := true } ∧
    sample_vf.link_forced = false ∧
    ((NdoOp.set_vf_bw 0 1000).run sample_consts sample_ndo_oracle sample_pf
      sample_vf).2.1.state.I40E_VIRTCHNL_OP_PENDING = false ∧
    ((NdoOp.set_vf_bw 0 1000).run sample_consts sample_ndo_oracle sample_pf
      sample_vf).2.2.1.tx_rate = 1000 :=
  ⟨by decide, by decide,
   (C26_admin_flag_protocol sample_consts sample_ndo_oracle sample_pf_op_pending sample_vf).1
     (.set_vf_link_state 0 IFLA_VF_LINK_STATE_ENABLE) (by decide),
   ((C26_admin_flag_protocol sample_consts sample_ndo_oracle sample_pf_op_pending
     sample_vf).2.2.1 0 VFD_LINKSTATE_ON).2 (by decide) rfl |>.1,
   ((C26_admin_flag_protocol sample_consts sample_ndo_oracle sample_pf_op_pending
     sample_vf).2.2.1 0 VFD_LINKSTATE_ON).1,
   ((C26_admin_flag_protocol sample_consts sample_ndo_oracle sample_pf_op_pending
     sample_vf).2.2.1 0 VFD_LINKSTATE_ON).2 (by decide) rfl |>.2,
   by decide,
   (C26_admin_flag_protocol sample_consts sample_ndo_oracle sample_pf sample_vf).2.1
     (.set_vf_bw 0 1000) (by decide),
   by decide⟩

/-! ### The VSI table after a failed ADq activation (C5) -/

/-- Releasing a VSI only empties a slot: a slot that holds a VSI afterwards held
it before, and it is not the released one unless that is the PF's own. -/
theorem vsi_release_table (pf : i40e_pf) (idx i : Nat) (v : i40e_vsi)
    (h : (i40e_vsi_release pf idx).vsi[i]? = some (some v)) :
    pf.vsi[i]? = some (some v) ∧ (i = idx → idx = pf.lan_vsi) := by
  unfold i40e_vsi_release at h
  split at h
  · rename_i hl
    exact ⟨h, fun _ => hl⟩
  · split at h
    · rename_i vsi hs
      simp only [List.getElem?_set] at h
      by_cases he : idx = i
      · simp only [he, if_true] at h
        split at h <;> cases h
      · simp only [he, if_false] at h
        exact ⟨h, fun hi => absurd hi.symm he⟩
    · rename_i hs
      refine ⟨h, fun hi => ?_⟩
      subst hi
      exact absurd h (hs v)

theorem vsi_release_lan_vsi (pf : i40e_pf) (idx : Nat) :
    (i40e_vsi_release pf idx).lan_vsi = pf.lan_vsi := by
  unfold i40e_vsi_release
  split
  · rfl
  · split <;> rfl

/-- The channel loop of `i40e_free_vf_res` only empties slots, and it empties
the slot of every channel it visits, channel 0 and the PF's own VSI apart. -/
theorem free_vf_res_adq_table :
    ∀ (n j0 : Nat) (pf : i40e_pf) (vf : i40e_vf) (i : Nat) (v : i40e_vsi),
      (i40e_free_vf_res_adq n j0 pf vf).1.vsi[i]? = some (some v) →
      pf.vsi[i]? = some (some v) ∧
      ∀ j, j0 ≤ j → j < j0 + n → j ≠ 0 → (vf_ch vf j).vsi_idx = i → i = pf.lan_vsi := by
  intro n
  induction n with
  | zero =>
    intro j0 pf vf i v h
    exact ⟨h, fun j h1 h2 => absurd h2 (by omega)⟩
  | succ n ih =>
    intro j0 pf vf i v h
    unfold i40e_free_vf_res_adq at h
    simp only [] at h
    have h1 := ih (j0 + 1) _ _ i v h
    have hch : ∀ j, j ≠ j0 →
        vf_ch { vf with ch := vf.ch.set j0 { vf_ch vf j0 with vsi_idx := 0, vsi_id := 0 } } j =
          vf_ch vf j := by
      intro j hj
      rw [vf_ch_set]
      have : ¬ (j0 = j ∧ j0 < vf.ch.length) := fun hx => hj hx.1.symm
      simp only [this, if_false]
    by_cases hj0 : j0 = 0
    · subst hj0
      simp only [ne_eq, not_true_eq_false, if_false] at h1
      refine ⟨h1.1, fun j hj1 hj2 hj3 hj4 => ?_⟩
      exact h1.2 j (by omega) (by omega) hj3
        ((congrArg (fun c => c.vsi_idx) (hch j hj3)).trans hj4)
    · simp only [hj0, ne_eq, not_false_eq_true, if_true] at h1
      have hr := vsi_release_table pf (vf_ch vf j0).vsi_idx i v h1.1
      refine ⟨hr.1, fun j hj1 hj2 hj3 hj4 => ?_⟩
      by_cases hjj : j = j0
      · subst hjj
        have := hr.2 hj4.symm
        rw [← this]
        exact hj4.symm
      · have := h1.2 j (by omega) (by omega) hj3
          ((congrArg (fun c => c.vsi_idx) (hch j hjj)).trans hj4)
        rw [this]
        exact vsi_release_lan_vsi _ _

/-- The first part of `i40e_free_vf_res` only empties slots, and it empties the
slot of the LAN VSI unless its index is 0 or that of the PF's own VSI. -/
theorem free_vf_res_lan_table (c : Nat → Bool) (pf : i40e_pf) (vf : i40e_vf) (i : Nat)
    (v : i40e_vsi) (h : (i40e_free_vf_res_lan c pf vf).1.vsi[i]? = some (some v)) :
    pf.vsi[i]? = some (some v) ∧ (i = vf.lan_vsi_idx → i = 0 ∨ i = pf.lan_vsi) ∧
    (i40e_free_vf_res_lan c pf vf).1.lan_vsi = pf.lan_vsi := by
  have key : ∃ pf2 : i40e_pf, pf2.vsi = pf.vsi ∧ pf2.lan_vsi = pf.lan_vsi ∧
      (i40e_free_vf_res_lan c pf vf).1 =
        if vf.lan_vsi_idx ≠ 0 then i40e_vsi_release pf2 vf.lan_vsi_idx else pf2 := by
    unfold i40e_free_vf_res_lan
    simp only []
    by_cases hc : vf.lan_vsi_idx = 0
    · simp only [hc, ne_eq, not_true_eq_false, if_false]
      refine ⟨_, ?_, ?_, rfl⟩
      · split <;> split <;> first | rfl | exact (retain_mac_list_slot_zero _ _ _ _).1
      · split <;> split <;> first | rfl | exact (retain_mac_list_slot_zero _ _ _ _).2
    · simp only [hc, ne_eq, not_false_eq_true, if_true]
      refine ⟨_, ?_, ?_, rfl⟩
      · split <;> split <;> first | rfl | exact (retain_mac_list_slot_zero _ _ _ _).1
      · split <;> split <;> first | rfl | exact (retain_mac_list_slot_zero _ _ _ _).2
  obtain ⟨pf2, e1, e2, e3⟩ := key
  rw [e3] at h ⊢
  by_cases hc : vf.lan_vsi_idx = 0
  · simp only [hc, ne_eq, not_true_eq_false, if_false] at h ⊢
    exact ⟨by rw [← e1]; exact h, fun hi => Or.inl hi, e2⟩
  · simp only [hc, ne_eq, not_false_eq_true, if_true] at h ⊢
    have hr2 := vsi_release_table pf2 vf.lan_vsi_idx i v h
    refine ⟨by rw [← e1]; exact hr2.1, fun hi => Or.inr ?_, ?_⟩
    · rw [hi, ← e2]
      exact hr2.2 hi
    · rw [vsi_release_lan_vsi, e2]

/-- For a VF with ADq whose channel 0 carries a VSI index, `i40e_free_vf_res`
only empties slots of the VSI table, and it empties the slot of the LAN VSI
and the slots of the channels below `num_tc`, the PF's own VSI and slot 0
apart. -/
theorem free_vf_res_table (c : Nat → Bool) (pf : i40e_pf) (vf : i40e_vf) (i : Nat)
    (v : i40e_vsi) (ha : vf.adq_enabled = true) (h0 : (vf_ch vf 0).vsi_idx ≠ 0)
    (h : (i40e_free_vf_res c pf vf).1.vsi[i]? = some (some v)) :
    pf.vsi[i]? = some (some v) ∧ (i = vf.lan_vsi_idx → i = 0 ∨ i = pf.lan_vsi) ∧
    (∀ j, j ≠ 0 → j < vf.num_tc → (vf_ch vf j).vsi_idx = i → i = pf.lan_vsi) := by
  have hl := free_vf_res_lan_ch c pf vf
  have hch : ∀ j, vf_ch (i40e_free_vf_res_lan c pf vf).2.1 j = vf_ch vf j := by
    intro j
    unfold vf_ch
    rw [hl.1]
  have hc : ((i40e_free_vf_res_lan c pf vf).2.1.adq_enabled &&
      decide ((vf_ch (i40e_free_vf_res_lan c pf vf).2.1 0).vsi_idx ≠ 0)) = true := by
    rw [hl.2.1, hch, ha]
    simp [h0]
  unfold i40e_free_vf_res at h
  simp only [hc, if_true] at h
  have h1 := free_vf_res_adq_table _ 0 _ _ i v h
  have h2 := free_vf_res_lan_table c pf vf i v h1.1
  refine ⟨h2.1, h2.2.1, fun j hj1 hj2 hj3 => ?_⟩
  rw [← h2.2.2]
  exact h1.2 j (Nat.zero_le _) (by rw [hl.2.2]; omega) hj1 ((congrArg (fun c => c.vsi_idx) (hch j)).trans hj3)

theorem alloc_vsi_res_ch_length (k : Consts) (o : VsiOracle) (pf : i40e_pf) (vf : i40e_vf)
    (idx : Nat) : (i40e_alloc_vsi_res k o pf vf idx).2.2.1.ch.length = vf.ch.length := by
  unfold i40e_alloc_vsi_res
  cases hs : i40e_vsi_setup o pf vf.vf_id with
  | none => rfl
  | some r =>
    simp only []
    split <;> split <;> simp

/-- With ADq on, a slot that holds a VSI after `i40e_alloc_vsi_res` held it
before or is the one recorded in the entry of the channel set up. -/
theorem alloc_vsi_res_table (k : Consts) (o : VsiOracle) (pf : i40e_pf) (vf : i40e_vf)
    (idx i : Nat) (v : i40e_vsi) (ha : vf.adq_enabled = true) (hl : idx < vf.ch.length)
    (h : (i40e_alloc_vsi_res k o pf vf idx).2.1.vsi[i]? = some (some v)) :
    pf.vsi[i]? = some (some v) ∨
      (vf_ch (i40e_alloc_vsi_res k o pf vf idx).2.2.1 idx).vsi_idx = i := by
  unfold i40e_alloc_vsi_res at h ⊢
  cases hs : i40e_vsi_setup o pf vf.vf_id with
  | none =>
    rw [hs] at h
    exact Or.inl h
  | some r =>
    obtain ⟨pf1, vsi⟩ := r
    have hk := vsi_setup_keeps_slots o pf pf1 vf.vf_id vsi hs
    rw [hs] at h
    by_cases hi : vsi.idx = i
    · right
      by_cases h0 : idx = 0
      · have hl0 : 0 < vf.ch.length := by omega
        simp [h0, ha, vf_ch, List.getD_eq_getElem?_getD, List.getElem?_set, hi, hl0]
      · simp [h0, ha, vf_ch, List.getD_eq_getElem?_getD, List.getElem?_set, hi, hl]
    · left
      by_cases h0 : idx = 0
      · simp only [h0, if_true] at h
        rw [List.getElem?_set_ne hi, hk.2.1, List.getElem?_set_ne hi] at h
        exact h
      · simp only [h0, if_false] at h
        rw [hk.2.1, List.getElem?_set_ne hi] at h
        exact h

theorem alloc_vf_res_adq_ch_length (k : Consts) (o : ResOracle) :
    ∀ (n idx : Nat) (pf : i40e_pf) (vf : i40e_vf),
      (i40e_alloc_vf_res_adq k o n idx pf vf).2.2.1.ch.length = vf.ch.length := by
  intro n
  induction n with
  | zero => intro idx pf vf; rfl
  | succ n ih =>
    intro idx pf vf
    unfold i40e_alloc_vf_res_adq
    simp only []
    split
    · exact alloc_vsi_res_ch_length k (o.vsi idx) pf vf idx
    · simp only []
      rw [ih]
      exact alloc_vsi_res_ch_length k (o.vsi idx) pf vf idx

/-- With ADq on, a slot that holds a VSI after the channel loop of
`i40e_alloc_vf_res` held it before or is recorded in the entry of one of the
channels the loop went through. -/
theorem alloc_vf_res_adq_table (k : Consts) (o : ResOracle) :
    ∀ (n idx : Nat) (pf : i40e_pf) (vf : i40e_vf) (i : Nat) (v : i40e_vsi),
      vf.adq_enabled = true → idx + n ≤ vf.ch.length →
      (i40e_alloc_vf_res_adq k o n idx pf vf).2.1.vsi[i]? = some (some v) →
      pf.vsi[i]? = some (some v) ∨
        ∃ j, idx ≤ j ∧ j < idx + n ∧
          (vf_ch (i40e_alloc_vf_res_adq k o n idx pf vf).2.2.1 j).vsi_idx = i := by
  intro n
  induction n with
  | zero =>
    intro idx pf vf i v _ _ h
    exact Or.inl h
  | succ n ih =>
    intro idx pf vf i v ha hl h
    have hk := alloc_vsi_res_keeps k (o.vsi idx) pf vf idx
    have hlen := alloc_vsi_res_ch_length k (o.vsi idx) pf vf idx
    have hch := alloc_vf_res_adq_ch k o n (idx + 1)
      (i40e_alloc_vsi_res k (o.vsi idx) pf vf idx).2.1
      (i40e_alloc_vsi_res k (o.vsi idx) pf vf idx).2.2.1 idx (Or.inl (by omega))
    have ht := alloc_vsi_res_table k (o.vsi idx) pf vf idx i v ha (by omega)
    have ih2 := ih (idx + 1) (i40e_alloc_vsi_res k (o.vsi idx) pf vf idx).2.1
      (i40e_alloc_vsi_res k (o.vsi idx) pf vf idx).2.2.1 i v (by rw [hk.2.1]; exact ha)
      (by rw [hlen]; omega)
    unfold i40e_alloc_vf_res_adq at h ⊢
    simp only [] at h ⊢
    by_cases he : (i40e_alloc_vsi_res k (o.vsi idx) pf vf idx).1.isErr = true
    · simp only [he, if_true] at h ⊢
      rcases ht h with h1 | h1
      · exact Or.inl h1
      · exact Or.inr ⟨idx, Nat.le_refl _, by omega, h1⟩
    · simp only [he, Bool.false_eq_true, if_false] at h ⊢
      rcases ih2 h with h1 | ⟨j, hj1, hj2, hj3⟩
      · rcases ht h1 with h2 | h2
        · exact Or.inl h2
        · refine Or.inr ⟨idx, Nat.le_refl _, by omega, ?_⟩
          rw [hch]
          exact h2
      · exact Or.inr ⟨j, by omega, by omega, hj3⟩

/-- When the primary VSI of a VF with ADq has been set up, the queue counter
lets the channel loop run and the loop fails, `i40e_alloc_vf_res` leaves no
VSI index in the channels below `num_tc` and no VSI in the VSI table that was
not there before the call: what the call set up it has released.  The PF's own
VSI is taken to be the one of slot 0, and the channel table to hold `num_tc`
entries. -/
theorem alloc_vf_res_failed_adq_table (k : Consts) (o : ResOracle) (pf : i40e_pf) (vf : i40e_vf)
    (hadq : vf.adq_enabled = true)
    (h0 : (i40e_alloc_vsi_res k (o.vsi 0) (i40e_alloc_vf_res_num_vf_qps pf vf) vf 0).1 =
      .I40E_SUCCESS)
    (hge : pf.queues_left ≥ I40E_MAX_VF_QUEUES - I40E_DEFAULT_QUEUES_PER_VF)
    (hfail : (i40e_alloc_vf_res_adq k o
        ((i40e_alloc_vsi_res k (o.vsi 0) (i40e_alloc_vf_res_num_vf_qps pf vf) vf 0).2.2.1.num_tc - 1)
        1
        (i40e_alloc_vsi_res k (o.vsi 0) (i40e_alloc_vf_res_num_vf_qps pf vf) vf 0).2.1
        (i40e_alloc_vsi_res k (o.vsi 0) (i40e_alloc_vf_res_num_vf_qps pf vf) vf 0).2.2.1).1 ≠
          .I40E_SUCCESS)
    (hlan : pf.lan_vsi = 0) (hs0 : vsi_slot_free pf.vsi 0 = false)
    (hlen : vf.num_tc ≤ vf.ch.length) :
    (∀ j : Nat, j < vf.num_tc → (vf_ch (i40e_alloc_vf_res k o pf vf).2.2.1 j).vsi_idx = 0) ∧
    (∀ (i : Nat) (v : i40e_vsi), (i40e_alloc_vf_res k o pf vf).2.1.vsi[i]? = some (some v) →
      pf.vsi[i]? = some (some v)) := by
  have hn := alloc_vf_res_num_vf_qps_facts pf vf
  have hs0n : vsi_slot_free (i40e_alloc_vf_res_num_vf_qps pf vf).vsi 0 = false := by
    rw [hn.2.1]; exact hs0
  have he0 : (i40e_alloc_vsi_res k (o.vsi 0) (i40e_alloc_vf_res_num_vf_qps pf vf) vf 0).1.isErr =
      false := by rw [h0]; rfl
  have hkeep := alloc_vsi_res_keeps k (o.vsi 0) (i40e_alloc_vf_res_num_vf_qps pf vf) vf 0
  have hpidx := alloc_vsi_res_primary_idx k (o.vsi 0) (i40e_alloc_vf_res_num_vf_qps pf vf) vf he0
  have hsz := alloc_vsi_res_slot_zero k (o.vsi 0) (i40e_alloc_vf_res_num_vf_qps pf vf) vf 0 hs0n
  have hlen1 := alloc_vsi_res_ch_length k (o.vsi 0) (i40e_alloc_vf_res_num_vf_qps pf vf) vf 0
  have htab := fun (hl : 0 < vf.ch.length) (i : Nat) (v : i40e_vsi) =>
    alloc_vsi_res_table k (o.vsi 0) (i40e_alloc_vf_res_num_vf_qps pf vf) vf 0 i v hadq hl
  rw [hn.2.1] at hpidx hsz htab
  rw [hn.2.2.1, hlan] at hsz
  rw [hn.1] at hkeep
  unfold i40e_alloc_vf_res
  simp only []
  generalize i40e_alloc_vsi_res k (o.vsi 0) (i40e_alloc_vf_res_num_vf_qps pf vf) vf 0 = R
    at hfail he0 hkeep hpidx hsz hlen1 htab ⊢
  have ha : R.2.2.1.adq_enabled = true := by rw [hkeep.2.1]; exact hadq
  have hge1 : R.2.1.queues_left ≥ I40E_MAX_VF_QUEUES - I40E_DEFAULT_QUEUES_PER_VF := by
    rw [hkeep.1]; exact hge
  have herr : (i40e_alloc_vf_res_adq k o (R.2.2.1.num_tc - 1) 1 R.2.1 R.2.2.1).1.isErr = true :=
    (isErr_eq_true_iff _).mpr hfail
  have htc : R.2.2.1.num_tc - 1 ≠ 0 := by
    intro hz
    rw [hz] at hfail
    exact hfail rfl
  have htc2 : R.2.2.1.num_tc = vf.num_tc := hkeep.2.2.2
  have hl0 : 0 < vf.ch.length := by omega
  have hidx : R.2.2.1.lan_vsi_idx ≠ 0 := by
    intro hz
    have := hpidx.1
    rw [hz, hs0] at this
    cases this
  have hch0 : (vf_ch R.2.2.1 0).vsi_idx = R.2.2.1.lan_vsi_idx := hpidx.2 hadq hl0
  have hA1 := alloc_vf_res_adq_keeps k o (R.2.2.1.num_tc - 1) 1 R.2.1 R.2.2.1
  have hA2 := alloc_vf_res_adq_ch k o (R.2.2.1.num_tc - 1) 1 R.2.1 R.2.2.1 0 (Or.inl (by omega))
  have hA3 := alloc_vf_res_adq_channel k o (R.2.2.1.num_tc - 1) 1 R.2.1 R.2.2.1 (by omega)
  have hA4 := alloc_vf_res_adq_num_tc k o (R.2.2.1.num_tc - 1) 1 R.2.1 R.2.2.1
  have hA5 := alloc_vf_res_adq_slot_zero k o (R.2.2.1.num_tc - 1) 1 R.2.1 R.2.2.1
    ((slot_free_zero_of_eq _ _ hsz.1).trans hs0)
  have hA6 := fun (i : Nat) (v : i40e_vsi) =>
    alloc_vf_res_adq_table k o (R.2.2.1.num_tc - 1) 1 R.2.1 R.2.2.1 i v ha
      (by rw [hlen1]; omega)
  simp only [he0, Bool.false_eq_true, if_false, i40e_alloc_vf_res_channels, ha, if_true, hge1,
    herr, i40e_alloc_vf_res_error_alloc]
  generalize i40e_alloc_vf_res_adq k o (R.2.2.1.num_tc - 1) 1 R.2.1 R.2.2.1 = A
    at hA1 hA2 hA3 hA4 hA5 hA6
  have hAa : A.2.2.1.adq_enabled = true := by rw [hA1]; exact ha
  have hAc : (vf_ch A.2.2.1 0).vsi_idx ≠ 0 := by
    rw [hA2, hch0]; exact hidx
  have hAl : A.2.1.lan_vsi = 0 := by rw [hA5.2]; exact hsz.2
  constructor
  · intro j hj
    rw [(free_vf_res_ch o.copy_ok A.2.1 A.2.2.1).2 hAa hAc j]
    have : j < A.2.2.1.num_tc := by rw [hA4, htc2]; exact hj
    simp only [this, if_true]
  · intro i v h
    have hf := free_vf_res_table o.copy_ok A.2.1 A.2.2.1 i v hAa hAc h
    by_cases hi : i = 0
    · subst hi
      rw [← hsz.1, ← hA5.1]
      exact hf.1
    · rcases hA6 i v hf.1 with h1 | ⟨j, hj1, hj2, hj3⟩
      · rcases htab hl0 i v h1 with h2 | h2
        · exact h2
        · exfalso
          have h3 : i = A.2.2.1.lan_vsi_idx := by rw [hA3.1, ← hch0]; exact h2.symm
          rcases hf.2.1 h3 with h4 | h4
          · exact hi h4
          · exact hi (h4.trans hAl)
      · exfalso
        have := hf.2.2 j (by omega) (by rw [hA4]; omega) hj3
        exact hi (this.trans hAl)

/-- C5 (amended): when a VF that requested a traffic-class split is
(re)activated by i40e_alloc_vf_res and its primary VSI has been set up, then
(a) if pf->queues_left is below I40E_MAX_VF_QUEUES - I40E_DEFAULT_QUEUES_PER_VF
(12) the VF ends in default single-VSI mode: the call succeeds, adq_enabled is
false, INIT is set, the primary VSI sits in the VSI table, and nothing beyond
the primary VSI has been set up (events, VSI table and channel table are those
left by the primary allocation); (b) if queues_left is at least 12 and setting
up a channel VSI fails, the call fails, the VF keeps its ADq request and ends
without primary VSI and without INIT, and every VSI the call set up has been
released: with the PF's own VSI in slot 0 of the VSI table and a channel table
of at least num_tc entries, no channel below num_tc keeps a VSI index and the
VSI table holds no VSI that was not in it before the call. -/
theorem C5_adq_fallback_depends_on_queue_counter (k : Consts) (o : ResOracle) (pf : i40e_pf)
    (vf : i40e_vf) (hadq : vf.adq_enabled = true)
    (h0 : (i40e_alloc_vsi_res k (o.vsi 0) (i40e_alloc_vf_res_num_vf_qps pf vf) vf 0).1 =
      .I40E_SUCCESS) :
    (pf.queues_left < I40E_MAX_VF_QUEUES - I40E_DEFAULT_QUEUES_PER_VF →
      (i40e_alloc_vf_res k o pf vf).1 = .I40E_SUCCESS ∧
      (i40e_alloc_vf_res k o pf vf).2.2.1.adq_enabled = false ∧
      (i40e_alloc_vf_res k o pf vf).2.2.1.vf_states.I40E_VF_STATE_INIT = true ∧
      (∃ vsi, (i40e_alloc_vf_res k o pf vf).2.1.vsi[(i40e_alloc_vf_res k o pf vf).2.2.1.lan_vsi_idx]?
        = some (some vsi)) ∧
      (i40e_alloc_vf_res k o pf vf).2.1.vsi =
        (i40e_alloc_vsi_res k (o.vsi 0) (i40e_alloc_vf_res_num_vf_qps pf vf) vf 0).2.1.vsi ∧
      (i40e_alloc_vf_res k o pf vf).2.2.1.ch =
        (i40e_alloc_vsi_res k (o.vsi 0) (i40e_alloc_vf_res_num_vf_qps pf vf) vf 0).2.2.1.ch ∧
      (i40e_alloc_vf_res k o pf vf).2.2.2 =
        (i40e_alloc_vsi_res k (o.vsi 0) (i40e_alloc_vf_res_num_vf_qps pf vf) vf 0).2.2.2) ∧
    (pf.queues_left ≥ I40E_MAX_VF_QUEUES - I40E_DEFAULT_QUEUES_PER_VF →
      (i40e_alloc_vf_res_adq k o
        ((i40e_alloc_vsi_res k (o.vsi 0) (i40e_alloc_vf_res_num_vf_qps pf vf) vf 0).2.2.1.num_tc - 1)
        1
        (i40e_alloc_vsi_res k (o.vsi 0) (i40e_alloc_vf_res_num_vf_qps pf vf) vf 0).2.1
        (i40e_alloc_vsi_res k (o.vsi 0) (i40e_alloc_vf_res_num_vf_qps pf vf) vf 0).2.2.1).1 ≠
          .I40E_SUCCESS →
      (i40e_alloc_vf_res k o pf vf).1 ≠ .I40E_SUCCESS ∧
      (i40e_alloc_vf_res k o pf vf).2.2.1.adq_enabled = true ∧
      (i40e_alloc_vf_res k o pf vf).2.2.1.lan_vsi_idx = 0 ∧
      (i40e_alloc_vf_res k o pf vf).2.2.1.vf_states.I40E_VF_STATE_INIT = false ∧
      (pf.lan_vsi = 0 → vsi_slot_free pf.vsi 0 = false → vf.num_tc ≤ vf.ch.length →
        (∀ j : Nat, j < vf.num_tc →
          (vf_ch (i40e_alloc_vf_res k o pf vf).2.2.1 j).vsi_idx = 0) ∧
        (∀ (i : Nat) (v : i40e_vsi),
          (i40e_alloc_vf_res k o pf vf).2.1.vsi[i]? = some (some v) →
          pf.vsi[i]? = some (some v)))) := by
  have hprim := alloc_vsi_res_primary k (o.vsi 0) (i40e_alloc_vf_res_num_vf_qps pf vf) vf h0
  have hkeep := alloc_vsi_res_keeps k (o.vsi 0) (i40e_alloc_vf_res_num_vf_qps pf vf) vf 0
  have htable := alloc_vf_res_failed_adq_table k o pf vf hadq h0
  have hq0 : (i40e_alloc_vf_res_num_vf_qps pf vf).queues_left = pf.queues_left := by
    unfold i40e_alloc_vf_res_num_vf_qps
    split <;> rfl
  generalize hr : i40e_alloc_vsi_res k (o.vsi 0) (i40e_alloc_vf_res_num_vf_qps pf vf) vf 0 = r
    at h0 hprim hkeep
  obtain ⟨ret0, pf1, vf1, ev1⟩ := r
  dsimp only at h0 hprim hkeep
  subst h0
  have hq : pf1.queues_left = pf.queues_left := by rw [hkeep.1, hq0]
  have ha : vf1.adq_enabled = true := by rw [hkeep.2.1, hadq]
  constructor
  · intro hlt
    have hnge : ¬ (pf1.queues_left ≥ I40E_MAX_VF_QUEUES - I40E_DEFAULT_QUEUES_PER_VF) := by
      rw [hq]; omega
    have hsucc : Status.I40E_SUCCESS.isErr = false := rfl
    simp only [i40e_alloc_vf_res, hr, hsucc, Bool.false_eq_true, if_false,
      i40e_alloc_vf_res_channels, ha, if_true, hnge, i40e_alloc_vf_res_commit,
      List.append_nil]
    refine ⟨trivial, trivial, ?_, ?_, ?_, trivial, trivial⟩
    · simp [set_bit, assign_bit]
    · obtain ⟨vsi, hv⟩ := hprim
      refine ⟨vsi, ?_⟩
      split <;> exact hv
    · split <;> rfl
  · intro hge hfail
    have hextra := htable hge (by rw [hr]; exact hfail)
    have h4 : (i40e_alloc_vf_res k o pf vf).1 ≠ .I40E_SUCCESS ∧
        (i40e_alloc_vf_res k o pf vf).2.2.1.adq_enabled = true ∧
        (i40e_alloc_vf_res k o pf vf).2.2.1.lan_vsi_idx = 0 ∧
        (i40e_alloc_vf_res k o pf vf).2.2.1.vf_states.I40E_VF_STATE_INIT = false := by
      have hge1 : pf1.queues_left ≥ I40E_MAX_VF_QUEUES - I40E_DEFAULT_QUEUES_PER_VF := by
        rw [hq]; exact hge
      have herr : (i40e_alloc_vf_res_adq k o (vf1.num_tc - 1) 1 pf1 vf1).1.isErr = true :=
        (isErr_eq_true_iff _).mpr hfail
      have hadq1 := alloc_vf_res_adq_keeps k o (vf1.num_tc - 1) 1 pf1 vf1
      have hfree := free_vf_res_facts o.copy_ok
        (i40e_alloc_vf_res_adq k o (vf1.num_tc - 1) 1 pf1 vf1).2.1
        (i40e_alloc_vf_res_adq k o (vf1.num_tc - 1) 1 pf1 vf1).2.2.1
      have hsucc : Status.I40E_SUCCESS.isErr = false := rfl
      simp only [i40e_alloc_vf_res, hr, hsucc, Bool.false_eq_true, if_false,
        i40e_alloc_vf_res_channels, ha, if_true, hge1, i40e_alloc_vf_res_error_alloc, herr]
      refine ⟨hfail, ?_, hfree.2.1, hfree.2.2.1⟩
      rw [hfree.1, hadq1, ha]
    exact ⟨h4.1, h4.2.1, h4.2.2.1, h4.2.2.2, hextra⟩

theorem C5_witness :
    sample_adq_vf.adq_enabled = true ∧
    sample_pf_eight_left.queues_left < I40E_MAX_VF_QUEUES - I40E_DEFAULT_QUEUES_PER_VF ∧
    (i40e_alloc_vf_res sample_consts sample_res_oracle sample_pf_eight_left sample_adq_vf).1 =
      .I40E_SUCCESS ∧
    (i40e_alloc_vf_res sample_consts sample_res_oracle sample_pf_eight_left
      sample_adq_vf).2.2.1.adq_enabled = false ∧
    (i40e_alloc_vf_res sample_consts sample_res_oracle sample_pf_eight_left
      sample_adq_vf).2.2.1.vf_states.I40E_VF_STATE_INIT = true ∧
    sample_pf_three_slots.queues_left ≥ I40E_MAX_VF_QUEUES - I40E_DEFAULT_QUEUES_PER_VF ∧
    sample_pf_three_slots.lan_vsi = 0 ∧ vsi_slot_free sample_pf_three_slots.vsi 0 = false ∧
    sample_adq_vf.num_tc ≤ sample_adq_vf.ch.length ∧
    (i40e_alloc_vf_res sample_consts sample_res_oracle sample_pf_three_slots sample_adq_vf).1 ≠
      .I40E_SUCCESS ∧
    (∀ j : Nat, j < sample_adq_vf.num_tc →
      (vf_ch (i40e_alloc_vf_res sample_consts sample_res_oracle sample_pf_three_slots
        sample_adq_vf).2.2.1 j).vsi_idx = 0) ∧
    (∀ (i : Nat) (v : i40e_vsi),
      (i40e_alloc_vf_res sample_consts sample_res_oracle sample_pf_three_slots
        sample_adq_vf).2.1.vsi[i]? = some (some v) →
      sample_pf_three_slots.vsi[i]? = some (some v)) :=
  have h := (C5_adq_fallback_depends_on_queue_counter sample_consts sample_res_oracle
    sample_pf_eight_left sample_adq_vf (by decide) (by decide)).1 (by decide)
  have h2 := (C5_adq_fallback_depends_on_queue_counter sample_consts sample_res_oracle
    sample_pf_three_slots sample_adq_vf (by decide) (by decide)).2 (by decide) (by decide)
  ⟨by decide, by decide, h.1, h.2.1, h.2.2.1, by decide, by decide, by decide, by decide,
    h2.1, (h2.2.2.2.2 (by decide) (by decide) (by decide)).1,
    (h2.2.2.2.2 (by decide) (by decide) (by decide)).2⟩

end I40e
